import Mathlib

/-!
# Status unpacking of the policy engine (`lib/pengine/unpack.c`)

A shallow embedding of the node-status and resource-history reconciliation
code.  Objects that the C code reaches through pointers (`node_t *`,
`resource_t *`) live in two heaps carried by the working set; a pointer is an
index into its heap and `NULL` is `none`.  Every function that mutates the
working set returns the new working set.  Log output is not modelled.
-/

namespace Pacemaker

/-! ## Data model -/

/-- Modelled from the spec: `enum rsc_role_e` is declared in a header that is
not part of `unpack.c`; the roles and their order
unknown < stopped < started < slave < master are those of the data model. -/
inductive rsc_role_e where
  | RSC_ROLE_UNKNOWN
  | RSC_ROLE_STOPPED
  | RSC_ROLE_STARTED
  | RSC_ROLE_SLAVE
  | RSC_ROLE_MASTER
  deriving DecidableEq, Repr

/-- Numeric value of a role, the value the C comparisons `<` and `>` act on. -/
def rsc_role_e.toNat : rsc_role_e → Nat
  | .RSC_ROLE_UNKNOWN => 0
  | .RSC_ROLE_STOPPED => 1
  | .RSC_ROLE_STARTED => 2
  | .RSC_ROLE_SLAVE => 3
  | .RSC_ROLE_MASTER => 4

/-- The order of the roles: the order of their numeric values. -/
instance : LinearOrder rsc_role_e :=
  LinearOrder.lift' rsc_role_e.toNat
    (by intro a b h; cases a <;> cases b <;> simp [rsc_role_e.toNat] at h <;> rfl)

/-- Modelled from the spec: `enum action_fail_response` is declared in a header
that is not part of `unpack.c`; the on-fail responses in the order of the enum,
ignore < recover < migrate < block < stop < standby < fence <
restart_container < reset_remote. -/
inductive action_fail_response where
  | action_fail_ignore
  | action_fail_recover
  | action_fail_migrate
  | action_fail_block
  | action_fail_stop
  | action_fail_standby
  | action_fail_fence
  | action_fail_restart_container
  | action_fail_reset_remote
  deriving DecidableEq, Repr

/-- Numeric value of an on-fail response, the value the C comparisons act on. -/
def action_fail_response.toNat : action_fail_response → Nat
  | .action_fail_ignore => 0
  | .action_fail_recover => 1
  | .action_fail_migrate => 2
  | .action_fail_block => 3
  | .action_fail_stop => 4
  | .action_fail_standby => 5
  | .action_fail_fence => 6
  | .action_fail_restart_container => 7
  | .action_fail_reset_remote => 8

/-- The order of the on-fail responses: the order of their numeric values. -/
instance : LinearOrder action_fail_response :=
  LinearOrder.lift' action_fail_response.toNat
    (by intro a b h; cases a <;> cases b <;> simp [action_fail_response.toNat] at h <;> rfl)

/-- Modelled from the spec: `enum node_type` of the node header; a node is a
ping node, a cluster member or a remote node. -/
inductive node_type where
  | node_ping
  | node_member
  | node_remote
  deriving DecidableEq, Repr

/-- A `resource_t *`: index into the resource heap of the working set. -/
abbrev rsc_ptr := Nat

/-- A `node_t *`: index into the node heap of the working set. -/
abbrev node_ptr := Nat

/-- The bits of `resource_t.flags` that `unpack.c` tests or changes, one
boolean per bit: `is_set(rsc->flags, pe_rsc_failed)` reads the field,
`set_bit` and `clear_bit` write it. -/
structure rsc_flags where
  pe_rsc_orphan : Bool := false
  pe_rsc_managed : Bool := false
  pe_rsc_block : Bool := false
  pe_rsc_orphan_container_filler : Bool := false
  pe_rsc_unique : Bool := false
  pe_rsc_promotable : Bool := false
  pe_rsc_failed : Bool := false
  pe_rsc_allow_migrate : Bool := false
  pe_rsc_failure_ignored : Bool := false
  pe_rsc_start_pending : Bool := false
  pe_rsc_is_container : Bool := false
  deriving DecidableEq, Repr

/-- Modelled from the spec: `enum pe_obj_types` is declared in a header that is
not part of `unpack.c`; the kinds of resource, in the order of the enum:
unknown, primitive (native), group, clone, container. -/
inductive pe_obj_types where
  | pe_unknown
  | pe_native
  | pe_group
  | pe_clone
  | pe_container
  deriving DecidableEq, Repr

/-- A copy of a node as made by `node_copy`: it shares the details of the node it
was copied from (kept here as the pointer to that node) and has a weight and a
fixed flag of its own. -/
structure node_ref where
  node : node_ptr
  weight : Int := 0
  fixed : Bool := false
  deriving DecidableEq, Repr

/-- The fields of `resource_t` used by the functions embedded below.  The hash
tables `known_on` and `allowed_nodes`, keyed by node id, and `meta`, keyed by
attribute name, are lists of `(key, value)` pairs; `running_on` and
`dangling_migrations` are the lists of nodes of the C structure, `children` and
`fillers` its lists of resources. -/
structure resource_t where
  id : String := ""
  clone_name : Option String := none
  variant : pe_obj_types := pe_obj_types.pe_native
  flags : rsc_flags := {}
  role : rsc_role_e := rsc_role_e.RSC_ROLE_UNKNOWN
  next_role : rsc_role_e := rsc_role_e.RSC_ROLE_UNKNOWN
  parent : Option rsc_ptr := none
  container : Option rsc_ptr := none
  is_remote_node : Bool := false
  remote_reconnect_ms : Nat := 0
  running_on : List node_ptr := []
  known_on : List (String × node_ref) := []
  allowed_nodes : List (String × node_ref) := []
  dangling_migrations : List node_ptr := []
  partial_migration_target : Option node_ptr := none
  partial_migration_source : Option node_ptr := none
  children : List rsc_ptr := []
  fillers : List rsc_ptr := []
  meta : List (String × String) := []
  failure_timeout : Int := 0
  deriving DecidableEq, Repr

/-- The fields of `node->details` used by the functions embedded below. -/
structure node_shared_s where
  id : String := ""
  uname : String := ""
  type : node_type := node_type.node_member
  online : Bool := false
  standby : Bool := false
  standby_onfail : Bool := false
  pending : Bool := false
  unclean : Bool := false
  unseen : Bool := false
  shutdown : Bool := false
  expected_up : Bool := false
  maintenance : Bool := false
  remote_requires_reset : Bool := false
  remote_was_fenced : Int := 0
  unpacked : Bool := false
  remote_rsc : Option rsc_ptr := none
  attrs : List (String × String) := []
  deriving DecidableEq, Repr

/-- A `node_t`: placement weight, the fixed flag and the shared details. -/
structure node_t where
  weight : Int := 0
  fixed : Bool := false
  details : node_shared_s := {}
  deriving DecidableEq, Repr

/-- The bits of `data_set->flags` read by the functions embedded below. -/
structure pe_flags where
  pe_flag_stonith_enabled : Bool := false
  pe_flag_have_quorum : Bool := false
  pe_flag_symmetric_cluster : Bool := false
  pe_flag_stop_rsc_orphans : Bool := false
  pe_flag_startup_fencing : Bool := false
  deriving DecidableEq, Repr

/-- The arguments of one call `pe_fence_op(node, op, optional, reason, data_set)`. -/
structure fence_op_request where
  node : node_ptr
  op : Option String
  optional : Bool
  reason : String
  deriving DecidableEq, Repr

/-- An XML element of the status document: its tag, its attributes and its child
elements. -/
inductive xmlNode where
  | mk (name : String) (attrs : List (String × String)) (children : List xmlNode)

/-- The tag of an element. -/
def xmlNode.name : xmlNode → String
  | .mk n _ _ => n

/-- The attribute list of an element. -/
def xmlNode.attrs : xmlNode → List (String × String)
  | .mk _ a _ => a

/-- The child elements of an element, in document order. -/
def xmlNode.children : xmlNode → List xmlNode
  | .mk _ _ c => c

/-- The fields of `action_t` used by the functions embedded below: the resource
and node the action is for, its key (`uuid`) and task, whether it is optional
(the bit `pe_action_optional`), and the on-fail response and failure role
configured for it. -/
structure action_t where
  rsc : Option rsc_ptr := none
  uuid : Option String := none
  task : Option String := none
  node : Option node_ptr := none
  optional : Bool := false
  on_fail : action_fail_response := action_fail_response.action_fail_recover
  fail_role : rsc_role_e := rsc_role_e.RSC_ROLE_STARTED
  deriving DecidableEq, Repr

/-- The arguments of one call `resource_location(rsc, node, score, tag, data_set)`. -/
structure location_request where
  rsc : rsc_ptr
  node : Option node_ptr
  score : Int
  tag : String
  deriving DecidableEq, Repr

/-- The working set `pe_working_set_t` together with the objects its pointers
reach.  `fence_ops` holds the fence operations requested so far, in request
order; `actions` the actions created and saved so far; `location_calls` the
location preferences recorded so far; `failed` the children of
`data_set->failed`; `input` the status document.  Two fields are ghosts with no
counterpart in C: `fence_calls` lists the invocations of `pe_fence_node` on a
non-null node, `(node, reason)` in call order, so that statements can speak of
the function being invoked; `loop_fuel` bounds the number of steps taken by a
loop that follows parent links, which in C runs until it meets a null
parent.  A third ghost, `lrm_unpacked`, lists the nodes whose history
`unpack_node_loop` has handed to `unpack_lrm_resources`, in call order. -/
structure pe_working_set_t where
  flags : pe_flags := {}
  nodes : List node_ptr := []
  resources : List rsc_ptr := []
  node_at : node_ptr → node_t := fun _ => {}
  rsc_at : rsc_ptr → resource_t := fun _ => {}
  fence_ops : List fence_op_request := []
  fence_calls : List (node_ptr × String) := []
  actions : List action_t := []
  location_calls : List location_request := []
  failed : List xmlNode := []
  input : xmlNode := xmlNode.mk "" [] []
  loop_fuel : Nat := 64
  lrm_unpacked : List node_ptr := []

/-- Replaces the node stored at `n` by `f` of it. -/
def pe_working_set_t.upd_node (d : pe_working_set_t) (n : node_ptr)
    (f : node_t → node_t) : pe_working_set_t :=
  { d with node_at := fun m => if m = n then f (d.node_at m) else d.node_at m }

/-- Replaces the details of the node stored at `n` by `f` of them. -/
def pe_working_set_t.upd_details (d : pe_working_set_t) (n : node_ptr)
    (f : node_shared_s → node_shared_s) : pe_working_set_t :=
  d.upd_node n (fun x => { x with details := f x.details })

/-- Replaces the resource stored at `r` by `f` of it. -/
def pe_working_set_t.upd_rsc (d : pe_working_set_t) (r : rsc_ptr)
    (f : resource_t → resource_t) : pe_working_set_t :=
  { d with rsc_at := fun q => if q = r then f (d.rsc_at q) else d.rsc_at q }

/-- The details of the node at `n`: `node->details`. -/
def pe_working_set_t.details (d : pe_working_set_t) (n : node_ptr) : node_shared_s :=
  (d.node_at n).details

/-- The statement `set_bit(rsc->flags, pe_rsc_failed)`. -/
def set_failed (r : resource_t) : resource_t :=
  { r with flags := { r.flags with pe_rsc_failed := true } }

/-! ## Helpers defined outside `unpack.c` -/

/-- Modelled from the spec: `is_remote_node` is defined outside `unpack.c`; a
remote node is a node whose membership is mediated by a resource connection,
that is a node of type remote. -/
def is_remote_node (d : pe_working_set_t) (node : node_ptr) : Bool :=
  (d.details node).type == node_type.node_remote

/-- Modelled from the spec: `is_container_remote_node` is defined outside
`unpack.c`; a guest node is a remote node whose connection resource exists and
runs inside a container resource. -/
def is_container_remote_node (d : pe_working_set_t) (node : node_ptr) : Bool :=
  is_remote_node d node &&
    (match (d.details node).remote_rsc with
     | none => false
     | some conn => (d.rsc_at conn).container.isSome)

/-- Modelled from the spec: `is_baremetal_remote_node` is defined outside
`unpack.c`; a baremetal remote node is a remote node that is not hosted in a
container (it has no connection resource, or the connection has no
container). -/
def is_baremetal_remote_node (d : pe_working_set_t) (node : node_ptr) : Bool :=
  is_remote_node d node &&
    (match (d.details node).remote_rsc with
     | none => true
     | some conn => (d.rsc_at conn).container.isNone)

/-- Modelled from the spec: `pe_fence_op` is defined outside `unpack.c`; it
requests an external fence operation.  Each call is recorded by appending its
arguments to `fence_ops`, which is thus the list of the calls made so far. -/
def pe_fence_op (node : node_ptr) (op : Option String) (optional : Bool) (reason : String)
    (data_set : pe_working_set_t) : pe_working_set_t :=
  { data_set with
    fence_ops := data_set.fence_ops ++
      [{ node := node, op := op, optional := optional, reason := reason }] }

/-- Modelled from the spec: the score macro `INFINITY` comes from a header
outside `unpack.c`; "weight = -infinity" is the score `-INFINITY`. -/
def INFINITY : Int := 1000000

/-- Modelled from the spec: `crm_element_value` is defined outside `unpack.c`;
it yields the value of the named attribute of an element, `NULL` when the
attribute is absent. -/
def crm_element_value (data : xmlNode) (name : String) : Option String :=
  data.attrs.lookup name

/-- Modelled from the spec: `pe_node_attribute_raw` is defined outside
`unpack.c`; it yields the value recorded for the named attribute in the
node's attribute mapping, `NULL` when there is none. -/
def pe_node_attribute_raw (d : pe_working_set_t) (node : node_ptr) (name : String) :
    Option String :=
  (d.details node).attrs.lookup name

/-- Comparison of two texts that ignores letter case, as `strcasecmp(a, b) == 0`. -/
def strcasecmp_eq (a b : String) : Bool :=
  a.data.map Char.toLower == b.data.map Char.toLower

/-- Modelled from the spec: `crm_is_true` is defined outside `unpack.c`; it is
the boolean reading of an attribute value: true for the spellings `true`, `on`,
`yes`, `y` and `1` in any letter case, false for `NULL` and every other text. -/
def crm_is_true (s : Option String) : Bool :=
  match s with
  | none => false
  | some v =>
    strcasecmp_eq v "true" || strcasecmp_eq v "on" || strcasecmp_eq v "yes" ||
      strcasecmp_eq v "y" || strcasecmp_eq v "1"

/-- Modelled from the spec: the macro `safe_str_eq` is defined outside
`unpack.c`; two values are equal when both are `NULL` or both are present and
the same text up to letter case. -/
def safe_str_eq (a b : Option String) : Bool :=
  match a, b with
  | none, none => true
  | some x, some y => strcasecmp_eq x y
  | _, _ => false

/-- Modelled from the spec: `safe_str_neq` is defined outside `unpack.c`; two
values differ when exactly one is `NULL` or both are present and are not the
same text up to letter case. -/
def safe_str_neq (a b : Option String) : Bool :=
  match a, b with
  | none, none => false
  | some x, some y => !strcasecmp_eq x y
  | _, _ => true

/-- Modelled from the spec: the attribute-name and value macros below come from
headers outside `unpack.c`.  The attribute names only have to differ from one
another; the values are those listed in the comment of
`determine_online_status_fencing` (`member|down|pending|banned`,
`online|offline`), `banned` being the rejected (NACK) join state. -/
def XML_NODE_JOIN_STATE : String := "join"

/-- Modelled from the spec: name of the peer-process attribute of a node-state
entry (header macro). -/
def XML_NODE_IS_PEER : String := "crmd"

/-- Modelled from the spec: name of the membership attribute (`in_cluster`) of a
node-state entry (header macro). -/
def XML_NODE_IN_CLUSTER : String := "in_ccm"

/-- Modelled from the spec: name of the expected-state attribute of a node-state
entry (header macro). -/
def XML_NODE_EXPECTED : String := "expected"

/-- Modelled from the spec: name of the node attribute that requests a shutdown
(header macro). -/
def XML_CIB_ATTR_SHUTDOWN : String := "shutdown"

/-- Modelled from the spec: the peer-process value `online` (header macro). -/
def ONLINESTATUS : String := "online"

/-- Modelled from the spec: the join/expected state `member` (header macro). -/
def CRMD_JOINSTATE_MEMBER : String := "member"

/-- Modelled from the spec: the join/expected state `down` (header macro). -/
def CRMD_JOINSTATE_DOWN : String := "down"

/-- Modelled from the spec: the join state `pending` (header macro). -/
def CRMD_JOINSTATE_PENDING : String := "pending"

/-- Modelled from the spec: the rejected join state, NACK, spelled `banned`
(header macro). -/
def CRMD_JOINSTATE_NACK : String := "banned"

/-! ## Fencing decision -/

/-- Embeds `is_dangling_container_remote_node` (lines 52-66): a remote node
whose connection resource exists, has no container and carries the
orphan-container-filler flag. -/
def is_dangling_container_remote_node (d : pe_working_set_t) (node : node_ptr) : Bool :=
  is_remote_node d node &&
    (match (d.details node).remote_rsc with
     | none => false
     | some conn =>
       (d.rsc_at conn).container.isNone &&
         (d.rsc_at conn).flags.pe_rsc_orphan_container_filler)

/-- Ghost bookkeeping, no counterpart in C: notes that `pe_fence_node` was
invoked on node `n` with `reason`.  It touches the ghost field only. -/
def record_fence_call (d : pe_working_set_t) (n : node_ptr) (reason : String) :
    pe_working_set_t :=
  { d with fence_calls := d.fence_calls ++ [(n, reason)] }

/-- Embeds `pe_fence_node` (lines 76-143).  A null node returns at once
(`CRM_CHECK(node, return)`).  The two `none` arms of the guest branch stand for
pointers that `is_container_remote_node` has just found to be non-null. -/
def pe_fence_node (data_set : pe_working_set_t) (node : Option node_ptr) (reason : String) :
    pe_working_set_t :=
  match node with
  | none => data_set
  | some n =>
    let d := record_fence_call data_set n reason
    if is_container_remote_node d n then
      match (d.details n).remote_rsc with
      | none => d
      | some conn =>
        match (d.rsc_at conn).container with
        | none => d
        | some rsc =>
          if (d.rsc_at rsc).flags.pe_rsc_failed == false then
            if !(d.rsc_at rsc).flags.pe_rsc_managed then
              d
            else
              (d.upd_details n (fun x => { x with remote_requires_reset := true })).upd_rsc
                rsc set_failed
          else
            d
    else if is_dangling_container_remote_node d n then
      match (d.details n).remote_rsc with
      | none => d
      | some conn => d.upd_rsc conn set_failed
    else if is_baremetal_remote_node d n then
      let rsc := (d.details n).remote_rsc
      let unmanaged : Bool :=
        match rsc with
        | none => false
        | some r => !(d.rsc_at r).flags.pe_rsc_managed
      let d1 : pe_working_set_t :=
        if unmanaged then
          d
        else if (d.details n).remote_requires_reset == false then
          d.upd_details n (fun x => { x with remote_requires_reset := true })
        else
          d
      let d2 := d1.upd_details n (fun x => { x with unclean := true })
      pe_fence_op n none true reason d2
    else if (d.details n).unclean then
      d
    else
      let d1 := d.upd_details n (fun x => { x with unclean := true })
      pe_fence_op n none true reason d1

/-! ## Online status of a cluster node -/

/-- Embeds `determine_online_status_no_fencing` (lines 1168-1200): the online
verdict and the working set it leaves. -/
def determine_online_status_no_fencing (data_set : pe_working_set_t) (node_state : xmlNode)
    (this_node : node_ptr) : Bool × pe_working_set_t :=
  let join := crm_element_value node_state XML_NODE_JOIN_STATE
  let is_peer := crm_element_value node_state XML_NODE_IS_PEER
  let in_cluster := crm_element_value node_state XML_NODE_IN_CLUSTER
  if !crm_is_true in_cluster then
    (false, data_set)
  else if safe_str_eq is_peer (some ONLINESTATUS) then
    if safe_str_eq join (some CRMD_JOINSTATE_MEMBER) then
      (true, data_set)
    else
      (false, data_set)
  else if (data_set.details this_node).expected_up == false then
    (false, data_set)
  else
    (false, pe_fence_node data_set (some this_node) "peer is unexpectedly down")

/-- The computation of `do_terminate` in `determine_online_status_fencing`
(lines 1222-1232) from the value of the node attribute `terminate`. -/
def do_terminate_of (terminate : Option String) : Bool :=
  if crm_is_true terminate then
    true
  else
    match terminate with
    | none => false
    | some t =>
      match t.data with
      | [] => false
      | c :: _ => c != '0' && c.isDigit

/-- The statements `standby = TRUE; pending = TRUE` on the details of a node. -/
def set_standby_pending (x : node_shared_s) : node_shared_s :=
  { x with standby := true, pending := true }

/-- Embeds `determine_online_status_fencing` (lines 1202-1299): the online
verdict and the working set it leaves. -/
def determine_online_status_fencing (data_set : pe_working_set_t) (node_state : xmlNode)
    (this_node : node_ptr) : Bool × pe_working_set_t :=
  let join := crm_element_value node_state XML_NODE_JOIN_STATE
  let is_peer := crm_element_value node_state XML_NODE_IS_PEER
  let in_cluster := crm_element_value node_state XML_NODE_IN_CLUSTER
  let exp_state0 := crm_element_value node_state XML_NODE_EXPECTED
  let terminate := pe_node_attribute_raw data_set this_node "terminate"
  let do_terminate := do_terminate_of terminate
  let online := crm_is_true in_cluster
  let crmd_online := safe_str_eq is_peer (some ONLINESTATUS)
  let exp_state := if exp_state0 == none then some CRMD_JOINSTATE_DOWN else exp_state0
  if (data_set.details this_node).shutdown then
    (crmd_online, data_set)
  else if in_cluster == none then
    (online, pe_fence_node data_set (some this_node) "peer has not been seen by the cluster")
  else if safe_str_eq join (some CRMD_JOINSTATE_NACK) then
    (online, pe_fence_node data_set (some this_node)
      "peer failed the pacemaker membership criteria")
  else if do_terminate == false && safe_str_eq exp_state (some CRMD_JOINSTATE_DOWN) then
    if crm_is_true in_cluster || crmd_online then
      (online, data_set.upd_details this_node set_standby_pending)
    else
      (online, data_set)
  else if do_terminate && safe_str_eq join (some CRMD_JOINSTATE_DOWN)
      && crm_is_true in_cluster == false && !crmd_online then
    (false, data_set)
  else if crm_is_true in_cluster == false then
    (online, pe_fence_node data_set (some this_node) "peer is no longer part of the cluster")
  else if !crmd_online then
    (online, pe_fence_node data_set (some this_node) "peer process is no longer available")
  else if do_terminate then
    (online, pe_fence_node data_set (some this_node) "termination was requested")
  else if safe_str_eq join (some CRMD_JOINSTATE_MEMBER) then
    (online, data_set)
  else if safe_str_eq join (some CRMD_JOINSTATE_PENDING)
      || safe_str_eq join (some CRMD_JOINSTATE_DOWN) then
    (online, data_set.upd_details this_node set_standby_pending)
  else
    (online, pe_fence_node data_set (some this_node) "peer was in an unknown state")

/-- The statements `this_node->fixed = TRUE; this_node->weight = -INFINITY`. -/
def remove_from_contention (x : node_t) : node_t :=
  { x with fixed := true, weight := -INFINITY }

/-- Embeds `determine_online_status` (lines 1371-1441): the online verdict and the
working set it leaves.  A null node returns false at once. -/
def determine_online_status (node_state : xmlNode) (this_node : Option node_ptr)
    (data_set : pe_working_set_t) : Bool × pe_working_set_t :=
  let exp_state := crm_element_value node_state XML_NODE_EXPECTED
  match this_node with
  | none => (false, data_set)
  | some n =>
    let d0 := data_set.upd_details n (fun x => { x with shutdown := false, expected_up := false })
    let shutdown := pe_node_attribute_raw d0 n XML_CIB_ATTR_SHUTDOWN
    let d1 : pe_working_set_t :=
      if shutdown != none && safe_str_neq (some "0") shutdown then
        d0.upd_details n (fun x => { x with shutdown := true })
      else if safe_str_eq exp_state (some CRMD_JOINSTATE_MEMBER) then
        d0.upd_details n (fun x => { x with expected_up := true })
      else
        d0
    let r : Bool × pe_working_set_t :=
      if (d1.details n).type == node_type.node_ping then
        (false, d1.upd_details n (fun x => { x with unclean := false }))
      else if d1.flags.pe_flag_stonith_enabled == false then
        determine_online_status_no_fencing d1 node_state n
      else
        determine_online_status_fencing d1 node_state n
    let online := r.1
    let d2 : pe_working_set_t :=
      if online then
        r.2.upd_details n (fun x => { x with online := true })
      else
        r.2.upd_node n remove_from_contention
    let d3 : pe_working_set_t :=
      if online && (d2.details n).shutdown then
        d2.upd_node n remove_from_contention
      else
        d2
    (online, d3)

/-! ## Replay of a resource's operation history on a node -/

/-- Modelled from the spec: tag of an operation-history entry (header macro). -/
def XML_LRM_TAG_RSC_OP : String := "lrm_rsc_op"

/-- Modelled from the spec: name of the id attribute (header macro). -/
def XML_ATTR_ID : String := "id"

/-- Modelled from the spec: name of the task attribute of a history entry
(header macro). -/
def XML_LRM_ATTR_TASK : String := "operation"

/-- Modelled from the spec: name of the call-id attribute of a history entry
(header macro). -/
def XML_LRM_ATTR_CALLID : String := "call-id"

/-- Modelled from the spec: name of the op-status attribute of a history entry
(header macro). -/
def XML_LRM_ATTR_OPSTATUS : String := "op-status"

/-- Modelled from the spec: name of the return-code attribute of a history entry
(header macro). -/
def XML_LRM_ATTR_RC : String := "rc-code"

/-- Modelled from the spec: the task name `stop` (header macro). -/
def CRMD_ACTION_STOP : String := "stop"

/-- Modelled from the spec: the task name `start` (header macro). -/
def CRMD_ACTION_START : String := "start"

/-- Modelled from the spec: the task name `migrate_from` (header macro). -/
def CRMD_ACTION_MIGRATED : String := "migrate_from"

/-- Modelled from the spec: the task name `monitor` (header macro). -/
def CRMD_ACTION_STATUS : String := "monitor"

/-- Modelled from the spec: the task name `promote` (header macro). -/
def CRMD_ACTION_PROMOTE : String := "promote"

/-- Modelled from the spec: the task name `demote` (header macro). -/
def CRMD_ACTION_DEMOTE : String := "demote"

/-- Reads a run of decimal digits as a number, most significant digit first;
`none` when a character is not a digit. -/
def parse_digits : List Char → Nat → Option Nat
  | [], acc => some acc
  | c :: cs, acc => if c.isDigit then parse_digits cs (acc * 10 + (c.toNat - 48)) else none

/-- Modelled from the spec: the integer reading of an attribute value, done in C
by `crm_element_value_int`, defined outside `unpack.c`: an optional minus sign
and decimal digits; `-1` for any other text. -/
def crm_parse_int (s : String) : Int :=
  match s.data with
  | [] => -1
  | '-' :: cs =>
    (match cs with
     | [] => -1
     | _ => (match parse_digits cs 0 with
             | some v => -(v : Int)
             | none => -1))
  | cs =>
    (match parse_digits cs 0 with
     | some v => (v : Int)
     | none => -1)

/-- The call-id of a history entry, `-1` when the attribute is absent. -/
def op_call_id (xml_op : xmlNode) : Int :=
  match crm_element_value xml_op XML_LRM_ATTR_CALLID with
  | none => -1
  | some s => crm_parse_int s

/-- Modelled from the spec: `sort_op_by_callid` is defined outside `unpack.c`;
history entries are ordered by call-id: negative, zero or positive as the
first entry goes before, with or after the second. -/
def sort_op_by_callid (a b : xmlNode) : Int :=
  if op_call_id a < op_call_id b then -1
  else if op_call_id a > op_call_id b then 1
  else 0

/-- Modelled from the spec: GLib's `g_list_sort`, a stable sort of a list by a
comparison function. -/
def g_list_sort (l : List xmlNode) (cmp : xmlNode → xmlNode → Int) : List xmlNode :=
  l.insertionSort (fun a b => cmp a b ≤ 0)

/-- The local variables of the loop of `calculate_active_ops`. -/
structure active_ops_state where
  counter : Int := -1
  implied_monitor_start : Int := -1
  implied_clone_start : Int := -1
  stop_index : Int := -1
  start_index : Int := -1
  deriving DecidableEq, Repr

/-- One iteration of the loop of `calculate_active_ops` (lines 2037-2061). -/
def calculate_active_ops_step (s : active_ops_state) (rsc_op : xmlNode) : active_ops_state :=
  let counter := s.counter + 1
  let task := crm_element_value rsc_op XML_LRM_ATTR_TASK
  let status := crm_element_value rsc_op XML_LRM_ATTR_OPSTATUS
  if safe_str_eq task (some CRMD_ACTION_STOP) && safe_str_eq status (some "0") then
    { s with counter := counter, stop_index := counter }
  else if safe_str_eq task (some CRMD_ACTION_START)
      || safe_str_eq task (some CRMD_ACTION_MIGRATED) then
    { s with counter := counter, start_index := counter }
  else if decide (s.implied_monitor_start ≤ s.stop_index)
      && safe_str_eq task (some CRMD_ACTION_STATUS) then
    let rc := crm_element_value rsc_op XML_LRM_ATTR_RC
    if safe_str_eq rc (some "0") || safe_str_eq rc (some "8") then
      { s with counter := counter, implied_monitor_start := counter }
    else
      { s with counter := counter }
  else if safe_str_eq task (some CRMD_ACTION_PROMOTE)
      || safe_str_eq task (some CRMD_ACTION_DEMOTE) then
    { s with counter := counter, implied_clone_start := counter }
  else
    { s with counter := counter }

/-- Embeds `calculate_active_ops` (lines 2024-2070): the pair
`(start_index, stop_index)`. -/
def calculate_active_ops (sorted_op_list : List xmlNode) : Int × Int :=
  let s := sorted_op_list.foldl calculate_active_ops_step {}
  let start_index :=
    if s.start_index == -1 then
      if s.implied_clone_start != -1 then s.implied_clone_start
      else if s.implied_monitor_start != -1 then s.implied_monitor_start
      else s.start_index
    else s.start_index
  (start_index, s.stop_index)

/-- The functions that `unpack_lrm_rsc_state` calls to find the resource, to
replay one operation, to reinstate recurring operations, to apply the resulting
state and to read the requested target role.  Each is taken as an arbitrary
function of its arguments and of the working set, so that what is proved about
`unpack_lrm_rsc_state` holds whatever these functions do.
`process_orphan_resource` yields a resource, as `CRM_ASSERT(rsc != NULL)`
demands; `unpack_rsc_op` yields the new values of `*last_failure` and `*on_fail`
with the working set; `get_target_role` yields the requested role when it
returns true. -/
structure lrm_callees where
  unpack_find_resource :
    pe_working_set_t → node_ptr → Option String → xmlNode → Option rsc_ptr × pe_working_set_t
  process_orphan_resource : xmlNode → node_ptr → pe_working_set_t → rsc_ptr × pe_working_set_t
  unpack_rsc_op :
    rsc_ptr → node_ptr → xmlNode → Option xmlNode → action_fail_response → pe_working_set_t →
      Option xmlNode × action_fail_response × pe_working_set_t
  process_recurring :
    node_ptr → rsc_ptr → Int → Int → List xmlNode → pe_working_set_t → pe_working_set_t
  process_rsc_state :
    rsc_ptr → node_ptr → action_fail_response → Option xmlNode → pe_working_set_t →
      pe_working_set_t
  get_target_role : rsc_ptr → pe_working_set_t → Option rsc_role_e

/-- The operation entries of a resource's history entry, as collected by the
loop of lines 2101-2105: every child tagged `lrm_rsc_op` is prepended. -/
def rsc_op_list (rsc_entry : xmlNode) : List xmlNode :=
  rsc_entry.children.foldl
    (fun op_list rsc_op => if rsc_op.name == XML_LRM_TAG_RSC_OP then rsc_op :: op_list else op_list)
    []

/-- The resource that `unpack_lrm_rsc_state` works on (lines 2112-2117): the one
found by `unpack_find_resource`, else the orphan made by
`process_orphan_resource`; with the working set these calls leave. -/
def lrm_find_resource (c : lrm_callees) (node : node_ptr) (rsc_entry : xmlNode)
    (data_set : pe_working_set_t) : rsc_ptr × pe_working_set_t :=
  let rsc_id := crm_element_value rsc_entry XML_ATTR_ID
  let found := c.unpack_find_resource data_set node rsc_id rsc_entry
  match found.1 with
  | some rsc => (rsc, found.2)
  | none => c.process_orphan_resource rsc_entry node found.2

/-- The variables that the replay loop of `unpack_lrm_rsc_state` carries from one
operation to the next. -/
structure replay_state where
  migrate_op : Option xmlNode
  last_failure : Option xmlNode
  on_fail : action_fail_response
  data_set : pe_working_set_t

/-- One iteration of the replay loop (lines 2125-2134). -/
def replay_step (c : lrm_callees) (rsc : rsc_ptr) (node : node_ptr) (s : replay_state)
    (rsc_op : xmlNode) : replay_state :=
  let task := crm_element_value rsc_op XML_LRM_ATTR_TASK
  let migrate_op := if safe_str_eq task (some CRMD_ACTION_MIGRATED) then some rsc_op
    else s.migrate_op
  let r := c.unpack_rsc_op rsc node rsc_op s.last_failure s.on_fail s.data_set
  { migrate_op := migrate_op, last_failure := r.1, on_fail := r.2.1, data_set := r.2.2 }

/-- The replay of the history (lines 2121-2157 of `unpack_lrm_rsc_state`): the
role is reset to unknown, the operations are replayed in call-id order, the
recurring operations and the resulting state are processed and the requested
target role is applied to the next role. -/
def unpack_lrm_rsc_history (c : lrm_callees) (node : node_ptr) (rsc : rsc_ptr)
    (op_list : List xmlNode) (data_set : pe_working_set_t) : pe_working_set_t :=
  let d1 := data_set.upd_rsc rsc (fun x => { x with role := rsc_role_e.RSC_ROLE_UNKNOWN })
  let sorted_op_list := g_list_sort op_list sort_op_by_callid
  let s := sorted_op_list.foldl (replay_step c rsc node)
    { migrate_op := none, last_failure := none,
      on_fail := action_fail_response.action_fail_ignore, data_set := d1 }
  let idx := calculate_active_ops sorted_op_list
  let d2 := c.process_recurring node rsc idx.1 idx.2 sorted_op_list s.data_set
  let d3 := c.process_rsc_state rsc node s.on_fail s.migrate_op d2
  match c.get_target_role rsc d3 with
  | none => d3
  | some req_role =>
    if (d3.rsc_at rsc).next_role == rsc_role_e.RSC_ROLE_UNKNOWN
        || decide (req_role < (d3.rsc_at rsc).next_role) then
      d3.upd_rsc rsc (fun x => { x with next_role := req_role })
    else
      d3

/-- Embeds `unpack_lrm_rsc_state` (lines 2072-2164): the resource returned
(`NULL` when the entry holds no operation) and the working set left. -/
def unpack_lrm_rsc_state (c : lrm_callees) (node : node_ptr) (rsc_entry : xmlNode)
    (data_set : pe_working_set_t) : Option rsc_ptr × pe_working_set_t :=
  let op_list := rsc_op_list rsc_entry
  if op_list.isEmpty then
    (none, data_set)
  else
    let f := lrm_find_resource c node rsc_entry data_set
    let rsc := f.1
    let saved_role := (f.2.rsc_at rsc).role
    let d1 := unpack_lrm_rsc_history c node rsc op_list f.2
    let d2 : pe_working_set_t :=
      if saved_role > (d1.rsc_at rsc).role then
        d1.upd_rsc rsc (fun x => { x with role := saved_role })
      else
        d1
    (some rsc, d2)

/-! ## Helpers of the failure handling, defined outside `unpack.c` -/

/-- Modelled from the spec: return codes of a resource agent, `enum ocf_exitcode`
of a header outside `unpack.c`; the code compares a return code with the literal
`7` (not running) and reads `0` and `8` as the codes of an active monitor. -/
def PCMK_OCF_OK : Int := 0

/-- Modelled from the spec: return code "invalid parameter" (header enum). -/
def PCMK_OCF_INVALID_PARAM : Int := 2

/-- Modelled from the spec: return code "unimplemented feature" (header enum). -/
def PCMK_OCF_UNIMPLEMENT_FEATURE : Int := 3

/-- Modelled from the spec: return code "insufficient privileges" (header enum). -/
def PCMK_OCF_INSUFFICIENT_PRIV : Int := 4

/-- Modelled from the spec: return code "not installed" (header enum). -/
def PCMK_OCF_NOT_INSTALLED : Int := 5

/-- Modelled from the spec: return code "not configured" (header enum). -/
def PCMK_OCF_NOT_CONFIGURED : Int := 6

/-- Modelled from the spec: return code "not running" (header enum). -/
def PCMK_OCF_NOT_RUNNING : Int := 7

/-- Modelled from the spec: return code "running master" (header enum). -/
def PCMK_OCF_RUNNING_MASTER : Int := 8

/-- Modelled from the spec: return code "failed master" (header enum). -/
def PCMK_OCF_FAILED_MASTER : Int := 9

/-- Modelled from the spec: return code "degraded master" (header enum). -/
def PCMK_OCF_DEGRADED_MASTER : Int := 191

/-- Modelled from the spec: operation status "done", `enum op_status` of a header
outside `unpack.c`. -/
def PCMK_LRM_OP_DONE : Int := 0

/-- Modelled from the spec: operation status "not supported" (header enum). -/
def PCMK_LRM_OP_NOTSUPPORTED : Int := 3

/-- Modelled from the spec: operation status "error" (header enum). -/
def PCMK_LRM_OP_ERROR : Int := 4

/-- Modelled from the spec: operation status "hard error" (header enum). -/
def PCMK_LRM_OP_ERROR_HARD : Int := 5

/-- Modelled from the spec: operation status "fatal error" (header enum). -/
def PCMK_LRM_OP_ERROR_FATAL : Int := 6

/-- Modelled from the spec: name of the interval attribute of a history entry
(header macro). -/
def XML_LRM_ATTR_INTERVAL_MS : String := "interval"

/-- Modelled from the spec: name of the task-key attribute of a history entry
(header macro). -/
def XML_LRM_ATTR_TASK_KEY : String := "operation_key"

/-- Modelled from the spec: name of the node-name attribute (header macro). -/
def XML_ATTR_UNAME : String := "uname"

/-- Modelled from the spec: name of the resource-id attribute of a failed-operation
record (header macro). -/
def XML_LRM_ATTR_RSCID : String := "rsc-id"

/-- Modelled from the spec: name of the migration-source attribute of a history
entry (header macro). -/
def XML_LRM_ATTR_MIGRATE_SOURCE : String := "migrate_source"

/-- Modelled from the spec: name of the migration-target attribute of a history
entry (header macro). -/
def XML_LRM_ATTR_MIGRATE_TARGET : String := "migrate_target"

/-- Modelled from the spec: tag of the history of one resource on a node (header
macro). -/
def XML_LRM_TAG_RESOURCE : String := "lrm_resource"

/-- Modelled from the spec: the task name `migrate_to` (header macro). -/
def CRMD_ACTION_MIGRATE : String := "migrate_to"

/-- Modelled from the spec: `enum rsc_digest_cmp_val` is declared in a header
that is not part of `unpack.c`; the outcomes of comparing the parameter digest
of a history entry with the configuration. -/
inductive rsc_digest_val where
  | RSC_DIGEST_MATCH
  | RSC_DIGEST_RESTART
  | RSC_DIGEST_ALL
  | RSC_DIGEST_UNKNOWN
  deriving DecidableEq, Repr

/-- The value that a C `int`, 32 bits wide in two's complement, holds after the
integer `v` is stored in it: `v` itself from `-2147483648` to `2147483647`,
otherwise the integer of that range that differs from `v` by a multiple of
`4294967296`. -/
def int_of (v : Int) : Int :=
  (v + 2147483648) % 4294967296 - 2147483648

/-- The value that a `guint`, 32 bits wide and unsigned, holds after the integer
`v` is stored in it: the residue of `v` modulo `4294967296`. -/
def guint_of (v : Int) : Nat :=
  (v % 4294967296).toNat

/-- Modelled from the spec: a reading of an integer attribute, the default of
`crm_element_value_int` in `unpack_env`: when the attribute is absent the
return value is `-1` and the destination keeps the value `dflt` it had,
otherwise the return value is `0` and the destination gets the number
written. -/
def decimal_int_attribute (data : xmlNode) (name : String) (dflt : Int) : Int × Int :=
  match crm_element_value data name with
  | none => (-1, dflt)
  | some s => (0, crm_parse_int s)

/-- Modelled from the spec: a reading of a number of milliseconds, the default of
`crm_parse_ms` and `crm_element_value_ms` in `unpack_env`: the number written,
and `0` for `NULL`, for a text that is not a number and for a number that a
`guint` cannot hold. -/
def decimal_ms (s : Option String) : Int :=
  match s with
  | none => 0
  | some v =>
    if crm_parse_int v < 0 || crm_parse_int v > 4294967295 then 0 else crm_parse_int v

/-- The functions defined outside `unpack.c` whose result depends on the
configuration or on the XML library, neither of which is modelled.  Each is
taken as an arbitrary function: `unpack_operation` yields the on-fail response
and the failure role that `custom_action` configures for an action of the
resource with the given key and task; `get_xpath_object` yields the element
that an XPath expression selects in a document; `pe_can_fence` tells whether
the node can be fenced; `get_effective_time` yields the current time in
seconds; `pe_get_failcount` yields the fail count of a resource on a node under
the given flags; `rsc_action_digest_cmp` yields the result of comparing the
parameter digest of a history entry with the configuration;
`container_fix_remote_addr` tells whether the address of the resource is one
that a bundle rewrites.  The three functions that read a number from the
status document are taken as arbitrary functions too, so that what is proved
holds however they read a text: `crm_element_value_int` yields the value
returned and the value left in the destination by
`crm_element_value_int(data, name, &dest)` when the destination held the third
argument; `crm_element_value_ms` yields the value left in the destination by
`crm_element_value_ms(data, name, &dest)` when the destination held `0`; and
`crm_parse_ms` yields the value of `crm_parse_ms(text)`.  The width of the C
variable that receives a value is applied where the value is used, by `int_of`
and `guint_of`. -/
structure unpack_env where
  unpack_operation :
    rsc_ptr → Option String → Option String → pe_working_set_t →
      action_fail_response × rsc_role_e
  get_xpath_object : String → xmlNode → Option xmlNode
  pe_can_fence : pe_working_set_t → node_ptr → Bool
  get_effective_time : pe_working_set_t → Int := fun _ => 0
  pe_get_failcount : node_ptr → rsc_ptr → Nat → xmlNode → pe_working_set_t → Int :=
    fun _ _ _ _ _ => 0
  rsc_action_digest_cmp : rsc_ptr → xmlNode → node_ptr → pe_working_set_t → rsc_digest_val :=
    fun _ _ _ _ => rsc_digest_val.RSC_DIGEST_UNKNOWN
  container_fix_remote_addr : pe_working_set_t → rsc_ptr → Bool := fun _ _ => false
  crm_element_value_int : xmlNode → String → Int → Int × Int := decimal_int_attribute
  crm_element_value_ms : xmlNode → String → Int :=
    fun data name => decimal_ms (crm_element_value data name)
  crm_parse_ms : Option String → Int := decimal_ms

/-- Modelled from the spec: `g_hash_table_insert` of GLib on a table kept as a
list of pairs; the value replaces any value the key had. -/
def g_hash_table_insert {α : Type} (t : List (String × α)) (k : String) (v : α) :
    List (String × α) :=
  (k, v) :: t.filter (fun e => e.1 != k)

/-- Modelled from the spec: `node_copy` is defined outside `unpack.c`; the copy
shares the details of the node and takes its weight and fixed flag. -/
def node_copy (d : pe_working_set_t) (n : node_ptr) : node_ref :=
  { node := n, weight := (d.node_at n).weight, fixed := (d.node_at n).fixed }

/-- Modelled from the spec: `node_hash_from_list` is defined outside `unpack.c`;
it builds a table holding a copy of every node of the list under the id of the
node. -/
def node_hash_from_list (d : pe_working_set_t) (list : List node_ptr) :
    List (String × node_ref) :=
  list.foldl (fun t n => g_hash_table_insert t (d.details n).id (node_copy d n)) []

/-- Modelled from the spec: `pe_find_node` is defined outside `unpack.c`; it looks
a node up by name in a list of nodes, `NULL` when there is none. -/
def pe_find_node (d : pe_working_set_t) (nodes : List node_ptr) (uname : Option String) :
    Option node_ptr :=
  nodes.find? (fun n => safe_str_eq (some (d.details n).uname) uname)

/-- The topmost ancestor reached from a resource in at most `fuel` steps along the
parent links. -/
def uber_parent_from (d : pe_working_set_t) : Nat → rsc_ptr → rsc_ptr
  | 0, rsc => rsc
  | fuel + 1, rsc =>
    match (d.rsc_at rsc).parent with
    | none => rsc
    | some p => uber_parent_from d fuel p

/-- Modelled from the spec: `uber_parent` is defined outside `unpack.c`; it yields
the topmost ancestor of a resource in its ownership tree, and `NULL` for
`NULL`. -/
def uber_parent (d : pe_working_set_t) (rsc : Option rsc_ptr) : Option rsc_ptr :=
  rsc.map (uber_parent_from d d.loop_fuel)

/-- Modelled from the spec: the macro `pe_rsc_is_clone` is defined outside
`unpack.c`; the resource exists and is a clone. -/
def pe_rsc_is_clone (d : pe_working_set_t) (rsc : Option rsc_ptr) : Bool :=
  match rsc with
  | none => false
  | some r => (d.rsc_at r).variant == pe_obj_types.pe_clone

/-- Modelled from the spec: `merge_weights` is defined outside `unpack.c`; the sum
of two scores, in which `-INFINITY` wins over everything, `INFINITY` over every
finite score, and a finite sum is kept between the two. -/
def merge_weights (w1 w2 : Int) : Int :=
  if decide (w1 ≤ -INFINITY) || decide (w2 ≤ -INFINITY) then -INFINITY
  else if decide (w1 ≥ INFINITY) || decide (w2 ≥ INFINITY) then INFINITY
  else if decide (w1 + w2 ≥ INFINITY) then INFINITY
  else if decide (w1 + w2 ≤ -INFINITY) then -INFINITY
  else w1 + w2

/-- The change that `resource_node_score` makes to one allowed-nodes table: the
entry of the node, made as a copy of the node when the table has none, gets the
score merged into its weight. -/
def resource_node_score_table (d : pe_working_set_t) (node : node_ptr) (score : Int)
    (t : List (String × node_ref)) : List (String × node_ref) :=
  let id := (d.details node).id
  let t1 := if (t.lookup id).isNone then g_hash_table_insert t id (node_copy d node) else t
  t1.map (fun e =>
    if e.1 == id then (e.1, { e.2 with weight := merge_weights e.2.weight score }) else e)

/-- Modelled from the spec: `resource_node_score` is defined outside `unpack.c`; it
merges the score into the allowed-nodes table of the children of the resource,
then into that of the resource.  It descends at most `fuel` levels.  That the
function does nothing for the tag `symmetric_default` on some resources and
nodes is not modelled: `unpack.c` never passes that tag. -/
def resource_node_score (node : node_ptr) (score : Int) :
    Nat → rsc_ptr → pe_working_set_t → pe_working_set_t
  | 0, rsc, d =>
    d.upd_rsc rsc (fun r =>
      { r with allowed_nodes := resource_node_score_table d node score r.allowed_nodes })
  | fuel + 1, rsc, d =>
    let d1 := (d.rsc_at rsc).children.foldl
      (fun acc child => resource_node_score node score fuel child acc) d
    d1.upd_rsc rsc (fun r =>
      { r with allowed_nodes := resource_node_score_table d1 node score r.allowed_nodes })

/-- Modelled from the spec: `resource_location` is defined outside `unpack.c`; it
records a placement preference of `score` for the resource on the node, on
every node of the cluster when the node is `NULL`, by merging the score into
the allowed-nodes tables with `resource_node_score`.  Each call is recorded
too, by appending its arguments to `location_calls`.  That a resource banned
from every node loses the node it was allocated to is not modelled. -/
def resource_location (rsc : rsc_ptr) (node : Option node_ptr) (score : Int) (tag : String)
    (data_set : pe_working_set_t) : pe_working_set_t :=
  let d1 : pe_working_set_t :=
    { data_set with
      location_calls := data_set.location_calls ++
        [{ rsc := rsc, node := node, score := score, tag := tag }] }
  match node with
  | some n => resource_node_score n score d1.loop_fuel rsc d1
  | none =>
    d1.nodes.foldl (fun acc n => resource_node_score n score acc.loop_fuel rsc acc) d1

/-- The loop of `native_add_running` that records the node on the ancestors of an
unmanaged resource while the node is online.  It runs at most `fuel` times. -/
def native_add_running_parents (node : node_ptr) :
    Nat → Option rsc_ptr → pe_working_set_t → pe_working_set_t
  | _, none, d => d
  | 0, some _, d => d
  | fuel + 1, some p, d =>
    if (d.details node).online then
      native_add_running_parents node fuel (d.rsc_at p).parent
        (d.upd_rsc p (fun r => { r with running_on := r.running_on ++ [node] }))
    else
      d

/-- The first statements of `native_add_running` on a node not recorded yet: the
node is recorded among those believed to host the resource, and a primitive on
a node in maintenance loses the managed flag. -/
def native_add_running_record (rsc : rsc_ptr) (node : node_ptr) (d : pe_working_set_t) :
    pe_working_set_t :=
  let d1 := d.upd_rsc rsc (fun r => { r with running_on := r.running_on ++ [node] })
  if (d1.rsc_at rsc).variant == pe_obj_types.pe_native && (d1.details node).maintenance then
    d1.upd_rsc rsc (fun r => { r with flags := { r.flags with pe_rsc_managed := false } })
  else
    d1

/-- The statements of `native_add_running` for one resource: the working set they
leave and the parent on which the function then calls itself, if it does.
Nothing happens when a node with the same id is recorded already.  Otherwise
the node is recorded by `native_add_running_record`, and for a resource that is
not managed a preference of `INFINITY` for the node is recorded and the node is
recorded on the ancestors, no call on the parent following. -/
def native_add_running_one (rsc : rsc_ptr) (node : node_ptr) (d : pe_working_set_t) :
    Option rsc_ptr × pe_working_set_t :=
  if (d.rsc_at rsc).running_on.any
      (fun a => safe_str_eq (some (d.details a).id) (some (d.details node).id)) then
    (none, d)
  else
    let d2 := native_add_running_record rsc node d
    if (d2.rsc_at rsc).flags.pe_rsc_managed == false then
      let d3 := resource_location rsc (some node) INFINITY "not_managed_default" d2
      (none, native_add_running_parents node d3.loop_fuel (d3.rsc_at rsc).parent d3)
    else
      ((d2.rsc_at rsc).parent, d2)

/-- The calls of `native_add_running` on a resource and then on its ancestors, at
most `fuel` of them after the first. -/
def native_add_running_from (node : node_ptr) :
    Nat → rsc_ptr → pe_working_set_t → pe_working_set_t
  | 0, rsc, d => (native_add_running_one rsc node d).2
  | fuel + 1, rsc, d =>
    match (native_add_running_one rsc node d).1 with
    | none => (native_add_running_one rsc node d).2
    | some p => native_add_running_from node fuel p (native_add_running_one rsc node d).2

/-- Modelled from the spec: `native_add_running` is defined outside `unpack.c`; it
records the node among those believed to host the resource and its ancestors,
with the statements of `native_add_running_one` for each.  Two things that the
function does besides are not modelled: it appends the resource to the list of
resources of the node, which is not part of the data model, and it applies the
multiple-active policy of a managed primitive found on more than one node,
which changes flags and allowed-nodes tables only. -/
def native_add_running (rsc : rsc_ptr) (node : node_ptr) (data_set : pe_working_set_t) :
    pe_working_set_t :=
  native_add_running_from node data_set.loop_fuel rsc data_set

/-- Modelled from the spec: `custom_action` is defined outside `unpack.c`; it
yields the action of the resource with the given key, task and node, with the
on-fail response and failure role configured for it; when `save_action` is set
the action is kept, which is recorded by appending it to `actions`. -/
def custom_action (x : unpack_env) (rsc : rsc_ptr) (key : Option String)
    (task : Option String) (on_node : Option node_ptr) (optional : Bool) (save_action : Bool)
    (data_set : pe_working_set_t) : action_t × pe_working_set_t :=
  let cfg := x.unpack_operation rsc key task data_set
  let a : action_t :=
    { rsc := some rsc, uuid := key, task := task, node := on_node, optional := optional,
      on_fail := cfg.1, fail_role := cfg.2 }
  if save_action then (a, { data_set with actions := data_set.actions ++ [a] })
  else (a, data_set)

/-- Modelled from the spec: `generate_op_key` is defined outside `unpack.c`; the
key of an operation is made of the resource id, the task and the interval. -/
def generate_op_key (rsc_id : String) (op_type : String) (interval_ms : Nat) : String :=
  rsc_id ++ "_" ++ op_type ++ "_" ++ Nat.repr interval_ms

/-- Modelled from the spec: the macro `stop_key` is defined outside `unpack.c`;
the key of the stop action of a resource. -/
def stop_key (d : pe_working_set_t) (rsc : rsc_ptr) : String :=
  generate_op_key (d.rsc_at rsc).id CRMD_ACTION_STOP 0

/-- Modelled from the spec: the macro `stop_action` is defined outside
`unpack.c`; it creates and keeps the stop action of the resource on the node. -/
def stop_action (x : unpack_env) (rsc : rsc_ptr) (node : node_ptr) (optional : Bool)
    (data_set : pe_working_set_t) : pe_working_set_t :=
  (custom_action x rsc (some (stop_key data_set rsc)) (some CRMD_ACTION_STOP) (some node)
    optional true data_set).2

/-- Modelled from the spec: `find_actions` is defined outside `unpack.c`; among
the actions of a resource it selects those with the given key that are for the
given node or for no node yet. -/
def find_actions (rsc : rsc_ptr) (key : String) (node : node_ptr) (a : action_t) : Bool :=
  a.rsc == some rsc && !safe_str_neq (some key) a.uuid && (a.node == none || a.node == some node)

/-- The value that an `int` variable holding `dflt` holds after the call
`crm_element_value_int(data, name, &variable)`. -/
def crm_element_value_int (x : unpack_env) (data : xmlNode) (name : String) (dflt : Int) :
    Int :=
  int_of (x.crm_element_value_int data name dflt).2

/-- The value that a `guint` variable holding `0` holds after the call
`crm_element_value_ms(data, name, &variable)`. -/
def crm_element_value_ms (x : unpack_env) (data : xmlNode) (name : String) : Nat :=
  guint_of (x.crm_element_value_ms data name)

/-- Modelled from the spec: `crm_xml_add` is defined outside `unpack.c`; it sets
an attribute of an element, replacing the value it had. -/
def crm_xml_add (data : xmlNode) (name : String) (value : String) : xmlNode :=
  xmlNode.mk data.name (data.attrs.filter (fun e => e.1 != name) ++ [(name, value)])
    data.children

/-! ## Failure of an operation -/

/-- Embeds `get_op_key` (lines 2486-2493): the task key of a history entry, its id
when it has no task key. -/
def get_op_key (xml_op : xmlNode) : Option String :=
  match crm_element_value xml_op XML_LRM_ATTR_TASK_KEY with
  | some key => some key
  | none => crm_element_value xml_op XML_ATTR_ID

/-- Embeds `record_failed_op` (lines 2460-2484).  The entry added to
`data_set->failed` is the copy of the operation with the node name and the
resource id set; that the C code sets the two attributes on the operation of the
status document as well is not modelled. -/
def record_failed_op (op : xmlNode) (node : node_ptr) (rsc : rsc_ptr)
    (data_set : pe_working_set_t) : pe_working_set_t :=
  let op_key := crm_element_value op XML_LRM_ATTR_TASK_KEY
  if (data_set.details node).online == false then
    data_set
  else if data_set.failed.any (fun xIter =>
      safe_str_eq op_key (crm_element_value xIter XML_LRM_ATTR_TASK_KEY)
        && safe_str_eq (crm_element_value xIter XML_ATTR_UNAME)
            (some (data_set.details node).uname)) then
    data_set
  else
    { data_set with
      failed := data_set.failed ++
        [crm_xml_add (crm_xml_add op XML_ATTR_UNAME (data_set.details node).uname)
          XML_LRM_ATTR_RSCID (data_set.rsc_at rsc).id] }

/-- Embeds `set_active` (lines 2239-2249). -/
def set_active (rsc : rsc_ptr) (data_set : pe_working_set_t) : pe_working_set_t :=
  let top := uber_parent data_set (some rsc)
  let promotable : Bool :=
    match top with
    | none => false
    | some t => (data_set.rsc_at t).flags.pe_rsc_promotable
  if promotable then
    data_set.upd_rsc rsc (fun x => { x with role := rsc_role_e.RSC_ROLE_SLAVE })
  else
    data_set.upd_rsc rsc (fun x => { x with role := rsc_role_e.RSC_ROLE_STARTED })

/-- The text that the format `%s` prints for a string, `(null)` for `NULL`. -/
def str_or_null (s : Option String) : String :=
  s.getD "(null)"

/-- Embeds `find_lrm_op` (lines 2261-2292): the history entry selected in the
status document by the XPath expression built from the arguments.  The bound of
1024 characters on the expression is not modelled. -/
def find_lrm_op (x : unpack_env) (resource : String) (op : String) (node : Option String)
    (source : Option String) (data_set : pe_working_set_t) : Option xmlNode :=
  let xpath0 := "//node_state[@uname='" ++ str_or_null node ++ "']"
  let xpath1 := xpath0 ++ "//" ++ XML_LRM_TAG_RESOURCE ++ "[@id='" ++ resource ++ "']"
  let xpath2 :=
    if source.isSome && safe_str_eq (some op) (some CRMD_ACTION_MIGRATE) then
      xpath1 ++ "/" ++ XML_LRM_TAG_RSC_OP ++ "[@operation='" ++ op ++ "' and @migrate_target='"
        ++ str_or_null source ++ "']"
    else if source.isSome && safe_str_eq (some op) (some CRMD_ACTION_MIGRATED) then
      xpath1 ++ "/" ++ XML_LRM_TAG_RSC_OP ++ "[@operation='" ++ op ++ "' and @migrate_source='"
        ++ str_or_null source ++ "']"
    else
      xpath1 ++ "/" ++ XML_LRM_TAG_RSC_OP ++ "[@operation='" ++ op ++ "']"
  x.get_xpath_object xpath2 data_set.input

/-- The call-id read from an optional history entry into a variable that starts
at `0`, as done for `stop_id` and `migrate_id`. -/
def call_id_or_zero (x : unpack_env) (op : Option xmlNode) : Int :=
  match op with
  | none => 0
  | some o => crm_element_value_int x o XML_LRM_ATTR_CALLID 0

/-- Embeds `unpack_rsc_migration_failure` (lines 2386-2458). -/
def unpack_rsc_migration_failure (x : unpack_env) (rsc : rsc_ptr) (node : node_ptr)
    (xml_op : xmlNode) (data_set : pe_working_set_t) : pe_working_set_t :=
  let task := crm_element_value xml_op XML_LRM_ATTR_TASK
  let migrate_source := crm_element_value xml_op XML_LRM_ATTR_MIGRATE_SOURCE
  let migrate_target := crm_element_value xml_op XML_LRM_ATTR_MIGRATE_TARGET
  let id := (data_set.rsc_at rsc).id
  if safe_str_eq task (some CRMD_ACTION_MIGRATED) then
    let stop_op := find_lrm_op x id CRMD_ACTION_STOP migrate_source none data_set
    let migrate_op := find_lrm_op x id CRMD_ACTION_MIGRATE migrate_source migrate_target data_set
    let stop_id := call_id_or_zero x stop_op
    let migrate_id := call_id_or_zero x migrate_op
    let d1 := data_set.upd_rsc rsc (fun r => { r with role := rsc_role_e.RSC_ROLE_STARTED })
    if stop_op.isNone || decide (stop_id < migrate_id) then
      match pe_find_node d1 d1.nodes migrate_source with
      | none => d1
      | some source =>
        if (d1.details source).online then native_add_running rsc source d1 else d1
    else
      d1
  else if safe_str_eq task (some CRMD_ACTION_MIGRATE) then
    let stop_op := find_lrm_op x id CRMD_ACTION_STOP migrate_target none data_set
    let migrate_op := find_lrm_op x id CRMD_ACTION_MIGRATED migrate_target migrate_source data_set
    let stop_id := call_id_or_zero x stop_op
    let migrate_id := call_id_or_zero x migrate_op
    let d1 := data_set.upd_rsc rsc (fun r => { r with role := rsc_role_e.RSC_ROLE_STARTED })
    if stop_op.isNone || decide (stop_id < migrate_id) then
      match pe_find_node d1 d1.nodes migrate_target with
      | none => d1
      | some target =>
        if (d1.details target).online then native_add_running rsc target d1 else d1
    else if migrate_op.isNone then
      d1.upd_rsc rsc (fun r => { r with dangling_migrations := node :: r.dangling_migrations })
    else
      d1
  else
    data_set

/-- The action that `unpack_rsc_op_failure` creates for the failed operation
(line 2528), which holds the on-fail response and the failure role configured
for that operation; it is created after the failure has been recorded (lines
2516-2520). -/
def failed_op_action (x : unpack_env) (rsc : rsc_ptr) (node : node_ptr) (rc : Int)
    (xml_op : xmlNode) (data_set : pe_working_set_t) : action_t :=
  let d1 : pe_working_set_t :=
    if rc != PCMK_OCF_NOT_INSTALLED || data_set.flags.pe_flag_symmetric_cluster then
      record_failed_op xml_op node rsc data_set
    else
      data_set
  (custom_action x rsc (get_op_key xml_op) (crm_element_value xml_op XML_LRM_ATTR_TASK)
    none true false d1).1

/-- The rule of `unpack_rsc_op_failure` (lines 2530-2537) that folds the on-fail
response configured for a failed operation, `action_on_fail`, into the response
accumulated so far, `on_fail`. -/
def on_fail_combine (on_fail : action_fail_response) (action_on_fail : action_fail_response) :
    action_fail_response :=
  if (decide (action_on_fail ≤ action_fail_response.action_fail_fence)
        && decide (on_fail < action_on_fail))
      || (action_on_fail == action_fail_response.action_fail_reset_remote
        && decide (on_fail ≤ action_fail_response.action_fail_recover))
      || (action_on_fail == action_fail_response.action_fail_restart_container
        && decide (on_fail ≤ action_fail_response.action_fail_recover))
      || (on_fail == action_fail_response.action_fail_restart_container
        && decide (action_on_fail ≥ action_fail_response.action_fail_migrate)) then
    action_on_fail
  else
    on_fail

/-- The resource whose allowed nodes `unpack_rsc_op_failure` rebuilds when the
failure role is stopped (lines 2589-2601): the failed resource, or its topmost
ancestor when it has a parent and that ancestor is a clone without the unique
flag. -/
def fail_rsc_of (data_set : pe_working_set_t) (rsc : rsc_ptr) : rsc_ptr :=
  match (data_set.rsc_at rsc).parent with
  | none => rsc
  | some _ =>
    match uber_parent data_set (some rsc) with
    | none => rsc
    | some parent =>
      if pe_rsc_is_clone data_set (some parent)
          && !(data_set.rsc_at parent).flags.pe_rsc_unique then
        parent
      else
        rsc

/-- The statement `node->weight = *score` of `set_node_score` (lines 2251-2258)
on an entry of a table of nodes. -/
def set_node_score (score : Int) (e : String × node_ref) : String × node_ref :=
  (e.1, { e.2 with weight := score })

/-- Embeds `unpack_rsc_op_failure` (lines 2495-2610): the new values of
`*last_failure` and `*on_fail` and the working set left. -/
def unpack_rsc_op_failure (x : unpack_env) (rsc : rsc_ptr) (node : node_ptr) (rc : Int)
    (xml_op : xmlNode) (on_fail : action_fail_response) (data_set : pe_working_set_t) :
    Option xmlNode × action_fail_response × pe_working_set_t :=
  let key := get_op_key xml_op
  let task := crm_element_value xml_op XML_LRM_ATTR_TASK
  let interval_ms := crm_element_value_ms x xml_op XML_LRM_ATTR_INTERVAL_MS
  let is_probe := interval_ms == 0 && safe_str_eq task (some CRMD_ACTION_STATUS)
  let d1 : pe_working_set_t :=
    if rc != PCMK_OCF_NOT_INSTALLED || data_set.flags.pe_flag_symmetric_cluster then
      record_failed_op xml_op node rsc data_set
    else
      data_set
  let action := (custom_action x rsc key task none true false d1).1
  let on_fail1 := on_fail_combine on_fail action.on_fail
  let d2 : pe_working_set_t :=
    if safe_str_eq task (some CRMD_ACTION_STOP) then
      resource_location rsc (some node) (-INFINITY) "__stop_fail__" d1
    else if safe_str_eq task (some CRMD_ACTION_MIGRATE)
        || safe_str_eq task (some CRMD_ACTION_MIGRATED) then
      unpack_rsc_migration_failure x rsc node xml_op d1
    else if safe_str_eq task (some CRMD_ACTION_PROMOTE) then
      d1.upd_rsc rsc (fun r => { r with role := rsc_role_e.RSC_ROLE_MASTER })
    else if safe_str_eq task (some CRMD_ACTION_DEMOTE) then
      if action.on_fail == action_fail_response.action_fail_block then
        d1.upd_rsc rsc (fun r =>
          { r with role := rsc_role_e.RSC_ROLE_MASTER, next_role := rsc_role_e.RSC_ROLE_STOPPED })
      else if rc == PCMK_OCF_NOT_RUNNING then
        d1.upd_rsc rsc (fun r => { r with role := rsc_role_e.RSC_ROLE_STOPPED })
      else
        d1.upd_rsc rsc (fun r => { r with role := rsc_role_e.RSC_ROLE_SLAVE })
    else
      d1
  let d3 : pe_working_set_t :=
    if is_probe && rc == PCMK_OCF_NOT_INSTALLED then
      d2.upd_rsc rsc (fun r => { r with role := rsc_role_e.RSC_ROLE_STOPPED })
    else if (d2.rsc_at rsc).role < rsc_role_e.RSC_ROLE_STARTED then
      set_active rsc d2
    else
      d2
  let d4 : pe_working_set_t :=
    if action.fail_role != rsc_role_e.RSC_ROLE_STARTED
        && decide ((d3.rsc_at rsc).next_role < action.fail_role) then
      d3.upd_rsc rsc (fun r => { r with next_role := action.fail_role })
    else
      d3
  let d5 : pe_working_set_t :=
    if action.fail_role == rsc_role_e.RSC_ROLE_STOPPED then
      d4.upd_rsc (fail_rsc_of d4 rsc) (fun r =>
        { r with
          allowed_nodes := (node_hash_from_list d4 d4.nodes).map (set_node_score (-INFINITY)) })
    else
      d4
  (some xml_op, on_fail1, d5)

/-! ## Status of a completed operation -/

/-- Embeds `determine_op_status` (lines 2612-2717): the status returned, the new
value of `*on_fail` and the working set left.  The `switch` on the return code
is the chain of tests on `rc`, its cases being distinct constants. -/
def determine_op_status (x : unpack_env) (rsc : rsc_ptr) (rc : Int) (target_rc : Int)
    (node : node_ptr) (xml_op : xmlNode) (on_fail : action_fail_response)
    (data_set : pe_working_set_t) : Int × action_fail_response × pe_working_set_t :=
  let interval_ms := crm_element_value_ms x xml_op XML_LRM_ATTR_INTERVAL_MS
  let task := crm_element_value xml_op XML_LRM_ATTR_TASK
  let is_probe := interval_ms == 0 && safe_str_eq task (some CRMD_ACTION_STATUS)
  let result : Int :=
    if decide (target_rc ≥ 0) && target_rc != rc then PCMK_LRM_OP_ERROR else PCMK_LRM_OP_DONE
  if rc == PCMK_OCF_OK then
    (if is_probe && target_rc == 7 then PCMK_LRM_OP_DONE else result, on_fail, data_set)
  else if rc == PCMK_OCF_NOT_RUNNING then
    if is_probe || target_rc == rc || !(data_set.rsc_at rsc).flags.pe_rsc_managed then
      (PCMK_LRM_OP_DONE, action_fail_response.action_fail_ignore,
        data_set.upd_rsc rsc (fun r =>
          { r with role := rsc_role_e.RSC_ROLE_STOPPED,
                   next_role := rsc_role_e.RSC_ROLE_UNKNOWN }))
    else if safe_str_neq task (some CRMD_ACTION_STOP) then
      (PCMK_LRM_OP_ERROR, on_fail, data_set)
    else
      (result, on_fail, data_set)
  else if rc == PCMK_OCF_RUNNING_MASTER then
    let result1 : Int :=
      if is_probe then PCMK_LRM_OP_DONE
      else if target_rc == rc then result
      else if decide (target_rc ≥ 0) then PCMK_LRM_OP_ERROR
      else result
    (result1, on_fail,
      data_set.upd_rsc rsc (fun r => { r with role := rsc_role_e.RSC_ROLE_MASTER }))
  else if rc == PCMK_OCF_DEGRADED_MASTER || rc == PCMK_OCF_FAILED_MASTER then
    (PCMK_LRM_OP_ERROR, on_fail,
      data_set.upd_rsc rsc (fun r => { r with role := rsc_role_e.RSC_ROLE_MASTER }))
  else if rc == PCMK_OCF_NOT_CONFIGURED then
    (PCMK_LRM_OP_ERROR_FATAL, on_fail, data_set)
  else if rc == PCMK_OCF_NOT_INSTALLED || rc == PCMK_OCF_INVALID_PARAM
      || rc == PCMK_OCF_INSUFFICIENT_PRIV || rc == PCMK_OCF_UNIMPLEMENT_FEATURE then
    if rc == PCMK_OCF_UNIMPLEMENT_FEATURE && decide (interval_ms > 0) then
      (PCMK_LRM_OP_NOTSUPPORTED, on_fail, data_set)
    else if x.pe_can_fence data_set node == false
        && safe_str_eq task (some CRMD_ACTION_STOP) then
      (PCMK_LRM_OP_ERROR_HARD, on_fail,
        data_set.upd_rsc rsc (fun r =>
          { r with flags := { r.flags with pe_rsc_managed := false, pe_rsc_block := true } }))
    else
      (PCMK_LRM_OP_ERROR_HARD, on_fail, data_set)
  else
    (if result == PCMK_LRM_OP_DONE then PCMK_LRM_OP_ERROR else result, on_fail, data_set)

/-! ## State of a resource on a node after the replay -/

/-- The loop of `process_rsc_state` (lines 1760-1772) that records the node as
known on the resource `iter` and on its ancestors, up to and including the
first one that carries the unique flag.  It runs at most `fuel` times. -/
def known_on_loop (node : node_ptr) :
    Nat → Option rsc_ptr → pe_working_set_t → pe_working_set_t
  | _, none, d => d
  | 0, some _, d => d
  | fuel + 1, some iter, d =>
    let d1 : pe_working_set_t :=
      if ((d.rsc_at iter).known_on.lookup (d.details node).id).isNone then
        d.upd_rsc iter (fun r =>
          { r with known_on :=
              g_hash_table_insert r.known_on (d.details node).id (node_copy d node) })
      else
        d
    if (d1.rsc_at iter).flags.pe_rsc_unique then
      d1
    else
      known_on_loop node fuel (d1.rsc_at iter).parent d1

/-- The part of `process_rsc_state` for a managed resource believed to be
running on a node that is down (lines 1781-1818). -/
def process_rsc_state_node_down (rsc : rsc_ptr) (node : node_ptr)
    (data_set : pe_working_set_t) : pe_working_set_t :=
  let id := (data_set.rsc_at rsc).id
  let r : Bool × Option String × pe_working_set_t :=
    if is_container_remote_node data_set node then
      (true, none, data_set.upd_rsc rsc set_failed)
    else if data_set.flags.pe_flag_stonith_enabled then
      let unfailed_connection : Bool :=
        match (data_set.details node).remote_rsc with
        | none => false
        | some conn => !(data_set.rsc_at conn).flags.pe_rsc_failed
      if is_baremetal_remote_node data_set node && unfailed_connection then
        (true,
          some (id ++ " is active there (fencing will be revoked if remote connection can "
            ++ "be re-established elsewhere)"),
          data_set.upd_details node (fun n => { n with unseen := true }))
      else
        (true, none, data_set)
    else
      (false, none, data_set)
  if r.1 then
    let reason : String :=
      match r.2.1 with
      | none => id ++ " is thought to be active there"
      | some text => text
    pe_fence_node r.2.2 (some node) reason
  else
    r.2.2

/-- The `switch` of `process_rsc_state` on the on-fail response (lines
1828-1912). -/
def process_rsc_state_on_fail (x : unpack_env) (rsc : rsc_ptr) (node : node_ptr)
    (on_fail : action_fail_response) (data_set : pe_working_set_t) : pe_working_set_t :=
  let id := (data_set.rsc_at rsc).id
  match on_fail with
  | action_fail_response.action_fail_ignore => data_set
  | action_fail_response.action_fail_fence =>
    pe_fence_node data_set (some node) (id ++ " failed there")
  | action_fail_response.action_fail_standby =>
    data_set.upd_details node (fun n => { n with standby := true, standby_onfail := true })
  | action_fail_response.action_fail_block =>
    data_set.upd_rsc rsc (fun r =>
      { r with flags := { r.flags with pe_rsc_managed := false, pe_rsc_block := true } })
  | action_fail_response.action_fail_migrate =>
    resource_location rsc (some node) (-INFINITY) "__action_migration_auto__" data_set
  | action_fail_response.action_fail_stop =>
    data_set.upd_rsc rsc (fun r => { r with next_role := rsc_role_e.RSC_ROLE_STOPPED })
  | action_fail_response.action_fail_recover =>
    if (data_set.rsc_at rsc).role != rsc_role_e.RSC_ROLE_STOPPED
        && (data_set.rsc_at rsc).role != rsc_role_e.RSC_ROLE_UNKNOWN then
      stop_action x rsc node false (data_set.upd_rsc rsc set_failed)
    else
      data_set
  | action_fail_response.action_fail_restart_container =>
    let d1 := data_set.upd_rsc rsc set_failed
    match (d1.rsc_at rsc).container with
    | some container => stop_action x container node false d1
    | none =>
      if (d1.rsc_at rsc).role != rsc_role_e.RSC_ROLE_STOPPED
          && (d1.rsc_at rsc).role != rsc_role_e.RSC_ROLE_UNKNOWN then
        stop_action x rsc node false d1
      else
        d1
  | action_fail_response.action_fail_reset_remote =>
    let d1 := data_set.upd_rsc rsc set_failed
    let d2 : pe_working_set_t :=
      if d1.flags.pe_flag_stonith_enabled then
        let tmpnode : Option node_ptr :=
          if (d1.rsc_at rsc).is_remote_node then pe_find_node d1 d1.nodes (some (d1.rsc_at rsc).id)
          else none
        match tmpnode with
        | none => d1
        | some t =>
          if is_baremetal_remote_node d1 t && (d1.details t).remote_was_fenced == 0 then
            pe_fence_node d1 (some t) "remote connection is unrecoverable"
          else
            d1
      else
        d1
    let d3 : pe_working_set_t :=
      if (d2.rsc_at rsc).role > rsc_role_e.RSC_ROLE_STOPPED then stop_action x rsc node false d2
      else d2
    if (d3.rsc_at rsc).remote_reconnect_ms != 0 then
      d3.upd_rsc rsc (fun r => { r with next_role := rsc_role_e.RSC_ROLE_STOPPED })
    else
      d3

/-- The part of `process_rsc_state` for a failed remote connection (lines
1918-1923): the node it connects to, when unclean, is no longer unseen. -/
def process_rsc_state_remote_failed (rsc : rsc_ptr) (data_set : pe_working_set_t) :
    pe_working_set_t :=
  if (data_set.rsc_at rsc).flags.pe_rsc_failed && (data_set.rsc_at rsc).is_remote_node then
    match pe_find_node data_set data_set.nodes (some (data_set.rsc_at rsc).id) with
    | none => data_set
    | some tmpnode =>
      if (data_set.details tmpnode).unclean then
        data_set.upd_details tmpnode (fun n => { n with unseen := false })
      else
        data_set
  else
    data_set

/-- Embeds `process_rsc_state` (lines 1744-1964).  The argument `migrate_op` is
not used by the C function either. -/
def process_rsc_state (x : unpack_env) (rsc : rsc_ptr) (node : node_ptr)
    (on_fail : action_fail_response) (migrate_op : Option xmlNode)
    (data_set : pe_working_set_t) : pe_working_set_t :=
  let d1 : pe_working_set_t :=
    if (data_set.rsc_at rsc).role != rsc_role_e.RSC_ROLE_UNKNOWN then
      known_on_loop node data_set.loop_fuel (some rsc) data_set
    else
      data_set
  let d2 : pe_working_set_t :=
    if decide ((d1.rsc_at rsc).role > rsc_role_e.RSC_ROLE_STOPPED)
        && (d1.details node).online == false
        && (d1.details node).maintenance == false
        && (d1.rsc_at rsc).flags.pe_rsc_managed then
      process_rsc_state_node_down rsc node d1
    else
      d1
  let on_fail1 : action_fail_response :=
    if (d2.details node).unclean then action_fail_response.action_fail_ignore else on_fail
  let d3 := process_rsc_state_on_fail x rsc node on_fail1 d2
  let d4 := process_rsc_state_remote_failed rsc d3
  if (d4.rsc_at rsc).role != rsc_role_e.RSC_ROLE_STOPPED
      && (d4.rsc_at rsc).role != rsc_role_e.RSC_ROLE_UNKNOWN then
    let d5 := native_add_running rsc node d4
    if on_fail1 != action_fail_response.action_fail_ignore then d5.upd_rsc rsc set_failed
    else d5
  else if (match (d4.rsc_at rsc).clone_name with
      | none => false
      | some name => name.data.contains ':') then
    d4.upd_rsc rsc (fun r => { r with clone_name := none })
  else
    { d4 with
      actions := d4.actions.map (fun a =>
        if find_actions rsc (stop_key d4 rsc) node a then { a with optional := true } else a) }

/-! ## Recurring operations that are still active -/

/-- The value that the `guint` variable `interval_ms` of `process_recurring` holds
after the assignment `interval_ms = crm_parse_ms(interval_ms_s)` (line 2005). -/
def crm_parse_ms (x : unpack_env) (s : Option String) : Nat :=
  guint_of (x.crm_parse_ms s)

/-- The loop of `process_recurring` (lines 1980-2021) on the entries that remain,
`counter` being the index of the entry before them. -/
def process_recurring_loop (x : unpack_env) (node : node_ptr) (rsc : rsc_ptr)
    (start_index stop_index : Int) :
    Int → List xmlNode → pe_working_set_t → pe_working_set_t
  | _, [], data_set => data_set
  | counter0, rsc_op :: rest, data_set =>
    let counter := counter0 + 1
    if (data_set.details node).online == false then
      data_set
    else if decide (start_index < stop_index) && decide (counter ≤ stop_index) then
      process_recurring_loop x node rsc start_index stop_index counter rest data_set
    else if decide (counter < start_index) then
      process_recurring_loop x node rsc start_index stop_index counter rest data_set
    else
      let interval_ms := crm_parse_ms x (crm_element_value rsc_op XML_LRM_ATTR_INTERVAL_MS)
      if interval_ms == 0 then
        process_recurring_loop x node rsc start_index stop_index counter rest data_set
      else if safe_str_eq (crm_element_value rsc_op XML_LRM_ATTR_OPSTATUS) (some "-1") then
        process_recurring_loop x node rsc start_index stop_index counter rest data_set
      else
        let task := crm_element_value rsc_op XML_LRM_ATTR_TASK
        let key := generate_op_key (data_set.rsc_at rsc).id (str_or_null task) interval_ms
        process_recurring_loop x node rsc start_index stop_index counter rest
          (custom_action x rsc (some key) task (some node) true true data_set).2

/-- Embeds `process_recurring` (lines 1967-2022). -/
def process_recurring (x : unpack_env) (node : node_ptr) (rsc : rsc_ptr)
    (start_index stop_index : Int) (sorted_op_list : List xmlNode)
    (data_set : pe_working_set_t) : pe_working_set_t :=
  process_recurring_loop x node rsc start_index stop_index (-1) sorted_op_list data_set

/-! ## A migration recorded on its source -/

/-- Embeds `unpack_rsc_migration` (lines 2294-2384). -/
def unpack_rsc_migration (x : unpack_env) (rsc : rsc_ptr) (node : node_ptr)
    (xml_op : xmlNode) (data_set : pe_working_set_t) : pe_working_set_t :=
  let id := (data_set.rsc_at rsc).id
  let stop_op :=
    find_lrm_op x id CRMD_ACTION_STOP (some (data_set.details node).id) none data_set
  let stop_id := call_id_or_zero x stop_op
  let task_id := crm_element_value_int x xml_op XML_LRM_ATTR_CALLID 0
  if stop_op.isNone || decide (stop_id < task_id) then
    let migrate_source := crm_element_value xml_op XML_LRM_ATTR_MIGRATE_SOURCE
    let migrate_target := crm_element_value xml_op XML_LRM_ATTR_MIGRATE_TARGET
    let target := pe_find_node data_set data_set.nodes migrate_target
    let source := pe_find_node data_set data_set.nodes migrate_source
    let migrate_from :=
      find_lrm_op x id CRMD_ACTION_MIGRATED migrate_target migrate_source data_set
    let d1 := data_set.upd_rsc rsc (fun r => { r with role := rsc_role_e.RSC_ROLE_STARTED })
    let target_online : Bool :=
      match target with
      | none => false
      | some t => (d1.details t).online
    match migrate_from with
    | some found =>
      let from_rc := crm_element_value_int x found XML_LRM_ATTR_RC 0
      let from_status := crm_element_value_int x found XML_LRM_ATTR_OPSTATUS 0
      if from_rc == PCMK_OCF_OK && from_status == PCMK_LRM_OP_DONE then
        d1.upd_rsc rsc (fun r =>
          { r with role := rsc_role_e.RSC_ROLE_STOPPED,
                   dangling_migrations := node :: r.dangling_migrations })
      else
        match target with
        | none => d1
        | some t => if target_online then native_add_running rsc t d1 else d1
    | none =>
      match target with
      | none =>
        d1.upd_rsc rsc (fun r =>
          { r with flags := { r.flags with pe_rsc_failed := true,
                                           pe_rsc_allow_migrate := false } })
      | some t =>
        if target_online then
          let d2 := native_add_running rsc t d1
          match source with
          | none => d2
          | some s =>
            if (d2.details s).online then
              d2.upd_rsc rsc (fun r =>
                { r with partial_migration_target := some t,
                         partial_migration_source := some s })
            else
              d2
        else
          d1.upd_rsc rsc (fun r =>
            { r with flags := { r.flags with pe_rsc_failed := true,
                                             pe_rsc_allow_migrate := false } })
  else
    data_set

/-! ## Containers and their fillers -/

/-- Modelled from the spec: the name of the meta attribute and of the history
attribute that names the container of a resource (header macro). -/
def XML_RSC_ATTR_CONTAINER : String := "container"

/-- Modelled from the spec: the search of `pe_find_resource` below one resource,
defined outside `unpack.c`: the resource itself when its id or its clone name is
the id looked for, otherwise the first match below one of its children.  It
descends at most `fuel` levels. -/
def find_rsc (d : pe_working_set_t) : Nat → rsc_ptr → String → Option rsc_ptr
  | 0, _, _ => none
  | fuel + 1, rsc, id =>
    if (d.rsc_at rsc).id == id || (d.rsc_at rsc).clone_name == some id then
      some rsc
    else
      (d.rsc_at rsc).children.findSome? (fun child => find_rsc d fuel child id)

/-- Modelled from the spec: `pe_find_resource` is defined outside `unpack.c`; it
looks a resource up by id in a list of resources and below them, `NULL` when
there is none. -/
def pe_find_resource (d : pe_working_set_t) (rsc_list : List rsc_ptr) (id : Option String) :
    Option rsc_ptr :=
  match id with
  | none => none
  | some name => rsc_list.findSome? (fun r => find_rsc d d.loop_fuel r name)

/-- The statements of `setup_container` for a resource without children (lines
578-590): the resource is linked to the container that its meta attribute
names. -/
def setup_container_link (rsc : rsc_ptr) (data_set : pe_working_set_t) : pe_working_set_t :=
  match (data_set.rsc_at rsc).meta.lookup XML_RSC_ATTR_CONTAINER with
  | none => data_set
  | some container_id =>
    if safe_str_neq (some container_id) (some (data_set.rsc_at rsc).id) then
      match pe_find_resource data_set data_set.resources (some container_id) with
      | none => data_set
      | some container =>
        ((data_set.upd_rsc rsc (fun r => { r with container := some container })).upd_rsc
            container
            (fun r => { r with flags := { r.flags with pe_rsc_is_container := true } })).upd_rsc
          container (fun r => { r with fillers := r.fillers ++ [rsc] })
    else
      data_set

/-- The recursion of `setup_container` over the children of a resource, at most
`fuel` levels deep. -/
def setup_container_from : Nat → rsc_ptr → pe_working_set_t → pe_working_set_t
  | 0, _, data_set => data_set
  | fuel + 1, rsc, data_set =>
    if (data_set.rsc_at rsc).children != [] then
      (data_set.rsc_at rsc).children.foldl
        (fun acc child_rsc => setup_container_from fuel child_rsc acc) data_set
    else
      setup_container_link rsc data_set

/-- Embeds `setup_container` (lines 562-591). -/
def setup_container (rsc : rsc_ptr) (data_set : pe_working_set_t) : pe_working_set_t :=
  setup_container_from data_set.loop_fuel rsc data_set

/-- One iteration of the loop of `handle_orphaned_container_fillers` (lines
2170-2203). -/
def handle_orphaned_container_fillers_step (data_set : pe_working_set_t)
    (rsc_entry : xmlNode) : pe_working_set_t :=
  if safe_str_neq (some rsc_entry.name) (some XML_LRM_TAG_RESOURCE) then
    data_set
  else
    match crm_element_value rsc_entry XML_RSC_ATTR_CONTAINER,
        crm_element_value rsc_entry XML_ATTR_ID with
    | some container_id, some rsc_id =>
      match pe_find_resource data_set data_set.resources (some container_id) with
      | none => data_set
      | some container =>
        match pe_find_resource data_set data_set.resources (some rsc_id) with
        | none => data_set
        | some rsc =>
          if (data_set.rsc_at rsc).flags.pe_rsc_orphan_container_filler == false
              || (data_set.rsc_at rsc).container != none then
            data_set
          else
            (data_set.upd_rsc rsc (fun r => { r with container := some container })).upd_rsc
              container (fun r => { r with fillers := r.fillers ++ [rsc] })
    | _, _ => data_set

/-- Embeds `handle_orphaned_container_fillers` (lines 2166-2204). -/
def handle_orphaned_container_fillers (lrm_rsc_list : xmlNode) (data_set : pe_working_set_t) :
    pe_working_set_t :=
  lrm_rsc_list.children.foldl handle_orphaned_container_fillers_step data_set

/-! ## Expiry of a failure -/

/-- Modelled from the spec: the name of the attribute holding the time of the
last change of the return code (header macro). -/
def XML_RSC_OP_LAST_CHANGE : String := "last-rc-change"

/-- Modelled from the spec: the task that clears a fail count (header macro). -/
def CRM_OP_CLEAR_FAILCOUNT : String := "clear_failcount"

/-- Modelled from the spec: the return code `PCMK_OCF_DEGRADED` (header enum). -/
def PCMK_OCF_DEGRADED : Int := 190

/-- Modelled from the spec: the flag values `pe_fc_default` and `pe_fc_effective`
of `pe_get_failcount` (header enum). -/
def pe_fc_default : Nat := 0

/-- Modelled from the spec: see `pe_fc_default`. -/
def pe_fc_effective : Nat := 1

/-- Whether the first list of characters starts with the second. -/
def starts_with : List Char → List Char → Bool
  | _, [] => true
  | [], _ :: _ => false
  | a :: as, b :: bs => a == b && starts_with as bs

/-- Whether the second list of characters occurs in the first. -/
def occurs_in : List Char → List Char → Bool
  | [], needle => needle.isEmpty
  | c :: cs, needle => starts_with (c :: cs) needle || occurs_in cs needle

/-- The test `strstr(haystack, needle) != NULL` of the C library, false here for
a `NULL` haystack. -/
def strstr_found (haystack : Option String) (needle : String) : Bool :=
  match haystack with
  | none => false
  | some h => occurs_in h.data needle.data

/-- The failure timeout that `check_operation_expiry` works with (lines
2723-2755): the one configured for the resource, or `0` for a recurring monitor
of a resource with a reconnect interval whose remote node has not been fenced,
when fencing is enabled. -/
def effective_failure_timeout (x : unpack_env) (rsc : rsc_ptr) (xml_op : xmlNode)
    (data_set : pe_working_set_t) : Int :=
  let interval_ms := crm_element_value_ms x xml_op XML_LRM_ATTR_INTERVAL_MS
  let task := crm_element_value xml_op XML_LRM_ATTR_TASK
  if interval_ms != 0 && safe_str_eq task (some "monitor") then
    if data_set.flags.pe_flag_stonith_enabled
        && (data_set.rsc_at rsc).remote_reconnect_ms != 0 then
      match pe_find_node data_set data_set.nodes (some (data_set.rsc_at rsc).id) with
      | none => (data_set.rsc_at rsc).failure_timeout
      | some remote_node =>
        if (data_set.details remote_node).remote_was_fenced == 0 then 0
        else (data_set.rsc_at rsc).failure_timeout
    else
      (data_set.rsc_at rsc).failure_timeout
  else
    (data_set.rsc_at rsc).failure_timeout

/-- Embeds `check_operation_expiry` (lines 2719-2834): the value returned and the
working set left.  The sum `last_run + failure_timeout` is a sum of two `int`
and is stored as an `int`; the meta attribute added to the clearing action is
not modelled. -/
def check_operation_expiry (x : unpack_env) (rsc : rsc_ptr) (node : node_ptr) (rc : Int)
    (xml_op : xmlNode) (data_set : pe_working_set_t) : Bool × pe_working_set_t :=
  let interval_ms := crm_element_value_ms x xml_op XML_LRM_ATTR_INTERVAL_MS
  let task := crm_element_value xml_op XML_LRM_ATTR_TASK
  let id := crm_element_value xml_op XML_ATTR_ID
  let failure_timeout := effective_failure_timeout x rsc xml_op data_set
  let expired0 : Bool :=
    if failure_timeout > 0 then
      let last_run := x.crm_element_value_int xml_op XML_RSC_OP_LAST_CHANGE 0
      if last_run.1 == 0 then
        decide (x.get_effective_time data_set > int_of (int_of last_run.2 + failure_timeout))
      else
        false
    else
      false
  let r : Bool × Option String :=
    if expired0 then
      if failure_timeout > 0 then
        if x.pe_get_failcount node rsc pe_fc_default xml_op data_set != 0 then
          if x.pe_get_failcount node rsc pe_fc_effective xml_op data_set == 0 then
            (true, some "it expired")
          else
            (false, none)
        else if (data_set.rsc_at rsc).remote_reconnect_ms != 0
            && strstr_found id "last_failure" then
          (true, some "reconnect interval is set")
        else
          (true, none)
      else
        (true, none)
    else if strstr_found id "last_failure"
        && (task == some "start" || task == some "monitor") then
      let digest := x.rsc_action_digest_cmp rsc xml_op node data_set
      if digest == rsc_digest_val.RSC_DIGEST_UNKNOWN then
        (false, none)
      else if x.container_fix_remote_addr data_set rsc
          && digest != rsc_digest_val.RSC_DIGEST_MATCH then
        (false, none)
      else if digest != rsc_digest_val.RSC_DIGEST_MATCH then
        (false, some "resource parameters have changed")
      else
        (false, none)
    else
      (false, none)
  let d1 : pe_working_set_t :=
    match r.2 with
    | none => data_set
    | some _ =>
      (custom_action x rsc
        (some (generate_op_key (data_set.rsc_at rsc).id CRM_OP_CLEAR_FAILCOUNT 0))
        (some CRM_OP_CLEAR_FAILCOUNT) (some node) false true data_set).2
  let expired : Bool :=
    if r.1 && interval_ms == 0 && safe_str_eq task (some CRMD_ACTION_STATUS) then
      if rc == PCMK_OCF_OK || rc == PCMK_OCF_NOT_RUNNING || rc == PCMK_OCF_RUNNING_MASTER
          || rc == PCMK_OCF_DEGRADED || rc == PCMK_OCF_DEGRADED_MASTER then
        false
      else
        r.1
    else
      r.1
  (expired, d1)

/-! ## The state of a resource after a completed operation -/

/-- Embeds `update_resource_state` (lines 2864-2951): the new value of `*on_fail`
and the working set left. -/
def update_resource_state (x : unpack_env) (rsc : rsc_ptr) (node : node_ptr)
    (xml_op : xmlNode) (task : Option String) (rc : Int) (last_failure : Option xmlNode)
    (on_fail : action_fail_response) (data_set : pe_working_set_t) :
    action_fail_response × pe_working_set_t :=
  let r : Bool × pe_working_set_t :=
    if rc == PCMK_OCF_NOT_RUNNING then
      (true, data_set)
    else if rc == PCMK_OCF_NOT_INSTALLED then
      (false, data_set.upd_rsc rsc (fun r => { r with role := rsc_role_e.RSC_ROLE_STOPPED }))
    else if safe_str_eq task (some CRMD_ACTION_STATUS) then
      let clear : Bool :=
        match last_failure with
        | none => false
        | some failure => safe_str_eq (get_op_key xml_op) (get_op_key failure)
      if (data_set.rsc_at rsc).role < rsc_role_e.RSC_ROLE_STARTED then
        (clear, set_active rsc data_set)
      else
        (clear, data_set)
    else if safe_str_eq task (some CRMD_ACTION_START) then
      (true, data_set.upd_rsc rsc (fun r => { r with role := rsc_role_e.RSC_ROLE_STARTED }))
    else if safe_str_eq task (some CRMD_ACTION_STOP) then
      (true, data_set.upd_rsc rsc (fun r => { r with role := rsc_role_e.RSC_ROLE_STOPPED }))
    else if safe_str_eq task (some CRMD_ACTION_PROMOTE) then
      (true, data_set.upd_rsc rsc (fun r => { r with role := rsc_role_e.RSC_ROLE_MASTER }))
    else if safe_str_eq task (some CRMD_ACTION_DEMOTE) then
      (false, data_set.upd_rsc rsc (fun r => { r with role := rsc_role_e.RSC_ROLE_SLAVE }))
    else if safe_str_eq task (some CRMD_ACTION_MIGRATED) then
      (true, data_set.upd_rsc rsc (fun r => { r with role := rsc_role_e.RSC_ROLE_STARTED }))
    else if safe_str_eq task (some CRMD_ACTION_MIGRATE) then
      (false, unpack_rsc_migration x rsc node xml_op data_set)
    else if (data_set.rsc_at rsc).role < rsc_role_e.RSC_ROLE_STARTED then
      (false, set_active rsc data_set)
    else
      (false, data_set)
  if r.1 then
    match on_fail with
    | action_fail_response.action_fail_stop => (on_fail, r.2)
    | action_fail_response.action_fail_fence => (on_fail, r.2)
    | action_fail_response.action_fail_migrate => (on_fail, r.2)
    | action_fail_response.action_fail_standby => (on_fail, r.2)
    | action_fail_response.action_fail_block =>
      (action_fail_response.action_fail_ignore,
        r.2.upd_rsc rsc (fun r => { r with next_role := rsc_role_e.RSC_ROLE_UNKNOWN }))
    | action_fail_response.action_fail_ignore =>
      (action_fail_response.action_fail_ignore,
        r.2.upd_rsc rsc (fun r => { r with next_role := rsc_role_e.RSC_ROLE_UNKNOWN }))
    | action_fail_response.action_fail_recover =>
      (action_fail_response.action_fail_ignore,
        r.2.upd_rsc rsc (fun r => { r with next_role := rsc_role_e.RSC_ROLE_UNKNOWN }))
    | action_fail_response.action_fail_restart_container =>
      (action_fail_response.action_fail_ignore,
        r.2.upd_rsc rsc (fun r => { r with next_role := rsc_role_e.RSC_ROLE_UNKNOWN }))
    | action_fail_response.action_fail_reset_remote =>
      if (r.2.rsc_at rsc).remote_reconnect_ms == 0 then
        (action_fail_response.action_fail_ignore,
          r.2.upd_rsc rsc (fun r => { r with next_role := rsc_role_e.RSC_ROLE_UNKNOWN }))
      else
        (on_fail, r.2)
  else
    (on_fail, r.2)

/-! ## The passes over the node states -/

/-- Modelled from the spec: the tag of a node-state entry (header macro). -/
def XML_CIB_TAG_STATE : String := "node_state"

/-- Modelled from the spec: the tag of the history of a node (header macro). -/
def XML_CIB_TAG_LRM : String := "lrm"

/-- Modelled from the spec: the tag of the resource histories of a node (header
macro). -/
def XML_LRM_TAG_RESOURCES : String := "lrm_resources"

/-- Modelled from the spec: `find_xml_node` is defined outside `unpack.c`; the
first child of an element that has the given tag, `NULL` when there is none or
when the element is `NULL`. -/
def find_xml_node (root : Option xmlNode) (search_path : String) : Option xmlNode :=
  match root with
  | none => none
  | some r => r.children.find? (fun child => child.name == search_path)

/-- Modelled from the spec: `pe_find_node_id` is defined outside `unpack.c`; it
looks a node up by id in a list of nodes. -/
def pe_find_node_id (d : pe_working_set_t) (nodes : List node_ptr) (id : Option String) :
    Option node_ptr :=
  nodes.find? (fun n => safe_str_eq (some (d.details n).id) id)

/-- Modelled from the spec: `pe_find_node_any` is defined outside `unpack.c`; it
looks a node up by id and, when that finds none, by name. -/
def pe_find_node_any (d : pe_working_set_t) (nodes : List node_ptr) (id : Option String)
    (uname : Option String) : Option node_ptr :=
  match pe_find_node_id d nodes id with
  | some n => some n
  | none => pe_find_node d nodes uname

/-- The functions of `unpack.c` that `unpack_node_loop` calls on a node it
processes.  Each is taken as an arbitrary function of its arguments and of the
working set. -/
structure node_loop_callees where
  determine_remote_online_status : pe_working_set_t → node_ptr → pe_working_set_t
  unpack_handle_remote_attrs : node_ptr → xmlNode → pe_working_set_t → pe_working_set_t
  unpack_lrm_resources : node_ptr → Option xmlNode → pe_working_set_t → pe_working_set_t

/-- The value of `check` that `unpack_node_loop` computes for a remote node (lines
1002-1025). -/
def unpack_node_loop_check (fence : Bool) (data_set : pe_working_set_t)
    (this_node : node_ptr) : Bool :=
  if fence then
    true
  else
    match (data_set.details this_node).remote_rsc with
    | none => false
    | some rsc =>
      if is_container_remote_node data_set this_node
          && (data_set.rsc_at rsc).role == rsc_role_e.RSC_ROLE_STARTED
          && (match (data_set.rsc_at rsc).container with
              | none => false
              | some container =>
                (data_set.rsc_at container).role == rsc_role_e.RSC_ROLE_STARTED) then
        true
      else if is_container_remote_node data_set this_node == false
          && (data_set.rsc_at rsc).role == rsc_role_e.RSC_ROLE_STARTED then
        true
      else
        false

/-- The value of `process` that `unpack_node_loop` computes for a node that has not
been processed (lines 997-1038), and the working set left by the calls made on
the way. -/
def unpack_node_loop_process (c : node_loop_callees) (fence : Bool)
    (data_set : pe_working_set_t) (this_node : node_ptr) (state : xmlNode) :
    Bool × pe_working_set_t :=
  if is_remote_node data_set this_node == false
      && data_set.flags.pe_flag_stonith_enabled then
    (true, data_set)
  else if is_remote_node data_set this_node then
    if unpack_node_loop_check fence data_set this_node then
      (true, c.unpack_handle_remote_attrs this_node state
        (c.determine_remote_online_status data_set this_node))
    else
      (false, data_set)
  else if (data_set.details this_node).online then
    (true, data_set)
  else if fence then
    (true, data_set)
  else
    (false, data_set)

/-- One iteration of the loop of `unpack_node_loop` (lines 975-1051) on the value
of `changed` and the working set. -/
def unpack_node_loop_step (c : node_loop_callees) (fence : Bool)
    (s : Bool × pe_working_set_t) (state : xmlNode) : Bool × pe_working_set_t :=
  let data_set := s.2
  if (state.name == XML_CIB_TAG_STATE) == false then
    s
  else
    let id := crm_element_value state XML_ATTR_ID
    let uname := crm_element_value state XML_ATTR_UNAME
    match pe_find_node_any data_set data_set.nodes id uname with
    | none => s
    | some this_node =>
      if (data_set.details this_node).unpacked then
        s
      else
        let r := unpack_node_loop_process c fence data_set this_node state
        if r.1 then
          let d1 := r.2.upd_details this_node (fun n => { n with unpacked := true })
          let d2 : pe_working_set_t := { d1 with lrm_unpacked := d1.lrm_unpacked ++ [this_node] }
          let lrm_rsc :=
            find_xml_node (find_xml_node (some state) XML_CIB_TAG_LRM) XML_LRM_TAG_RESOURCES
          (true, c.unpack_lrm_resources this_node lrm_rsc d2)
        else
          (s.1, r.2)

/-- Embeds `unpack_node_loop` (lines 969-1053): the value returned and the
working set left. -/
def unpack_node_loop (c : node_loop_callees) (status : xmlNode) (fence : Bool)
    (data_set : pe_working_set_t) : Bool × pe_working_set_t :=
  status.children.foldl (unpack_node_loop_step c fence) (false, data_set)

/-- The loop `while (unpack_node_loop(status, FALSE, data_set))` of
`unpack_status` (lines 1145-1147), run for at most `fuel` calls of
`unpack_node_loop`: the number of calls made and the working set left, or
nothing when the calls allowed do not suffice. -/
def unpack_status_while (c : node_loop_callees) (status : xmlNode) :
    Nat → pe_working_set_t → Option (Nat × pe_working_set_t)
  | 0, _ => none
  | fuel + 1, data_set =>
    let r := unpack_node_loop c status false data_set
    if r.1 then
      (unpack_status_while c status fuel r.2).map (fun p => (p.1 + 1, p.2))
    else
      some (1, r.2)

/-- The passes of `unpack_status` over the node states (lines 1145-1150): the
loop of `unpack_status_while` followed by the final pass; the number of calls
of `unpack_node_loop` made in all and the working set left. -/
def unpack_status_passes (c : node_loop_callees) (status : xmlNode) (fuel : Nat)
    (data_set : pe_working_set_t) : Option (Nat × pe_working_set_t) :=
  (unpack_status_while c status fuel data_set).map (fun p =>
    (p.1 + 1, (unpack_node_loop c status p.2.flags.pe_flag_stonith_enabled p.2).2))

/-! ## Guest nodes named by a resource, and fencing at start-up -/

/-- Modelled from the spec: tag of a set of meta attributes (header macro). -/
def XML_TAG_META_SETS : String := "meta_attributes"

/-- Modelled from the spec: name of the value attribute of a name-value pair
(header macro). -/
def XML_NVPAIR_ATTR_VALUE : String := "value"

/-- Modelled from the spec: name of the name attribute of a name-value pair
(header macro). -/
def XML_NVPAIR_ATTR_NAME : String := "name"

/-- Modelled from the spec: name of the meta attribute that names the guest node
of a resource (header macro). -/
def XML_RSC_ATTR_REMOTE_NODE : String := "remote-node"

/-- Modelled from the spec: name of the meta attribute `is-managed` (header
macro). -/
def XML_RSC_ATTR_MANAGED : String := "is-managed"

/-- Embeds `remote_id_conflict` (lines 400-426).  The branch compiled in by
`#if 1` calls `pe_find_resource(data->resources, remote_name)` and drops what it
returns; `found_match` is the variable `match` of the C code, which starts as
`FALSE` and is assigned nowhere in that branch.  `return NULL` in a function
returning `bool` is `return false`. -/
def remote_id_conflict (remote_name : Option String) (data : pe_working_set_t) : Bool :=
  let found_match : Bool := false
  let _dropped := pe_find_resource data data.resources remote_name
  if found_match then
    false
  else
    found_match

/-- The local variables of `expand_remote_rsc_meta` that its loops assign (lines
435-440). -/
structure remote_rsc_meta where
  remote_name : Option String := none
  remote_server : Option String := none
  remote_port : Option String := none
  connect_timeout : Option String := some "60s"
  remote_allow_migrate : Option String := none
  container_managed : Option String := none
  deriving DecidableEq, Repr

/-- One iteration of the inner loop of `expand_remote_rsc_meta` (lines 447-464),
on one name-value pair of a set of meta attributes. -/
def expand_remote_rsc_meta_attr (s : remote_rsc_meta) (attr : xmlNode) : remote_rsc_meta :=
  let value := crm_element_value attr XML_NVPAIR_ATTR_VALUE
  let name := crm_element_value attr XML_NVPAIR_ATTR_NAME
  if safe_str_eq name (some XML_RSC_ATTR_REMOTE_NODE) then
    { s with remote_name := value }
  else if safe_str_eq name (some "remote-addr") then
    { s with remote_server := value }
  else if safe_str_eq name (some "remote-port") then
    { s with remote_port := value }
  else if safe_str_eq name (some "remote-connect-timeout") then
    { s with connect_timeout := value }
  else if safe_str_eq name (some "remote-allow-migrate") then
    { s with remote_allow_migrate := value }
  else if safe_str_eq name (some XML_RSC_ATTR_MANAGED) then
    { s with container_managed := value }
  else
    s

/-- One iteration of the outer loop of `expand_remote_rsc_meta` (lines 442-465),
on one child of the resource definition: a child that is not a set of meta
attributes is skipped. -/
def expand_remote_rsc_meta_set (s : remote_rsc_meta) (attr_set : xmlNode) : remote_rsc_meta :=
  if safe_str_neq (some attr_set.name) (some XML_TAG_META_SETS) then
    s
  else
    attr_set.children.foldl expand_remote_rsc_meta_attr s

/-- The arguments of one call `pe_create_remote_xml(parent, uname, container_id,
migrateable, is_managed, connect_timeout, server, port)`, the parent element
apart. -/
structure remote_xml_request where
  uname : Option String
  container_id : Option String
  migrateable : Option String
  is_managed : Option String
  connect_timeout : Option String
  server : Option String
  port : Option String
  deriving DecidableEq, Repr

/-- Embeds `expand_remote_rsc_meta` (lines 429-479): the name returned, `NULL`
when the resource names no guest node or the name is rejected, and the call of
`pe_create_remote_xml` made on `parent`, if one is made. -/
def expand_remote_rsc_meta (xml_obj : xmlNode) (data : pe_working_set_t) :
    Option String × Option remote_xml_request :=
  let container_id := crm_element_value xml_obj XML_ATTR_ID
  let s := xml_obj.children.foldl expand_remote_rsc_meta_set {}
  if s.remote_name == none then
    (none, none)
  else if remote_id_conflict s.remote_name data then
    (none, none)
  else
    (s.remote_name,
      some { uname := s.remote_name, container_id := container_id,
             migrateable := s.remote_allow_migrate, is_managed := s.container_managed,
             connect_timeout := s.connect_timeout, server := s.remote_server,
             port := s.remote_port })

/-- Embeds `handle_startup_fencing` (lines 482-505). -/
def handle_startup_fencing (data_set : pe_working_set_t) (new_node : node_ptr) :
    pe_working_set_t :=
  if (data_set.details new_node).type == node_type.node_remote
      && (data_set.details new_node).remote_rsc == none then
    data_set
  else
    let d1 : pe_working_set_t :=
      if data_set.flags.pe_flag_startup_fencing then
        data_set.upd_details new_node (fun n => { n with unclean := true })
      else
        data_set.upd_details new_node (fun n => { n with unclean := false })
    d1.upd_details new_node (fun n => { n with unseen := true })

/-! ## Names of clone instances -/

/-- Modelled from the spec: the macro `crm_strlen_zero` is defined outside
`unpack.c`; it holds of `NULL` and of the empty string. -/
def crm_strlen_zero (s : Option String) : Bool :=
  match s with
  | none => true
  | some v => v.data.isEmpty

/-- The loop of `pe_base_name_end` (lines 1457-1474) from the position `s` on,
positions counted from the first character of `id`, which is at `0`, and `last`
being the position `end` of the last character: the position returned.  The
loop ends without a `return` when `s` has come down to `0`, and `return end`
follows it.  For `s` up to `last` there is a character at `s`; the case without
one is there to make the function total. -/
def pe_base_name_end_loop (id : List Char) (last : Nat) : Nat → Nat
  | 0 => last
  | s + 1 =>
    match id[s + 1]? with
    | none => last
    | some c =>
      if c.isDigit then
        pe_base_name_end_loop id last s
      else if c == ':' then
        (if s + 1 == last then s + 1 else s)
      else
        last

/-- Embeds `pe_base_name_end` (lines 1451-1479): the position of the last
character of the base name, `NULL` for `NULL` and for the empty string. -/
def pe_base_name_end (id : Option String) : Option Nat :=
  if !crm_strlen_zero id then
    match id with
    | none => none
    | some v =>
      let last := v.data.length - 1
      some (pe_base_name_end_loop v.data last last)
  else
    none

/-- Embeds `clone_strip` (lines 1491-1501): the copy of the first
`end - last_rsc_id + 1` characters; nothing when `CRM_ASSERT(end)` fails. -/
def clone_strip (last_rsc_id : Option String) : Option String :=
  match last_rsc_id, pe_base_name_end last_rsc_id with
  | some v, some last => some (String.mk (v.data.take (last + 1)))
  | _, _ => none

/-- Embeds `clone_zero` (lines 1513-1527): the first `end - last_rsc_id + 1`
characters followed by `:` and `0`; nothing when `CRM_ASSERT(end)` fails. -/
def clone_zero (last_rsc_id : Option String) : Option String :=
  match last_rsc_id, pe_base_name_end last_rsc_id with
  | some v, some last => some (String.mk (v.data.take (last + 1) ++ [':', '0']))
  | _, _ => none

/-! ## Notions used to state the properties -/

/-- The precedence of the on-fail responses in the words of the specification:
fence above reset-remote and restart-container, these above stop, migrate and
standby, these above recover, recover above block, block above ignore.  A
greater number is a more severe response. -/
def spec_on_fail_precedence : action_fail_response → Nat
  | action_fail_response.action_fail_ignore => 0
  | action_fail_response.action_fail_block => 1
  | action_fail_response.action_fail_recover => 2
  | action_fail_response.action_fail_stop => 3
  | action_fail_response.action_fail_migrate => 3
  | action_fail_response.action_fail_standby => 3
  | action_fail_response.action_fail_reset_remote => 4
  | action_fail_response.action_fail_restart_container => 4
  | action_fail_response.action_fail_fence => 5

/-- Whether a history entry is a probe, as `determine_op_status` and
`unpack_rsc_op_failure` decide it: a monitor whose interval is zero. -/
def op_is_probe (x : unpack_env) (xml_op : xmlNode) : Bool :=
  crm_element_value_ms x xml_op XML_LRM_ATTR_INTERVAL_MS == 0
    && safe_str_eq (crm_element_value xml_op XML_LRM_ATTR_TASK) (some CRMD_ACTION_STATUS)

/-- A history entry that is a successful stop: task `stop` with op-status `0`. -/
def op_is_successful_stop (op : xmlNode) : Bool :=
  safe_str_eq (crm_element_value op XML_LRM_ATTR_TASK) (some CRMD_ACTION_STOP)
    && safe_str_eq (crm_element_value op XML_LRM_ATTR_OPSTATUS) (some "0")

/-- A history entry whose task is `start` or `migrate_from`. -/
def op_is_start (op : xmlNode) : Bool :=
  safe_str_eq (crm_element_value op XML_LRM_ATTR_TASK) (some CRMD_ACTION_START)
    || safe_str_eq (crm_element_value op XML_LRM_ATTR_TASK) (some CRMD_ACTION_MIGRATED)

/-- A history entry whose task is `promote` or `demote`. -/
def op_is_promote_or_demote (op : xmlNode) : Bool :=
  safe_str_eq (crm_element_value op XML_LRM_ATTR_TASK) (some CRMD_ACTION_PROMOTE)
    || safe_str_eq (crm_element_value op XML_LRM_ATTR_TASK) (some CRMD_ACTION_DEMOTE)

/-- A history entry that is a monitor implying a start: task `monitor` with return
code `0` or `8`. -/
def op_is_active_monitor (op : xmlNode) : Bool :=
  safe_str_eq (crm_element_value op XML_LRM_ATTR_TASK) (some CRMD_ACTION_STATUS)
    && (safe_str_eq (crm_element_value op XML_LRM_ATTR_RC) (some "0")
      || safe_str_eq (crm_element_value op XML_LRM_ATTR_RC) (some "8"))

/-- A history entry of one of the kinds that can set the start index: a start, a
migrate_from, a promote, a demote or a monitor implying a start. -/
def op_implies_start (op : xmlNode) : Bool :=
  op_is_start op || op_is_promote_or_demote op || op_is_active_monitor op

/-- The entry at index `j` of the list exists and satisfies `p`. -/
def at_idx (p : xmlNode → Bool) (l : List xmlNode) (j : Nat) : Prop :=
  ∃ op, l[j]? = some op ∧ p op = true

/-- The value `v` is the index of the last entry of `l` that satisfies `p`, or `-1`
when no entry does. -/
def is_last_index (p : xmlNode → Bool) (l : List xmlNode) (v : Int) : Prop :=
  (v = -1 ∧ ∀ j, ¬ at_idx p l j) ∨
  (∃ k : Nat, v = (k : Int) ∧ at_idx p l k ∧ ∀ j, k < j → ¬ at_idx p l j)

/-- The value `v` is `-1` when no entry of `l` is a monitor implying a start;
otherwise it is the index of such a monitor that a successful stop separates
from every earlier such monitor and that no successful stop separates from any
later such monitor: the first of the last run of such monitors. -/
def is_implied_monitor_index (l : List xmlNode) (v : Int) : Prop :=
  (v = -1 ∧ ∀ j, ¬ at_idx op_is_active_monitor l j) ∨
  (∃ k : Nat, v = (k : Int) ∧ at_idx op_is_active_monitor l k ∧
    (∀ j, j < k → at_idx op_is_active_monitor l j →
      ∃ i, j < i ∧ i < k ∧ at_idx op_is_successful_stop l i) ∧
    (∀ j, k < j → at_idx op_is_active_monitor l j →
      ∀ i, k < i → i < j → ¬ at_idx op_is_successful_stop l i))

/-- Container and filler agree, in the words of the specification: every
resource whose container reference is `c` appears in the filler list of `c`, and
every member of a filler list has that resource as its container. -/
def container_consistent (d : pe_working_set_t) : Prop :=
  (∀ r c, (d.rsc_at r).container = some c → r ∈ (d.rsc_at c).fillers) ∧
  (∀ c r, r ∈ (d.rsc_at c).fillers → (d.rsc_at r).container = some c)

/-- Every container reference already set is the one that the meta attribute of
the resource names, as `setup_container` would look it up. -/
def container_as_configured (d : pe_working_set_t) : Prop :=
  ∀ r c, (d.rsc_at r).container = some c →
    pe_find_resource d d.resources ((d.rsc_at r).meta.lookup XML_RSC_ATTR_CONTAINER) = some c

/-- The resources that the loop of `process_rsc_state` over the ancestors visits
from a resource within `fuel` steps: the resource, then its ancestors up to and
including the first one that carries the unique flag. -/
def known_on_chain (d : pe_working_set_t) : Nat → rsc_ptr → List rsc_ptr
  | 0, _ => []
  | fuel + 1, rsc =>
    rsc ::
      (if (d.rsc_at rsc).flags.pe_rsc_unique then []
       else
        match (d.rsc_at rsc).parent with
        | none => []
        | some p => known_on_chain d fuel p)

/-- The second working set has the known-on tables of the first. -/
def keeps_known_on (d d' : pe_working_set_t) : Prop :=
  ∀ q, (d'.rsc_at q).known_on = (d.rsc_at q).known_on

/-- Two records of failed operations are for the same failure: the task key of
the later one and the node name of the earlier one are those of the other, as
`record_failed_op` compares them. -/
def same_failed_op (earlier later : xmlNode) : Bool :=
  safe_str_eq (crm_element_value later XML_LRM_ATTR_TASK_KEY)
      (crm_element_value earlier XML_LRM_ATTR_TASK_KEY)
    && safe_str_eq (crm_element_value earlier XML_ATTR_UNAME)
        (crm_element_value later XML_ATTR_UNAME)

/-- The pair of task key and node name of a record of a failed operation. -/
def failed_op_pair (e : xmlNode) : Option String × Option String :=
  (crm_element_value e XML_LRM_ATTR_TASK_KEY, crm_element_value e XML_ATTR_UNAME)

/-- A call of `record_failed_op`: the operation, the node and the resource. -/
structure record_failed_op_call where
  op : xmlNode
  node : node_ptr
  rsc : rsc_ptr

/-- A sequence of calls of `record_failed_op`, one after the other. -/
def record_failed_ops (calls : List record_failed_op_call) (data_set : pe_working_set_t) :
    pe_working_set_t :=
  calls.foldl (fun d call => record_failed_op call.op call.node call.rsc d) data_set

/-- The number of nodes of the cluster whose history has been processed. -/
def processed_nodes (d : pe_working_set_t) : Nat :=
  (d.nodes.filter (fun n => (d.details n).unpacked)).length

/-- Between the first working set and the second the histories of exactly the
nodes of `new` were processed, each once and in this order: the list of nodes
has at most grown, the nodes of the first being kept in their order; the
histories handed on are those of `new`; no node occurs twice in `new`; every
node of `new` is a node of the cluster in the second working set and was not a
node marked as processed in the first; and the nodes marked as processed in the
second working set are those of `new` and the nodes of the first that were
marked there. -/
def processed_between (d d' : pe_working_set_t) (new : List node_ptr) : Prop :=
  d.nodes.Sublist d'.nodes ∧ d'.lrm_unpacked = d.lrm_unpacked ++ new ∧ new.Nodup ∧
  (∀ n ∈ new, n ∈ d'.nodes ∧ ¬ (n ∈ d.nodes ∧ (d.details n).unpacked = true)) ∧
  (∀ m ∈ d'.nodes, (d'.details m).unpacked
    = (decide (m ∈ new) || (decide (m ∈ d.nodes) && (d.details m).unpacked)))

/-- A function on working sets at most adds nodes to the list of nodes, keeping
the nodes it finds in their order, leaves the processed mark of every node of
the list as it is, adds nodes without the mark only, and does not change the
list of histories handed on. -/
def keeps_marks (f : pe_working_set_t → pe_working_set_t) : Prop :=
  ∀ d, d.nodes.Sublist (f d).nodes ∧ (f d).lrm_unpacked = d.lrm_unpacked ∧
    (∀ m ∈ d.nodes, ((f d).details m).unpacked = (d.details m).unpacked) ∧
    (∀ m ∈ (f d).nodes, m ∉ d.nodes → ((f d).details m).unpacked = false)

/-- The functions that `unpack_node_loop` calls at most add unmarked nodes to the
list of nodes and change neither the processed mark of a node of the list nor
the list of histories handed on. -/
def callees_keep_marks (c : node_loop_callees) : Prop :=
  (∀ n, keeps_marks (fun d => c.determine_remote_online_status d n)) ∧
  (∀ n state, keeps_marks (c.unpack_handle_remote_attrs n state)) ∧
  (∀ n lrm_rsc, keeps_marks (c.unpack_lrm_resources n lrm_rsc))

/-- The reading of the `terminate` attribute that the specification gives: a
request is pending when the value is a true boolean or a number, written in
decimal digits, other than zero. -/
def spec_terminate_pending (terminate : Option String) : Bool :=
  crm_is_true terminate ||
    (match terminate with
     | none => false
     | some t =>
       match parse_digits t.data 0 with
       | some v => v != 0
       | none => false)

/-- An id ends in a clone suffix: a colon followed by one or more decimal
digits. -/
def ends_in_clone_suffix (id : String) : Prop :=
  ∃ (pre ds : List Char), ds ≠ [] ∧ (∀ c ∈ ds, c.isDigit = true) ∧ id.data = pre ++ ':' :: ds

/-- A function on working sets does not change the cluster-wide fencing option. -/
def keeps_fencing (f : pe_working_set_t → pe_working_set_t) : Prop :=
  ∀ d, (f d).flags.pe_flag_stonith_enabled = d.flags.pe_flag_stonith_enabled

/-- None of the functions that `unpack_node_loop` calls changes the cluster-wide
fencing option. -/
def callees_keep_fencing (c : node_loop_callees) : Prop :=
  (∀ n, keeps_fencing (fun d => c.determine_remote_online_status d n)) ∧
  (∀ n state, keeps_fencing (c.unpack_handle_remote_attrs n state)) ∧
  (∀ n lrm_rsc, keeps_fencing (c.unpack_lrm_resources n lrm_rsc))

/-- The working set that the loop `while (unpack_node_loop(status, FALSE,
data_set))` of `unpack_status` has reached after `k` passes, or when it ended if
it ended before. -/
def unpack_status_reached (c : node_loop_callees) (status : xmlNode) :
    Nat → pe_working_set_t → pe_working_set_t
  | 0, data_set => data_set
  | k + 1, data_set =>
    let r := unpack_node_loop c status false data_set
    if r.1 then unpack_status_reached c status k r.2 else r.2

/-- A resource without its list of nodes it is running on, its flags and its
allowed-nodes table. -/
def rsc_core (r : resource_t) : resource_t :=
  { r with running_on := [], flags := {}, allowed_nodes := [] }

/-- A working set without its resources and its record of location preferences. -/
def ws_core (d : pe_working_set_t) : pe_working_set_t :=
  { d with rsc_at := fun _ => {}, location_calls := [] }

/-- The second working set differs from the first at most in the location
preferences recorded and, for the resources, in the nodes they are running on,
where nodes may have been added at the end, in the managed flag, which may have
been cleared, and in the allowed-nodes tables. -/
def placement_frame (d d' : pe_working_set_t) : Prop :=
  ws_core d' = ws_core d ∧
  ∀ q, rsc_core (d'.rsc_at q) = rsc_core (d.rsc_at q) ∧
    ({ (d'.rsc_at q).flags with pe_rsc_managed := false }
      = { (d.rsc_at q).flags with pe_rsc_managed := false }) ∧
    ((d'.rsc_at q).flags.pe_rsc_managed = true → (d.rsc_at q).flags.pe_rsc_managed = true) ∧
    ∃ l, (d'.rsc_at q).running_on = (d.rsc_at q).running_on ++ l

/-- The second working set has the ownership tree of the first: the same bound on
the walks along the parent links and, for every resource, the same parent, the
same variant and the same unique flag. -/
def same_tree (d d' : pe_working_set_t) : Prop :=
  d'.loop_fuel = d.loop_fuel ∧
  ∀ q, (d'.rsc_at q).parent = (d.rsc_at q).parent ∧
    (d'.rsc_at q).variant = (d.rsc_at q).variant ∧
    (d'.rsc_at q).flags.pe_rsc_unique = (d.rsc_at q).flags.pe_rsc_unique

/-! ## Concrete working sets and status entries -/

/-- A baremetal remote node (node 0) whose connection resource (resource 0)
exists, has no container and is unmanaged; the node is clean. -/
def ex_remote_unmanaged : pe_working_set_t :=
  { node_at := fun _ => { details := { type := node_type.node_remote, remote_rsc := some 0 } },
    rsc_at := fun _ => { flags := { pe_rsc_managed := false } } }

/-- A baremetal remote node (node 0) whose connection resource (resource 0)
exists, has no container and is managed; the node is clean. -/
def ex_remote_managed : pe_working_set_t :=
  { node_at := fun _ => { details := { type := node_type.node_remote, remote_rsc := some 0 } },
    rsc_at := fun _ => { flags := { pe_rsc_managed := true } } }

/-- A guest node (node 0): its connection resource is resource 0, whose
container is resource 1, managed and not failed. -/
def ex_guest : pe_working_set_t :=
  { node_at := fun _ => { details := { type := node_type.node_remote, remote_rsc := some 0 } },
    rsc_at := fun r =>
      if r = 0 then { container := some 1 } else { flags := { pe_rsc_managed := true } } }

/-- A guest node (node 0) as in `ex_guest`, its container already failed. -/
def ex_guest_failed : pe_working_set_t :=
  { node_at := fun _ => { details := { type := node_type.node_remote, remote_rsc := some 0 } },
    rsc_at := fun r =>
      if r = 0 then { container := some 1 }
      else { flags := { pe_rsc_managed := true, pe_rsc_failed := true } } }

/-- A working set without fencing whose nodes are clean cluster members with no
attributes. -/
def ex_cluster : pe_working_set_t := {}

/-- A working set as `ex_cluster` whose nodes are already unclean. -/
def ex_cluster_unclean : pe_working_set_t :=
  { node_at := fun _ => { details := { unclean := true } } }

/-- A working set with fencing enabled whose nodes are cluster members with a
shutdown requested. -/
def ex_shutting_down : pe_working_set_t :=
  { flags := { pe_flag_stonith_enabled := true },
    node_at := fun _ => { details := { attrs := [("shutdown", "1")] } } }

/-- A node-state entry: in the cluster, peer process online, join state member. -/
def ex_state_member : xmlNode :=
  .mk "node_state" [("in_ccm", "true"), ("crmd", "online"), ("join", "member")] []

/-- A node-state entry: in the cluster, peer process online, join state rejected. -/
def ex_state_banned : xmlNode :=
  .mk "node_state" [("in_ccm", "true"), ("crmd", "online"), ("join", "banned")] []

/-- A node-state entry: expected to be a member, not in the cluster, peer
process offline. -/
def ex_state_expected_gone : xmlNode :=
  .mk "node_state" [("in_ccm", "false"), ("crmd", "offline"), ("join", "down"),
    ("expected", "member")] []

/-- A node-state entry: expected to be a member, in the cluster, peer process
offline. -/
def ex_state_expected_peer_down : xmlNode :=
  .mk "node_state" [("in_ccm", "true"), ("crmd", "offline"), ("join", "down"),
    ("expected", "member")] []

/-- A node-state entry: not expected to be a member, in the cluster, peer process
offline. -/
def ex_state_unexpected_peer_down : xmlNode :=
  .mk "node_state" [("in_ccm", "true"), ("crmd", "offline"), ("join", "down"),
    ("expected", "down")] []

/-- A history entry of one resource holding a single completed start. -/
def ex_rsc_entry : xmlNode :=
  .mk "lrm_resource" [("id", "rsc1")]
    [.mk "lrm_rsc_op"
      [("operation", "start"), ("call-id", "1"), ("rc-code", "0"), ("op-status", "0")] []]

/-- An instance of the callees: the entry belongs to resource 0, replaying an
operation leaves the resource started, and nothing else happens. -/
def ex_callees : lrm_callees :=
  { unpack_find_resource := fun d _ _ _ => (some 0, d)
    process_orphan_resource := fun _ _ d => (0, d)
    unpack_rsc_op := fun rsc _ _ lf of d =>
      (lf, of, d.upd_rsc rsc (fun x => { x with role := rsc_role_e.RSC_ROLE_STARTED }))
    process_recurring := fun _ _ _ _ _ d => d
    process_rsc_state := fun _ _ _ _ d => d
    get_target_role := fun _ _ => none }

/-- A working set in which every resource is believed to be master. -/
def ex_master : pe_working_set_t :=
  { rsc_at := fun _ => { role := rsc_role_e.RSC_ROLE_MASTER } }

/-- A working set with fencing enabled whose nodes are clean cluster members with
no attributes. -/
def ex_fencing : pe_working_set_t :=
  { flags := { pe_flag_stonith_enabled := true } }

/-- A node-state entry without the in_cluster attribute. -/
def ex_state_never_seen : xmlNode :=
  .mk "node_state" [("crmd", "online"), ("join", "member"), ("expected", "member")] []

/-- A node-state entry: not in the cluster, peer process offline, join state down,
no expected state. -/
def ex_state_coming_up : xmlNode :=
  .mk "node_state" [("in_ccm", "false"), ("crmd", "offline"), ("join", "down")] []

/-- A node-state entry: in the cluster, peer process online, join state member,
expected state down. -/
def ex_state_standing_by : xmlNode :=
  .mk "node_state" [("in_ccm", "true"), ("crmd", "online"), ("join", "member"),
    ("expected", "down")] []

/-- A completed start with call id 1. -/
def ex_op_start : xmlNode :=
  .mk "lrm_rsc_op"
    [("operation", "start"), ("call-id", "1"), ("rc-code", "0"), ("op-status", "0"),
      ("interval", "0")] []

/-- A completed recurring monitor (every 10 s) with call id 2 and return code 0. -/
def ex_op_monitor : xmlNode :=
  .mk "lrm_rsc_op"
    [("operation", "monitor"), ("call-id", "2"), ("rc-code", "0"), ("op-status", "0"),
      ("interval", "10000")] []

/-- A completed stop with call id 3. -/
def ex_op_stop : xmlNode :=
  .mk "lrm_rsc_op"
    [("operation", "stop"), ("call-id", "3"), ("rc-code", "0"), ("op-status", "0"),
      ("interval", "0")] []

/-- A completed promote with call id 2. -/
def ex_op_promote : xmlNode :=
  .mk "lrm_rsc_op"
    [("operation", "promote"), ("call-id", "2"), ("rc-code", "0"), ("op-status", "0"),
      ("interval", "0")] []

/-- A probe, a monitor with interval 0, that found the resource not running. -/
def ex_op_probe : xmlNode :=
  .mk "lrm_rsc_op"
    [("operation", "monitor"), ("call-id", "1"), ("rc-code", "7"), ("op-status", "0"),
      ("interval", "0")] []

/-- A recurring monitor (every 10 s) that failed with return code 1. -/
def ex_op_failed_monitor : xmlNode :=
  .mk "lrm_rsc_op"
    [("operation", "monitor"), ("operation_key", "rsc1_monitor_10000"), ("call-id", "4"),
      ("rc-code", "1"), ("op-status", "4"), ("interval", "10000")] []

/-- The history start, recurring monitor, stop, sorted by call id. -/
def ex_history_stopped : List xmlNode := [ex_op_start, ex_op_monitor, ex_op_stop]

/-- The history start, promote, sorted by call id. -/
def ex_history_promoted : List xmlNode := [ex_op_start, ex_op_promote]

/-- A configuration in which every operation has on-fail migrate and failure role
started; no XPath expression selects anything and no node can be fenced. -/
def ex_env_migrate : unpack_env :=
  { unpack_operation := fun _ _ _ _ =>
      (action_fail_response.action_fail_migrate, rsc_role_e.RSC_ROLE_STARTED)
    get_xpath_object := fun _ _ => none
    pe_can_fence := fun _ _ => false }

/-- A configuration in which every operation has on-fail fence. -/
def ex_env_fence : unpack_env :=
  { unpack_operation := fun _ _ _ _ =>
      (action_fail_response.action_fail_fence, rsc_role_e.RSC_ROLE_STARTED)
    get_xpath_object := fun _ _ => none
    pe_can_fence := fun _ _ => false }

/-- A configuration in which every operation has on-fail stop and failure role
stopped. -/
def ex_env_stop : unpack_env :=
  { unpack_operation := fun _ _ _ _ =>
      (action_fail_response.action_fail_stop, rsc_role_e.RSC_ROLE_STOPPED)
    get_xpath_object := fun _ _ => none
    pe_can_fence := fun _ _ => false }

/-- A cluster of two online nodes, node 0 with id `n0` and node 1 with id `n1`;
every resource is a managed, started primitive that prefers node 0 with score
100. -/
def ex_two_nodes : pe_working_set_t :=
  { nodes := [0, 1],
    node_at := fun n =>
      { details := { id := if n = 0 then "n0" else "n1", uname := if n = 0 then "n0" else "n1",
                     online := true } },
    rsc_at := fun _ =>
      { id := "rsc1", role := rsc_role_e.RSC_ROLE_STARTED, flags := { pe_rsc_managed := true },
        allowed_nodes := [("n0", { node := 0, weight := 100 })] } }

/-- A completed migrate_to with call id 5, from node `n0` to node `n1`. -/
def ex_op_migrate_to : xmlNode :=
  .mk "lrm_rsc_op"
    [("operation", "migrate_to"), ("call-id", "5"), ("rc-code", "0"), ("op-status", "0"),
      ("migrate_source", "n0"), ("migrate_target", "n1")] []

/-- A completed migrate_from with call id 6, from node `n0` to node `n1`. -/
def ex_op_migrate_from : xmlNode :=
  .mk "lrm_rsc_op"
    [("operation", "migrate_from"), ("call-id", "6"), ("rc-code", "0"), ("op-status", "0"),
      ("migrate_source", "n0"), ("migrate_target", "n1")] []

/-- A completed stop with call id 9. -/
def ex_op_stop_later : xmlNode :=
  .mk "lrm_rsc_op"
    [("operation", "stop"), ("call-id", "9"), ("rc-code", "0"), ("op-status", "0")] []

/-- A status document in which the lookup of a migrate_from yields
`ex_op_migrate_from` and every other lookup yields nothing. -/
def ex_env_found : unpack_env :=
  { unpack_operation := fun _ _ _ _ =>
      (action_fail_response.action_fail_recover, rsc_role_e.RSC_ROLE_STARTED)
    get_xpath_object := fun xpath _ =>
      if occurs_in xpath.data "migrate_from".data then some ex_op_migrate_from else none
    pe_can_fence := fun _ _ => false }

/-- A status document in which the lookup of a stop yields `ex_op_stop_later` and
every other lookup yields nothing. -/
def ex_env_stopped_later : unpack_env :=
  { unpack_operation := fun _ _ _ _ =>
      (action_fail_response.action_fail_recover, rsc_role_e.RSC_ROLE_STARTED)
    get_xpath_object := fun xpath _ =>
      if occurs_in xpath.data "'stop'".data then some ex_op_stop_later else none
    pe_can_fence := fun _ _ => false }

/-- A working set whose cluster has no nodes; every resource is a managed, started
primitive. -/
def ex_unknown_target : pe_working_set_t :=
  { rsc_at := fun _ =>
      { id := "rsc1", role := rsc_role_e.RSC_ROLE_STARTED, flags := { pe_rsc_managed := true } } }

/-- Three primitives `r0`, `c1`, `c2` (resources 0, 1, 2) with no container
reference set yet; the meta attribute of `r0` names `c2` as its container. -/
def ex_unlinked : pe_working_set_t :=
  { resources := [0, 1, 2],
    rsc_at := fun q =>
      if q = 0 then { id := "r0", meta := [("container", "c2")] }
      else if q = 1 then { id := "c1" }
      else if q = 2 then { id := "c2" }
      else {} }

/-- The resources of `ex_unlinked` with `r0` linked to `c1` as its container,
while the meta attribute of `r0` names `c2`. -/
def ex_relinked : pe_working_set_t :=
  { resources := [0, 1, 2],
    rsc_at := fun q =>
      if q = 0 then { id := "r0", meta := [("container", "c2")], container := some 1 }
      else if q = 1 then { id := "c1", fillers := [0] }
      else if q = 2 then { id := "c2" }
      else {} }

/-- The resources of `ex_unlinked`, `r0` being an orphaned container filler. -/
def ex_orphan_filler : pe_working_set_t :=
  { resources := [0, 1, 2],
    rsc_at := fun q =>
      if q = 0 then { id := "r0", flags := { pe_rsc_orphan_container_filler := true } }
      else if q = 1 then { id := "c1" }
      else if q = 2 then { id := "c2" }
      else {} }

/-- The resource histories of a node: that of `r0`, which names `c1` as its
container. -/
def ex_lrm_rsc_list : xmlNode :=
  .mk "lrm_resources" [] [.mk "lrm_resource" [("id", "r0"), ("container", "c1")] []]

/-- A clock that reads 1000 seconds; every fail count is 0. -/
def ex_env_clock : unpack_env :=
  { unpack_operation := fun _ _ _ _ =>
      (action_fail_response.action_fail_recover, rsc_role_e.RSC_ROLE_STARTED)
    get_xpath_object := fun _ _ => none
    pe_can_fence := fun _ _ => false
    get_effective_time := fun _ => 1000 }

/-- A remote connection `remote1` (resource 0) with a reconnect interval and a
failure timeout of 60 s; its remote node (node 0) has not been fenced.  Fencing
is disabled. -/
def ex_remote_reconnect : pe_working_set_t :=
  { nodes := [0],
    node_at := fun _ =>
      { details := { id := "remote1", uname := "remote1", type := node_type.node_remote,
                     remote_rsc := some 0, online := true } },
    rsc_at := fun _ =>
      { id := "remote1", is_remote_node := true, remote_reconnect_ms := 30000,
        failure_timeout := 60, role := rsc_role_e.RSC_ROLE_STARTED,
        flags := { pe_rsc_managed := true } } }

/-- The working set `ex_remote_reconnect` with fencing enabled. -/
def ex_remote_reconnect_fencing : pe_working_set_t :=
  { ex_remote_reconnect with flags := { pe_flag_stonith_enabled := true } }

/-- A recurring monitor of `remote1` that failed at time 0. -/
def ex_op_remote_monitor : xmlNode :=
  .mk "lrm_rsc_op"
    [("id", "remote1_monitor_30000"), ("operation", "monitor"), ("call-id", "7"),
      ("rc-code", "1"), ("op-status", "4"), ("interval", "30000"),
      ("last-rc-change", "0")] []

/-- A working set in which every resource is stopped and has next role stopped. -/
def ex_next_stopped : pe_working_set_t :=
  { rsc_at := fun _ =>
      { id := "rsc1", role := rsc_role_e.RSC_ROLE_STOPPED,
        next_role := rsc_role_e.RSC_ROLE_STOPPED, flags := { pe_rsc_managed := true } } }

/-- An instance of the functions called by `unpack_node_loop`: none does
anything. -/
def ex_loop_callees : node_loop_callees :=
  { determine_remote_online_status := fun d _ => d
    unpack_handle_remote_attrs := fun _ _ d => d
    unpack_lrm_resources := fun _ _ d => d }

/-- A cluster of one node `n0` (node 0), a cluster member that is online. -/
def ex_one_online : pe_working_set_t :=
  { nodes := [0],
    node_at := fun _ => { details := { id := "n0", uname := "n0", online := true } } }

/-- A status section with the node-state entry of `n0`. -/
def ex_status_one : xmlNode :=
  .mk "status" [] [.mk "node_state" [("id", "n0"), ("uname", "n0")] []]

/-- A configuration in which every operation has on-fail ignore and failure role
started. -/
def ex_env_ignore : unpack_env :=
  { unpack_operation := fun _ _ _ _ =>
      (action_fail_response.action_fail_ignore, rsc_role_e.RSC_ROLE_STARTED)
    get_xpath_object := fun _ _ => none
    pe_can_fence := fun _ _ => false }

/-- The definition of a primitive `vm1` whose meta attribute `remote-node` names
the guest node `c1`. -/
def ex_guest_definition : xmlNode :=
  .mk "primitive" [("id", "vm1")]
    [.mk "meta_attributes" [("id", "vm1-meta")]
      [.mk "nvpair" [("id", "vm1-meta-remote"), ("name", "remote-node"), ("value", "c1")] []]]

/-- A remote node (node 0) that is marked neither unclean nor unseen and has no
connection resource. -/
def ex_remote_unconnected : pe_working_set_t :=
  { nodes := [0],
    flags := { pe_flag_startup_fencing := true },
    node_at := fun _ => { details := { id := "r0", uname := "r0", type := node_type.node_remote } } }

/-- A cluster member (node 0) in a cluster with fencing at start-up. -/
def ex_member_startup : pe_working_set_t :=
  { nodes := [0],
    flags := { pe_flag_startup_fencing := true },
    node_at := fun _ => { details := { id := "n0", uname := "n0" } } }

/-- An instance of the callees in which the replay of an operation sets the role
from its task: stopped for a stop, started for anything else; the entry belongs
to resource 0 and nothing else happens. -/
def ex_callees_by_task : lrm_callees :=
  { unpack_find_resource := fun d _ _ _ => (some 0, d)
    process_orphan_resource := fun _ _ d => (0, d)
    unpack_rsc_op := fun rsc _ xml_op lf of d =>
      (lf, of, d.upd_rsc rsc (fun x =>
        { x with role :=
            if safe_str_eq (crm_element_value xml_op XML_LRM_ATTR_TASK) (some CRMD_ACTION_STOP)
            then rsc_role_e.RSC_ROLE_STOPPED else rsc_role_e.RSC_ROLE_STARTED }))
    process_recurring := fun _ _ _ _ _ d => d
    process_rsc_state := fun _ _ _ _ d => d
    get_target_role := fun _ _ => none }

/-- A cluster without fencing of one node `n0` (node 0), a cluster member that is
offline. -/
def ex_one_offline : pe_working_set_t :=
  { nodes := [0],
    node_at := fun _ => { details := { id := "n0", uname := "n0" } } }

/-- Resource 1 is an instance of the clone resource 0, which does not have the
unique flag, in a cluster of two online nodes `n0` and `n1`; every resource
prefers node 0 with score 100. -/
def ex_clone_instance : pe_working_set_t :=
  { nodes := [0, 1],
    node_at := fun n =>
      { details := { id := if n = 0 then "n0" else "n1", uname := if n = 0 then "n0" else "n1",
                     online := true } },
    rsc_at := fun q =>
      if q = 0 then
        { id := "clone1", variant := pe_obj_types.pe_clone, children := [1],
          role := rsc_role_e.RSC_ROLE_STARTED, flags := { pe_rsc_managed := true },
          allowed_nodes := [("n0", { node := 0, weight := 100 })] }
      else
        { id := "rsc1:0", parent := some 0,
          role := rsc_role_e.RSC_ROLE_STARTED, flags := { pe_rsc_managed := true },
          allowed_nodes := [("n0", { node := 0, weight := 100 })] } }

/-- A probe, a monitor with interval 0 and a task key, that found the resource not
installed. -/
def ex_op_probe_not_installed : xmlNode :=
  .mk "lrm_rsc_op"
    [("operation", "monitor"), ("operation_key", "rsc1_monitor_0"), ("call-id", "1"),
      ("rc-code", "5"), ("op-status", "4"), ("interval", "0")] []

/-- A monitor whose interval is written as 4294967296, one more than an unsigned
32-bit number holds, that found the resource not installed. -/
def ex_op_wide_interval : xmlNode :=
  .mk "lrm_rsc_op"
    [("operation", "monitor"), ("operation_key", "rsc1_monitor_4294967296"), ("call-id", "1"),
      ("rc-code", "5"), ("op-status", "4"), ("interval", "4294967296")] []

/-- A completed migrate_to whose call id is written as 2147483648, one more than
an `int` of 32 bits holds, from node `n0` to node `n1`. -/
def ex_op_migrate_to_wide : xmlNode :=
  .mk "lrm_rsc_op"
    [("operation", "migrate_to"), ("call-id", "2147483648"), ("rc-code", "0"),
      ("op-status", "0"), ("migrate_source", "n0"), ("migrate_target", "n1")] []

/-- A completed stop with call id 2147483647. -/
def ex_op_stop_wide : xmlNode :=
  .mk "lrm_rsc_op"
    [("operation", "stop"), ("call-id", "2147483647"), ("rc-code", "0"), ("op-status", "0")] []

/-- A configuration in which the lookup of a stop yields the stop with call id
2147483647 and every other lookup yields nothing. -/
def ex_env_stopped_wide : unpack_env :=
  { unpack_operation := fun _ _ _ _ =>
      (action_fail_response.action_fail_recover, rsc_role_e.RSC_ROLE_STARTED)
    get_xpath_object := fun xpath _ =>
      if occurs_in xpath.data "'stop'".data then some ex_op_stop_wide else none
    pe_can_fence := fun _ _ => false }

/-- An instance of the functions called by `unpack_node_loop`: processing the
history of a node finds an orphaned remote connection `r1` and, unless node 1 is
a node of the cluster already, adds it as the remote node `r1`, shutting down;
nothing else happens. -/
def ex_callees_orphan : node_loop_callees :=
  { determine_remote_online_status := fun d _ => d
    unpack_handle_remote_attrs := fun _ _ d => d
    unpack_lrm_resources := fun _ _ d =>
      if 1 ∈ d.nodes then d
      else
        { d with
          nodes := d.nodes ++ [1]
          node_at := fun n =>
            if n = 1 then
              { details := { id := "r1", uname := "r1", type := node_type.node_remote,
                             shutdown := true } }
            else d.node_at n } }

/-- A status section with the node-state entries of `n0` and of `r1`. -/
def ex_status_two : xmlNode :=
  .mk "status" []
    [.mk "node_state" [("id", "n0"), ("uname", "n0")] [],
     .mk "node_state" [("id", "r1"), ("uname", "r1")] []]

/-- A cluster with fencing of one node `n0` (node 0), a cluster member that is
online. -/
def ex_one_online_fencing : pe_working_set_t :=
  { nodes := [0],
    flags := { pe_flag_stonith_enabled := true },
    node_at := fun _ => { details := { id := "n0", uname := "n0", online := true } } }

/-- A cluster with fencing of one node `r0` (node 0), a remote node whose
connection resource is not known. -/
def ex_one_remote_fencing : pe_working_set_t :=
  { nodes := [0],
    flags := { pe_flag_stonith_enabled := true },
    node_at := fun _ =>
      { details := { id := "r0", uname := "r0", type := node_type.node_remote } } }

/-- A status section with the node-state entry of `r1` followed by that of
`r0`. -/
def ex_status_late : xmlNode :=
  .mk "status" []
    [.mk "node_state" [("id", "r1"), ("uname", "r1")] [],
     .mk "node_state" [("id", "r0"), ("uname", "r0")] []]

/-! ## Reading a working set after an update -/

section projections
variable (d : pe_working_set_t) (n m : node_ptr) (r q : rsc_ptr) (s : String)

@[simp] theorem record_fence_call_node_at : (record_fence_call d n s).node_at = d.node_at := rfl
@[simp] theorem record_fence_call_rsc_at : (record_fence_call d n s).rsc_at = d.rsc_at := rfl
@[simp] theorem record_fence_call_fence_ops : (record_fence_call d n s).fence_ops = d.fence_ops := rfl
@[simp] theorem record_fence_call_flags : (record_fence_call d n s).flags = d.flags := rfl
@[simp] theorem record_fence_call_fence_calls :
    (record_fence_call d n s).fence_calls = d.fence_calls ++ [(n, s)] := rfl
@[simp] theorem record_fence_call_details : (record_fence_call d n s).details m = d.details m := rfl

@[simp] theorem upd_node_node_at (f : node_t → node_t) :
    (d.upd_node n f).node_at m = if m = n then f (d.node_at m) else d.node_at m := rfl
@[simp] theorem upd_node_rsc_at (f : node_t → node_t) : (d.upd_node n f).rsc_at = d.rsc_at := rfl
@[simp] theorem upd_node_fence_ops (f : node_t → node_t) :
    (d.upd_node n f).fence_ops = d.fence_ops := rfl
@[simp] theorem upd_node_fence_calls (f : node_t → node_t) :
    (d.upd_node n f).fence_calls = d.fence_calls := rfl
@[simp] theorem upd_node_flags (f : node_t → node_t) : (d.upd_node n f).flags = d.flags := rfl
theorem upd_node_details (f : node_t → node_t) :
    (d.upd_node n f).details m = if m = n then (f (d.node_at m)).details else d.details m := by
  simp only [pe_working_set_t.details, upd_node_node_at]; split <;> rfl

@[simp] theorem upd_details_node_at (f : node_shared_s → node_shared_s) :
    (d.upd_details n f).node_at m =
      if m = n then { d.node_at m with details := f (d.node_at m).details } else d.node_at m := rfl
@[simp] theorem upd_details_rsc_at (f : node_shared_s → node_shared_s) :
    (d.upd_details n f).rsc_at = d.rsc_at := rfl
@[simp] theorem upd_details_fence_ops (f : node_shared_s → node_shared_s) :
    (d.upd_details n f).fence_ops = d.fence_ops := rfl
@[simp] theorem upd_details_fence_calls (f : node_shared_s → node_shared_s) :
    (d.upd_details n f).fence_calls = d.fence_calls := rfl
@[simp] theorem upd_details_flags (f : node_shared_s → node_shared_s) :
    (d.upd_details n f).flags = d.flags := rfl
@[simp] theorem upd_details_details (f : node_shared_s → node_shared_s) :
    (d.upd_details n f).details m = if m = n then f (d.details m) else d.details m := by
  simp only [pe_working_set_t.details, upd_details_node_at]; split <;> rfl

@[simp] theorem upd_rsc_rsc_at (f : resource_t → resource_t) :
    (d.upd_rsc r f).rsc_at q = if q = r then f (d.rsc_at q) else d.rsc_at q := rfl
@[simp] theorem upd_rsc_node_at (f : resource_t → resource_t) :
    (d.upd_rsc r f).node_at = d.node_at := rfl
@[simp] theorem upd_rsc_details (f : resource_t → resource_t) :
    (d.upd_rsc r f).details m = d.details m := rfl
@[simp] theorem upd_rsc_fence_ops (f : resource_t → resource_t) :
    (d.upd_rsc r f).fence_ops = d.fence_ops := rfl
@[simp] theorem upd_rsc_fence_calls (f : resource_t → resource_t) :
    (d.upd_rsc r f).fence_calls = d.fence_calls := rfl
@[simp] theorem upd_rsc_flags (f : resource_t → resource_t) : (d.upd_rsc r f).flags = d.flags := rfl

@[simp] theorem pe_fence_op_node_at (o : Option String) (b : Bool) :
    (pe_fence_op n o b s d).node_at = d.node_at := rfl
@[simp] theorem pe_fence_op_rsc_at (o : Option String) (b : Bool) :
    (pe_fence_op n o b s d).rsc_at = d.rsc_at := rfl
@[simp] theorem pe_fence_op_details (o : Option String) (b : Bool) :
    (pe_fence_op n o b s d).details m = d.details m := rfl
@[simp] theorem pe_fence_op_flags (o : Option String) (b : Bool) :
    (pe_fence_op n o b s d).flags = d.flags := rfl
@[simp] theorem pe_fence_op_fence_calls (o : Option String) (b : Bool) :
    (pe_fence_op n o b s d).fence_calls = d.fence_calls := rfl
@[simp] theorem pe_fence_op_fence_ops (o : Option String) (b : Bool) :
    (pe_fence_op n o b s d).fence_ops = d.fence_ops ++ [⟨n, o, b, s⟩] := rfl

@[simp] theorem set_failed_container (x : resource_t) : (set_failed x).container = x.container := rfl
@[simp] theorem set_failed_failed (x : resource_t) : (set_failed x).flags.pe_rsc_failed = true := rfl
@[simp] theorem set_failed_managed (x : resource_t) :
    (set_failed x).flags.pe_rsc_managed = x.flags.pe_rsc_managed := rfl
@[simp] theorem set_failed_filler (x : resource_t) :
    (set_failed x).flags.pe_rsc_orphan_container_filler = x.flags.pe_rsc_orphan_container_filler := rfl
@[simp] theorem set_failed_idem (x : resource_t) : set_failed (set_failed x) = set_failed x := rfl
end projections

/-- The branch of `pe_fence_node` taken by a guest node. -/
theorem pe_fence_node_guest_eq (d : pe_working_set_t) (n : node_ptr) (reason : String)
    (conn rsc : rsc_ptr) (hg : is_container_remote_node d n = true)
    (hc : (d.details n).remote_rsc = some conn) (hr : (d.rsc_at conn).container = some rsc) :
    pe_fence_node d (some n) reason =
      if (d.rsc_at rsc).flags.pe_rsc_failed = false ∧ (d.rsc_at rsc).flags.pe_rsc_managed = true then
        ((record_fence_call d n reason).upd_details n
          (fun x => { x with remote_requires_reset := true })).upd_rsc rsc set_failed
      else record_fence_call d n reason := by
  have hg' : is_container_remote_node (record_fence_call d n reason) n = true := hg
  simp only [pe_fence_node, hg', if_true, record_fence_call_details, hc, record_fence_call_rsc_at, hr]
  by_cases h1 : (d.rsc_at rsc).flags.pe_rsc_failed = true <;>
    by_cases h2 : (d.rsc_at rsc).flags.pe_rsc_managed = true <;> simp [h1, h2]


/-- The branch of `pe_fence_node` taken by a dangling guest connection. -/
theorem pe_fence_node_dangling_eq (d : pe_working_set_t) (n : node_ptr) (reason : String)
    (conn : rsc_ptr) (hg : is_container_remote_node d n = false)
    (hd : is_dangling_container_remote_node d n = true)
    (hc : (d.details n).remote_rsc = some conn) :
    pe_fence_node d (some n) reason = (record_fence_call d n reason).upd_rsc conn set_failed := by
  have hg' : is_container_remote_node (record_fence_call d n reason) n = false := hg
  have hd' : is_dangling_container_remote_node (record_fence_call d n reason) n = true := hd
  simp [pe_fence_node, hg', hd', hc]

/-- The branch of `pe_fence_node` taken by a baremetal remote node. -/
theorem pe_fence_node_baremetal_eq (d : pe_working_set_t) (n : node_ptr) (reason : String)
    (hd : is_dangling_container_remote_node d n = false)
    (hb : is_baremetal_remote_node d n = true) :
    pe_fence_node d (some n) reason =
      pe_fence_op n none true reason
        ((if (match (d.details n).remote_rsc with
              | none => false
              | some r => !(d.rsc_at r).flags.pe_rsc_managed) = true then
            record_fence_call d n reason
          else if (d.details n).remote_requires_reset = false then
            (record_fence_call d n reason).upd_details n
              (fun x => { x with remote_requires_reset := true })
          else record_fence_call d n reason).upd_details n
          (fun x => { x with unclean := true })) := by
  have hd' : is_dangling_container_remote_node (record_fence_call d n reason) n = false := hd
  have hb' : is_baremetal_remote_node (record_fence_call d n reason) n = true := hb
  have hg' : is_container_remote_node (record_fence_call d n reason) n = false := by
    show is_container_remote_node d n = false
    unfold is_baremetal_remote_node at hb
    unfold is_container_remote_node
    cases h : (d.details n).remote_rsc <;> simp_all
  simp only [pe_fence_node, hg', hd', hb', record_fence_call_details,
    record_fence_call_rsc_at, if_true, Bool.false_eq_true, if_false, beq_false,
    Bool.not_eq_true']

/-- The branch of `pe_fence_node` taken by a node that is not a remote node. -/
theorem pe_fence_node_cluster_eq (d : pe_working_set_t) (n : node_ptr) (reason : String)
    (hr : is_remote_node d n = false) :
    pe_fence_node d (some n) reason =
      if (d.details n).unclean = true then record_fence_call d n reason
      else pe_fence_op n none true reason
        ((record_fence_call d n reason).upd_details n (fun x => { x with unclean := true })) := by
  have h1 : is_container_remote_node (record_fence_call d n reason) n = false := by
    show is_container_remote_node d n = false
    simp [is_container_remote_node, hr]
  have h2 : is_dangling_container_remote_node (record_fence_call d n reason) n = false := by
    show is_dangling_container_remote_node d n = false
    simp [is_dangling_container_remote_node, hr]
  have h3 : is_baremetal_remote_node (record_fence_call d n reason) n = false := by
    show is_baremetal_remote_node d n = false
    simp [is_baremetal_remote_node, hr]
  simp [pe_fence_node, h1, h2, h3]


/-- What `pe_fence_node` never changes: the type and connection of every node, and
the container, the orphan-container-filler flag and the managed flag of every
resource. -/
theorem pe_fence_node_shape (d : pe_working_set_t) (node : Option node_ptr) (reason : String)
    (m : node_ptr) (r : rsc_ptr) :
    ((pe_fence_node d node reason).details m).type = (d.details m).type ∧
    ((pe_fence_node d node reason).details m).remote_rsc = (d.details m).remote_rsc ∧
    ((pe_fence_node d node reason).rsc_at r).container = (d.rsc_at r).container ∧
    ((pe_fence_node d node reason).rsc_at r).flags.pe_rsc_orphan_container_filler
      = (d.rsc_at r).flags.pe_rsc_orphan_container_filler ∧
    ((pe_fence_node d node reason).rsc_at r).flags.pe_rsc_managed
      = (d.rsc_at r).flags.pe_rsc_managed := by
  cases node with
  | none => simp [pe_fence_node]
  | some n =>
    unfold pe_fence_node
    simp only []
    repeat' split
    all_goals (simp; try (split_ifs <;> simp))

/-- The kind of every node is the same before and after `pe_fence_node`. -/
theorem pe_fence_node_kind (d : pe_working_set_t) (node : Option node_ptr) (reason : String)
    (m : node_ptr) :
    is_remote_node (pe_fence_node d node reason) m = is_remote_node d m ∧
    is_container_remote_node (pe_fence_node d node reason) m = is_container_remote_node d m ∧
    is_dangling_container_remote_node (pe_fence_node d node reason) m
      = is_dangling_container_remote_node d m ∧
    is_baremetal_remote_node (pe_fence_node d node reason) m = is_baremetal_remote_node d m := by
  have h1 := fun r => (pe_fence_node_shape d node reason m r).1
  have h2 := fun r => (pe_fence_node_shape d node reason m r).2.1
  have h3 := fun r => (pe_fence_node_shape d node reason m r).2.2.1
  have h4 := fun r => (pe_fence_node_shape d node reason m r).2.2.2.1
  simp only [is_remote_node, is_container_remote_node, is_dangling_container_remote_node,
    is_baremetal_remote_node, h1 0, h2 0, h3, h4, and_self]

/-- A guest node has a connection resource and that resource has a container. -/
theorem guest_has_container (d : pe_working_set_t) (n : node_ptr)
    (hg : is_container_remote_node d n = true) :
    ∃ conn rsc, (d.details n).remote_rsc = some conn ∧ (d.rsc_at conn).container = some rsc := by
  unfold is_container_remote_node at hg
  cases hc : (d.details n).remote_rsc with
  | none => simp [hc] at hg
  | some conn =>
    cases hk : (d.rsc_at conn).container with
    | none => simp [hc, hk] at hg
    | some rsc => exact ⟨conn, rsc, rfl, hk⟩

/-- A remote node is a guest node or a baremetal remote node. -/
theorem remote_guest_or_baremetal (d : pe_working_set_t) (n : node_ptr)
    (hr : is_remote_node d n = true) (hg : is_container_remote_node d n = false) :
    is_baremetal_remote_node d n = true := by
  unfold is_container_remote_node at hg
  unfold is_baremetal_remote_node
  cases hc : (d.details n).remote_rsc <;> simp_all

/-- A dangling guest connection has a connection resource. -/
theorem dangling_has_connection (d : pe_working_set_t) (n : node_ptr)
    (hd : is_dangling_container_remote_node d n = true) :
    ∃ conn, (d.details n).remote_rsc = some conn := by
  unfold is_dangling_container_remote_node at hd
  cases hc : (d.details n).remote_rsc with
  | none => simp [hc] at hd
  | some conn => exact ⟨conn, rfl⟩

/-- Pinning a node leaves the details of every node as they were. -/
@[simp] theorem upd_node_remove_details (d : pe_working_set_t) (n m : node_ptr) :
    (d.upd_node n remove_from_contention).details m = d.details m := by
  simp only [pe_working_set_t.details, upd_node_node_at]
  split <;> rfl

/-- Every invocation of `pe_fence_node` on a non-null node is noted, once, in the
ghost record. -/
theorem pe_fence_node_fence_calls (d : pe_working_set_t) (n : node_ptr) (reason : String) :
    (pe_fence_node d (some n) reason).fence_calls = d.fence_calls ++ [(n, reason)] := by
  unfold pe_fence_node
  simp only []
  repeat' split
  all_goals simp

/-- A cluster member is unclean after `pe_fence_node`. -/
theorem pe_fence_node_cluster_unclean (d : pe_working_set_t) (n : node_ptr) (reason : String)
    (hr : (d.details n).type = node_type.node_member) :
    ((pe_fence_node d (some n) reason).details n).unclean = true := by
  have h : is_remote_node d n = false := by simp [is_remote_node, hr]
  rw [pe_fence_node_cluster_eq d n reason h]
  by_cases hu : (d.details n).unclean = true <;> simp [hu]

/-- The last steps of `determine_online_status` (lines 1408-1421) pin every node
found offline or shutting down. -/
theorem online_verdict_pins (online : Bool) (d : pe_working_set_t) (n : node_ptr) :
    let d2 : pe_working_set_t :=
      if online = true then d.upd_details n (fun x => { x with online := true })
      else d.upd_node n remove_from_contention
    let d3 : pe_working_set_t :=
      if (online && (d2.details n).shutdown) = true then d2.upd_node n remove_from_contention
      else d2
    (online = false ∨ (d3.details n).shutdown = true) →
      (d3.node_at n).weight = -INFINITY ∧ (d3.node_at n).fixed = true := by
  intro d2 d3 h
  cases online with
  | false => simp [d3, d2, remove_from_contention]
  | true =>
    by_cases hs : (d.details n).shutdown = true
    · simp [d3, d2, hs, remove_from_contention]
    · exfalso
      simp [d3, d2, hs] at h

/-! ## Claims -/

/-- Claim C4: `pe_fence_node` is idempotent on state.  For every node (null, guest,
dangling guest connection, baremetal remote, cluster member), every starting
working set and every reason, the node heap and the resource heap after two
successive calls equal those after one call; in particular the node's `unclean`
and `remote_requires_reset` flags and the failed flags of the connection and
container resources are the same. -/
theorem pe_fence_node_idempotent (d : pe_working_set_t) (node : Option node_ptr)
    (reason : String) :
    (pe_fence_node (pe_fence_node d node reason) node reason).node_at
        = (pe_fence_node d node reason).node_at ∧
    (pe_fence_node (pe_fence_node d node reason) node reason).rsc_at
        = (pe_fence_node d node reason).rsc_at := by
  cases node with
  | none => simp [pe_fence_node]
  | some n =>
    obtain ⟨kr, kg, kd, kb⟩ := pe_fence_node_kind d (some n) reason n
    by_cases hr : is_remote_node d n = true
    · by_cases hg : is_container_remote_node d n = true
      · -- guest node
        obtain ⟨conn, rsc, hc, hk⟩ := guest_has_container d n hg
        have hc' := (pe_fence_node_shape d (some n) reason n conn).2.1
        have hk' := (pe_fence_node_shape d (some n) reason n conn).2.2.1
        rw [hc] at hc'
        rw [hk] at hk'
        rw [pe_fence_node_guest_eq (pe_fence_node d (some n) reason) n reason conn rsc
          (by rw [kg]; exact hg) hc' hk']
        rw [pe_fence_node_guest_eq d n reason conn rsc hg hc hk]
        by_cases h1 : (d.rsc_at rsc).flags.pe_rsc_failed = true <;>
          by_cases h2 : (d.rsc_at rsc).flags.pe_rsc_managed = true <;> simp [h1, h2]
      · have hg' : is_container_remote_node d n = false := by simpa using hg
        by_cases hd : is_dangling_container_remote_node d n = true
        · -- dangling guest connection
          obtain ⟨conn, hc⟩ := dangling_has_connection d n hd
          have hc' := (pe_fence_node_shape d (some n) reason n conn).2.1
          rw [hc] at hc'
          rw [pe_fence_node_dangling_eq (pe_fence_node d (some n) reason) n reason conn
            (by rw [kg]; exact hg') (by rw [kd]; exact hd) hc']
          rw [pe_fence_node_dangling_eq d n reason conn hg' hd hc]
          refine ⟨by simp, ?_⟩
          funext q
          by_cases hq : q = conn <;> simp [hq]
        · -- baremetal remote node
          have hd' : is_dangling_container_remote_node d n = false := by simpa using hd
          have hb := remote_guest_or_baremetal d n hr hg'
          rw [pe_fence_node_baremetal_eq (pe_fence_node d (some n) reason) n reason
            (by rw [kd]; exact hd') (by rw [kb]; exact hb)]
          rw [pe_fence_node_baremetal_eq d n reason hd' hb]
          refine ⟨?_, ?_⟩
          · funext m
            by_cases hm : m = n
            · subst hm
              cases hc : (d.details m).remote_rsc with
              | none =>
                by_cases hq : (d.details m).remote_requires_reset = true <;> simp [hc, hq]
              | some r =>
                by_cases hq : (d.details m).remote_requires_reset = true <;>
                  by_cases hM : (d.rsc_at r).flags.pe_rsc_managed = true <;> simp [hc, hq, hM]
            · cases hc : (d.details n).remote_rsc with
              | none =>
                by_cases hq : (d.details n).remote_requires_reset = true <;> simp [hc, hq, hm]
              | some r =>
                by_cases hq : (d.details n).remote_requires_reset = true <;>
                  by_cases hM : (d.rsc_at r).flags.pe_rsc_managed = true <;>
                  simp [hc, hq, hM, hm]
          · cases hc : (d.details n).remote_rsc with
            | none =>
              by_cases hq : (d.details n).remote_requires_reset = true <;> simp [hc, hq]
            | some r =>
              by_cases hq : (d.details n).remote_requires_reset = true <;>
                by_cases hM : (d.rsc_at r).flags.pe_rsc_managed = true <;> simp [hc, hq, hM]
    · -- cluster node
      have hr' : is_remote_node d n = false := by simpa using hr
      rw [pe_fence_node_cluster_eq (pe_fence_node d (some n) reason) n reason (by rw [kr]; exact hr')]
      rw [pe_fence_node_cluster_eq d n reason hr']
      by_cases hu : (d.details n).unclean = true
      · simp [hu]
      · simp [hu]

/-- The fence operations requested by `pe_fence_node` on a guest node or on a
dangling guest connection: none. -/
theorem pe_fence_node_guest_dangling_fence_ops (d : pe_working_set_t) (n : node_ptr)
    (reason : String)
    (h : is_container_remote_node d n = true ∨ is_dangling_container_remote_node d n = true) :
    (pe_fence_node d (some n) reason).fence_ops = d.fence_ops := by
  by_cases hg : is_container_remote_node d n = true
  · obtain ⟨conn, rsc, hc, hk⟩ := guest_has_container d n hg
    rw [pe_fence_node_guest_eq d n reason conn rsc hg hc hk]
    split_ifs <;> simp
  · have hg' : is_container_remote_node d n = false := by simpa using hg
    have hd : is_dangling_container_remote_node d n = true := by
      rcases h with h | h
      · exact absurd h hg
      · exact h
    obtain ⟨conn, hc⟩ := dangling_has_connection d n hd
    rw [pe_fence_node_dangling_eq d n reason conn hg' hd hc]
    simp

/-- The fence operations requested by `pe_fence_node` on a baremetal remote node:
one, whatever the state of the node and of its connection. -/
theorem pe_fence_node_baremetal_fence_ops (d : pe_working_set_t) (n : node_ptr)
    (reason : String) (hd : is_dangling_container_remote_node d n = false)
    (hb : is_baremetal_remote_node d n = true) :
    (pe_fence_node d (some n) reason).fence_ops =
      d.fence_ops ++ [{ node := n, op := none, optional := true, reason := reason }] := by
  rw [pe_fence_node_baremetal_eq d n reason hd hb]
  simp only [pe_fence_op_fence_ops, upd_details_fence_ops]
  split_ifs <;> simp

/-- Claim C5, as amended: two successive invocations of `pe_fence_node` on a guest
node or a dangling guest connection call `pe_fence_op` not at all; on a
cluster-member node they call it at most once in total (once when the node was
clean, never when it was already unclean); on a baremetal remote node whose
connection resource is absent or managed every invocation calls it, so that two
invocations call it twice. -/
theorem pe_fence_node_twice_fence_ops (d : pe_working_set_t) (n : node_ptr)
    (reason : String) :
    ((is_container_remote_node d n = true ∨ is_dangling_container_remote_node d n = true) →
      (pe_fence_node (pe_fence_node d (some n) reason) (some n) reason).fence_ops
        = d.fence_ops) ∧
    (is_remote_node d n = false →
      (pe_fence_node (pe_fence_node d (some n) reason) (some n) reason).fence_ops
        = if (d.details n).unclean = true then d.fence_ops
          else d.fence_ops ++ [{ node := n, op := none, optional := true, reason := reason }]) ∧
    ((is_baremetal_remote_node d n = true ∧ is_dangling_container_remote_node d n = false ∧
        (match (d.details n).remote_rsc with
         | none => true
         | some r => (d.rsc_at r).flags.pe_rsc_managed) = true) →
      (pe_fence_node (pe_fence_node d (some n) reason) (some n) reason).fence_ops
        = d.fence_ops ++ [{ node := n, op := none, optional := true, reason := reason },
            { node := n, op := none, optional := true, reason := reason }]) := by
  obtain ⟨kr, kg, kd, kb⟩ := pe_fence_node_kind d (some n) reason n
  refine ⟨?_, ?_, ?_⟩
  · intro h
    rw [pe_fence_node_guest_dangling_fence_ops (pe_fence_node d (some n) reason) n reason
      (by rw [kg, kd]; exact h)]
    exact pe_fence_node_guest_dangling_fence_ops d n reason h
  · intro hr
    rw [pe_fence_node_cluster_eq (pe_fence_node d (some n) reason) n reason (by rw [kr]; exact hr)]
    rw [pe_fence_node_cluster_eq d n reason hr]
    by_cases hu : (d.details n).unclean = true <;> simp [hu]
  · rintro ⟨hb, hd, -⟩
    rw [pe_fence_node_baremetal_fence_ops (pe_fence_node d (some n) reason) n reason
      (by rw [kd]; exact hd) (by rw [kb]; exact hb)]
    rw [pe_fence_node_baremetal_fence_ops d n reason hd hb]
    simp

/-- Witness of C5 as amended: two invocations request no fence operation for a
guest node, one for a clean cluster member and two for a managed baremetal
remote node. -/
theorem pe_fence_node_twice_fence_ops_witness :
    (pe_fence_node (pe_fence_node ex_guest (some 0) "lost") (some 0) "lost").fence_ops = [] ∧
    (pe_fence_node (pe_fence_node ex_cluster (some 0) "lost") (some 0) "lost").fence_ops
      = [{ node := 0, op := none, optional := true, reason := "lost" }] ∧
    (pe_fence_node (pe_fence_node ex_remote_managed (some 0) "lost") (some 0) "lost").fence_ops
      = [{ node := 0, op := none, optional := true, reason := "lost" },
         { node := 0, op := none, optional := true, reason := "lost" }] :=
  ⟨(pe_fence_node_twice_fence_ops ex_guest 0 "lost").1 (Or.inl (by decide)),
   (pe_fence_node_twice_fence_ops ex_cluster 0 "lost").2.1 (by decide),
   (pe_fence_node_twice_fence_ops ex_remote_managed 0 "lost").2.2
     ⟨by decide, by decide, by decide⟩⟩

/-- Counterexample to C5 as stated: on a clean baremetal remote node with a
managed connection resource, two successive invocations of `pe_fence_node` call
`pe_fence_op` twice, not at most once. -/
theorem pe_fence_node_twice_requests_two :
    ¬ ((pe_fence_node (pe_fence_node ex_remote_managed (some 0) "lost") (some 0)
          "lost").fence_ops.length ≤ ex_remote_managed.fence_ops.length + 1) := by
  decide

/-- Claim C6, the code at the failing input: node 0 of `ex_remote_unmanaged` is a
baremetal remote node whose connection resource exists and is unmanaged, and is
clean; `pe_fence_node` nevertheless marks it unclean and requests a fence
operation (it leaves `remote_requires_reset` as it was). -/
theorem pe_fence_node_unmanaged_remote_is_fenced :
    is_baremetal_remote_node ex_remote_unmanaged 0 = true ∧
    (ex_remote_unmanaged.details 0).remote_rsc = some 0 ∧
    (ex_remote_unmanaged.rsc_at 0).flags.pe_rsc_managed = false ∧
    (ex_remote_unmanaged.details 0).unclean = false ∧
    ((pe_fence_node ex_remote_unmanaged (some 0) "lost").details 0).unclean = true ∧
    ((pe_fence_node ex_remote_unmanaged (some 0) "lost").details 0).remote_requires_reset
      = false ∧
    (pe_fence_node ex_remote_unmanaged (some 0) "lost").fence_ops
      = [{ node := 0, op := none, optional := true, reason := "lost" }] := by
  decide

/-- Claim C7: for every guest node, `pe_fence_node` leaves the node's `unclean`
flag as it was and requests no fence operation; when the container resource is
already failed or is unmanaged it changes nothing (only the invocation is
noted); otherwise it sets the node's `remote_requires_reset` flag and the
container's failed flag and nothing else. -/
theorem pe_fence_node_guest_node (d : pe_working_set_t) (n : node_ptr) (reason : String)
    (conn rsc : rsc_ptr) (hg : is_container_remote_node d n = true)
    (hc : (d.details n).remote_rsc = some conn) (hk : (d.rsc_at conn).container = some rsc) :
    ((pe_fence_node d (some n) reason).details n).unclean = (d.details n).unclean ∧
    (pe_fence_node d (some n) reason).fence_ops = d.fence_ops ∧
    (((d.rsc_at rsc).flags.pe_rsc_failed = true ∨ (d.rsc_at rsc).flags.pe_rsc_managed = false) →
      pe_fence_node d (some n) reason = record_fence_call d n reason) ∧
    (((d.rsc_at rsc).flags.pe_rsc_failed = false ∧ (d.rsc_at rsc).flags.pe_rsc_managed = true) →
      pe_fence_node d (some n) reason =
        ((record_fence_call d n reason).upd_details n
          (fun x => { x with remote_requires_reset := true })).upd_rsc rsc set_failed) := by
  rw [pe_fence_node_guest_eq d n reason conn rsc hg hc hk]
  refine ⟨?_, ?_, ?_, ?_⟩
  · split_ifs <;> simp
  · split_ifs <;> simp
  · intro h
    rw [if_neg]
    rintro ⟨h1, h2⟩
    rcases h with h | h
    · rw [h1] at h; exact Bool.noConfusion h
    · rw [h2] at h; exact Bool.noConfusion h
  · intro h
    rw [if_pos h]

/-- Witness of C7: the guest node of `ex_guest` gets `remote_requires_reset` and
its container the failed flag, without the node becoming unclean. -/
theorem pe_fence_node_guest_node_witness :
    ((pe_fence_node ex_guest (some 0) "lost").details 0).unclean = false ∧
    (pe_fence_node ex_guest (some 0) "lost").fence_ops = [] ∧
    pe_fence_node ex_guest (some 0) "lost" =
      ((record_fence_call ex_guest 0 "lost").upd_details 0
        (fun x => { x with remote_requires_reset := true })).upd_rsc 1 set_failed ∧
    pe_fence_node ex_guest_failed (some 0) "lost" = record_fence_call ex_guest_failed 0 "lost" :=
  ⟨(pe_fence_node_guest_node ex_guest 0 "lost" 0 1 (by decide) (by decide) (by decide)).1,
   (pe_fence_node_guest_node ex_guest 0 "lost" 0 1 (by decide) (by decide) (by decide)).2.1,
   (pe_fence_node_guest_node ex_guest 0 "lost" 0 1 (by decide) (by decide) (by decide)).2.2.2
     ⟨by decide, by decide⟩,
   (pe_fence_node_guest_node ex_guest_failed 0 "lost" 0 1 (by decide) (by decide) (by decide)).2.2.1
     (Or.inl (by decide))⟩

/-- Claim C8: for every node that is not a remote node, `pe_fence_node` changes no
flag and requests no fence operation when the node is already unclean (only the
invocation is noted); when the node is clean it sets `unclean` and requests
exactly one fence operation, for that node and with the given reason. -/
theorem pe_fence_node_cluster_member (d : pe_working_set_t) (n : node_ptr) (reason : String)
    (hr : is_remote_node d n = false) :
    ((d.details n).unclean = true →
      pe_fence_node d (some n) reason = record_fence_call d n reason) ∧
    ((d.details n).unclean = false →
      pe_fence_node d (some n) reason =
        pe_fence_op n none true reason
          ((record_fence_call d n reason).upd_details n (fun x => { x with unclean := true })) ∧
      ((pe_fence_node d (some n) reason).details n).unclean = true ∧
      (pe_fence_node d (some n) reason).fence_ops =
        d.fence_ops ++ [{ node := n, op := none, optional := true, reason := reason }]) := by
  rw [pe_fence_node_cluster_eq d n reason hr]
  refine ⟨?_, ?_⟩
  · intro hu
    rw [if_pos hu]
  · intro hu
    have hu' : ¬ (d.details n).unclean = true := by simp [hu]
    rw [if_neg hu']
    simp

/-- Witness of C8: a clean cluster member becomes unclean with one fence request;
an unclean one is left alone. -/
theorem pe_fence_node_cluster_member_witness :
    pe_fence_node ex_cluster_unclean (some 0) "lost"
      = record_fence_call ex_cluster_unclean 0 "lost" ∧
    ((pe_fence_node ex_cluster (some 0) "lost").details 0).unclean = true ∧
    (pe_fence_node ex_cluster (some 0) "lost").fence_ops
      = [{ node := 0, op := none, optional := true, reason := "lost" }] :=
  ⟨(pe_fence_node_cluster_member ex_cluster_unclean 0 "lost" (by decide)).1 (by decide),
   ((pe_fence_node_cluster_member ex_cluster 0 "lost" (by decide)).2 (by decide)).2.1,
   ((pe_fence_node_cluster_member ex_cluster 0 "lost" (by decide)).2 (by decide)).2.2⟩

/-- Claim C9: without fencing the verdict of `determine_online_status_no_fencing`
is online if and only if `in_cluster` is true, the peer-process flag is `online`
and the join state is `member`; in that case the working set is left as it was:
`pe_fence_node` is not invoked and the node's `unclean` flag is unchanged, so it
is false if it was false on entry. -/
theorem determine_online_status_no_fencing_online (d : pe_working_set_t)
    (node_state : xmlNode) (n : node_ptr) :
    ((determine_online_status_no_fencing d node_state n).1 = true ↔
      (crm_is_true (crm_element_value node_state XML_NODE_IN_CLUSTER) = true ∧
       safe_str_eq (crm_element_value node_state XML_NODE_IS_PEER) (some ONLINESTATUS) = true ∧
       safe_str_eq (crm_element_value node_state XML_NODE_JOIN_STATE)
         (some CRMD_JOINSTATE_MEMBER) = true)) ∧
    ((determine_online_status_no_fencing d node_state n).1 = true →
      (determine_online_status_no_fencing d node_state n).2 = d ∧
      (determine_online_status_no_fencing d node_state n).2.fence_calls = d.fence_calls ∧
      ((determine_online_status_no_fencing d node_state n).2.details n).unclean
        = (d.details n).unclean ∧
      ((d.details n).unclean = false →
        ((determine_online_status_no_fencing d node_state n).2.details n).unclean = false)) := by
  unfold determine_online_status_no_fencing
  simp only []
  by_cases h1 : crm_is_true (crm_element_value node_state XML_NODE_IN_CLUSTER) = true
  · by_cases h2 : safe_str_eq (crm_element_value node_state XML_NODE_IS_PEER)
        (some ONLINESTATUS) = true
    · by_cases h3 : safe_str_eq (crm_element_value node_state XML_NODE_JOIN_STATE)
          (some CRMD_JOINSTATE_MEMBER) = true
      · simp [h1, h2, h3]
      · simp [h1, h2, h3]
    · by_cases h4 : (d.details n).expected_up = true
      · simp [h1, h2, h4]
      · simp [h1, h2, h4]
  · simp [h1]

/-- Witness of C9: a node reporting in-cluster, peer online and join state member
is online, and a clean node stays clean. -/
theorem determine_online_status_no_fencing_online_witness :
    (determine_online_status_no_fencing ex_cluster ex_state_member 0).1 = true ∧
    (determine_online_status_no_fencing ex_cluster ex_state_member 0).2.fence_calls = [] ∧
    ((determine_online_status_no_fencing ex_cluster ex_state_member 0).2.details 0).unclean
      = false :=
  ⟨(determine_online_status_no_fencing_online ex_cluster ex_state_member 0).1.2
     ⟨by decide, by decide, by decide⟩,
   ((determine_online_status_no_fencing_online ex_cluster ex_state_member 0).2 (by decide)).2.1,
   ((determine_online_status_no_fencing_online ex_cluster ex_state_member 0).2
     (by decide)).2.2.2 (by decide)⟩

/-- Counterexample to C10 as stated: without fencing, a cluster member that is
expected to be up (expected state `member`, no shutdown requested) and reports
`in_cluster` false is determined not online, yet `pe_fence_node` is not invoked
and the node stays clean. -/
theorem determine_online_status_expected_down_not_fenced :
    ex_cluster.flags.pe_flag_stonith_enabled = false ∧
    (ex_cluster.details 0).type = node_type.node_member ∧
    pe_node_attribute_raw ex_cluster 0 XML_CIB_ATTR_SHUTDOWN = none ∧
    crm_element_value ex_state_expected_gone XML_NODE_EXPECTED = some CRMD_JOINSTATE_MEMBER ∧
    ((determine_online_status ex_state_expected_gone (some 0) ex_cluster).2.details 0).expected_up
      = true ∧
    (determine_online_status ex_state_expected_gone (some 0) ex_cluster).1 = false ∧
    (determine_online_status ex_state_expected_gone (some 0) ex_cluster).2.fence_calls = [] ∧
    ((determine_online_status ex_state_expected_gone (some 0) ex_cluster).2.details 0).unclean
      = false := by
  decide

/-- Claim C10, as amended: without fencing, for every cluster member that is
expected to be up (expected state `member`, no shutdown requested), that reports
`in_cluster` true and whose peer-process flag is not `online`,
`determine_online_status` returns not online, `pe_fence_node` is invoked on the
node with the reason "peer is unexpectedly down" and the node is left unclean;
`pe_fence_node` is not invoked when `in_cluster` is not true, when the
peer-process flag is `online`, or when the node is not expected to be up (a
shutdown is requested or the expected state is not `member`). -/
theorem determine_online_status_unexpectedly_down (d : pe_working_set_t)
    (node_state : xmlNode) (n : node_ptr)
    (hs : d.flags.pe_flag_stonith_enabled = false)
    (ht : (d.details n).type = node_type.node_member) :
    (((pe_node_attribute_raw d n XML_CIB_ATTR_SHUTDOWN != none
          && safe_str_neq (some "0") (pe_node_attribute_raw d n XML_CIB_ATTR_SHUTDOWN)) = false ∧
        safe_str_eq (crm_element_value node_state XML_NODE_EXPECTED)
          (some CRMD_JOINSTATE_MEMBER) = true ∧
        crm_is_true (crm_element_value node_state XML_NODE_IN_CLUSTER) = true ∧
        safe_str_eq (crm_element_value node_state XML_NODE_IS_PEER) (some ONLINESTATUS) = false) →
      (determine_online_status node_state (some n) d).1 = false ∧
      (determine_online_status node_state (some n) d).2.fence_calls
        = d.fence_calls ++ [(n, "peer is unexpectedly down")] ∧
      ((determine_online_status node_state (some n) d).2.details n).unclean = true) ∧
    ((crm_is_true (crm_element_value node_state XML_NODE_IN_CLUSTER) = false ∨
        safe_str_eq (crm_element_value node_state XML_NODE_IS_PEER) (some ONLINESTATUS) = true ∨
        (pe_node_attribute_raw d n XML_CIB_ATTR_SHUTDOWN != none
          && safe_str_neq (some "0") (pe_node_attribute_raw d n XML_CIB_ATTR_SHUTDOWN)) = true ∨
        safe_str_eq (crm_element_value node_state XML_NODE_EXPECTED)
          (some CRMD_JOINSTATE_MEMBER) = false) →
      (determine_online_status node_state (some n) d).2.fence_calls = d.fence_calls) := by
  have hattr : pe_node_attribute_raw
      (d.upd_details n (fun x => { x with shutdown := false, expected_up := false })) n
      XML_CIB_ATTR_SHUTDOWN = pe_node_attribute_raw d n XML_CIB_ATTR_SHUTDOWN := by
    simp [pe_node_attribute_raw]
  unfold determine_online_status
  simp only [hattr]
  generalize hb1 : (pe_node_attribute_raw d n XML_CIB_ATTR_SHUTDOWN != none
          && safe_str_neq (some "0") (pe_node_attribute_raw d n XML_CIB_ATTR_SHUTDOWN)) = b1
  generalize hb2 : safe_str_eq (crm_element_value node_state XML_NODE_EXPECTED)
          (some CRMD_JOINSTATE_MEMBER) = b2
  unfold determine_online_status_no_fencing
  simp only []
  generalize hb3 : crm_is_true (crm_element_value node_state XML_NODE_IN_CLUSTER) = b3
  generalize hb4 : safe_str_eq (crm_element_value node_state XML_NODE_IS_PEER) (some ONLINESTATUS) = b4
  generalize hb5 : safe_str_eq (crm_element_value node_state XML_NODE_JOIN_STATE)
         (some CRMD_JOINSTATE_MEMBER) = b5
  cases b1 <;> cases b2 <;> cases b3 <;> cases b4 <;> cases b5 <;>
    simp [hs, ht, pe_fence_node_fence_calls, pe_fence_node_cluster_unclean]

/-- Witness of C10 as amended: a cluster member expected up, in the cluster, with
its peer process offline is fenced as unexpectedly down; one that is not
expected up is not. -/
theorem determine_online_status_unexpectedly_down_witness :
    ((determine_online_status ex_state_expected_peer_down (some 0) ex_cluster).1 = false ∧
      (determine_online_status ex_state_expected_peer_down (some 0) ex_cluster).2.fence_calls
        = [(0, "peer is unexpectedly down")] ∧
      ((determine_online_status ex_state_expected_peer_down (some 0) ex_cluster).2.details
        0).unclean = true) ∧
    (determine_online_status ex_state_unexpected_peer_down (some 0) ex_cluster).2.fence_calls
      = [] :=
  ⟨(determine_online_status_unexpectedly_down ex_cluster ex_state_expected_peer_down 0
      (by decide) (by decide)).1 ⟨by decide, by decide, by decide, by decide⟩,
   (determine_online_status_unexpectedly_down ex_cluster ex_state_unexpected_peer_down 0
      (by decide) (by decide)).2 (Or.inr (Or.inr (Or.inr (by decide))))⟩

/-- Claim C2: for every non-null node and every node-state entry, if
`determine_online_status` returned false (the node was determined offline) or
the node is shutting down on return, then the node's weight is `-INFINITY` and
its fixed flag is true. -/
theorem determine_online_status_offline_pinned (node_state : xmlNode) (n : node_ptr)
    (d : pe_working_set_t) :
    ((determine_online_status node_state (some n) d).1 = false ∨
      ((determine_online_status node_state (some n) d).2.details n).shutdown = true) →
    ((determine_online_status node_state (some n) d).2.node_at n).weight = -INFINITY ∧
    ((determine_online_status node_state (some n) d).2.node_at n).fixed = true := by
  unfold determine_online_status
  simp only []
  exact online_verdict_pins _ _ n

/-- Witness of C2: a cluster member reporting itself out of the cluster is
determined offline and pinned with weight `-INFINITY`; a member that is online
with a shutdown requested is pinned in the same way. -/
theorem determine_online_status_offline_pinned_witness :
    ((determine_online_status ex_state_expected_gone (some 0) ex_cluster).1 = false ∧
      ((determine_online_status ex_state_expected_gone (some 0) ex_cluster).2.node_at 0).weight
        = -INFINITY ∧
      ((determine_online_status ex_state_expected_gone (some 0) ex_cluster).2.node_at 0).fixed
        = true) ∧
    ((determine_online_status ex_state_member (some 0) ex_shutting_down).1 = true ∧
      ((determine_online_status ex_state_member (some 0) ex_shutting_down).2.details 0).shutdown
        = true ∧
      ((determine_online_status ex_state_member (some 0) ex_shutting_down).2.node_at 0).weight
        = -INFINITY ∧
      ((determine_online_status ex_state_member (some 0) ex_shutting_down).2.node_at 0).fixed
        = true) :=
  ⟨⟨by decide,
    determine_online_status_offline_pinned ex_state_expected_gone 0 ex_cluster
      (Or.inl (by decide))⟩,
   ⟨by decide, by decide,
    determine_online_status_offline_pinned ex_state_member 0 ex_shutting_down
      (Or.inr (by decide))⟩⟩

/-- Counterexample to C3 as stated: a node that is not shutting down and reports
`in_cluster` true, peer process online and the rejected join state is fenced
(`pe_fence_node` is invoked and marks it unclean), and the online value returned
is true. -/
theorem determine_online_status_fencing_fenced_online :
    (ex_cluster.details 0).shutdown = false ∧
    (determine_online_status_fencing ex_cluster ex_state_banned 0).2.fence_calls
      = [(0, "peer failed the pacemaker membership criteria")] ∧
    ((determine_online_status_fencing ex_cluster ex_state_banned 0).2.details 0).unclean
      = true ∧
    (determine_online_status_fencing ex_cluster ex_state_banned 0).1 = true := by
  decide

/-- Claim C3, as amended: in `determine_online_status_fencing`, for every node that
is not shutting down and every combination of the attributes, the online value
returned is the boolean reading of `in_cluster`, also when `pe_fence_node` is
invoked; so a fenced node is returned offline when `in_cluster` is absent or not
true, and online when `in_cluster` is true, as for a node in the rejected join
state, which is fenced with the reason "peer failed the pacemaker membership
criteria". -/
theorem determine_online_status_fencing_online_eq (d : pe_working_set_t)
    (node_state : xmlNode) (n : node_ptr) (hs : (d.details n).shutdown = false) :
    (determine_online_status_fencing d node_state n).1
      = crm_is_true (crm_element_value node_state XML_NODE_IN_CLUSTER) ∧
    ((crm_is_true (crm_element_value node_state XML_NODE_IN_CLUSTER) = true ∧
        safe_str_eq (crm_element_value node_state XML_NODE_JOIN_STATE)
          (some CRMD_JOINSTATE_NACK) = true) →
      (determine_online_status_fencing d node_state n).1 = true ∧
      (determine_online_status_fencing d node_state n).2.fence_calls
        = d.fence_calls ++ [(n, "peer failed the pacemaker membership criteria")]) := by
  unfold determine_online_status_fencing
  simp only [hs]
  cases hin : crm_element_value node_state XML_NODE_IN_CLUSTER with
  | none => simp [crm_is_true]
  | some v =>
    generalize crm_is_true (some v) = b1
    generalize safe_str_eq (crm_element_value node_state XML_NODE_JOIN_STATE)
          (some CRMD_JOINSTATE_NACK) = b2
    generalize do_terminate_of (pe_node_attribute_raw d n "terminate") = b3
    generalize safe_str_eq (if (crm_element_value node_state XML_NODE_EXPECTED == none) = true
      then some CRMD_JOINSTATE_DOWN else crm_element_value node_state XML_NODE_EXPECTED)
      (some CRMD_JOINSTATE_DOWN) = b4
    generalize safe_str_eq (crm_element_value node_state XML_NODE_IS_PEER) (some ONLINESTATUS) = b5
    generalize safe_str_eq (crm_element_value node_state XML_NODE_JOIN_STATE)
          (some CRMD_JOINSTATE_DOWN) = b6
    generalize safe_str_eq (crm_element_value node_state XML_NODE_JOIN_STATE)
          (some CRMD_JOINSTATE_MEMBER) = b7
    generalize safe_str_eq (crm_element_value node_state XML_NODE_JOIN_STATE)
          (some CRMD_JOINSTATE_PENDING) = b8
    cases b1 <;> cases b2 <;> cases b3 <;> cases b4 <;> cases b5 <;> cases b6 <;> cases b7 <;>
      cases b8 <;> simp [pe_fence_node_fence_calls]

/-- Witness of C3 as amended: the node of the counterexample is returned online,
as its `in_cluster` is true, and is fenced. -/
theorem determine_online_status_fencing_online_eq_witness :
    (determine_online_status_fencing ex_cluster ex_state_banned 0).1 = true ∧
    (determine_online_status_fencing ex_cluster ex_state_banned 0).2.fence_calls
      = [(0, "peer failed the pacemaker membership criteria")] :=
  (determine_online_status_fencing_online_eq ex_cluster ex_state_banned 0 (by decide)).2
    ⟨by decide, by decide⟩

/-- Claim C1: in `unpack_lrm_rsc_state`, for every resource whose history entry on
a node holds at least one operation, the function returns that resource and the
role left on it is the maximum, under the order
unknown < stopped < started < slave < master, of the role it held when the
processing of its operations began (`saved_role`) and the role computed by
replaying the history; in particular it is never lower than the role held
before. -/
theorem unpack_lrm_rsc_state_role_max (c : lrm_callees) (node : node_ptr)
    (rsc_entry : xmlNode) (d : pe_working_set_t) (rsc : rsc_ptr) (d0 : pe_working_set_t)
    (hf : lrm_find_resource c node rsc_entry d = (rsc, d0))
    (h : 0 < (rsc_op_list rsc_entry).length) :
    (unpack_lrm_rsc_state c node rsc_entry d).1 = some rsc ∧
    ((unpack_lrm_rsc_state c node rsc_entry d).2.rsc_at rsc).role
      = max (d0.rsc_at rsc).role
          ((unpack_lrm_rsc_history c node rsc (rsc_op_list rsc_entry) d0).rsc_at rsc).role ∧
    (d0.rsc_at rsc).role ≤ ((unpack_lrm_rsc_state c node rsc_entry d).2.rsc_at rsc).role := by
  have he : (rsc_op_list rsc_entry).isEmpty = false := by
    cases hl : rsc_op_list rsc_entry with
    | nil => rw [hl] at h; exact absurd h (lt_irrefl 0)
    | cons a l => rfl
  have hmax : ((unpack_lrm_rsc_state c node rsc_entry d).2.rsc_at rsc).role
      = max (d0.rsc_at rsc).role
          ((unpack_lrm_rsc_history c node rsc (rsc_op_list rsc_entry) d0).rsc_at rsc).role := by
    simp only [unpack_lrm_rsc_state, he, hf, Bool.false_eq_true, if_false]
    split_ifs with hlt
    · simp [max_eq_left (le_of_lt hlt)]
    · simp [max_eq_right (not_lt.mp hlt)]
  refine ⟨?_, hmax, ?_⟩
  · simp [unpack_lrm_rsc_state, he, hf]
  · rw [hmax]
    exact le_max_left _ _

/-- Witness of C1: a resource believed to be master whose history replays to
started is still master when `unpack_lrm_rsc_state` returns. -/
theorem unpack_lrm_rsc_state_role_max_witness :
    ((unpack_lrm_rsc_history ex_callees 0 0 (rsc_op_list ex_rsc_entry) ex_master).rsc_at 0).role
      = rsc_role_e.RSC_ROLE_STARTED ∧
    (unpack_lrm_rsc_state ex_callees 0 ex_rsc_entry ex_master).1 = some 0 ∧
    ((unpack_lrm_rsc_state ex_callees 0 ex_rsc_entry ex_master).2.rsc_at 0).role
      = max (ex_master.rsc_at 0).role
          ((unpack_lrm_rsc_history ex_callees 0 0 (rsc_op_list ex_rsc_entry)
            ex_master).rsc_at 0).role ∧
    (ex_master.rsc_at 0).role
      ≤ ((unpack_lrm_rsc_state ex_callees 0 ex_rsc_entry ex_master).2.rsc_at 0).role :=
  ⟨by decide,
   unpack_lrm_rsc_state_role_max ex_callees 0 ex_rsc_entry ex_master 0 ex_master rfl
     (by decide)⟩

/-! ## Online status with fencing: nodes never seen and nodes standing by -/

/-- Claim C11: with fencing enabled, for every node that is not shutting down and
whose node-state entry has no in_cluster attribute, whatever the other
attributes are, `determine_online_status_fencing` returns online = false and
invokes `pe_fence_node` on the node with the reason "peer has not been seen by
the cluster" (its working set is the result of that one invocation).  The
second part states the same of the caller `determine_online_status` with
fencing enabled, for a node other than a ping node that has no shutdown
requested. -/
theorem determine_online_status_fencing_never_seen (d : pe_working_set_t)
    (node_state : xmlNode) (n : node_ptr)
    (hin : crm_element_value node_state XML_NODE_IN_CLUSTER = none) :
    ((d.details n).shutdown = false →
      (determine_online_status_fencing d node_state n).1 = false ∧
      (determine_online_status_fencing d node_state n).2
        = pe_fence_node d (some n) "peer has not been seen by the cluster" ∧
      (determine_online_status_fencing d node_state n).2.fence_calls
        = d.fence_calls ++ [(n, "peer has not been seen by the cluster")]) ∧
    ((d.flags.pe_flag_stonith_enabled = true ∧ (d.details n).type ≠ node_type.node_ping ∧
        (pe_node_attribute_raw d n XML_CIB_ATTR_SHUTDOWN != none
          && safe_str_neq (some "0") (pe_node_attribute_raw d n XML_CIB_ATTR_SHUTDOWN)) = false) →
      (determine_online_status node_state (some n) d).1 = false ∧
      (determine_online_status node_state (some n) d).2.fence_calls
        = d.fence_calls ++ [(n, "peer has not been seen by the cluster")]) := by
  have key : ∀ d' : pe_working_set_t, (d'.details n).shutdown = false →
      determine_online_status_fencing d' node_state n
        = (false, pe_fence_node d' (some n) "peer has not been seen by the cluster") := by
    intro d' hs
    unfold determine_online_status_fencing
    simp [hs, hin, crm_is_true]
  refine ⟨?_, ?_⟩
  · intro hs
    rw [key d hs]
    exact ⟨rfl, rfl, pe_fence_node_fence_calls d n _⟩
  · rintro ⟨hst, hty, hsd⟩
    have hattr : pe_node_attribute_raw
        (d.upd_details n (fun x => { x with shutdown := false, expected_up := false })) n
        XML_CIB_ATTR_SHUTDOWN = pe_node_attribute_raw d n XML_CIB_ATTR_SHUTDOWN := by
      simp [pe_node_attribute_raw]
    unfold determine_online_status
    simp only [hattr, hsd]
    by_cases he : safe_str_eq (crm_element_value node_state XML_NODE_EXPECTED)
        (some CRMD_JOINSTATE_MEMBER) = true
    · simp [he, hty, hst, key, pe_fence_node_fence_calls]
    · simp [he, hty, hst, key, pe_fence_node_fence_calls]

/-- Witness of C11: a clean cluster member whose node-state entry has no
in_cluster attribute, with fencing enabled. -/
theorem determine_online_status_fencing_never_seen_witness :
    ((determine_online_status_fencing ex_fencing ex_state_never_seen 0).1 = false ∧
      (determine_online_status_fencing ex_fencing ex_state_never_seen 0).2
        = pe_fence_node ex_fencing (some 0) "peer has not been seen by the cluster" ∧
      (determine_online_status_fencing ex_fencing ex_state_never_seen 0).2.fence_calls
        = [(0, "peer has not been seen by the cluster")]) ∧
    ((determine_online_status ex_state_never_seen (some 0) ex_fencing).1 = false ∧
      (determine_online_status ex_state_never_seen (some 0) ex_fencing).2.fence_calls
        = [(0, "peer has not been seen by the cluster")]) :=
  ⟨(determine_online_status_fencing_never_seen ex_fencing ex_state_never_seen 0
      (by decide)).1 (by decide),
   (determine_online_status_fencing_never_seen ex_fencing ex_state_never_seen 0
      (by decide)).2 ⟨by decide, by decide, by decide⟩⟩

/-- Counterexample to C12: a node that is not shutting down, has an in_cluster
attribute (with value false), whose join state is not the rejected one, with no
termination pending and no expected state, is marked neither standby nor
pending by `determine_online_status_fencing`. -/
theorem determine_online_status_fencing_coming_up_unmarked :
    (ex_fencing.details 0).shutdown = false ∧
    crm_element_value ex_state_coming_up XML_NODE_IN_CLUSTER ≠ none ∧
    safe_str_eq (crm_element_value ex_state_coming_up XML_NODE_JOIN_STATE)
      (some CRMD_JOINSTATE_NACK) = false ∧
    do_terminate_of (pe_node_attribute_raw ex_fencing 0 "terminate") = false ∧
    crm_element_value ex_state_coming_up XML_NODE_EXPECTED = none ∧
    ((determine_online_status_fencing ex_fencing ex_state_coming_up 0).2.details 0).standby
      = false ∧
    ((determine_online_status_fencing ex_fencing ex_state_coming_up 0).2.details 0).pending
      = false := by
  decide

/-- Claim C12 as amended: with fencing enabled, for every node that is not shutting
down, has an in_cluster attribute and whose join state is not the rejected one,
if no termination is pending and the expected state is down or absent, then
`pe_fence_node` is not invoked, and the node is marked standby and pending when
in_cluster is true or the peer process is online; otherwise the working set is
left as it was. -/
theorem determine_online_status_fencing_standing_by (d : pe_working_set_t)
    (node_state : xmlNode) (n : node_ptr)
    (hs : (d.details n).shutdown = false)
    (hin : crm_element_value node_state XML_NODE_IN_CLUSTER ≠ none)
    (hj : safe_str_eq (crm_element_value node_state XML_NODE_JOIN_STATE)
      (some CRMD_JOINSTATE_NACK) = false)
    (ht : do_terminate_of (pe_node_attribute_raw d n "terminate") = false)
    (he : crm_element_value node_state XML_NODE_EXPECTED = none ∨
      safe_str_eq (crm_element_value node_state XML_NODE_EXPECTED)
        (some CRMD_JOINSTATE_DOWN) = true) :
    (determine_online_status_fencing d node_state n).2.fence_calls = d.fence_calls ∧
    (determine_online_status_fencing d node_state n).2
      = (if (crm_is_true (crm_element_value node_state XML_NODE_IN_CLUSTER)
              || safe_str_eq (crm_element_value node_state XML_NODE_IS_PEER)
                  (some ONLINESTATUS)) = true
         then d.upd_details n set_standby_pending else d) ∧
    (((crm_is_true (crm_element_value node_state XML_NODE_IN_CLUSTER)
          || safe_str_eq (crm_element_value node_state XML_NODE_IS_PEER)
              (some ONLINESTATUS)) = true) →
      ((determine_online_status_fencing d node_state n).2.details n).standby = true ∧
      ((determine_online_status_fencing d node_state n).2.details n).pending = true) := by
  have hexp : safe_str_eq
      (if (crm_element_value node_state XML_NODE_EXPECTED == none) = true
        then some CRMD_JOINSTATE_DOWN else crm_element_value node_state XML_NODE_EXPECTED)
      (some CRMD_JOINSTATE_DOWN) = true := by
    rcases he with he | he
    · rw [he]; decide
    · cases hx : crm_element_value node_state XML_NODE_EXPECTED with
      | none => decide
      | some v => rw [hx] at he; simpa using he
  have hin' : (crm_element_value node_state XML_NODE_IN_CLUSTER == none) = false := by
    cases hx : crm_element_value node_state XML_NODE_IN_CLUSTER with
    | none => exact absurd hx hin
    | some v => rfl
  have key : determine_online_status_fencing d node_state n
      = (crm_is_true (crm_element_value node_state XML_NODE_IN_CLUSTER),
         if (crm_is_true (crm_element_value node_state XML_NODE_IN_CLUSTER)
              || safe_str_eq (crm_element_value node_state XML_NODE_IS_PEER)
                  (some ONLINESTATUS)) = true
         then d.upd_details n set_standby_pending else d) := by
    unfold determine_online_status_fencing
    simp only [hs, hin', hj, ht, hexp]
    simp
    split_ifs <;> rfl
  rw [key]
  refine ⟨?_, rfl, ?_⟩
  · split_ifs <;> simp
  · intro h
    simp [h, set_standby_pending]

/-- Witness of C12 as amended: a node in the cluster with its peer process online
and expected state down is marked standby and pending and is not fenced. -/
theorem determine_online_status_fencing_standing_by_witness :
    (determine_online_status_fencing ex_fencing ex_state_standing_by 0).2.fence_calls = [] ∧
    ((determine_online_status_fencing ex_fencing ex_state_standing_by 0).2.details 0).standby
      = true ∧
    ((determine_online_status_fencing ex_fencing ex_state_standing_by 0).2.details 0).pending
      = true :=
  ⟨(determine_online_status_fencing_standing_by ex_fencing ex_state_standing_by 0
      (by decide) (by decide) (by decide) (by decide) (Or.inr (by decide))).1,
   (determine_online_status_fencing_standing_by ex_fencing ex_state_standing_by 0
      (by decide) (by decide) (by decide) (by decide) (Or.inr (by decide))).2.2 (by decide)⟩

/-! ## The indices computed by `calculate_active_ops` -/

/-- An index at which an entry satisfies a predicate lies within the list. -/
theorem at_idx_lt {p : xmlNode → Bool} {l : List xmlNode} {j : Nat} (h : at_idx p l j) :
    j < l.length := by
  obtain ⟨op, hop, -⟩ := h
  by_contra hc
  rw [List.getElem?_eq_none (not_lt.mp hc)] at hop
  exact Option.noConfusion hop

/-- The entries satisfying a predicate after one entry is appended. -/
theorem at_idx_snoc (p : xmlNode → Bool) (l : List xmlNode) (e : xmlNode) (j : Nat) :
    at_idx p (l ++ [e]) j ↔ at_idx p l j ∨ (j = l.length ∧ p e = true) := by
  constructor
  · rintro ⟨op, hop, hp⟩
    by_cases hj : j < l.length
    · rw [List.getElem?_append_left hj] at hop
      exact Or.inl ⟨op, hop, hp⟩
    · have hj' : l.length ≤ j := not_lt.mp hj
      rw [List.getElem?_append_right hj'] at hop
      by_cases h0 : j - l.length = 0
      · rw [h0] at hop
        simp at hop
        subst hop
        exact Or.inr ⟨by omega, hp⟩
      · have : ([e] : List xmlNode)[j - l.length]? = none := by
          apply List.getElem?_eq_none
          simp; omega
        rw [this] at hop
        exact Option.noConfusion hop
  · rintro (⟨op, hop, hp⟩ | ⟨hj, hp⟩)
    · have hj : j < l.length := at_idx_lt ⟨op, hop, hp⟩
      exact ⟨op, by rw [List.getElem?_append_left hj]; exact hop, hp⟩
    · subst hj
      exact ⟨e, by simp, hp⟩

/-- Appending an entry that satisfies the predicate makes its index the last
one. -/
theorem is_last_index_snoc_true (p : xmlNode → Bool) (l : List xmlNode) (e : xmlNode)
    (hp : p e = true) : is_last_index p (l ++ [e]) (l.length : Int) := by
  right
  refine ⟨l.length, rfl, (at_idx_snoc p l e _).2 (Or.inr ⟨rfl, hp⟩), ?_⟩
  intro j hj hat
  have := at_idx_lt hat
  simp at this
  omega

/-- Appending an entry that does not satisfy the predicate keeps the last index.
-/
theorem is_last_index_snoc_false (p : xmlNode → Bool) (l : List xmlNode) (e : xmlNode) (v : Int)
    (hp : p e = false) (h : is_last_index p l v) : is_last_index p (l ++ [e]) v := by
  have hne : ∀ j, at_idx p (l ++ [e]) j ↔ at_idx p l j := by
    intro j
    rw [at_idx_snoc]
    constructor
    · rintro (h | ⟨-, h⟩)
      · exact h
      · rw [hp] at h; exact Bool.noConfusion h
    · exact Or.inl
  rcases h with ⟨hv, hall⟩ | ⟨k, hv, hk, hall⟩
  · exact Or.inl ⟨hv, fun j hj => hall j ((hne j).1 hj)⟩
  · exact Or.inr ⟨k, hv, (hne k).2 hk, fun j hj hat => hall j hj ((hne j).1 hat)⟩

/-- A string equal to one of two different constants is not equal to the other.
-/
theorem safe_str_eq_disjoint (t : Option String) (a b : String)
    (hab : strcasecmp_eq a b = false) (h : safe_str_eq t (some a) = true) :
    safe_str_eq t (some b) = false := by
  cases t with
  | none => simp [safe_str_eq] at h
  | some x =>
    simp only [safe_str_eq, strcasecmp_eq, beq_iff_eq] at h
    simp only [safe_str_eq, strcasecmp_eq, h]
    exact hab

/-- A successful stop is of no other kind. -/
theorem stop_not_start (e : xmlNode) (h : op_is_successful_stop e = true) :
    op_is_start e = false ∧ op_is_promote_or_demote e = false ∧
      op_is_active_monitor e = false := by
  simp only [op_is_successful_stop, Bool.and_eq_true] at h
  have h1 := safe_str_eq_disjoint _ CRMD_ACTION_STOP CRMD_ACTION_START (by decide) h.1
  have h2 := safe_str_eq_disjoint _ CRMD_ACTION_STOP CRMD_ACTION_MIGRATED (by decide) h.1
  have h3 := safe_str_eq_disjoint _ CRMD_ACTION_STOP CRMD_ACTION_PROMOTE (by decide) h.1
  have h4 := safe_str_eq_disjoint _ CRMD_ACTION_STOP CRMD_ACTION_DEMOTE (by decide) h.1
  have h5 := safe_str_eq_disjoint _ CRMD_ACTION_STOP CRMD_ACTION_STATUS (by decide) h.1
  simp [op_is_start, op_is_promote_or_demote, op_is_active_monitor, h1, h2, h3, h4, h5]

/-- A start or migrate_from is of no other kind. -/
theorem start_not_other (e : xmlNode) (h : op_is_start e = true) :
    op_is_successful_stop e = false ∧ op_is_promote_or_demote e = false ∧
      op_is_active_monitor e = false := by
  simp only [op_is_start, Bool.or_eq_true] at h
  rcases h with h | h
  · have h1 := safe_str_eq_disjoint _ CRMD_ACTION_START CRMD_ACTION_STOP (by decide) h
    have h3 := safe_str_eq_disjoint _ CRMD_ACTION_START CRMD_ACTION_PROMOTE (by decide) h
    have h4 := safe_str_eq_disjoint _ CRMD_ACTION_START CRMD_ACTION_DEMOTE (by decide) h
    have h5 := safe_str_eq_disjoint _ CRMD_ACTION_START CRMD_ACTION_STATUS (by decide) h
    simp [op_is_successful_stop, op_is_promote_or_demote, op_is_active_monitor, h1, h3, h4, h5]
  · have h1 := safe_str_eq_disjoint _ CRMD_ACTION_MIGRATED CRMD_ACTION_STOP (by decide) h
    have h3 := safe_str_eq_disjoint _ CRMD_ACTION_MIGRATED CRMD_ACTION_PROMOTE (by decide) h
    have h4 := safe_str_eq_disjoint _ CRMD_ACTION_MIGRATED CRMD_ACTION_DEMOTE (by decide) h
    have h5 := safe_str_eq_disjoint _ CRMD_ACTION_MIGRATED CRMD_ACTION_STATUS (by decide) h
    simp [op_is_successful_stop, op_is_promote_or_demote, op_is_active_monitor, h1, h3, h4, h5]

/-- A monitor is neither a stop nor a start nor a promote or demote. -/
theorem monitor_task_not_other (e : xmlNode)
    (h : safe_str_eq (crm_element_value e XML_LRM_ATTR_TASK) (some CRMD_ACTION_STATUS) = true) :
    op_is_successful_stop e = false ∧ op_is_start e = false ∧
      op_is_promote_or_demote e = false := by
  have h1 := safe_str_eq_disjoint _ CRMD_ACTION_STATUS CRMD_ACTION_STOP (by decide) h
  have h2 := safe_str_eq_disjoint _ CRMD_ACTION_STATUS CRMD_ACTION_START (by decide) h
  have h2' := safe_str_eq_disjoint _ CRMD_ACTION_STATUS CRMD_ACTION_MIGRATED (by decide) h
  have h3 := safe_str_eq_disjoint _ CRMD_ACTION_STATUS CRMD_ACTION_PROMOTE (by decide) h
  have h4 := safe_str_eq_disjoint _ CRMD_ACTION_STATUS CRMD_ACTION_DEMOTE (by decide) h
  simp [op_is_successful_stop, op_is_start, op_is_promote_or_demote, h1, h2, h2', h3, h4]

/-- A promote or demote is not a monitor. -/
theorem promote_not_monitor (e : xmlNode) (h : op_is_promote_or_demote e = true) :
    op_is_active_monitor e = false := by
  simp only [op_is_promote_or_demote, Bool.or_eq_true] at h
  rcases h with h | h
  · have h5 := safe_str_eq_disjoint _ CRMD_ACTION_PROMOTE CRMD_ACTION_STATUS (by decide) h
    simp [op_is_active_monitor, h5]
  · have h5 := safe_str_eq_disjoint _ CRMD_ACTION_DEMOTE CRMD_ACTION_STATUS (by decide) h
    simp [op_is_active_monitor, h5]

/-- Appending an entry that does not satisfy the predicate adds no index. -/
theorem at_idx_snoc_false (p : xmlNode → Bool) (l : List xmlNode) (e : xmlNode) (j : Nat)
    (hp : p e = false) : at_idx p (l ++ [e]) j ↔ at_idx p l j := by
  rw [at_idx_snoc]
  constructor
  · rintro (h | ⟨-, h⟩)
    · exact h
    · rw [hp] at h; exact Bool.noConfusion h
  · exact Or.inl

/-- Appending an entry changes nothing at the indices of the list. -/
theorem at_idx_snoc_lt (p : xmlNode → Bool) (l : List xmlNode) (e : xmlNode) (j : Nat)
    (hj : j < l.length) : at_idx p (l ++ [e]) j ↔ at_idx p l j := by
  rw [at_idx_snoc]
  constructor
  · rintro (h | ⟨h, -⟩)
    · exact h
    · omega
  · exact Or.inl

/-- No entry is both a monitor implying a start and a successful stop. -/
theorem at_idx_exclusive (l : List xmlNode) (j : Nat)
    (h1 : at_idx op_is_active_monitor l j) (h2 : at_idx op_is_successful_stop l j) : False := by
  obtain ⟨a, ha, hpa⟩ := h1
  obtain ⟨b, hb, hpb⟩ := h2
  rw [ha] at hb
  cases hb
  have := (stop_not_start a hpb).2.2
  rw [this] at hpa
  exact Bool.noConfusion hpa

/-- The implied monitor index is kept when the appended entry is not a monitor
implying a start. -/
theorem implied_monitor_snoc_other (l : List xmlNode) (e : xmlNode) (m : Int)
    (hp : op_is_active_monitor e = false) (h : is_implied_monitor_index l m) :
    is_implied_monitor_index (l ++ [e]) m := by
  rcases h with ⟨hv, hall⟩ | ⟨k, hv, hk, hfirst, hlast⟩
  · exact Or.inl ⟨hv, fun j hj => hall j ((at_idx_snoc_false _ l e j hp).1 hj)⟩
  · refine Or.inr ⟨k, hv, (at_idx_snoc_false _ l e k hp).2 hk, ?_, ?_⟩
    · intro j hj hat
      obtain ⟨i, h1, h2, h3⟩ := hfirst j hj ((at_idx_snoc_false _ l e j hp).1 hat)
      exact ⟨i, h1, h2, (at_idx_snoc_lt _ l e i (at_idx_lt h3)).2 h3⟩
    · intro j hj hat i hi1 hi2 hst
      have hat' := (at_idx_snoc_false _ l e j hp).1 hat
      have hjl := at_idx_lt hat'
      exact hlast j hj hat' i hi1 hi2 ((at_idx_snoc_lt _ l e i (by omega)).1 hst)

/-- The implied monitor index becomes the index of an appended monitor implying
a start when the old one is not after the last successful stop. -/
theorem implied_monitor_snoc_update (l : List xmlNode) (e : xmlNode) (m s : Int)
    (hp : op_is_active_monitor e = true) (hs : is_last_index op_is_successful_stop l s)
    (hm : is_implied_monitor_index l m) (hle : m ≤ s) :
    is_implied_monitor_index (l ++ [e]) (l.length : Int) := by
  refine Or.inr ⟨l.length, rfl, (at_idx_snoc _ l e _).2 (Or.inr ⟨rfl, hp⟩), ?_, ?_⟩
  · intro j hj hat
    have hat' : at_idx op_is_active_monitor l j := (at_idx_snoc_lt _ l e j hj).1 hat
    rcases hm with ⟨hv, hall⟩ | ⟨k, hv, hk, hfirst, hlast⟩
    · exact absurd hat' (hall j)
    · rcases hs with ⟨hsv, -⟩ | ⟨t, hsv, ht, -⟩
      · omega
      · have htl := at_idx_lt ht
        have hkt : k ≤ t := by omega
        have hkt' : k < t := by
          rcases Nat.lt_or_ge k t with h | h
          · exact h
          · have : k = t := by omega
            subst this
            exact absurd ht (fun h2 => at_idx_exclusive l k hk h2)
        have hst' : at_idx op_is_successful_stop (l ++ [e]) t :=
          (at_idx_snoc_lt _ l e t htl).2 ht
        rcases Nat.lt_trichotomy j k with h | h | h
        · obtain ⟨i, h1, h2, h3⟩ := hfirst j h hat'
          exact ⟨i, h1, by omega, (at_idx_snoc_lt _ l e i (at_idx_lt h3)).2 h3⟩
        · subst h
          exact ⟨t, hkt', htl, hst'⟩
        · have hjt : j < t := by
            rcases Nat.lt_trichotomy j t with h' | h' | h'
            · exact h'
            · subst h'
              exact absurd ht (fun h2 => at_idx_exclusive l j hat' h2)
            · exact absurd ht (hlast j h hat' t hkt' h')
          exact ⟨t, hjt, htl, hst'⟩
  · intro j hj hat
    have := at_idx_lt hat
    simp at this
    omega

/-- The implied monitor index is kept while it is after the last successful
stop. -/
theorem implied_monitor_snoc_keep (l : List xmlNode) (e : xmlNode) (m s : Int)
    (hs : is_last_index op_is_successful_stop l s)
    (hm : is_implied_monitor_index l m) (hlt : s < m) :
    is_implied_monitor_index (l ++ [e]) m := by
  by_cases hp : op_is_active_monitor e = true
  · rcases hm with ⟨hv, -⟩ | ⟨k, hv, hk, hfirst, hlast⟩
    · rcases hs with ⟨hsv, -⟩ | ⟨t, hsv, -, -⟩ <;> omega
    · refine Or.inr ⟨k, hv, (at_idx_snoc_lt _ l e k (at_idx_lt hk)).2 hk, ?_, ?_⟩
      · intro j hj hat
        have hkl := at_idx_lt hk
        obtain ⟨i, h1, h2, h3⟩ := hfirst j hj ((at_idx_snoc_lt _ l e j (by omega)).1 hat)
        exact ⟨i, h1, h2, (at_idx_snoc_lt _ l e i (at_idx_lt h3)).2 h3⟩
      · intro j hj hat i hi1 hi2 hst
        have hjl : j < (l ++ [e]).length := at_idx_lt hat
        simp at hjl
        have hst' : at_idx op_is_successful_stop l i := (at_idx_snoc_lt _ l e i (by omega)).1 hst
        rcases hs with ⟨hsv, hnone⟩ | ⟨t, hsv, -, hafter⟩
        · exact hnone i hst'
        · exact hafter i (by omega) hst'
  · exact implied_monitor_snoc_other l e m (by simpa using hp) hm

/-- What holds of the variables of `calculate_active_ops` after its loop. -/
theorem calculate_active_ops_loop (l : List xmlNode) :
    (l.foldl calculate_active_ops_step {}).counter = (l.length : Int) - 1 ∧
    is_last_index op_is_successful_stop l (l.foldl calculate_active_ops_step {}).stop_index ∧
    is_last_index op_is_start l (l.foldl calculate_active_ops_step {}).start_index ∧
    is_last_index op_is_promote_or_demote l
      (l.foldl calculate_active_ops_step {}).implied_clone_start ∧
    is_implied_monitor_index l (l.foldl calculate_active_ops_step {}).implied_monitor_start := by
  induction l using List.reverseRecOn with
  | nil =>
    have hn : ∀ (p : xmlNode → Bool) j, ¬ at_idx p [] j := by
      intro p j h
      have := at_idx_lt h
      simp at this
    exact ⟨rfl, Or.inl ⟨rfl, hn _⟩, Or.inl ⟨rfl, hn _⟩, Or.inl ⟨rfl, hn _⟩, Or.inl ⟨rfl, hn _⟩⟩
  | append_singleton l e ih =>
    obtain ⟨hc, hstop, hstart, hclone, hmon⟩ := ih
    rw [List.foldl_append]
    simp only [List.foldl_cons, List.foldl_nil]
    generalize l.foldl calculate_active_ops_step {} = s at hc hstop hstart hclone hmon
    have hlen : ((l ++ [e]).length : Int) - 1 = (l.length : Int) := by simp
    have hcnt : s.counter + 1 = (l.length : Int) := by omega
    rw [hlen]
    unfold calculate_active_ops_step
    simp only [hcnt]
    by_cases h1 : op_is_successful_stop e = true
    · obtain ⟨n1, n2, n3⟩ := stop_not_start e h1
      have h1' := h1
      simp only [op_is_successful_stop] at h1'
      simp only [h1', if_true]
      exact ⟨trivial, is_last_index_snoc_true _ l e h1, is_last_index_snoc_false _ l e _ n1 hstart,
        is_last_index_snoc_false _ l e _ n2 hclone, implied_monitor_snoc_other l e _ n3 hmon⟩
    · have h1f : op_is_successful_stop e = false := by simpa using h1
      have h1' := h1f
      simp only [op_is_successful_stop] at h1'
      simp only [h1', Bool.false_eq_true, if_false]
      by_cases h2 : op_is_start e = true
      · obtain ⟨-, n2, n3⟩ := start_not_other e h2
        have h2' := h2
        simp only [op_is_start] at h2'
        simp only [h2', if_true]
        exact ⟨trivial, is_last_index_snoc_false _ l e _ h1f hstop, is_last_index_snoc_true _ l e h2,
          is_last_index_snoc_false _ l e _ n2 hclone, implied_monitor_snoc_other l e _ n3 hmon⟩
      · have h2f : op_is_start e = false := by simpa using h2
        have h2' := h2f
        simp only [op_is_start] at h2'
        simp only [h2', Bool.false_eq_true, if_false]
        by_cases h3 : s.implied_monitor_start ≤ s.stop_index
        · by_cases ht : safe_str_eq (crm_element_value e XML_LRM_ATTR_TASK)
              (some CRMD_ACTION_STATUS) = true
          · obtain ⟨-, -, n2⟩ := monitor_task_not_other e ht
            simp only [h3, decide_True, ht, Bool.and_self, if_true]
            by_cases hrc : (safe_str_eq (crm_element_value e XML_LRM_ATTR_RC) (some "0")
                || safe_str_eq (crm_element_value e XML_LRM_ATTR_RC) (some "8")) = true
            · have hm : op_is_active_monitor e = true := by
                simp only [op_is_active_monitor, ht, hrc, Bool.and_self]
              simp only [hrc, if_true]
              exact ⟨trivial, is_last_index_snoc_false _ l e _ h1f hstop,
                is_last_index_snoc_false _ l e _ h2f hstart,
                is_last_index_snoc_false _ l e _ n2 hclone,
                implied_monitor_snoc_update l e _ _ hm hstop hmon h3⟩
            · have hrcf : (safe_str_eq (crm_element_value e XML_LRM_ATTR_RC) (some "0")
                || safe_str_eq (crm_element_value e XML_LRM_ATTR_RC) (some "8")) = false := by
                simpa using hrc
              have hm : op_is_active_monitor e = false := by
                simp only [op_is_active_monitor, hrcf, Bool.and_false]
              simp only [hrcf, Bool.false_eq_true, if_false]
              exact ⟨trivial, is_last_index_snoc_false _ l e _ h1f hstop,
                is_last_index_snoc_false _ l e _ h2f hstart,
                is_last_index_snoc_false _ l e _ n2 hclone,
                implied_monitor_snoc_other l e _ hm hmon⟩
          · have htf : safe_str_eq (crm_element_value e XML_LRM_ATTR_TASK)
              (some CRMD_ACTION_STATUS) = false := by simpa using ht
            have hm : op_is_active_monitor e = false := by
              simp only [op_is_active_monitor, htf, Bool.false_and]
            simp only [htf, Bool.and_false, Bool.false_eq_true, if_false]
            by_cases h4 : op_is_promote_or_demote e = true
            · have h4' := h4
              simp only [op_is_promote_or_demote] at h4'
              simp only [h4', if_true]
              exact ⟨trivial, is_last_index_snoc_false _ l e _ h1f hstop,
                is_last_index_snoc_false _ l e _ h2f hstart,
                is_last_index_snoc_true _ l e h4,
                implied_monitor_snoc_other l e _ hm hmon⟩
            · have h4f : op_is_promote_or_demote e = false := by simpa using h4
              have h4' := h4f
              simp only [op_is_promote_or_demote] at h4'
              simp only [h4', Bool.false_eq_true, if_false]
              exact ⟨trivial, is_last_index_snoc_false _ l e _ h1f hstop,
                is_last_index_snoc_false _ l e _ h2f hstart,
                is_last_index_snoc_false _ l e _ h4f hclone,
                implied_monitor_snoc_other l e _ hm hmon⟩
        · have h3' : s.stop_index < s.implied_monitor_start := not_le.mp h3
          have hmk := implied_monitor_snoc_keep l e _ _ hstop hmon h3'
          simp only [h3, decide_False, Bool.false_and, Bool.false_eq_true, if_false]
          by_cases h4 : op_is_promote_or_demote e = true
          · have h4' := h4
            simp only [op_is_promote_or_demote] at h4'
            simp only [h4', if_true]
            exact ⟨trivial, is_last_index_snoc_false _ l e _ h1f hstop,
              is_last_index_snoc_false _ l e _ h2f hstart,
              is_last_index_snoc_true _ l e h4, hmk⟩
          · have h4f : op_is_promote_or_demote e = false := by simpa using h4
            have h4' := h4f
            simp only [op_is_promote_or_demote] at h4'
            simp only [h4', Bool.false_eq_true, if_false]
            exact ⟨trivial, is_last_index_snoc_false _ l e _ h1f hstop,
              is_last_index_snoc_false _ l e _ h2f hstart,
              is_last_index_snoc_false _ l e _ h4f hclone, hmk⟩

/-- No index satisfies a predicate that every entry of the list fails. -/
theorem not_at_idx_of_all (p : xmlNode → Bool) (l : List xmlNode)
    (h : l.all (fun op => !p op) = true) : ∀ j, ¬ at_idx p l j := by
  rintro j ⟨op, hop, hp⟩
  have hmem : op ∈ l := List.getElem?_mem hop
  have := List.all_eq_true.mp h op hmem
  simp [hp] at this

/-- A last index is `-1` exactly when no entry satisfies the predicate. -/
theorem is_last_index_neg_one (p : xmlNode → Bool) (l : List xmlNode) (v : Int)
    (h : is_last_index p l v) : v = -1 ↔ ∀ j, ¬ at_idx p l j := by
  rcases h with ⟨hv, hall⟩ | ⟨k, hv, hk, -⟩
  · exact ⟨fun _ => hall, fun _ => hv⟩
  · exact ⟨fun h1 => by omega, fun h1 => absurd hk (h1 k)⟩

/-- An implied monitor index is `-1` exactly when no entry is a monitor implying a
start. -/
theorem is_implied_monitor_index_neg_one (l : List xmlNode) (v : Int)
    (h : is_implied_monitor_index l v) : v = -1 ↔ ∀ j, ¬ at_idx op_is_active_monitor l j := by
  rcases h with ⟨hv, hall⟩ | ⟨k, hv, hk, -⟩
  · exact ⟨fun _ => hall, fun _ => hv⟩
  · exact ⟨fun h1 => by omega, fun h1 => absurd hk (h1 k)⟩

/-- An entry is of a kind that can set the start index when it is of one of the
three kinds. -/
theorem at_idx_implies_start (l : List xmlNode) (j : Nat) :
    at_idx op_implies_start l j ↔
      at_idx op_is_start l j ∨ at_idx op_is_promote_or_demote l j
        ∨ at_idx op_is_active_monitor l j := by
  constructor
  · rintro ⟨op, hop, hp⟩
    simp only [op_implies_start, Bool.or_eq_true] at hp
    rcases hp with (hp | hp) | hp
    · exact Or.inl ⟨op, hop, hp⟩
    · exact Or.inr (Or.inl ⟨op, hop, hp⟩)
    · exact Or.inr (Or.inr ⟨op, hop, hp⟩)
  · rintro (⟨op, hop, hp⟩ | ⟨op, hop, hp⟩ | ⟨op, hop, hp⟩)
    · exact ⟨op, hop, by simp [op_implies_start, hp]⟩
    · exact ⟨op, hop, by simp [op_implies_start, hp]⟩
    · exact ⟨op, hop, by simp [op_implies_start, hp]⟩

/-- Claim C19: for every operation list, `calculate_active_ops` sets `stop_index` to
the index of the last entry whose task is stop and whose op-status is "0", or
to -1 when there is no such entry; for the history start, recurring monitor,
stop (with call ids 1, 2, 3) it yields start_index = 0 and
stop_index = 2. -/
theorem calculate_active_ops_stop_index (l : List xmlNode) :
    is_last_index op_is_successful_stop l (calculate_active_ops l).2 ∧
    ex_history_stopped.map op_call_id = [1, 2, 3] ∧
    calculate_active_ops ex_history_stopped = (0, 2) :=
  ⟨(calculate_active_ops_loop l).2.1, by decide, by decide⟩

/-- Counterexample to C20: in the history start, promote the most recent entry that
is a start, a migrate_from, a promote, a demote or a monitor implying a start is
the promote at index 1, yet `calculate_active_ops` sets `start_index` to 0, the
index of the start. -/
theorem calculate_active_ops_start_before_promote :
    (calculate_active_ops ex_history_promoted).1 = 0 ∧
    ex_history_promoted[1]? = some ex_op_promote ∧
    op_implies_start ex_op_promote = true ∧
    ¬ is_last_index op_implies_start ex_history_promoted
        (calculate_active_ops ex_history_promoted).1 := by
  refine ⟨by decide, rfl, by decide, ?_⟩
  have h0 : (calculate_active_ops ex_history_promoted).1 = 0 := by decide
  rw [h0]
  rintro (⟨hv, -⟩ | ⟨k, hv, -, hall⟩)
  · omega
  · have hk : k = 0 := by omega
    subst hk
    exact hall 1 (by decide) ⟨ex_op_promote, rfl, by decide⟩

/-- Claim C20 as amended: for every operation list, `calculate_active_ops` sets
`start_index` to the index of the last start or migrate_from when there is one;
when there is none, to the index of the last promote or demote when there is
one; when there is none of these either, to the index of the first monitor
implying a start (monitor with rc 0 or 8) of the last run of such monitors that
no successful stop interrupts, or to -1 when there is no such monitor.  It is -1
exactly when no entry is of any of these kinds. -/
theorem calculate_active_ops_start_index (l : List xmlNode) :
    ((∃ j, at_idx op_is_start l j) →
      is_last_index op_is_start l (calculate_active_ops l).1) ∧
    ((∀ j, ¬ at_idx op_is_start l j) → (∃ j, at_idx op_is_promote_or_demote l j) →
      is_last_index op_is_promote_or_demote l (calculate_active_ops l).1) ∧
    ((∀ j, ¬ at_idx op_is_start l j) → (∀ j, ¬ at_idx op_is_promote_or_demote l j) →
      is_implied_monitor_index l (calculate_active_ops l).1) ∧
    ((calculate_active_ops l).1 = -1 ↔ ∀ j, ¬ at_idx op_implies_start l j) := by
  obtain ⟨-, -, hstart, hclone, hmon⟩ := calculate_active_ops_loop l
  have e1 := is_last_index_neg_one _ l _ hstart
  have e2 := is_last_index_neg_one _ l _ hclone
  have e3 := is_implied_monitor_index_neg_one l _ hmon
  unfold calculate_active_ops
  generalize l.foldl calculate_active_ops_step {} = s at hstart hclone hmon e1 e2 e3
  simp only [beq_iff_eq, bne_iff_ne, ne_eq, ite_not]
  by_cases h1 : s.start_index = -1
  · have n1 := e1.1 h1
    by_cases h2 : s.implied_clone_start = -1
    · have n2 := e2.1 h2
      simp only [h1, h2, if_true]
      refine ⟨fun ⟨j, hj⟩ => absurd hj (n1 j), fun _ ⟨j, hj⟩ => absurd hj (n2 j), ?_, ?_⟩
      · intro _ _
        by_cases h3 : s.implied_monitor_start = -1
        · simpa [h3] using hmon
        · simpa [h3] using hmon
      · by_cases h3 : s.implied_monitor_start = -1
        · simp only [h3, if_true, true_iff]
          intro j hj
          rcases (at_idx_implies_start l j).1 hj with h | h | h
          · exact n1 j h
          · exact n2 j h
          · exact e3.1 h3 j h
        · simp only [h3, if_false, false_iff]
          intro hall
          exact h3 (e3.2 (fun j hj => hall j ((at_idx_implies_start l j).2 (Or.inr (Or.inr hj)))))
    · simp only [h1, h2, if_true, if_false]
      refine ⟨fun ⟨j, hj⟩ => absurd hj (n1 j), fun _ _ => hclone, ?_, ?_⟩
      · intro _ hn
        exact absurd (e2.2 hn) h2
      · simp only [h2, false_iff]
        intro hall
        exact h2 (e2.2 (fun j hj => hall j ((at_idx_implies_start l j).2 (Or.inr (Or.inl hj)))))
  · simp only [h1, if_false]
    refine ⟨fun _ => hstart, fun hn _ => absurd (e1.2 hn) h1,
      fun hn _ => absurd (e1.2 hn) h1, ?_⟩
    simp only [false_iff]
    intro hall
    exact h1 (e1.2 (fun j hj => hall j ((at_idx_implies_start l j).2 (Or.inl hj))))

/-- Witness of C20 as amended: in the history start, recurring monitor, stop there
is a start, and in the history holding one monitor with rc 0 there is neither
a start nor a promote or demote. -/
theorem calculate_active_ops_start_index_witness :
    is_last_index op_is_start ex_history_stopped (calculate_active_ops ex_history_stopped).1 ∧
    is_implied_monitor_index [ex_op_monitor] (calculate_active_ops [ex_op_monitor]).1 :=
  ⟨(calculate_active_ops_start_index ex_history_stopped).1 ⟨0, ex_op_start, rfl, by decide⟩,
   (calculate_active_ops_start_index [ex_op_monitor]).2.2.1
     (not_at_idx_of_all _ _ (by decide)) (not_at_idx_of_all _ _ (by decide))⟩

/-! ## The on-fail response accumulated over failed operations -/

/-- The on-fail response that `unpack_rsc_op_failure` leaves is the rule
`on_fail_combine` applied to the response it was given and to the response
configured for the failed operation. -/
theorem unpack_rsc_op_failure_on_fail (x : unpack_env) (rsc : rsc_ptr) (node : node_ptr)
    (rc : Int) (xml_op : xmlNode) (on_fail : action_fail_response) (d : pe_working_set_t) :
    (unpack_rsc_op_failure x rsc node rc xml_op on_fail d).2.1
      = on_fail_combine on_fail (failed_op_action x rsc node rc xml_op d).on_fail := rfl

/-- The table of `on_fail_combine`, case by case. -/
theorem on_fail_combine_rule (acc a : action_fail_response) :
    (on_fail_combine acc a = acc ∨ on_fail_combine acc a = a) ∧
    (acc ≤ action_fail_response.action_fail_fence → a ≤ action_fail_response.action_fail_fence →
      on_fail_combine acc a = max acc a) ∧
    (acc ≤ action_fail_response.action_fail_recover → on_fail_combine acc a = max acc a) ∧
    (acc = action_fail_response.action_fail_reset_remote → on_fail_combine acc a = acc) ∧
    (action_fail_response.action_fail_migrate ≤ acc →
      acc ≤ action_fail_response.action_fail_fence →
      action_fail_response.action_fail_fence < a → on_fail_combine acc a = acc) ∧
    (acc = action_fail_response.action_fail_restart_container →
      on_fail_combine acc a
        = if action_fail_response.action_fail_migrate ≤ a then a else acc) := by
  cases acc <;> cases a <;> decide

/-- Counterexample to C13: with restart-container accumulated and a failed
operation configured with on-fail migrate, `unpack_rsc_op_failure` leaves
migrate, which is below restart-container both in the precedence of the
specification and in the order of the enum. -/
theorem unpack_rsc_op_failure_on_fail_decreases :
    (failed_op_action ex_env_migrate 0 0 1 ex_op_failed_monitor ex_two_nodes).on_fail
      = action_fail_response.action_fail_migrate ∧
    (unpack_rsc_op_failure ex_env_migrate 0 0 1 ex_op_failed_monitor
        action_fail_response.action_fail_restart_container ex_two_nodes).2.1
      = action_fail_response.action_fail_migrate ∧
    spec_on_fail_precedence action_fail_response.action_fail_migrate
      < spec_on_fail_precedence action_fail_response.action_fail_restart_container ∧
    action_fail_response.action_fail_migrate
      < action_fail_response.action_fail_restart_container := by
  decide

/-- Claim C13 as amended: in `unpack_rsc_op_failure` the new accumulated on-fail
response is always the previous accumulated response or the response configured
for the failed operation.  It is the greater of the two in the order of the
enum (ignore < recover < migrate < block < stop < standby < fence <
restart_container < reset_remote) when both are at most fence, and when the
previous one is ignore or recover.  An accumulated reset_remote is kept whatever
is configured; an accumulated response from migrate to fence is kept when
restart_container or reset_remote is configured; an accumulated
restart_container is replaced by every configured response from migrate
upwards and kept otherwise. -/
theorem unpack_rsc_op_failure_on_fail_rule (x : unpack_env) (rsc : rsc_ptr) (node : node_ptr)
    (rc : Int) (xml_op : xmlNode) (on_fail : action_fail_response) (d : pe_working_set_t) :
    ((unpack_rsc_op_failure x rsc node rc xml_op on_fail d).2.1 = on_fail ∨
      (unpack_rsc_op_failure x rsc node rc xml_op on_fail d).2.1
        = (failed_op_action x rsc node rc xml_op d).on_fail) ∧
    (on_fail ≤ action_fail_response.action_fail_fence →
      (failed_op_action x rsc node rc xml_op d).on_fail
        ≤ action_fail_response.action_fail_fence →
      (unpack_rsc_op_failure x rsc node rc xml_op on_fail d).2.1
        = max on_fail (failed_op_action x rsc node rc xml_op d).on_fail) ∧
    (on_fail ≤ action_fail_response.action_fail_recover →
      (unpack_rsc_op_failure x rsc node rc xml_op on_fail d).2.1
        = max on_fail (failed_op_action x rsc node rc xml_op d).on_fail) ∧
    (on_fail = action_fail_response.action_fail_reset_remote →
      (unpack_rsc_op_failure x rsc node rc xml_op on_fail d).2.1 = on_fail) ∧
    (action_fail_response.action_fail_migrate ≤ on_fail →
      on_fail ≤ action_fail_response.action_fail_fence →
      action_fail_response.action_fail_fence
        < (failed_op_action x rsc node rc xml_op d).on_fail →
      (unpack_rsc_op_failure x rsc node rc xml_op on_fail d).2.1 = on_fail) ∧
    (on_fail = action_fail_response.action_fail_restart_container →
      (unpack_rsc_op_failure x rsc node rc xml_op on_fail d).2.1
        = if action_fail_response.action_fail_migrate
              ≤ (failed_op_action x rsc node rc xml_op d).on_fail
          then (failed_op_action x rsc node rc xml_op d).on_fail else on_fail) := by
  rw [unpack_rsc_op_failure_on_fail]
  exact on_fail_combine_rule on_fail _

/-- Witness of C13 as amended: a failed monitor configured with on-fail migrate
raises an accumulated recover to migrate and leaves an accumulated fence. -/
theorem unpack_rsc_op_failure_on_fail_rule_witness :
    (unpack_rsc_op_failure ex_env_migrate 0 0 1 ex_op_failed_monitor
        action_fail_response.action_fail_recover ex_two_nodes).2.1
      = action_fail_response.action_fail_migrate ∧
    (unpack_rsc_op_failure ex_env_migrate 0 0 1 ex_op_failed_monitor
        action_fail_response.action_fail_fence ex_two_nodes).2.1
      = action_fail_response.action_fail_fence :=
  ⟨((unpack_rsc_op_failure_on_fail_rule ex_env_migrate 0 0 1 ex_op_failed_monitor
      action_fail_response.action_fail_recover ex_two_nodes).2.2.1 (by decide)).trans
      (by decide),
   ((unpack_rsc_op_failure_on_fail_rule ex_env_migrate 0 0 1 ex_op_failed_monitor
      action_fail_response.action_fail_fence ex_two_nodes).2.1 (by decide) (by decide)).trans
      (by decide)⟩

/-- Counterexample to C14: for the pair the claim names, restart_container and
recover, the order of folding makes no difference: starting from ignore both
orders leave restart_container. -/
theorem on_fail_combine_named_pair_commutes :
    on_fail_combine
        (on_fail_combine action_fail_response.action_fail_ignore
          action_fail_response.action_fail_restart_container)
        action_fail_response.action_fail_recover
      = action_fail_response.action_fail_restart_container ∧
    on_fail_combine
        (on_fail_combine action_fail_response.action_fail_ignore
          action_fail_response.action_fail_recover)
        action_fail_response.action_fail_restart_container
      = action_fail_response.action_fail_restart_container := by
  decide

/-- Claim C14 as amended: the rule of `unpack_rsc_op_failure` that folds the on-fail
response of a failed operation into the accumulated one is not the maximum of
any total order: starting from ignore, folding reset_remote then fence leaves
reset_remote while folding fence then reset_remote leaves fence.  The pairs for
which the order of folding matters are exactly reset_remote together with one
of migrate, block, stop, standby, fence. -/
theorem on_fail_combine_order_matters :
    (∃ a b : action_fail_response,
      on_fail_combine (on_fail_combine action_fail_response.action_fail_ignore a) b
        ≠ on_fail_combine (on_fail_combine action_fail_response.action_fail_ignore b) a) ∧
    on_fail_combine
        (on_fail_combine action_fail_response.action_fail_ignore
          action_fail_response.action_fail_reset_remote)
        action_fail_response.action_fail_fence
      = action_fail_response.action_fail_reset_remote ∧
    on_fail_combine
        (on_fail_combine action_fail_response.action_fail_ignore
          action_fail_response.action_fail_fence)
        action_fail_response.action_fail_reset_remote
      = action_fail_response.action_fail_fence ∧
    (∀ a b : action_fail_response,
      on_fail_combine (on_fail_combine action_fail_response.action_fail_ignore a) b
          ≠ on_fail_combine (on_fail_combine action_fail_response.action_fail_ignore b) a ↔
        (a = action_fail_response.action_fail_reset_remote ∧
            action_fail_response.action_fail_migrate ≤ b ∧
            b ≤ action_fail_response.action_fail_fence) ∨
        (b = action_fail_response.action_fail_reset_remote ∧
            action_fail_response.action_fail_migrate ≤ a ∧
            a ≤ action_fail_response.action_fail_fence)) ∧
    (¬ ∃ order : LinearOrder action_fail_response,
      ∀ acc a : action_fail_response, on_fail_combine acc a = order.max acc a) ∧
    (∀ (x : unpack_env) (rsc : rsc_ptr) (node : node_ptr) (rc : Int) (xml_op : xmlNode)
        (on_fail : action_fail_response) (d : pe_working_set_t),
      (unpack_rsc_op_failure x rsc node rc xml_op on_fail d).2.1
        = on_fail_combine on_fail (failed_op_action x rsc node rc xml_op d).on_fail) := by
  refine ⟨⟨action_fail_response.action_fail_reset_remote,
      action_fail_response.action_fail_fence, by decide⟩, by decide, by decide, ?_, ?_, ?_⟩
  · intro a b
    cases a <;> cases b <;> decide
  · rintro ⟨order, h⟩
    have h1 := h action_fail_response.action_fail_reset_remote
      action_fail_response.action_fail_fence
    have h2 := h action_fail_response.action_fail_fence
      action_fail_response.action_fail_reset_remote
    have hc : order.max action_fail_response.action_fail_reset_remote
        action_fail_response.action_fail_fence
        = order.max action_fail_response.action_fail_fence
          action_fail_response.action_fail_reset_remote :=
      @max_comm _ order _ _
    rw [← h1, ← h2] at hc
    exact absurd hc (by decide)
  · intro x rsc node rc xml_op on_fail d
    rfl

/-! ## Status of an operation from its return code -/

/-- Claim C17: in `determine_op_status`, for every operation whose return code is
"not running" (7): if the operation is a probe (monitor with interval 0), or
the resource is unmanaged, or the expected return code equals 7, then,
whatever the expected return code is otherwise, the status is done, the role
of the resource becomes stopped, its next role unknown, and the accumulated
on-fail response is reset to ignore; nothing else of the working set
changes. -/
theorem determine_op_status_not_running (x : unpack_env) (rsc : rsc_ptr) (rc target_rc : Int)
    (node : node_ptr) (xml_op : xmlNode) (on_fail : action_fail_response)
    (d : pe_working_set_t) (hrc : rc = 7)
    (h : op_is_probe x xml_op = true ∨ (d.rsc_at rsc).flags.pe_rsc_managed = false
      ∨ target_rc = 7) :
    (determine_op_status x rsc rc target_rc node xml_op on_fail d).1 = PCMK_LRM_OP_DONE ∧
    (determine_op_status x rsc rc target_rc node xml_op on_fail d).2.1
      = action_fail_response.action_fail_ignore ∧
    ((determine_op_status x rsc rc target_rc node xml_op on_fail d).2.2.rsc_at rsc).role
      = rsc_role_e.RSC_ROLE_STOPPED ∧
    ((determine_op_status x rsc rc target_rc node xml_op on_fail d).2.2.rsc_at rsc).next_role
      = rsc_role_e.RSC_ROLE_UNKNOWN ∧
    (determine_op_status x rsc rc target_rc node xml_op on_fail d).2.2
      = d.upd_rsc rsc (fun r =>
          { r with role := rsc_role_e.RSC_ROLE_STOPPED,
                   next_role := rsc_role_e.RSC_ROLE_UNKNOWN }) := by
  subst hrc
  have hc : ((crm_element_value_ms x xml_op XML_LRM_ATTR_INTERVAL_MS == 0
        && safe_str_eq (crm_element_value xml_op XML_LRM_ATTR_TASK) (some CRMD_ACTION_STATUS))
      || target_rc == 7 || !(d.rsc_at rsc).flags.pe_rsc_managed) = true := by
    rcases h with h | h | h
    · simp only [op_is_probe] at h
      simp [h]
    · simp [h]
    · simp [h]
  have key : determine_op_status x rsc 7 target_rc node xml_op on_fail d
      = (PCMK_LRM_OP_DONE, action_fail_response.action_fail_ignore,
          d.upd_rsc rsc (fun r =>
            { r with role := rsc_role_e.RSC_ROLE_STOPPED,
                     next_role := rsc_role_e.RSC_ROLE_UNKNOWN })) := by
    unfold determine_op_status
    have h0 : ((7 : Int) == PCMK_OCF_OK) = false := by decide
    have h7 : ((7 : Int) == PCMK_OCF_NOT_RUNNING) = true := by decide
    simp only [h0, h7, hc, if_true, Bool.false_eq_true, if_false]
  rw [key]
  simp

/-- Witness of C17: a probe that returned 7 while 0 was expected, on a managed
resource. -/
theorem determine_op_status_not_running_witness :
    (determine_op_status ex_env_migrate 0 7 0 0 ex_op_probe
      action_fail_response.action_fail_fence ex_two_nodes).1 = PCMK_LRM_OP_DONE ∧
    (determine_op_status ex_env_migrate 0 7 0 0 ex_op_probe
      action_fail_response.action_fail_fence ex_two_nodes).2.1
      = action_fail_response.action_fail_ignore ∧
    ((determine_op_status ex_env_migrate 0 7 0 0 ex_op_probe
      action_fail_response.action_fail_fence ex_two_nodes).2.2.rsc_at 0).role
      = rsc_role_e.RSC_ROLE_STOPPED ∧
    ((determine_op_status ex_env_migrate 0 7 0 0 ex_op_probe
      action_fail_response.action_fail_fence ex_two_nodes).2.2.rsc_at 0).next_role
      = rsc_role_e.RSC_ROLE_UNKNOWN :=
  have h := determine_op_status_not_running ex_env_migrate 0 7 0 0 ex_op_probe
    action_fail_response.action_fail_fence ex_two_nodes rfl (Or.inl (by decide))
  ⟨h.1, h.2.1, h.2.2.1, h.2.2.2.1⟩

/-- Claim C18: in `determine_op_status`, for every operation that is not a probe, on
a managed resource, if an expected return code is known (`target_rc >= 0`) and
the observed return code differs from it, the status is an error status (error,
hard error, fatal error or not supported) and not done.  A probe is a monitor
whose interval, as the code reads it into an unsigned 32-bit number, is 0. -/
theorem determine_op_status_mismatch (x : unpack_env) (rsc : rsc_ptr) (rc target_rc : Int)
    (node : node_ptr) (xml_op : xmlNode) (on_fail : action_fail_response)
    (d : pe_working_set_t)
    (hp : op_is_probe x xml_op = false) (hm : (d.rsc_at rsc).flags.pe_rsc_managed = true)
    (ht : 0 ≤ target_rc) (hne : rc ≠ target_rc) :
    ((determine_op_status x rsc rc target_rc node xml_op on_fail d).1 = PCMK_LRM_OP_ERROR ∨
      (determine_op_status x rsc rc target_rc node xml_op on_fail d).1
        = PCMK_LRM_OP_ERROR_HARD ∨
      (determine_op_status x rsc rc target_rc node xml_op on_fail d).1
        = PCMK_LRM_OP_ERROR_FATAL ∨
      (determine_op_status x rsc rc target_rc node xml_op on_fail d).1
        = PCMK_LRM_OP_NOTSUPPORTED) ∧
    (determine_op_status x rsc rc target_rc node xml_op on_fail d).1 ≠ PCMK_LRM_OP_DONE := by
  have hcls : ∀ s : Int, (s = PCMK_LRM_OP_ERROR ∨ s = PCMK_LRM_OP_ERROR_HARD
      ∨ s = PCMK_LRM_OP_ERROR_FATAL ∨ s = PCMK_LRM_OP_NOTSUPPORTED) →
      (s = PCMK_LRM_OP_ERROR ∨ s = PCMK_LRM_OP_ERROR_HARD
        ∨ s = PCMK_LRM_OP_ERROR_FATAL ∨ s = PCMK_LRM_OP_NOTSUPPORTED) ∧ s ≠ PCMK_LRM_OP_DONE := by
    intro s hs
    refine ⟨hs, ?_⟩
    rcases hs with hs | hs | hs | hs <;> rw [hs] <;> decide
  apply hcls
  have hp' := hp
  simp only [op_is_probe] at hp'
  have hres : (decide (target_rc ≥ 0) && target_rc != rc) = true := by
    simp [ht, Ne.symm hne]
  have hteq : (target_rc == rc) = false := by
    simp [Ne.symm hne]
  unfold determine_op_status
  simp only [hp', hres, hm, hteq, if_true, Bool.false_and, Bool.false_or, Bool.not_true,
    Bool.false_eq_true, if_false, Bool.or_false]
  split_ifs <;> simp_all [PCMK_LRM_OP_ERROR, PCMK_LRM_OP_ERROR_HARD, PCMK_LRM_OP_ERROR_FATAL,
    PCMK_LRM_OP_NOTSUPPORTED, PCMK_LRM_OP_DONE]

/-- Witness of C18: a recurring monitor on a managed resource that returned 1 while
0 was expected has status error.  A monitor whose interval is written as
4294967296 is read as one with interval 0, a probe. -/
theorem determine_op_status_mismatch_witness :
    op_is_probe ex_env_migrate ex_op_failed_monitor = false ∧
    op_is_probe ex_env_migrate ex_op_wide_interval = true ∧
    ((determine_op_status ex_env_migrate 0 1 0 0 ex_op_failed_monitor
        action_fail_response.action_fail_ignore ex_two_nodes).1 = PCMK_LRM_OP_ERROR ∨
      (determine_op_status ex_env_migrate 0 1 0 0 ex_op_failed_monitor
        action_fail_response.action_fail_ignore ex_two_nodes).1 = PCMK_LRM_OP_ERROR_HARD ∨
      (determine_op_status ex_env_migrate 0 1 0 0 ex_op_failed_monitor
        action_fail_response.action_fail_ignore ex_two_nodes).1 = PCMK_LRM_OP_ERROR_FATAL ∨
      (determine_op_status ex_env_migrate 0 1 0 0 ex_op_failed_monitor
        action_fail_response.action_fail_ignore ex_two_nodes).1 = PCMK_LRM_OP_NOTSUPPORTED) ∧
    (determine_op_status ex_env_migrate 0 1 0 0 ex_op_failed_monitor
      action_fail_response.action_fail_ignore ex_two_nodes).1 ≠ PCMK_LRM_OP_DONE :=
  ⟨by decide, by decide,
    determine_op_status_mismatch ex_env_migrate 0 1 0 0 ex_op_failed_monitor
      action_fail_response.action_fail_ignore ex_two_nodes (by decide) (by decide) (by decide)
      (by decide)⟩

/-! ## What recording a placement preference or a running resource changes -/

/-- A working set is in the placement frame of itself. -/
theorem placement_frame_refl (d : pe_working_set_t) : placement_frame d d :=
  ⟨rfl, fun _ => ⟨rfl, rfl, fun h => h, [], (List.append_nil _).symm⟩⟩

/-- The relation `placement_frame` composes. -/
theorem placement_frame_trans (d1 d2 d3 : pe_working_set_t) (h12 : placement_frame d1 d2)
    (h23 : placement_frame d2 d3) : placement_frame d1 d3 := by
  obtain ⟨a, ha⟩ := h12
  obtain ⟨b, hb⟩ := h23
  refine ⟨b.trans a, fun q => ?_⟩
  obtain ⟨a1, a2, a3, l1, a4⟩ := ha q
  obtain ⟨b1, b2, b3, l2, b4⟩ := hb q
  exact ⟨b1.trans a1, b2.trans a2, fun h => a3 (b3 h), l1 ++ l2,
    by rw [b4, a4, List.append_assoc]⟩

/-- An update of a resource that touches only what the placement frame leaves
free stays in the frame. -/
theorem placement_frame_upd (d d0 : pe_working_set_t) (r : rsc_ptr)
    (f : resource_t → resource_t) (hcore : ∀ y, rsc_core (f y) = rsc_core y)
    (hflags : ∀ y, ({ (f y).flags with pe_rsc_managed := false } : rsc_flags)
      = { y.flags with pe_rsc_managed := false })
    (hman : ∀ y, (f y).flags.pe_rsc_managed = true → y.flags.pe_rsc_managed = true)
    (hrun : ∀ y, ∃ l, (f y).running_on = y.running_on ++ l)
    (h : placement_frame d d0) : placement_frame d (d0.upd_rsc r f) := by
  refine placement_frame_trans d d0 _ h ⟨rfl, fun q => ?_⟩
  simp only [upd_rsc_rsc_at]
  split_ifs
  · exact ⟨hcore _, hflags _, hman _, hrun _⟩
  · exact ⟨rfl, rfl, fun h => h, [], (List.append_nil _).symm⟩

/-- A loop over a list stays in the placement frame when each of its steps
does. -/
theorem placement_frame_foldl {α : Type} (d : pe_working_set_t)
    (f : pe_working_set_t → α → pe_working_set_t)
    (hf : ∀ acc a, placement_frame d acc → placement_frame d (f acc a)) :
    ∀ (l : List α) (acc : pe_working_set_t), placement_frame d acc →
      placement_frame d (l.foldl f acc) := by
  intro l
  induction l with
  | nil => intro acc h; exact h
  | cons a l ih => intro acc h; exact ih _ (hf acc a h)

/-- Merging a score into allowed-nodes tables stays in the placement frame. -/
theorem placement_frame_node_score (node : node_ptr) (score : Int) (d : pe_working_set_t) :
    ∀ (fuel : Nat) (rsc : rsc_ptr) (d0 : pe_working_set_t), placement_frame d d0 →
      placement_frame d (resource_node_score node score fuel rsc d0) := by
  intro fuel
  induction fuel with
  | zero =>
    intro rsc d0 h
    exact placement_frame_upd d d0 rsc _ (fun _ => rfl) (fun _ => rfl) (fun _ h => h)
      (fun _ => ⟨[], (List.append_nil _).symm⟩) h
  | succ fuel ih =>
    intro rsc d0 h
    unfold resource_node_score
    exact placement_frame_upd d _ rsc _ (fun _ => rfl) (fun _ => rfl) (fun _ h => h)
      (fun _ => ⟨[], (List.append_nil _).symm⟩)
      (placement_frame_foldl d _ (fun acc child hacc => ih child acc hacc) _ d0 h)

/-- Recording a location preference stays in the placement frame. -/
theorem placement_frame_location (d d0 : pe_working_set_t) (r : rsc_ptr)
    (node : Option node_ptr) (score : Int) (tag : String) (h : placement_frame d d0) :
    placement_frame d (resource_location r node score tag d0) := by
  have h1 : placement_frame d
      { d0 with
        location_calls := d0.location_calls ++
          [{ rsc := r, node := node, score := score, tag := tag }] } :=
    placement_frame_trans d d0 _ h
      ⟨rfl, fun _ => ⟨rfl, rfl, fun h => h, [], (List.append_nil _).symm⟩⟩
  unfold resource_location
  cases node with
  | some n => exact placement_frame_node_score n score d _ r _ h1
  | none =>
    exact placement_frame_foldl d _
      (fun acc n hacc => placement_frame_node_score n score d _ r acc hacc) _ _ h1

/-- Recording a node on the ancestors of a resource stays in the placement
frame. -/
theorem placement_frame_parents (node : node_ptr) (d : pe_working_set_t) :
    ∀ (fuel : Nat) (p : Option rsc_ptr) (d0 : pe_working_set_t), placement_frame d d0 →
      placement_frame d (native_add_running_parents node fuel p d0) := by
  intro fuel
  induction fuel with
  | zero =>
    intro p d0 h
    cases p <;> exact h
  | succ fuel ih =>
    intro p d0 h
    cases p with
    | none => exact h
    | some p =>
      unfold native_add_running_parents
      split_ifs
      · exact ih _ _ (placement_frame_upd d d0 p _ (fun _ => rfl) (fun _ => rfl)
          (fun _ h => h) (fun _ => ⟨[node], rfl⟩) h)
      · exact h

/-- Recording the node on the resource stays in the placement frame. -/
theorem placement_frame_record (d d0 : pe_working_set_t) (rsc : rsc_ptr) (node : node_ptr)
    (h : placement_frame d d0) : placement_frame d (native_add_running_record rsc node d0) := by
  have h1 : placement_frame d
      (d0.upd_rsc rsc (fun r => { r with running_on := r.running_on ++ [node] })) :=
    placement_frame_upd d d0 rsc _ (fun _ => rfl) (fun _ => rfl) (fun _ h => h)
      (fun _ => ⟨[node], rfl⟩) h
  unfold native_add_running_record
  simp only []
  split_ifs
  · exact placement_frame_upd d _ rsc _ (fun _ => rfl) (fun _ => rfl)
      (fun _ h => absurd h (by simp)) (fun _ => ⟨[], (List.append_nil _).symm⟩) h1
  · exact h1

/-- The statements of `native_add_running` for one resource stay in the placement
frame. -/
theorem placement_frame_one (d d0 : pe_working_set_t) (rsc : rsc_ptr) (node : node_ptr)
    (h : placement_frame d d0) : placement_frame d (native_add_running_one rsc node d0).2 := by
  have h2 := placement_frame_record d d0 rsc node h
  unfold native_add_running_one
  simp only []
  split_ifs
  · exact h
  · exact placement_frame_parents node d _ _ _ (placement_frame_location d _ rsc _ _ _ h2)
  · exact h2

/-- The calls of `native_add_running` on a resource and its ancestors stay in the
placement frame. -/
theorem placement_frame_running_from (d : pe_working_set_t) (node : node_ptr) :
    ∀ (fuel : Nat) (r : rsc_ptr) (d1 : pe_working_set_t), placement_frame d d1 →
      placement_frame d (native_add_running_from node fuel r d1) := by
  intro fuel
  induction fuel with
  | zero => intro r d1 h1; exact placement_frame_one d d1 r node h1
  | succ fuel ih =>
    intro r d1 h1
    unfold native_add_running_from
    split
    · exact placement_frame_one d d1 r node h1
    · exact ih _ _ (placement_frame_one d d1 r node h1)

/-- The model of `native_add_running` stays in the placement frame. -/
theorem placement_frame_running (d d0 : pe_working_set_t) (rsc : rsc_ptr) (node : node_ptr)
    (h : placement_frame d d0) : placement_frame d (native_add_running rsc node d0) :=
  placement_frame_running_from d node _ _ _ h

/-- What the placement frame says of a resource: every field other than the nodes
it is running on, the flags and the allowed-nodes table is the same, and so is
every node. -/
theorem placement_frame_fields (d d' : pe_working_set_t) (h : placement_frame d d')
    (q : rsc_ptr) :
    d'.node_at = d.node_at ∧ d'.nodes = d.nodes ∧ d'.loop_fuel = d.loop_fuel ∧
    d'.flags = d.flags ∧
    (d'.rsc_at q).role = (d.rsc_at q).role ∧
    (d'.rsc_at q).next_role = (d.rsc_at q).next_role ∧
    (d'.rsc_at q).known_on = (d.rsc_at q).known_on ∧
    (d'.rsc_at q).parent = (d.rsc_at q).parent ∧
    (d'.rsc_at q).children = (d.rsc_at q).children ∧
    (d'.rsc_at q).variant = (d.rsc_at q).variant ∧
    (d'.rsc_at q).id = (d.rsc_at q).id ∧
    (d'.rsc_at q).partial_migration_target = (d.rsc_at q).partial_migration_target ∧
    (d'.rsc_at q).partial_migration_source = (d.rsc_at q).partial_migration_source ∧
    (d'.rsc_at q).dangling_migrations = (d.rsc_at q).dangling_migrations := by
  obtain ⟨hw, hr⟩ := h
  obtain ⟨hc, -⟩ := hr q
  have w1 := congrArg pe_working_set_t.node_at hw
  have w2 := congrArg pe_working_set_t.nodes hw
  have w3 := congrArg pe_working_set_t.loop_fuel hw
  have w4 := congrArg pe_working_set_t.flags hw
  have c1 := congrArg resource_t.role hc
  have c2 := congrArg resource_t.next_role hc
  have c3 := congrArg resource_t.known_on hc
  have c4 := congrArg resource_t.parent hc
  have c5 := congrArg resource_t.children hc
  have c6 := congrArg resource_t.variant hc
  have c7 := congrArg resource_t.id hc
  have c8 := congrArg resource_t.partial_migration_target hc
  have c9 := congrArg resource_t.partial_migration_source hc
  have c10 := congrArg resource_t.dangling_migrations hc
  exact ⟨w1, w2, w3, w4, c1, c2, c3, c4, c5, c6, c7, c8, c9, c10⟩

/-! ## A resource whose failure blocks it -/

/-- The check of `process_rsc_state` on a failed remote connection changes no
resource. -/
theorem process_rsc_state_remote_failed_rsc_at (rsc : rsc_ptr) (d3 : pe_working_set_t) :
    (process_rsc_state_remote_failed rsc d3).rsc_at = d3.rsc_at := by
  unfold process_rsc_state_remote_failed
  split_ifs
  · split
    · rfl
    · split_ifs <;> rfl
  · rfl

/-- The keys of a table after an insertion. -/
theorem g_hash_table_insert_keys {α : Type} (t : List (String × α)) (k : String) (v : α) :
    (g_hash_table_insert t k v).map Prod.fst
      = k :: (t.map Prod.fst).filter (fun y => y != k) := by
  unfold g_hash_table_insert
  simp only [List.map_cons, List.cons.injEq, true_and]
  induction t with
  | nil => rfl
  | cons e t ih =>
    simp only [List.filter_cons, List.map_cons]
    split_ifs
    · simp only [List.map_cons, ih]
    · exact ih

/-- The table that `node_hash_from_list` builds: its keys are distinct, they are
the ids of the nodes of the list, and every entry is the copy of a node of the
list under the id of that node. -/
theorem node_hash_from_list_spec (d : pe_working_set_t) (l : List node_ptr) :
    ((node_hash_from_list d l).map Prod.fst).Nodup ∧
    (∀ k, k ∈ (node_hash_from_list d l).map Prod.fst ↔ ∃ n ∈ l, (d.details n).id = k) ∧
    (∀ e ∈ node_hash_from_list d l, ∃ n ∈ l, e = ((d.details n).id, node_copy d n)) := by
  unfold node_hash_from_list
  induction l using List.reverseRecOn with
  | nil =>
    refine ⟨List.nodup_nil, fun k => ?_, fun e he => ?_⟩
    · simp
    · simp at he
  | append_singleton l n ih =>
    obtain ⟨h1, h2, h3⟩ := ih
    rw [List.foldl_append]
    simp only [List.foldl_cons, List.foldl_nil]
    generalize List.foldl (fun t n => g_hash_table_insert t (d.details n).id (node_copy d n))
      [] l = t at h1 h2 h3
    refine ⟨?_, fun k => ?_, fun e he => ?_⟩
    · rw [g_hash_table_insert_keys]
      refine List.nodup_cons.2 ⟨?_, h1.filter _⟩
      intro hmem
      have := (List.mem_filter.1 hmem).2
      simp at this
    · rw [g_hash_table_insert_keys]
      simp only [List.mem_cons, List.mem_filter, List.mem_append, List.mem_singleton,
        List.not_mem_nil, or_false]
      constructor
      · rintro (hk | ⟨hk, -⟩)
        · exact ⟨n, Or.inr rfl, hk.symm⟩
        · obtain ⟨m, hm, hid⟩ := (h2 k).1 hk
          exact ⟨m, Or.inl hm, hid⟩
      · rintro ⟨m, hm | hm, hid⟩
        · by_cases hk : k = (d.details n).id
          · exact Or.inl hk
          · exact Or.inr ⟨(h2 k).2 ⟨m, hm, hid⟩, by simpa using hk⟩
        · subst hm
          exact Or.inl hid.symm
    · unfold g_hash_table_insert at he
      rcases List.mem_cons.1 he with he | he
      · exact ⟨n, by simp, he⟩
      · obtain ⟨m, hm, hid⟩ := h3 e (List.mem_filter.1 he).1
        exact ⟨m, by simp [hm], hid⟩

/-- Replacing the allowed-nodes table of a resource does not change the topmost
ancestor of any resource. -/
theorem uber_parent_from_upd_allowed (d : pe_working_set_t) (q : rsc_ptr)
    (t : List (String × node_ref)) (fuel : Nat) :
    ∀ rsc, uber_parent_from (d.upd_rsc q (fun r => { r with allowed_nodes := t })) fuel rsc
      = uber_parent_from d fuel rsc := by
  induction fuel with
  | zero => intro rsc; rfl
  | succ fuel ih =>
    intro rsc
    have hp : ((d.upd_rsc q (fun r => { r with allowed_nodes := t })).rsc_at rsc).parent
        = (d.rsc_at rsc).parent := by
      simp only [upd_rsc_rsc_at]
      split_ifs <;> rfl
    unfold uber_parent_from
    rw [hp]
    cases (d.rsc_at rsc).parent with
    | none => rfl
    | some p => exact ih p

/-- Replacing the allowed-nodes table of a resource does not change the resource
whose table `unpack_rsc_op_failure` rebuilds. -/
theorem fail_rsc_of_upd_allowed (d : pe_working_set_t) (q : rsc_ptr)
    (t : List (String × node_ref)) (rsc : rsc_ptr) :
    fail_rsc_of (d.upd_rsc q (fun r => { r with allowed_nodes := t })) rsc
      = fail_rsc_of d rsc := by
  have hp : ∀ r, ((d.upd_rsc q (fun r => { r with allowed_nodes := t })).rsc_at r).parent
      = (d.rsc_at r).parent := by
    intro r
    simp only [upd_rsc_rsc_at]
    split_ifs <;> rfl
  have hv : ∀ r, ((d.upd_rsc q (fun r => { r with allowed_nodes := t })).rsc_at r).variant
      = (d.rsc_at r).variant := by
    intro r
    simp only [upd_rsc_rsc_at]
    split_ifs <;> rfl
  have hf : ∀ r, ((d.upd_rsc q (fun r => { r with allowed_nodes := t })).rsc_at r).flags
      = (d.rsc_at r).flags := by
    intro r
    simp only [upd_rsc_rsc_at]
    split_ifs <;> rfl
  have hu : uber_parent (d.upd_rsc q (fun r => { r with allowed_nodes := t })) (some rsc)
      = uber_parent d (some rsc) := by
    simp only [uber_parent, Option.map_some']
    rw [uber_parent_from_upd_allowed]
    rfl
  unfold fail_rsc_of
  rw [hp, hu]
  cases (d.rsc_at rsc).parent with
  | none => rfl
  | some p =>
    simp only [uber_parent, Option.map_some', pe_rsc_is_clone, hv, hf]

/-- When the failure role configured for the failed operation is stopped,
`unpack_rsc_op_failure` leaves in the allowed-nodes table of the resource
chosen by `fail_rsc_of` the copies of the nodes of the cluster, each with score
`-INFINITY`. -/
theorem unpack_rsc_op_failure_stopped_table (x : unpack_env) (rsc : rsc_ptr) (node : node_ptr)
    (rc : Int) (xml_op : xmlNode) (on_fail : action_fail_response) (d : pe_working_set_t)
    (h : (failed_op_action x rsc node rc xml_op d).fail_role = rsc_role_e.RSC_ROLE_STOPPED) :
    (((unpack_rsc_op_failure x rsc node rc xml_op on_fail d).2.2).rsc_at
        (fail_rsc_of (unpack_rsc_op_failure x rsc node rc xml_op on_fail d).2.2
          rsc)).allowed_nodes
      = (node_hash_from_list (unpack_rsc_op_failure x rsc node rc xml_op on_fail d).2.2
          (unpack_rsc_op_failure x rsc node rc xml_op on_fail d).2.2.nodes).map
            (set_node_score (-INFINITY)) := by
  obtain ⟨d4, hd4⟩ : ∃ d4 : pe_working_set_t,
      (unpack_rsc_op_failure x rsc node rc xml_op on_fail d).2.2
        = d4.upd_rsc (fail_rsc_of d4 rsc) (fun r =>
          { r with allowed_nodes :=
              (node_hash_from_list d4 d4.nodes).map (set_node_score (-INFINITY)) }) := by
    simp only [failed_op_action] at h
    simp only [unpack_rsc_op_failure, h, beq_self_eq_true, if_true]
    exact ⟨_, rfl⟩
  rw [hd4, fail_rsc_of_upd_allowed]
  simp only [upd_rsc_rsc_at, if_true]
  rfl

/-- Every working set has its own ownership tree. -/
theorem same_tree_refl (d : pe_working_set_t) : same_tree d d :=
  ⟨rfl, fun _ => ⟨rfl, rfl, rfl⟩⟩

/-- A change of one resource that keeps its parent, its variant and its unique
flag keeps the ownership tree. -/
theorem same_tree_upd (d d0 : pe_working_set_t) (r : rsc_ptr) (f : resource_t → resource_t)
    (hf : ∀ y, (f y).parent = y.parent ∧ (f y).variant = y.variant ∧
      (f y).flags.pe_rsc_unique = y.flags.pe_rsc_unique)
    (h : same_tree d d0) : same_tree d (d0.upd_rsc r f) := by
  refine ⟨h.1, fun q => ?_⟩
  simp only [upd_rsc_rsc_at]
  split_ifs
  · obtain ⟨a, b, c⟩ := hf (d0.rsc_at q)
    obtain ⟨a0, b0, c0⟩ := h.2 q
    exact ⟨a.trans a0, b.trans b0, c.trans c0⟩
  · exact h.2 q

/-- What keeps the placement frame keeps the ownership tree. -/
theorem same_tree_of_placement (d d0 d1 : pe_working_set_t) (hp : placement_frame d0 d1)
    (h : same_tree d d0) : same_tree d d1 := by
  refine ⟨?_, fun q => ?_⟩
  · exact ((placement_frame_fields d0 d1 hp 0).2.2.1).trans h.1
  · obtain ⟨a0, b0, c0⟩ := h.2 q
    have hf := placement_frame_fields d0 d1 hp q
    have hu := congrArg rsc_flags.pe_rsc_unique (hp.2 q).2.1
    exact ⟨hf.2.2.2.2.2.2.2.1.trans a0, hf.2.2.2.2.2.2.2.2.2.1.trans b0, Eq.trans hu c0⟩

/-- A placement preference keeps the ownership tree. -/
theorem same_tree_location (d d0 : pe_working_set_t) (r : rsc_ptr) (node : Option node_ptr)
    (score : Int) (tag : String) (h : same_tree d d0) :
    same_tree d (resource_location r node score tag d0) :=
  same_tree_of_placement d d0 _
    (placement_frame_location d0 d0 r node score tag (placement_frame_refl d0)) h

/-- Recording that a resource runs on a node keeps the ownership tree. -/
theorem same_tree_running (d d0 : pe_working_set_t) (rsc : rsc_ptr) (node : node_ptr)
    (h : same_tree d d0) : same_tree d (native_add_running rsc node d0) :=
  same_tree_of_placement d d0 _
    (placement_frame_running d0 d0 rsc node (placement_frame_refl d0)) h

/-- Recording a failed operation keeps the ownership tree. -/
theorem same_tree_failed (d d0 : pe_working_set_t) (op : xmlNode) (node : node_ptr)
    (rsc : rsc_ptr) (h : same_tree d d0) : same_tree d (record_failed_op op node rsc d0) := by
  unfold record_failed_op
  simp only []
  split_ifs
  · exact h
  · exact h
  · exact h

/-- A choice between two working sets that both have the ownership tree of a
third has it. -/
theorem same_tree_ite (d : pe_working_set_t) (c : Prop) [Decidable c]
    (a b : pe_working_set_t) (ha : same_tree d a) (hb : same_tree d b) :
    same_tree d (if c then a else b) := by
  split_ifs
  · exact ha
  · exact hb

/-- The function `set_active` keeps the ownership tree. -/
theorem same_tree_active (d d0 : pe_working_set_t) (rsc : rsc_ptr) (h : same_tree d d0) :
    same_tree d (set_active rsc d0) := by
  unfold set_active
  simp only []
  split_ifs
  · exact same_tree_upd d d0 rsc _ (fun _ => ⟨rfl, rfl, rfl⟩) h
  · exact same_tree_upd d d0 rsc _ (fun _ => ⟨rfl, rfl, rfl⟩) h

/-- The function `unpack_rsc_migration_failure` keeps the ownership tree. -/
theorem same_tree_migration_failure (x : unpack_env) (d d0 : pe_working_set_t) (rsc : rsc_ptr)
    (node : node_ptr) (xml_op : xmlNode) (h : same_tree d d0) :
    same_tree d (unpack_rsc_migration_failure x rsc node xml_op d0) := by
  unfold unpack_rsc_migration_failure
  simp only []
  repeat' (first
    | exact h
    | with_reducible apply same_tree_ite
    | with_reducible apply same_tree_running
    | with_reducible apply same_tree_upd
    | exact fun _ => ⟨rfl, rfl, rfl⟩
    | split)

/-- The function `unpack_rsc_op_failure` keeps the ownership tree. -/
theorem same_tree_op_failure (x : unpack_env) (rsc : rsc_ptr) (node : node_ptr) (rc : Int)
    (xml_op : xmlNode) (on_fail : action_fail_response) (d : pe_working_set_t) :
    same_tree d (unpack_rsc_op_failure x rsc node rc xml_op on_fail d).2.2 := by
  unfold unpack_rsc_op_failure
  simp only []
  repeat' (first
    | exact same_tree_refl d
    | with_reducible apply same_tree_ite
    | with_reducible apply same_tree_failed
    | with_reducible apply same_tree_location
    | with_reducible apply same_tree_migration_failure
    | with_reducible apply same_tree_active
    | with_reducible apply same_tree_upd
    | exact fun _ => ⟨rfl, rfl, rfl⟩)

/-- Two working sets with the same ownership tree give every resource the same
topmost ancestor. -/
theorem uber_parent_from_same_tree (d d' : pe_working_set_t) (h : same_tree d d')
    (fuel : Nat) : ∀ rsc, uber_parent_from d' fuel rsc = uber_parent_from d fuel rsc := by
  induction fuel with
  | zero => intro rsc; rfl
  | succ fuel ih =>
    intro rsc
    unfold uber_parent_from
    rw [(h.2 rsc).1]
    cases (d.rsc_at rsc).parent with
    | none => rfl
    | some p => exact ih p

/-- The topmost ancestor of a resource without a parent is the resource. -/
theorem uber_parent_from_orphan (d : pe_working_set_t) (fuel : Nat) (rsc : rsc_ptr)
    (h : (d.rsc_at rsc).parent = none) : uber_parent_from d fuel rsc = rsc := by
  cases fuel with
  | zero => rfl
  | succ fuel =>
    unfold uber_parent_from
    rw [h]

/-- The resource whose table `unpack_rsc_op_failure` rebuilds is the topmost
ancestor of the failed resource when that is a clone without the unique flag, and
the failed resource otherwise. -/
theorem fail_rsc_of_eq (d : pe_working_set_t) (rsc top : rsc_ptr)
    (htop : uber_parent d (some rsc) = some top) :
    fail_rsc_of d rsc
      = if (d.rsc_at top).variant = pe_obj_types.pe_clone
            ∧ (d.rsc_at top).flags.pe_rsc_unique = false then top else rsc := by
  simp only [uber_parent, Option.map_some', Option.some.injEq] at htop
  unfold fail_rsc_of
  cases hp : (d.rsc_at rsc).parent with
  | none =>
    have : top = rsc := by rw [← htop]; exact uber_parent_from_orphan d _ rsc hp
    subst this
    simp
  | some p =>
    simp only [uber_parent, Option.map_some', htop, pe_rsc_is_clone]
    by_cases hv : (d.rsc_at top).variant = pe_obj_types.pe_clone <;>
      cases hu : (d.rsc_at top).flags.pe_rsc_unique <;> simp [hv, hu]

/-- Two working sets with the same ownership tree have `unpack_rsc_op_failure`
rebuild the table of the same resource. -/
theorem fail_rsc_of_same_tree (d d' : pe_working_set_t) (h : same_tree d d') (rsc : rsc_ptr) :
    fail_rsc_of d' rsc = fail_rsc_of d rsc := by
  have hu : uber_parent d' (some rsc) = uber_parent d (some rsc) := by
    simp only [uber_parent, Option.map_some']
    rw [h.1, uber_parent_from_same_tree d d' h]
  unfold fail_rsc_of
  rw [(h.2 rsc).1, hu]
  cases (d.rsc_at rsc).parent with
  | none => rfl
  | some p =>
    simp only [uber_parent, Option.map_some', pe_rsc_is_clone, (h.2 _).2.1, (h.2 _).2.2]

/-- Claim C16: in `unpack_rsc_op_failure`, whenever the failure role configured for
the failed operation is stopped, then on return the allowed-nodes table of the
topmost ancestor of the failed resource, when at the call that ancestor is a
clone without the unique flag, and otherwise of the failed resource itself, is
rebuilt from the nodes of the cluster alone: its keys are distinct, every node of
the cluster has exactly one entry under its id, every entry is for a node of the
cluster and has score `-INFINITY`, and with distinct node ids the table has as
many entries as the cluster has nodes.  A resource without a parent is its own
topmost ancestor. -/
theorem unpack_rsc_op_failure_stop_everywhere (x : unpack_env) (rsc : rsc_ptr)
    (node : node_ptr) (rc : Int) (xml_op : xmlNode) (on_fail : action_fail_response)
    (d : pe_working_set_t) (top : rsc_ptr)
    (h : (failed_op_action x rsc node rc xml_op d).fail_role = rsc_role_e.RSC_ROLE_STOPPED)
    (htop : uber_parent d (some rsc) = some top) :
    ((((unpack_rsc_op_failure x rsc node rc xml_op on_fail d).2.2).rsc_at
        (if (d.rsc_at top).variant = pe_obj_types.pe_clone
            ∧ (d.rsc_at top).flags.pe_rsc_unique = false then top
          else rsc)).allowed_nodes.map Prod.fst).Nodup ∧
    (∀ n ∈ (unpack_rsc_op_failure x rsc node rc xml_op on_fail d).2.2.nodes,
      ((((unpack_rsc_op_failure x rsc node rc xml_op on_fail d).2.2).rsc_at
        (if (d.rsc_at top).variant = pe_obj_types.pe_clone
            ∧ (d.rsc_at top).flags.pe_rsc_unique = false then top
          else rsc)).allowed_nodes.map Prod.fst).count
        (((unpack_rsc_op_failure x rsc node rc xml_op on_fail d).2.2).details n).id = 1) ∧
    (∀ e ∈ (((unpack_rsc_op_failure x rsc node rc xml_op on_fail d).2.2).rsc_at
        (if (d.rsc_at top).variant = pe_obj_types.pe_clone
            ∧ (d.rsc_at top).flags.pe_rsc_unique = false then top
          else rsc)).allowed_nodes,
      e.2.weight = -INFINITY ∧
      ∃ n ∈ (unpack_rsc_op_failure x rsc node rc xml_op on_fail d).2.2.nodes,
        e.1 = (((unpack_rsc_op_failure x rsc node rc xml_op on_fail d).2.2).details n).id
          ∧ e.2.node = n) ∧
    ((((unpack_rsc_op_failure x rsc node rc xml_op on_fail d).2.2).nodes.map
        (fun n => (((unpack_rsc_op_failure x rsc node rc xml_op on_fail d).2.2).details
          n).id)).Nodup →
      (((unpack_rsc_op_failure x rsc node rc xml_op on_fail d).2.2).rsc_at
        (if (d.rsc_at top).variant = pe_obj_types.pe_clone
            ∧ (d.rsc_at top).flags.pe_rsc_unique = false then top
          else rsc)).allowed_nodes.length
        = (unpack_rsc_op_failure x rsc node rc xml_op on_fail d).2.2.nodes.length) := by
  rw [← fail_rsc_of_eq d rsc top htop,
    ← fail_rsc_of_same_tree d _ (same_tree_op_failure x rsc node rc xml_op on_fail d) rsc,
    unpack_rsc_op_failure_stopped_table x rsc node rc xml_op on_fail d h]
  generalize (unpack_rsc_op_failure x rsc node rc xml_op on_fail d).2.2 = r
  obtain ⟨h1, h2, h3⟩ := node_hash_from_list_spec r r.nodes
  have hkeys : ((node_hash_from_list r r.nodes).map (set_node_score (-INFINITY))).map Prod.fst
      = (node_hash_from_list r r.nodes).map Prod.fst := by
    rw [List.map_map]
    rfl
  rw [hkeys]
  refine ⟨h1, fun n hn => ?_, fun e he => ?_, fun hnd => ?_⟩
  · exact List.count_eq_one_of_mem h1 ((h2 _).2 ⟨n, hn, rfl⟩)
  · obtain ⟨e0, he0, rfl⟩ := List.mem_map.1 he
    obtain ⟨n, hn, rfl⟩ := h3 e0 he0
    exact ⟨rfl, n, hn, rfl, rfl⟩
  · have hperm : ((node_hash_from_list r r.nodes).map Prod.fst).Perm
        (r.nodes.map (fun n => (r.details n).id)) := by
      refine (List.perm_ext_iff_of_nodup h1 hnd).2 (fun k => ?_)
      rw [h2 k]
      simp only [List.mem_map]
    have := hperm.length_eq
    simpa using this

/-- Witness of C16: a failed monitor whose failure role is stopped, in a cluster of
two nodes.  On instance 1 of the clone 0 that has no unique flag the table of
the clone is rebuilt and the table of the instance still prefers node 0 with
score 100; on a resource without parent its own table is rebuilt. -/
theorem unpack_rsc_op_failure_stop_everywhere_witness :
    uber_parent ex_clone_instance (some 1) = some 0 ∧
    ((unpack_rsc_op_failure ex_env_stop 1 0 1 ex_op_failed_monitor
        action_fail_response.action_fail_ignore ex_clone_instance).2.2.rsc_at
      0).allowed_nodes.length = 2 ∧
    (∀ e ∈ ((unpack_rsc_op_failure ex_env_stop 1 0 1 ex_op_failed_monitor
        action_fail_response.action_fail_ignore ex_clone_instance).2.2.rsc_at 0).allowed_nodes,
      e.2.weight = -INFINITY) ∧
    ((unpack_rsc_op_failure ex_env_stop 1 0 1 ex_op_failed_monitor
        action_fail_response.action_fail_ignore ex_clone_instance).2.2.rsc_at 1).allowed_nodes
      = [("n0", { node := 0, weight := 100 })] ∧
    uber_parent ex_two_nodes (some 0) = some 0 ∧
    (∀ e ∈ ((unpack_rsc_op_failure ex_env_stop 0 0 1 ex_op_failed_monitor
        action_fail_response.action_fail_ignore ex_two_nodes).2.2.rsc_at 0).allowed_nodes,
      e.2.weight = -INFINITY) :=
  have h := unpack_rsc_op_failure_stop_everywhere ex_env_stop 1 0 1 ex_op_failed_monitor
    action_fail_response.action_fail_ignore ex_clone_instance 0 (by decide) (by decide)
  have h0 := unpack_rsc_op_failure_stop_everywhere ex_env_stop 0 0 1 ex_op_failed_monitor
    action_fail_response.action_fail_ignore ex_two_nodes 0 (by decide) (by decide)
  ⟨by decide, h.2.2.2 (by decide), fun e he => (h.2.2.1 e he).1, by decide, by decide,
    fun e he => (h0.2.2.1 e he).1⟩

/-! ## Recurring operations are recreated only after the last stop -/

/-- On an offline node the loop of `process_recurring` does nothing. -/
theorem process_recurring_loop_offline (x : unpack_env) (node : node_ptr) (rsc : rsc_ptr)
    (start_index stop_index counter : Int) (l : List xmlNode) (d : pe_working_set_t)
    (h : (d.details node).online = false) :
    process_recurring_loop x node rsc start_index stop_index counter l d = d := by
  cases l with
  | nil => rfl
  | cons e rest =>
    unfold process_recurring_loop
    simp [h]

/-- The loop of `process_recurring` passes over the entries whose index is below
the stop index. -/
theorem process_recurring_loop_skip (x : unpack_env) (node : node_ptr) (rsc : rsc_ptr)
    (start_index stop_index : Int) (post : List xmlNode) (d : pe_working_set_t) :
    ∀ (pre : List xmlNode) (counter : Int), counter + (pre.length : Int) < stop_index →
      process_recurring_loop x node rsc start_index stop_index counter (pre ++ post) d
        = process_recurring_loop x node rsc start_index stop_index
            (counter + (pre.length : Int)) post d := by
  intro pre
  induction pre with
  | nil =>
    intro counter _
    simp
  | cons e pre ih =>
    intro counter hlt
    have hlen : ((e :: pre).length : Int) = (pre.length : Int) + 1 := by simp
    rw [hlen] at hlt
    by_cases hoff : (d.details node).online = false
    · rw [process_recurring_loop_offline x node rsc _ _ _ _ d hoff,
        process_recurring_loop_offline x node rsc _ _ _ _ d hoff]
    · have hon : ((d.details node).online == false) = false := by simpa using hoff
      have hnext := ih (counter + 1) (by omega)
      have hidx : counter + ((e :: pre).length : Int) = counter + 1 + (pre.length : Int) := by
        rw [hlen]; omega
      rw [hidx, ← hnext]
      simp only [List.cons_append]
      rw [process_recurring_loop]
      simp only [hon, Bool.false_eq_true, if_false]
      by_cases hss : start_index < stop_index
      · have hc : counter + 1 ≤ stop_index := by omega
        simp only [hss, hc, decide_True, Bool.and_self, if_true]
      · have hc : counter + 1 < start_index := by omega
        simp only [hss, decide_False, Bool.false_and, Bool.false_eq_true, if_false, hc,
          decide_True, if_true]

/-- What the loop of `process_recurring` creates: optional actions on the node,
which is online, each for a recurring entry whose index is not below the stop
index; nodes and resources are left as they were. -/
theorem process_recurring_loop_created (x : unpack_env) (node : node_ptr) (rsc : rsc_ptr)
    (start_index stop_index : Int) :
    ∀ (l : List xmlNode) (counter : Int) (d : pe_working_set_t),
      (process_recurring_loop x node rsc start_index stop_index counter l d).node_at
        = d.node_at ∧
      (process_recurring_loop x node rsc start_index stop_index counter l d).rsc_at
        = d.rsc_at ∧
      ∃ created : List action_t,
        (process_recurring_loop x node rsc start_index stop_index counter l d).actions
          = d.actions ++ created ∧
        ∀ a ∈ created, a.optional = true ∧ a.node = some node ∧ a.rsc = some rsc ∧
          (d.details node).online = true ∧
          ∃ (j : Nat) (op : xmlNode), l[j]? = some op ∧ stop_index ≤ counter + 1 + (j : Int) ∧
            0 < crm_parse_ms x (crm_element_value op XML_LRM_ATTR_INTERVAL_MS) ∧
            a.task = crm_element_value op XML_LRM_ATTR_TASK := by
  intro l
  induction l with
  | nil =>
    intro counter d
    exact ⟨rfl, rfl, [], by simp [process_recurring_loop], by simp⟩
  | cons e rest ih =>
    intro counter d
    have shift : ∀ d' : pe_working_set_t, d'.node_at = d.node_at → d'.rsc_at = d.rsc_at →
        (∃ pre : List action_t, d'.actions = d.actions ++ pre ∧
          ∀ a ∈ pre, a.optional = true ∧ a.node = some node ∧ a.rsc = some rsc ∧
            (d.details node).online = true ∧
            ∃ (j : Nat) (op : xmlNode), (e :: rest)[j]? = some op ∧
              stop_index ≤ counter + 1 + (j : Int) ∧
              0 < crm_parse_ms x (crm_element_value op XML_LRM_ATTR_INTERVAL_MS) ∧
              a.task = crm_element_value op XML_LRM_ATTR_TASK) →
        (process_recurring_loop x node rsc start_index stop_index (counter + 1) rest d').node_at
          = d.node_at ∧
        (process_recurring_loop x node rsc start_index stop_index (counter + 1) rest d').rsc_at
          = d.rsc_at ∧
        ∃ created : List action_t,
          (process_recurring_loop x node rsc start_index stop_index (counter + 1) rest
              d').actions = d.actions ++ created ∧
          ∀ a ∈ created, a.optional = true ∧ a.node = some node ∧ a.rsc = some rsc ∧
            (d.details node).online = true ∧
            ∃ (j : Nat) (op : xmlNode), (e :: rest)[j]? = some op ∧
              stop_index ≤ counter + 1 + (j : Int) ∧
              0 < crm_parse_ms x (crm_element_value op XML_LRM_ATTR_INTERVAL_MS) ∧
              a.task = crm_element_value op XML_LRM_ATTR_TASK := by
      intro d' hn hr ⟨pre, hpre, hall⟩
      obtain ⟨g1, g2, created, hc, hcall⟩ := ih (counter + 1) d'
      refine ⟨g1.trans hn, g2.trans hr, pre ++ created, ?_, ?_⟩
      · rw [hc, hpre, List.append_assoc]
      · intro a ha
        rcases List.mem_append.1 ha with ha | ha
        · exact hall a ha
        · obtain ⟨h1, h2, h3, h4, j, op, hj, hidx, hint, htask⟩ := hcall a ha
          have hdet : d'.details node = d.details node := by
            simp only [pe_working_set_t.details, hn]
          refine ⟨h1, h2, h3, by rw [← hdet]; exact h4, j + 1, op, ?_, ?_, hint, htask⟩
          · simpa using hj
          · push_cast
            omega
    by_cases hoff : (d.details node).online = false
    · rw [process_recurring_loop_offline x node rsc _ _ _ _ d hoff]
      exact ⟨rfl, rfl, [], by simp, by simp⟩
    · have hon : ((d.details node).online == false) = false := by simpa using hoff
      have hon' : (d.details node).online = true := by simpa using hoff
      rw [process_recurring_loop]
      simp only [hon, Bool.false_eq_true, if_false]
      by_cases h1 : (decide (start_index < stop_index) && decide (counter + 1 ≤ stop_index)) = true
      · simp only [h1, if_true]
        exact shift d rfl rfl ⟨[], by simp, by simp⟩
      · simp only [h1, if_false]
        by_cases h2 : counter + 1 < start_index
        · simp only [h2, decide_True, if_true]
          exact shift d rfl rfl ⟨[], by simp, by simp⟩
        · simp only [h2, decide_False, Bool.false_eq_true, if_false]
          have hstop : stop_index ≤ counter + 1 := by
            by_cases hss : start_index < stop_index
            · simp only [hss, decide_True, Bool.true_and, decide_eq_true_eq] at h1
              omega
            · omega
          by_cases h3 : (crm_parse_ms x (crm_element_value e XML_LRM_ATTR_INTERVAL_MS) == 0) = true
          · simp only [h3, if_true]
            exact shift d rfl rfl ⟨[], by simp, by simp⟩
          · simp only [h3, if_false]
            have hpos : 0 < crm_parse_ms x (crm_element_value e XML_LRM_ATTR_INTERVAL_MS) := by
              simp only [beq_iff_eq] at h3
              omega
            by_cases h4 : safe_str_eq (crm_element_value e XML_LRM_ATTR_OPSTATUS)
                (some "-1") = true
            · simp only [h4, if_true]
              exact shift d rfl rfl ⟨[], by simp, by simp⟩
            · simp only [h4, if_false]
              refine shift _ rfl rfl ⟨[(custom_action x rsc
                  (some (generate_op_key (d.rsc_at rsc).id
                    (str_or_null (crm_element_value e XML_LRM_ATTR_TASK))
                    (crm_parse_ms x (crm_element_value e XML_LRM_ATTR_INTERVAL_MS))))
                  (crm_element_value e XML_LRM_ATTR_TASK) (some node) true true d).1], rfl, ?_⟩
              intro a ha
              rw [List.mem_singleton] at ha
              subst ha
              exact ⟨rfl, rfl, rfl, hon', 0, e, by simp, by simpa using hstop, hpos, rfl⟩

/-- Claim C21: for every history and every pair of start and stop index, among
them the pair computed by `calculate_active_ops`, `process_recurring` passes
over the entries positioned before the stop index (the result is that of
running the loop on the entries from the stop index on), and every action it
creates is optional, is on the node, which is online, and is for an entry with
interval above 0 whose index is not below the stop index; for the history
start, recurring monitor, stop it creates no action. -/
theorem process_recurring_after_stop (x : unpack_env) (node : node_ptr) (rsc : rsc_ptr)
    (start_index stop_index : Int) (l : List xmlNode) (d : pe_working_set_t) :
    (∀ pre post : List xmlNode, l = pre ++ post → (pre.length : Int) ≤ stop_index →
      process_recurring x node rsc start_index stop_index l d
        = process_recurring_loop x node rsc start_index stop_index
            ((pre.length : Int) - 1) post d) ∧
    (∃ created : List action_t,
      (process_recurring x node rsc start_index stop_index l d).actions
        = d.actions ++ created ∧
      ∀ a ∈ created, a.optional = true ∧ a.node = some node ∧ a.rsc = some rsc ∧
        (d.details node).online = true ∧
        ∃ (j : Nat) (op : xmlNode), l[j]? = some op ∧ stop_index ≤ (j : Int) ∧
          0 < crm_parse_ms x (crm_element_value op XML_LRM_ATTR_INTERVAL_MS) ∧
          a.task = crm_element_value op XML_LRM_ATTR_TASK) ∧
    (process_recurring ex_env_migrate 0 0 (calculate_active_ops ex_history_stopped).1
        (calculate_active_ops ex_history_stopped).2 ex_history_stopped ex_two_nodes).actions
      = [] := by
  refine ⟨?_, ?_, by decide⟩
  · intro pre post hl hlen
    subst hl
    unfold process_recurring
    have := process_recurring_loop_skip x node rsc start_index stop_index post d pre (-1)
      (by omega)
    rw [this]
    congr 1
  · obtain ⟨-, -, created, hc, hall⟩ :=
      process_recurring_loop_created x node rsc start_index stop_index l (-1) d
    refine ⟨created, hc, fun a ha => ?_⟩
    obtain ⟨h1, h2, h3, h4, j, op, hj, hidx, hint, htask⟩ := hall a ha
    exact ⟨h1, h2, h3, h4, j, op, hj, by omega, hint, htask⟩

/-- Witness of C21: in the history start, recurring monitor, stop with stop index
2 the start and the monitor are passed over. -/
theorem process_recurring_after_stop_witness :
    process_recurring ex_env_migrate 0 0 0 2 ex_history_stopped ex_two_nodes
      = process_recurring_loop ex_env_migrate 0 0 0 2 1 [ex_op_stop] ex_two_nodes :=
  (process_recurring_after_stop ex_env_migrate 0 0 0 2 ex_history_stopped ex_two_nodes).1
    [ex_op_start, ex_op_monitor] [ex_op_stop] rfl (by decide)

/-! ## The outcome of a migration seen from its source -/

/-- After `native_add_running` a node with the id of the node added is among the
nodes the resource is running on. -/
theorem native_add_running_records (rsc : rsc_ptr) (node : node_ptr) (d : pe_working_set_t) :
    ((native_add_running rsc node d).rsc_at rsc).running_on.any
      (fun a => safe_str_eq (some (d.details a).id) (some (d.details node).id)) = true := by
  have hself : safe_str_eq (some (d.details node).id) (some (d.details node).id) = true := by
    simp [safe_str_eq, strcasecmp_eq]
  have hext : ∀ d' : pe_working_set_t, placement_frame
      (d.upd_rsc rsc (fun r => { r with running_on := r.running_on ++ [node] })) d' →
      (d'.rsc_at rsc).running_on.any
        (fun a => safe_str_eq (some (d.details a).id) (some (d.details node).id)) = true := by
    intro d' h
    obtain ⟨-, -, -, l, hl⟩ := h.2 rsc
    rw [hl]
    simp only [upd_rsc_rsc_at, if_true, List.any_append, List.any_cons, List.any_nil, hself,
      Bool.true_or, Bool.or_true]
  have hone : (native_add_running_one rsc node d = (none, d) ∧
        (d.rsc_at rsc).running_on.any
          (fun a => safe_str_eq (some (d.details a).id) (some (d.details node).id)) = true) ∨
      placement_frame (d.upd_rsc rsc (fun r => { r with running_on := r.running_on ++ [node] }))
        (native_add_running_one rsc node d).2 := by
    have hrec : placement_frame
        (d.upd_rsc rsc (fun r => { r with running_on := r.running_on ++ [node] }))
        (native_add_running_record rsc node d) := by
      unfold native_add_running_record
      simp only []
      split_ifs
      · exact placement_frame_upd _ _ rsc _ (fun _ => rfl) (fun _ => rfl)
          (fun _ h => absurd h (by simp)) (fun _ => ⟨[], (List.append_nil _).symm⟩)
          (placement_frame_refl _)
      · exact placement_frame_refl _
    unfold native_add_running_one
    simp only []
    split_ifs with hany
    · exact Or.inl ⟨rfl, hany⟩
    · exact Or.inr (placement_frame_parents node _ _ _ _
        (placement_frame_location _ _ rsc _ _ _ hrec))
    · exact Or.inr hrec
  have hfrom : ∀ fuel, ((native_add_running_from node fuel rsc d).rsc_at rsc).running_on.any
      (fun a => safe_str_eq (some (d.details a).id) (some (d.details node).id)) = true := by
    intro fuel
    rcases hone with ⟨h1, hany⟩ | h1
    · cases fuel with
      | zero => unfold native_add_running_from; rw [h1]; exact hany
      | succ fuel => unfold native_add_running_from; rw [h1]; exact hany
    · cases fuel with
      | zero => exact hext _ h1
      | succ fuel =>
        unfold native_add_running_from
        split
        · exact hext _ h1
        · exact hext _ (placement_frame_running_from _ node fuel _ _ h1)
  exact hfrom _

/-- Claim C22: in `unpack_rsc_migration`, for a migrate_to recorded on the source
node when no stop of the resource is recorded there or the stop has a call id
below that of the migrate_to, and the migrate_from on the target has return
code OK and status done: the role of the resource becomes stopped, the source
node is put at the head of its dangling migrations, and the nodes that any
resource is running on are left as they were.  Call ids, return code and status
are the numbers that the code reads into variables of type `int`, of 32 bits. -/
theorem unpack_rsc_migration_dangling (x : unpack_env) (rsc : rsc_ptr) (node : node_ptr)
    (xml_op : xmlNode) (d : pe_working_set_t) (found : xmlNode)
    (hstop : find_lrm_op x (d.rsc_at rsc).id CRMD_ACTION_STOP (some (d.details node).id)
          none d = none ∨
        call_id_or_zero x (find_lrm_op x (d.rsc_at rsc).id CRMD_ACTION_STOP
          (some (d.details node).id) none d)
          < crm_element_value_int x xml_op XML_LRM_ATTR_CALLID 0)
    (hfrom : find_lrm_op x (d.rsc_at rsc).id CRMD_ACTION_MIGRATED
        (crm_element_value xml_op XML_LRM_ATTR_MIGRATE_TARGET)
        (crm_element_value xml_op XML_LRM_ATTR_MIGRATE_SOURCE) d = some found)
    (hrc : crm_element_value_int x found XML_LRM_ATTR_RC 0 = PCMK_OCF_OK)
    (hstatus : crm_element_value_int x found XML_LRM_ATTR_OPSTATUS 0 = PCMK_LRM_OP_DONE) :
    ((unpack_rsc_migration x rsc node xml_op d).rsc_at rsc).role
      = rsc_role_e.RSC_ROLE_STOPPED ∧
    ((unpack_rsc_migration x rsc node xml_op d).rsc_at rsc).dangling_migrations
      = node :: (d.rsc_at rsc).dangling_migrations ∧
    (∀ q, ((unpack_rsc_migration x rsc node xml_op d).rsc_at q).running_on
      = (d.rsc_at q).running_on) := by
  have hcond : ((find_lrm_op x (d.rsc_at rsc).id CRMD_ACTION_STOP (some (d.details node).id)
        none d).isNone
      || decide (call_id_or_zero x (find_lrm_op x (d.rsc_at rsc).id CRMD_ACTION_STOP
          (some (d.details node).id) none d)
          < crm_element_value_int x xml_op XML_LRM_ATTR_CALLID 0)) = true := by
    rcases hstop with h | h
    · simp [h]
    · simp [h]
  have key : unpack_rsc_migration x rsc node xml_op d
      = (d.upd_rsc rsc (fun r => { r with role := rsc_role_e.RSC_ROLE_STARTED })).upd_rsc rsc
          (fun r => { r with role := rsc_role_e.RSC_ROLE_STOPPED,
                             dangling_migrations := node :: r.dangling_migrations }) := by
    unfold unpack_rsc_migration
    simp only [hcond, if_true, hfrom, hrc, hstatus, beq_self_eq_true, Bool.and_self]
  rw [key]
  refine ⟨by simp, by simp, fun q => ?_⟩
  simp only [upd_rsc_rsc_at]
  split_ifs <;> rfl

/-- Witness of C22: no stop is recorded and the lookup of the migrate_from yields a
completed one. -/
theorem unpack_rsc_migration_dangling_witness :
    ((unpack_rsc_migration ex_env_found 0 0 ex_op_migrate_to ex_two_nodes).rsc_at 0).role
      = rsc_role_e.RSC_ROLE_STOPPED ∧
    ((unpack_rsc_migration ex_env_found 0 0 ex_op_migrate_to ex_two_nodes).rsc_at
      0).dangling_migrations = [0] ∧
    ((unpack_rsc_migration ex_env_found 0 0 ex_op_migrate_to ex_two_nodes).rsc_at 0).running_on
      = [] :=
  have h := unpack_rsc_migration_dangling ex_env_found 0 0 ex_op_migrate_to ex_two_nodes
    ex_op_migrate_from (Or.inl rfl) rfl (by decide) (by decide)
  ⟨h.1, h.2.1, h.2.2 0⟩

/-- Counterexample to C23: a completed migrate_to with no stop on the source and no
migrate_from on the target, whose target node is not a node of the cluster:
the role becomes started, but no node is added to those the resource is running
on, no partial migration is recorded, and the resource is flagged failed. -/
theorem unpack_rsc_migration_target_unknown :
    find_lrm_op ex_env_migrate (ex_unknown_target.rsc_at 0).id CRMD_ACTION_STOP
      (some (ex_unknown_target.details 0).id) none ex_unknown_target = none ∧
    find_lrm_op ex_env_migrate (ex_unknown_target.rsc_at 0).id CRMD_ACTION_MIGRATED
      (crm_element_value ex_op_migrate_to XML_LRM_ATTR_MIGRATE_TARGET)
      (crm_element_value ex_op_migrate_to XML_LRM_ATTR_MIGRATE_SOURCE) ex_unknown_target
      = none ∧
    ((unpack_rsc_migration ex_env_migrate 0 0 ex_op_migrate_to ex_unknown_target).rsc_at
      0).role = rsc_role_e.RSC_ROLE_STARTED ∧
    ((unpack_rsc_migration ex_env_migrate 0 0 ex_op_migrate_to ex_unknown_target).rsc_at
      0).running_on = [] ∧
    ((unpack_rsc_migration ex_env_migrate 0 0 ex_op_migrate_to ex_unknown_target).rsc_at
      0).partial_migration_target = none ∧
    ((unpack_rsc_migration ex_env_migrate 0 0 ex_op_migrate_to ex_unknown_target).rsc_at
      0).partial_migration_source = none ∧
    ((unpack_rsc_migration ex_env_migrate 0 0 ex_op_migrate_to ex_unknown_target).rsc_at
      0).flags.pe_rsc_failed = true :=
  ⟨rfl, rfl, by decide, by decide, by decide, by decide, by decide⟩

/-- Claim C23 as amended: in `unpack_rsc_migration`, for a completed migrate_to
with no later stop on the source and no migrate_from entry at all on the
target, the role of the resource becomes started.  When the target is a node of
the cluster and online, it is added to the nodes the resource is running on,
and the partial-migration source and target are recorded when the source is a
node of the cluster and online too (otherwise they are left as they were).
When the target is not a node of the cluster or is offline, nothing is added
and nothing recorded; the resource is flagged failed and its allow-migrate flag
is cleared.  Call ids are the numbers that the code reads into variables of type
`int`, of 32 bits. -/
theorem unpack_rsc_migration_provisional (x : unpack_env) (rsc : rsc_ptr) (node : node_ptr)
    (xml_op : xmlNode) (d : pe_working_set_t)
    (hstop : find_lrm_op x (d.rsc_at rsc).id CRMD_ACTION_STOP (some (d.details node).id)
          none d = none ∨
        call_id_or_zero x (find_lrm_op x (d.rsc_at rsc).id CRMD_ACTION_STOP
          (some (d.details node).id) none d)
          < crm_element_value_int x xml_op XML_LRM_ATTR_CALLID 0)
    (hfrom : find_lrm_op x (d.rsc_at rsc).id CRMD_ACTION_MIGRATED
        (crm_element_value xml_op XML_LRM_ATTR_MIGRATE_TARGET)
        (crm_element_value xml_op XML_LRM_ATTR_MIGRATE_SOURCE) d = none) :
    ((unpack_rsc_migration x rsc node xml_op d).rsc_at rsc).role
      = rsc_role_e.RSC_ROLE_STARTED ∧
    (∀ t, pe_find_node d d.nodes (crm_element_value xml_op XML_LRM_ATTR_MIGRATE_TARGET)
          = some t →
      (d.details t).online = true →
      ((unpack_rsc_migration x rsc node xml_op d).rsc_at rsc).running_on.any
          (fun a => safe_str_eq (some (d.details a).id) (some (d.details t).id)) = true ∧
      (∀ s, pe_find_node d d.nodes (crm_element_value xml_op XML_LRM_ATTR_MIGRATE_SOURCE)
            = some s →
        (d.details s).online = true →
        ((unpack_rsc_migration x rsc node xml_op d).rsc_at rsc).partial_migration_target
            = some t ∧
        ((unpack_rsc_migration x rsc node xml_op d).rsc_at rsc).partial_migration_source
            = some s) ∧
      ((pe_find_node d d.nodes (crm_element_value xml_op XML_LRM_ATTR_MIGRATE_SOURCE) = none ∨
          ∃ s, pe_find_node d d.nodes (crm_element_value xml_op XML_LRM_ATTR_MIGRATE_SOURCE)
              = some s ∧ (d.details s).online = false) →
        ((unpack_rsc_migration x rsc node xml_op d).rsc_at rsc).partial_migration_target
            = (d.rsc_at rsc).partial_migration_target ∧
        ((unpack_rsc_migration x rsc node xml_op d).rsc_at rsc).partial_migration_source
            = (d.rsc_at rsc).partial_migration_source)) ∧
    ((pe_find_node d d.nodes (crm_element_value xml_op XML_LRM_ATTR_MIGRATE_TARGET) = none ∨
        ∃ t, pe_find_node d d.nodes (crm_element_value xml_op XML_LRM_ATTR_MIGRATE_TARGET)
            = some t ∧ (d.details t).online = false) →
      ((unpack_rsc_migration x rsc node xml_op d).rsc_at rsc).running_on
          = (d.rsc_at rsc).running_on ∧
      ((unpack_rsc_migration x rsc node xml_op d).rsc_at rsc).partial_migration_target
          = (d.rsc_at rsc).partial_migration_target ∧
      ((unpack_rsc_migration x rsc node xml_op d).rsc_at rsc).partial_migration_source
          = (d.rsc_at rsc).partial_migration_source ∧
      ((unpack_rsc_migration x rsc node xml_op d).rsc_at rsc).flags.pe_rsc_failed = true ∧
      ((unpack_rsc_migration x rsc node xml_op d).rsc_at rsc).flags.pe_rsc_allow_migrate
          = false) := by
  have hcond : ((find_lrm_op x (d.rsc_at rsc).id CRMD_ACTION_STOP (some (d.details node).id)
        none d).isNone
      || decide (call_id_or_zero x (find_lrm_op x (d.rsc_at rsc).id CRMD_ACTION_STOP
          (some (d.details node).id) none d)
          < crm_element_value_int x xml_op XML_LRM_ATTR_CALLID 0)) = true := by
    rcases hstop with h | h
    · simp [h]
    · simp [h]
  have hpf : ∀ t d1, placement_frame d1 (native_add_running rsc t d1) :=
    fun t d1 => placement_frame_running d1 d1 rsc t (placement_frame_refl d1)
  have hrole : ∀ t d1, ((native_add_running rsc t d1).rsc_at rsc).role = (d1.rsc_at rsc).role :=
    fun t d1 => (placement_frame_fields d1 _ (hpf t d1) rsc).2.2.2.2.1
  have hrec := native_add_running_records rsc
  unfold unpack_rsc_migration
  simp only [hcond, if_true, hfrom]
  generalize hd1 : d.upd_rsc rsc (fun r => { r with role := rsc_role_e.RSC_ROLE_STARTED }) = d1
  have hdet : ∀ m, d1.details m = d.details m := by
    intro m; rw [← hd1]; rfl
  have hnodes : d1.nodes = d.nodes := by rw [← hd1]; rfl
  have hr1 : (d1.rsc_at rsc).role = rsc_role_e.RSC_ROLE_STARTED := by
    rw [← hd1]; simp
  have hf1 : (d1.rsc_at rsc).flags = (d.rsc_at rsc).flags := by rw [← hd1]; simp
  have hro1 : (d1.rsc_at rsc).running_on = (d.rsc_at rsc).running_on := by rw [← hd1]; simp
  have hpt1 : (d1.rsc_at rsc).partial_migration_target
      = (d.rsc_at rsc).partial_migration_target := by rw [← hd1]; simp
  have hps1 : (d1.rsc_at rsc).partial_migration_source
      = (d.rsc_at rsc).partial_migration_source := by rw [← hd1]; simp
  have hdet2 : ∀ t m, (native_add_running rsc t d1).details m = d.details m := by
    intro t m
    rw [← hdet m]
    simp only [pe_working_set_t.details, (placement_frame_fields d1 _ (hpf t d1) rsc).1]
  have hparts : ∀ t, ((native_add_running rsc t d1).rsc_at rsc).partial_migration_target
        = (d1.rsc_at rsc).partial_migration_target ∧
      ((native_add_running rsc t d1).rsc_at rsc).partial_migration_source
        = (d1.rsc_at rsc).partial_migration_source := by
    intro t
    obtain ⟨-, -, -, -, -, -, -, -, -, -, -, f8, f9, -⟩ :=
      placement_frame_fields d1 _ (hpf t d1) rsc
    exact ⟨f8, f9⟩
  have hrun : ∀ t, ((native_add_running rsc t d1).rsc_at rsc).running_on.any
      (fun a => safe_str_eq (some (d.details a).id) (some (d.details t).id)) = true := by
    intro t
    have := hrec t d1
    simpa only [hdet] using this
  cases htg : pe_find_node d d.nodes (crm_element_value xml_op XML_LRM_ATTR_MIGRATE_TARGET) with
  | none =>
    simp only [htg]
    refine ⟨by simp [hr1], ?_, ?_⟩
    · intro t ht
      cases ht
    · intro _
      simp [hro1, hpt1, hps1]
  | some t =>
    simp only [htg, hdet]
    by_cases hon : (d.details t).online = true
    · simp only [hon, if_true]
      have hnot : ¬ (some t = none ∨ ∃ t', some t = some t' ∧ (d.details t').online = false) := by
        rintro (h | ⟨t', ht', hoff⟩)
        · cases h
        · cases ht'
          rw [hon] at hoff
          cases hoff
      cases hsrc : pe_find_node d d.nodes
          (crm_element_value xml_op XML_LRM_ATTR_MIGRATE_SOURCE) with
      | none =>
        simp only [hsrc]
        refine ⟨by rw [hrole t d1, hr1], ?_, fun h => absurd h hnot⟩
        intro t' ht' _
        cases ht'
        refine ⟨hrun t, ?_, ?_⟩
        · intro s hs
          cases hs
        · intro _
          rw [(hparts t).1, (hparts t).2, hpt1, hps1]
          exact ⟨rfl, rfl⟩
      | some s =>
        simp only [hsrc, hdet2]
        by_cases hson : (d.details s).online = true
        · simp only [hson, if_true, upd_rsc_rsc_at]
          refine ⟨by rw [hrole t d1, hr1], ?_, fun h => absurd h hnot⟩
          intro t' ht' _
          cases ht'
          refine ⟨hrun t, ?_, ?_⟩
          · intro s' hs' _
            cases hs'
            exact ⟨rfl, rfl⟩
          · rintro (h | ⟨s', hs', hoff⟩)
            · cases h
            · cases hs'
              rw [hson] at hoff
              cases hoff
        · simp only [hson, Bool.false_eq_true, if_false]
          refine ⟨by rw [hrole t d1, hr1], ?_, fun h => absurd h hnot⟩
          intro t' ht' _
          cases ht'
          refine ⟨hrun t, ?_, ?_⟩
          · intro s' hs' hs'on
            cases hs'
            exact absurd hs'on hson
          · intro _
            rw [(hparts t).1, (hparts t).2, hpt1, hps1]
            exact ⟨rfl, rfl⟩
    · simp only [hon, Bool.false_eq_true, if_false]
      refine ⟨by simp [hr1], ?_, ?_⟩
      · intro t' ht' ht'on
        cases ht'
        exact absurd ht'on hon
      · intro _
        simp [hro1, hpt1, hps1]

/-- Witness of C23 as amended: source and target are online nodes of the cluster;
and a target that is no node of the cluster. -/
theorem unpack_rsc_migration_provisional_witness :
    (((unpack_rsc_migration ex_env_migrate 0 0 ex_op_migrate_to ex_two_nodes).rsc_at
        0).partial_migration_target = some 1 ∧
      ((unpack_rsc_migration ex_env_migrate 0 0 ex_op_migrate_to ex_two_nodes).rsc_at
        0).partial_migration_source = some 0) ∧
    ((unpack_rsc_migration ex_env_migrate 0 0 ex_op_migrate_to ex_unknown_target).rsc_at
      0).flags.pe_rsc_failed = true :=
  ⟨((unpack_rsc_migration_provisional ex_env_migrate 0 0 ex_op_migrate_to ex_two_nodes
      (Or.inl rfl) rfl).2.1 1 (by decide) (by decide)).2.1 0 (by decide)
      (by decide),
   ((unpack_rsc_migration_provisional ex_env_migrate 0 0 ex_op_migrate_to ex_unknown_target
      (Or.inl rfl) rfl).2.2 (Or.inl (by decide))).2.2.2.1⟩

/-- Claim C24: in `unpack_rsc_migration`, whenever the stop of the resource recorded
on the source node has a call id that is not below that of the migrate_to
entry, in particular a higher one, the migration is ignored: the working set,
and with it role, running-on, dangling migrations, partial-migration fields and
flags of the resource, is left unchanged.  Call ids are the numbers that the code
reads into variables of type `int`, of 32 bits. -/
theorem unpack_rsc_migration_superseded (x : unpack_env) (rsc : rsc_ptr) (node : node_ptr)
    (xml_op : xmlNode) (d : pe_working_set_t) (stop_op : xmlNode)
    (hfound : find_lrm_op x (d.rsc_at rsc).id CRMD_ACTION_STOP (some (d.details node).id)
        none d = some stop_op)
    (hlater : crm_element_value_int x xml_op XML_LRM_ATTR_CALLID 0
        ≤ crm_element_value_int x stop_op XML_LRM_ATTR_CALLID 0) :
    unpack_rsc_migration x rsc node xml_op d = d ∧
    ((unpack_rsc_migration x rsc node xml_op d).rsc_at rsc).role = (d.rsc_at rsc).role ∧
    ((unpack_rsc_migration x rsc node xml_op d).rsc_at rsc).running_on
      = (d.rsc_at rsc).running_on ∧
    ((unpack_rsc_migration x rsc node xml_op d).rsc_at rsc).dangling_migrations
      = (d.rsc_at rsc).dangling_migrations ∧
    ((unpack_rsc_migration x rsc node xml_op d).rsc_at rsc).partial_migration_target
      = (d.rsc_at rsc).partial_migration_target ∧
    ((unpack_rsc_migration x rsc node xml_op d).rsc_at rsc).partial_migration_source
      = (d.rsc_at rsc).partial_migration_source ∧
    ((unpack_rsc_migration x rsc node xml_op d).rsc_at rsc).flags = (d.rsc_at rsc).flags := by
  have key : unpack_rsc_migration x rsc node xml_op d = d := by
    unfold unpack_rsc_migration
    have hn : ¬ (crm_element_value_int x stop_op XML_LRM_ATTR_CALLID 0
        < crm_element_value_int x xml_op XML_LRM_ATTR_CALLID 0) := not_lt.mpr hlater
    simp [hfound, call_id_or_zero, hn]
  rw [key]
  exact ⟨rfl, rfl, rfl, rfl, rfl, rfl, rfl⟩

/-- Witness of C24: the stop recorded on the source has call id 9, the migrate_to
call id 5; and the stop has call id 2147483647, the migrate_to a call id written
as 2147483648, which the code reads as -2147483648. -/
theorem unpack_rsc_migration_superseded_witness :
    unpack_rsc_migration ex_env_stopped_later 0 0 ex_op_migrate_to ex_two_nodes
      = ex_two_nodes ∧
    crm_element_value_int ex_env_stopped_wide ex_op_migrate_to_wide XML_LRM_ATTR_CALLID 0
      = -2147483648 ∧
    unpack_rsc_migration ex_env_stopped_wide 0 0 ex_op_migrate_to_wide ex_two_nodes
      = ex_two_nodes :=
  ⟨(unpack_rsc_migration_superseded ex_env_stopped_later 0 0 ex_op_migrate_to ex_two_nodes
    ex_op_stop_later rfl (by decide)).1, by decide,
    (unpack_rsc_migration_superseded ex_env_stopped_wide 0 0 ex_op_migrate_to_wide ex_two_nodes
      ex_op_stop_wide rfl (by decide)).1⟩

/-! ## Containers and fillers stay consistent -/

/-- The search below a resource yields the same in two working sets whose
resources have the same ids, clone names and children. -/
theorem find_rsc_congr (d d' : pe_working_set_t)
    (h : ∀ q, (d'.rsc_at q).id = (d.rsc_at q).id ∧
      (d'.rsc_at q).clone_name = (d.rsc_at q).clone_name ∧
      (d'.rsc_at q).children = (d.rsc_at q).children) (id : String) :
    ∀ (fuel : Nat) (rsc : rsc_ptr), find_rsc d' fuel rsc id = find_rsc d fuel rsc id := by
  intro fuel
  induction fuel with
  | zero => intro rsc; rfl
  | succ fuel ih =>
    intro rsc
    unfold find_rsc
    rw [(h rsc).1, (h rsc).2.1, (h rsc).2.2]
    have : (fun child => find_rsc d' fuel child id) = (fun child => find_rsc d fuel child id) :=
      funext ih
    rw [this]

/-- The lookup of a resource yields the same in two working sets whose resources
have the same ids, clone names and children. -/
theorem pe_find_resource_congr (d d' : pe_working_set_t)
    (h : ∀ q, (d'.rsc_at q).id = (d.rsc_at q).id ∧
      (d'.rsc_at q).clone_name = (d.rsc_at q).clone_name ∧
      (d'.rsc_at q).children = (d.rsc_at q).children)
    (hfuel : d'.loop_fuel = d.loop_fuel) (l : List rsc_ptr) (id : Option String) :
    pe_find_resource d' l id = pe_find_resource d l id := by
  cases id with
  | none => rfl
  | some name =>
    unfold pe_find_resource
    simp only [hfuel]
    have : (fun r => find_rsc d' d.loop_fuel r name) = (fun r => find_rsc d d.loop_fuel r name) :=
      funext (find_rsc_congr d d' h name d.loop_fuel)
    rw [this]

/-- Linking a resource to a container: the working set after the three
assignments of `setup_container`, resource by resource. -/
theorem link_rsc_at (d : pe_working_set_t) (rsc container q : rsc_ptr) :
    ((((d.upd_rsc rsc (fun r => { r with container := some container })).upd_rsc container
        (fun r => { r with flags := { r.flags with pe_rsc_is_container := true } })).upd_rsc
        container (fun r => { r with fillers := r.fillers ++ [rsc] })).rsc_at q).container
      = (if q = rsc then some container else (d.rsc_at q).container) ∧
    ((((d.upd_rsc rsc (fun r => { r with container := some container })).upd_rsc container
        (fun r => { r with flags := { r.flags with pe_rsc_is_container := true } })).upd_rsc
        container (fun r => { r with fillers := r.fillers ++ [rsc] })).rsc_at q).fillers
      = (if q = container then (d.rsc_at q).fillers ++ [rsc] else (d.rsc_at q).fillers) ∧
    ((((d.upd_rsc rsc (fun r => { r with container := some container })).upd_rsc container
        (fun r => { r with flags := { r.flags with pe_rsc_is_container := true } })).upd_rsc
        container (fun r => { r with fillers := r.fillers ++ [rsc] })).rsc_at q).id
      = (d.rsc_at q).id ∧
    ((((d.upd_rsc rsc (fun r => { r with container := some container })).upd_rsc container
        (fun r => { r with flags := { r.flags with pe_rsc_is_container := true } })).upd_rsc
        container (fun r => { r with fillers := r.fillers ++ [rsc] })).rsc_at q).clone_name
      = (d.rsc_at q).clone_name ∧
    ((((d.upd_rsc rsc (fun r => { r with container := some container })).upd_rsc container
        (fun r => { r with flags := { r.flags with pe_rsc_is_container := true } })).upd_rsc
        container (fun r => { r with fillers := r.fillers ++ [rsc] })).rsc_at q).children
      = (d.rsc_at q).children ∧
    ((((d.upd_rsc rsc (fun r => { r with container := some container })).upd_rsc container
        (fun r => { r with flags := { r.flags with pe_rsc_is_container := true } })).upd_rsc
        container (fun r => { r with fillers := r.fillers ++ [rsc] })).rsc_at q).meta
      = (d.rsc_at q).meta := by
  simp only [upd_rsc_rsc_at]
  by_cases h1 : q = container
  · subst h1
    by_cases h2 : q = rsc
    · subst h2
      simp
    · simp [h2]
  · by_cases h2 : q = rsc
    · subst h2
      simp [h1]
    · simp [h1, h2]

/-- Adding a resource to the fillers of a container as the container of that
resource keeps container and fillers consistent, provided the resource had no
container or had this one. -/
theorem link_consistent (d d' : pe_working_set_t) (rsc container : rsc_ptr)
    (hc : ∀ q, (d'.rsc_at q).container
      = (if q = rsc then some container else (d.rsc_at q).container))
    (hf : ∀ q, (d'.rsc_at q).fillers
      = (if q = container then (d.rsc_at q).fillers ++ [rsc] else (d.rsc_at q).fillers))
    (hold : (d.rsc_at rsc).container = none ∨ (d.rsc_at rsc).container = some container)
    (h : container_consistent d) : container_consistent d' := by
  obtain ⟨h1, h2⟩ := h
  constructor
  · intro r c hrc
    rw [hc r] at hrc
    rw [hf c]
    by_cases hr : r = rsc
    · rw [if_pos hr] at hrc
      cases hrc
      rw [if_pos rfl, hr]
      simp
    · rw [if_neg hr] at hrc
      have := h1 r c hrc
      split_ifs
      · exact List.mem_append_left _ this
      · exact this
  · intro c r hmem
    rw [hf c] at hmem
    rw [hc r]
    have hcase : r ∈ (d.rsc_at c).fillers ∨ (c = container ∧ r = rsc) := by
      by_cases hcc : c = container
      · rw [if_pos hcc] at hmem
        rcases List.mem_append.1 hmem with hm | hm
        · exact Or.inl hm
        · exact Or.inr ⟨hcc, by simpa using hm⟩
      · rw [if_neg hcc] at hmem
        exact Or.inl hmem
    rcases hcase with hm | ⟨hcc, hr⟩
    · have hcont := h2 c r hm
      by_cases hr : r = rsc
      · rw [if_pos hr]
        rw [hr] at hcont
        rcases hold with ho | ho
        · rw [ho] at hcont
          cases hcont
        · rw [ho] at hcont
          exact hcont
      · rw [if_neg hr]
        exact hcont
    · rw [if_pos hr, hcc]

/-- The link step of `setup_container` keeps container and fillers consistent and
every container reference the one that the meta attribute names. -/
theorem setup_container_link_keeps (rsc : rsc_ptr) (d : pe_working_set_t)
    (h : container_consistent d) (ha : container_as_configured d) :
    container_consistent (setup_container_link rsc d) ∧
      container_as_configured (setup_container_link rsc d) := by
  unfold setup_container_link
  cases hm : (d.rsc_at rsc).meta.lookup XML_RSC_ATTR_CONTAINER with
  | none => exact ⟨h, ha⟩
  | some container_id =>
    simp only []
    by_cases hne : safe_str_neq (some container_id) (some (d.rsc_at rsc).id) = true
    · simp only [hne, if_true]
      cases hfind : pe_find_resource d d.resources (some container_id) with
      | none => exact ⟨h, ha⟩
      | some container =>
        simp only []
        have hl := link_rsc_at d rsc container
        constructor
        · refine link_consistent d _ rsc container (fun q => (hl q).1) (fun q => (hl q).2.1) ?_ h
          cases hold : (d.rsc_at rsc).container with
          | none => exact Or.inl rfl
          | some c0 =>
            have := ha rsc c0 hold
            rw [hm, hfind] at this
            exact Or.inr this.symm
        · intro r c hrc
          rw [(hl r).1] at hrc
          rw [(hl r).2.2.2.2.2]
          have hcongr := pe_find_resource_congr d _
            (fun q => ⟨(hl q).2.2.1, (hl q).2.2.2.1, (hl q).2.2.2.2.1⟩) rfl d.resources
            ((d.rsc_at r).meta.lookup XML_RSC_ATTR_CONTAINER)
          have hres : ((((d.upd_rsc rsc (fun r => { r with container := some container })).upd_rsc
              container
              (fun r => { r with flags := { r.flags with pe_rsc_is_container := true } })).upd_rsc
              container (fun r => { r with fillers := r.fillers ++ [rsc] })).resources)
              = d.resources := rfl
          rw [hres, hcongr]
          by_cases hr : r = rsc
          · rw [if_pos hr] at hrc
            cases hrc
            rw [hr, hm, hfind]
          · rw [if_neg hr] at hrc
            exact ha r c hrc
    · simp only [hne, if_false]
      exact ⟨h, ha⟩

/-- The recursion of `setup_container` keeps container and fillers consistent and
every container reference the one that the meta attribute names. -/
theorem setup_container_from_keeps (fuel : Nat) :
    ∀ (rsc : rsc_ptr) (d : pe_working_set_t),
      container_consistent d → container_as_configured d →
      container_consistent (setup_container_from fuel rsc d) ∧
        container_as_configured (setup_container_from fuel rsc d) := by
  induction fuel with
  | zero => intro rsc d h ha; exact ⟨h, ha⟩
  | succ fuel ih =>
    intro rsc d h ha
    unfold setup_container_from
    by_cases hch : ((d.rsc_at rsc).children != []) = true
    · simp only [hch, if_true]
      generalize (d.rsc_at rsc).children = l
      clear hch
      induction l generalizing d with
      | nil => exact ⟨h, ha⟩
      | cons c l ihl =>
        simp only [List.foldl_cons]
        obtain ⟨g1, g2⟩ := ih c d h ha
        exact ihl _ g1 g2
    · simp only [hch, if_false]
      exact setup_container_link_keeps rsc d h ha

/-- One iteration of `handle_orphaned_container_fillers` keeps container and
fillers consistent. -/
theorem handle_orphaned_container_fillers_step_keeps (d : pe_working_set_t)
    (rsc_entry : xmlNode) (h : container_consistent d) :
    container_consistent (handle_orphaned_container_fillers_step d rsc_entry) := by
  unfold handle_orphaned_container_fillers_step
  split_ifs with hname
  · exact h
  · split
    · rename_i container_id rsc_id _ _
      split
      · exact h
      · rename_i container _
        split
        · exact h
        · rename_i rsc _
          split_ifs with hskip
          · exact h
          · have hnone : (d.rsc_at rsc).container = none := by
              simp only [Bool.or_eq_true, not_or] at hskip
              simpa using hskip.2
            refine link_consistent d _ rsc container (fun q => ?_) (fun q => ?_) (Or.inl hnone) h
            · simp only [upd_rsc_rsc_at]
              by_cases h1 : q = container
              · subst h1
                by_cases h2 : q = rsc
                · subst h2
                  simp
                · simp [h2]
              · by_cases h2 : q = rsc
                · subst h2
                  simp [h1]
                · simp [h1, h2]
            · simp only [upd_rsc_rsc_at]
              by_cases h1 : q = container
              · subst h1
                by_cases h2 : q = rsc
                · subst h2
                  simp
                · simp [h2]
              · by_cases h2 : q = rsc
                · subst h2
                  simp [h1]
                · simp [h1, h2]
    · exact h

/-- Counterexample to C25: container and fillers are consistent in a working set
where `r0` is a filler of `c1` while its meta attribute names `c2`; after
`setup_container` on `r0` its container is `c2`, yet it still is in the filler
list of `c1`. -/
theorem setup_container_relinks :
    container_consistent ex_relinked ∧
    ((setup_container 0 ex_relinked).rsc_at 0).container = some 2 ∧
    0 ∈ ((setup_container 0 ex_relinked).rsc_at 1).fillers ∧
    ¬ container_consistent (setup_container 0 ex_relinked) := by
  have h1 : ((setup_container 0 ex_relinked).rsc_at 0).container = some 2 := by decide
  have h2 : 0 ∈ ((setup_container 0 ex_relinked).rsc_at 1).fillers := by decide
  refine ⟨?_, h1, h2, ?_⟩
  · constructor
    · intro r c hrc
      by_cases hr : r = 0
      · subst hr
        have hc : c = 1 := by
          have : (ex_relinked.rsc_at 0).container = some 1 := rfl
          rw [this] at hrc
          exact (Option.some.inj hrc).symm
        subst hc
        decide
      · have : (ex_relinked.rsc_at r).container = none := by
          simp only [ex_relinked, hr, if_false]
          split_ifs <;> rfl
        rw [this] at hrc
        cases hrc
    · intro c r hmem
      by_cases hc : c = 1
      · subst hc
        have : (ex_relinked.rsc_at 1).fillers = [0] := rfl
        rw [this] at hmem
        have hr : r = 0 := by simpa using hmem
        subst hr
        rfl
      · have : (ex_relinked.rsc_at c).fillers = [] := by
          simp only [ex_relinked, hc, if_false]
          split_ifs <;> rfl
        rw [this] at hmem
        cases hmem
  · intro hcons
    have := hcons.2 1 0 h2
    rw [h1] at this
    cases this

/-- Claim C25 as amended: `handle_orphaned_container_fillers` keeps container and
fillers consistent: if, before the pass, every resource whose container
reference is `c` appears in the filler list of `c` and every member of a filler
list has that resource as its container, then so after it.  `setup_container`
keeps them consistent when, before the pass, every container reference already
set is the one that the meta attribute of the resource names, in particular
when no container reference is set yet; that condition holds after the pass
too. -/
theorem container_links_consistent :
    (∀ (lrm_rsc_list : xmlNode) (d : pe_working_set_t), container_consistent d →
      container_consistent (handle_orphaned_container_fillers lrm_rsc_list d)) ∧
    (∀ (rsc : rsc_ptr) (d : pe_working_set_t), container_consistent d →
      container_as_configured d →
      container_consistent (setup_container rsc d) ∧
        container_as_configured (setup_container rsc d)) ∧
    (∀ (rsc : rsc_ptr) (d : pe_working_set_t), container_consistent d →
      (∀ r, (d.rsc_at r).container = none) →
      container_consistent (setup_container rsc d)) := by
  refine ⟨?_, ?_, ?_⟩
  · intro lrm_rsc_list d h
    unfold handle_orphaned_container_fillers
    generalize lrm_rsc_list.children = l
    induction l generalizing d with
    | nil => exact h
    | cons e l ih =>
      simp only [List.foldl_cons]
      exact ih _ (handle_orphaned_container_fillers_step_keeps d e h)
  · intro rsc d h ha
    exact setup_container_from_keeps d.loop_fuel rsc d h ha
  · intro rsc d h hnone
    refine (setup_container_from_keeps d.loop_fuel rsc d h ?_).1
    intro r c hrc
    rw [hnone r] at hrc
    cases hrc

/-- No resource of `ex_unlinked` or of `ex_orphan_filler` has a container or a
filler, so container and fillers are consistent there. -/
theorem ex_unlinked_consistent :
    (∀ r, (ex_unlinked.rsc_at r).container = none) ∧ container_consistent ex_unlinked ∧
      container_consistent ex_orphan_filler := by
  have h1 : ∀ r, (ex_unlinked.rsc_at r).container = none := by
    intro r
    simp only [ex_unlinked]
    split_ifs <;> rfl
  have h2 : ∀ r, (ex_unlinked.rsc_at r).fillers = [] := by
    intro r
    simp only [ex_unlinked]
    split_ifs <;> rfl
  have h3 : ∀ r, (ex_orphan_filler.rsc_at r).container = none := by
    intro r
    simp only [ex_orphan_filler]
    split_ifs <;> rfl
  have h4 : ∀ r, (ex_orphan_filler.rsc_at r).fillers = [] := by
    intro r
    simp only [ex_orphan_filler]
    split_ifs <;> rfl
  refine ⟨h1, ⟨?_, ?_⟩, ⟨?_, ?_⟩⟩
  · intro r c hrc
    rw [h1 r] at hrc
    cases hrc
  · intro c r hmem
    rw [h2 c] at hmem
    cases hmem
  · intro r c hrc
    rw [h3 r] at hrc
    cases hrc
  · intro c r hmem
    rw [h4 c] at hmem
    cases hmem

/-- Witness of C25 as amended: `r0` is linked to `c2` by `setup_container` and, as
an orphaned filler, to `c1` by `handle_orphaned_container_fillers`. -/
theorem container_links_consistent_witness :
    (container_consistent (handle_orphaned_container_fillers ex_lrm_rsc_list ex_orphan_filler) ∧
      ((handle_orphaned_container_fillers ex_lrm_rsc_list ex_orphan_filler).rsc_at 0).container
        = some 1) ∧
    (container_consistent (setup_container 0 ex_unlinked) ∧
      ((setup_container 0 ex_unlinked).rsc_at 0).container = some 2) :=
  ⟨⟨container_links_consistent.1 ex_lrm_rsc_list ex_orphan_filler ex_unlinked_consistent.2.2,
      by decide⟩,
   ⟨container_links_consistent.2.2 0 ex_unlinked ex_unlinked_consistent.2.1
      ex_unlinked_consistent.1, by decide⟩⟩

/-! ## Known-on tables only grow -/

/-- Removing the entries of a key from a table that has no entry of that key
changes nothing. -/
theorem filter_of_lookup_none {α : Type} (t : List (String × α)) (k : String)
    (h : t.lookup k = none) : t.filter (fun e => e.1 != k) = t := by
  induction t with
  | nil => rfl
  | cons e t ih =>
    obtain ⟨k', v⟩ := e
    simp only [List.lookup_cons] at h
    by_cases hk : (k == k') = true
    · simp [hk] at h
    · have hk' : (k == k') = false := by simpa using hk
      rw [hk'] at h
      have hne : k' ≠ k := by
        intro heq
        rw [heq] at hk
        simp at hk
      simp only [List.filter_cons]
      have : ((k', v).1 != k) = true := by simpa using hne
      rw [this]
      simp only [if_true]
      rw [ih h]

/-- `pe_fence_node` changes no known-on table. -/
theorem pe_fence_node_known_on (d : pe_working_set_t) (node : Option node_ptr)
    (reason : String) (q : rsc_ptr) :
    ((pe_fence_node d node reason).rsc_at q).known_on = (d.rsc_at q).known_on := by
  cases node with
  | none => rfl
  | some n =>
    unfold pe_fence_node
    simp only []
    repeat' split
    all_goals
      simp only [upd_rsc_rsc_at, upd_details_rsc_at, record_fence_call_rsc_at,
        pe_fence_op_rsc_at]
    all_goals try (split_ifs <;> rfl)

/-- A working set has its own known-on tables. -/
theorem keeps_known_on_refl (d : pe_working_set_t) : keeps_known_on d d :=
  fun _ => rfl

/-- Either branch of a test keeps the known-on tables when both do. -/
theorem keeps_known_on_ite (d a b : pe_working_set_t) (c : Prop) [Decidable c]
    (ha : keeps_known_on d a) (hb : keeps_known_on d b) :
    keeps_known_on d (if c then a else b) := by
  split_ifs
  · exact ha
  · exact hb

/-- An update of a resource that leaves its known-on table alone keeps the
known-on tables. -/
theorem keeps_known_on_upd (d d0 : pe_working_set_t) (r : rsc_ptr)
    (f : resource_t → resource_t) (hf : ∀ y, (f y).known_on = y.known_on)
    (h : keeps_known_on d d0) : keeps_known_on d (d0.upd_rsc r f) := by
  intro q
  simp only [upd_rsc_rsc_at]
  split_ifs
  · rw [hf]
    exact h q
  · exact h q

/-- An update of a node keeps the known-on tables. -/
theorem keeps_known_on_upd_details (d d0 : pe_working_set_t) (n : node_ptr)
    (f : node_shared_s → node_shared_s) (h : keeps_known_on d d0) :
    keeps_known_on d (d0.upd_details n f) :=
  fun q => h q

/-- Creating a stop action keeps the known-on tables. -/
theorem keeps_known_on_stop (x : unpack_env) (d d0 : pe_working_set_t) (r : rsc_ptr)
    (node : node_ptr) (optional : Bool) (h : keeps_known_on d d0) :
    keeps_known_on d (stop_action x r node optional d0) :=
  fun q => h q

/-- Recording a location preference keeps the known-on tables. -/
theorem keeps_known_on_location (d d0 : pe_working_set_t) (r : rsc_ptr)
    (node : Option node_ptr) (score : Int) (tag : String) (h : keeps_known_on d d0) :
    keeps_known_on d (resource_location r node score tag d0) :=
  fun q => ((placement_frame_fields d0 _
    (placement_frame_location d0 d0 r node score tag (placement_frame_refl d0))
    q).2.2.2.2.2.2.1).trans (h q)

/-- `pe_fence_node` keeps the known-on tables. -/
theorem keeps_known_on_fence (d d0 : pe_working_set_t) (node : Option node_ptr)
    (reason : String) (h : keeps_known_on d d0) :
    keeps_known_on d (pe_fence_node d0 node reason) :=
  fun q => (pe_fence_node_known_on d0 node reason q).trans (h q)

/-- The model of `native_add_running` keeps the known-on tables. -/
theorem keeps_known_on_running (d d0 : pe_working_set_t) (rsc : rsc_ptr) (node : node_ptr)
    (h : keeps_known_on d d0) : keeps_known_on d (native_add_running rsc node d0) :=
  fun q => ((placement_frame_fields d0 _
    (placement_frame_running d0 d0 rsc node (placement_frame_refl d0))
    q).2.2.2.2.2.2.1).trans (h q)

/-- The part of `process_rsc_state` for a node that is down keeps the known-on
tables. -/
theorem keeps_known_on_node_down (d d0 : pe_working_set_t) (rsc : rsc_ptr) (node : node_ptr)
    (h : keeps_known_on d d0) :
    keeps_known_on d (process_rsc_state_node_down rsc node d0) := by
  unfold process_rsc_state_node_down
  simp only []
  repeat' split
  all_goals dsimp only
  all_goals
    repeat' (first
      | exact h
      | with_reducible apply keeps_known_on_fence
      | with_reducible apply keeps_known_on_upd_details
      | with_reducible apply keeps_known_on_upd
      | exact fun _ => rfl)

/-- The switch of `process_rsc_state` on the on-fail response keeps the known-on
tables. -/
theorem keeps_known_on_on_fail (x : unpack_env) (d d0 : pe_working_set_t) (rsc : rsc_ptr)
    (node : node_ptr) (on_fail : action_fail_response) (h : keeps_known_on d d0) :
    keeps_known_on d (process_rsc_state_on_fail x rsc node on_fail d0) := by
  cases on_fail <;> simp only [process_rsc_state_on_fail]
  all_goals
    repeat' (first
      | exact h
      | with_reducible apply keeps_known_on_ite
      | with_reducible apply keeps_known_on_fence
      | with_reducible apply keeps_known_on_stop
      | with_reducible apply keeps_known_on_location
      | with_reducible apply keeps_known_on_upd_details
      | with_reducible apply keeps_known_on_upd
      | exact fun _ => rfl
      | split)

/-- Changing the saved actions keeps the known-on tables. -/
theorem keeps_known_on_actions (d d0 : pe_working_set_t) (l : List action_t)
    (h : keeps_known_on d d0) : keeps_known_on d { d0 with actions := l } :=
  fun q => h q

/-- The check of `process_rsc_state` on a failed remote connection keeps the
known-on tables. -/
theorem keeps_known_on_remote_failed (d d0 : pe_working_set_t) (rsc : rsc_ptr)
    (h : keeps_known_on d d0) :
    keeps_known_on d (process_rsc_state_remote_failed rsc d0) := by
  intro q
  rw [process_rsc_state_remote_failed_rsc_at]
  exact h q

/-- An entry that a table has is still its entry after entries for keys that it
did not have are put in front. -/
theorem lookup_append_of_fresh {α : Type} (added t : List (String × α))
    (hfresh : ∀ e ∈ added, t.lookup e.1 = none) (k : String) (v : α)
    (h : t.lookup k = some v) : (added ++ t).lookup k = some v := by
  induction added with
  | nil => exact h
  | cons b added ih =>
    obtain ⟨bk, bv⟩ := b
    have hb := hfresh (bk, bv) (List.mem_cons_self _ _)
    have hne : (k == bk) = false := by
      by_cases hkb : k = bk
      · rw [← hkb] at hb
        rw [h] at hb
        cases hb
      · simpa using hkb
    simp only [List.cons_append, List.lookup_cons, hne]
    exact ih (fun e he => hfresh e (List.mem_cons_of_mem _ he))

/-- The loop of `process_rsc_state` over the ancestors only adds entries at the
head of known-on tables, and only for keys that had no entry. -/
theorem known_on_loop_grows (node : node_ptr) (fuel : Nat) :
    ∀ (iter : Option rsc_ptr) (d : pe_working_set_t) (q : rsc_ptr),
      ∃ added : List (String × node_ref),
        ((known_on_loop node fuel iter d).rsc_at q).known_on
          = added ++ (d.rsc_at q).known_on ∧
        ∀ e ∈ added, (d.rsc_at q).known_on.lookup e.1 = none := by
  induction fuel with
  | zero =>
    intro iter d q
    cases iter <;> exact ⟨[], rfl, by simp⟩
  | succ fuel ih =>
    intro iter d q
    cases iter with
    | none => exact ⟨[], rfl, by simp⟩
    | some it =>
      have step : ∀ d1 : pe_working_set_t,
          (∃ added : List (String × node_ref),
            (d1.rsc_at q).known_on = added ++ (d.rsc_at q).known_on ∧
            ∀ e ∈ added, (d.rsc_at q).known_on.lookup e.1 = none) →
          ∀ d2 : pe_working_set_t,
            d2 = (if (d1.rsc_at it).flags.pe_rsc_unique = true then d1
              else known_on_loop node fuel (d1.rsc_at it).parent d1) →
          ∃ added : List (String × node_ref),
            (d2.rsc_at q).known_on = added ++ (d.rsc_at q).known_on ∧
            ∀ e ∈ added, (d.rsc_at q).known_on.lookup e.1 = none := by
        intro d1 ⟨a1, h1, h1n⟩ d2 hd2
        by_cases hu : (d1.rsc_at it).flags.pe_rsc_unique = true
        · rw [if_pos hu] at hd2
          subst hd2
          exact ⟨a1, h1, h1n⟩
        · rw [if_neg hu] at hd2
          subst hd2
          obtain ⟨a2, h2, h2n⟩ := ih (d1.rsc_at it).parent d1 q
          refine ⟨a2 ++ a1, by rw [h2, h1, List.append_assoc], ?_⟩
          intro e he
          rcases List.mem_append.1 he with he | he
          · have := h2n e he
            rw [h1] at this
            cases hl : (d.rsc_at q).known_on.lookup e.1 with
            | none => rfl
            | some v =>
              rw [lookup_append_of_fresh a1 _ h1n e.1 v hl] at this
              cases this
          · exact h1n e he
      by_cases hk : ((d.rsc_at it).known_on.lookup (d.details node).id).isNone = true
      · refine step (d.upd_rsc it (fun r =>
            { r with known_on :=
                g_hash_table_insert r.known_on (d.details node).id (node_copy d node) }))
          ?_ _ ?_
        · simp only [upd_rsc_rsc_at]
          by_cases hq : q = it
          · subst hq
            simp only [if_true]
            have hnone : (d.rsc_at q).known_on.lookup (d.details node).id = none := by
              simpa using hk
            refine ⟨[((d.details node).id, node_copy d node)], ?_, ?_⟩
            · unfold g_hash_table_insert
              rw [filter_of_lookup_none _ _ hnone]
              rfl
            · intro e he
              rw [List.mem_singleton] at he
              subst he
              exact hnone
          · simp only [hq, if_false]
            exact ⟨[], rfl, by simp⟩
        · rw [known_on_loop]
          simp only [hk, if_true]
      · refine step d ⟨[], rfl, by simp⟩ _ ?_
        rw [known_on_loop]
        simp only [hk, if_false]
        rfl

/-- The loop of `process_rsc_state` over the ancestors records the node on every
resource of the chain it visits. -/
theorem known_on_loop_records (node : node_ptr) (fuel : Nat) :
    ∀ (it : rsc_ptr) (d d0 : pe_working_set_t),
      (∀ q, (d.rsc_at q).flags = (d0.rsc_at q).flags ∧
        (d.rsc_at q).parent = (d0.rsc_at q).parent) →
      ∀ a ∈ known_on_chain d0 fuel it,
        (((known_on_loop node fuel (some it) d).rsc_at a).known_on.lookup
          (d.details node).id).isSome = true := by
  induction fuel with
  | zero =>
    intro it d d0 _ a ha
    simp [known_on_chain] at ha
  | succ fuel ih =>
    intro it d d0 hsame a ha
    -- the state after the entry for `it` has been looked at
    obtain ⟨d1, hd1, hit, hframe, hdet, hgrow⟩ : ∃ d1 : pe_working_set_t,
        known_on_loop node (fuel + 1) (some it) d
          = (if (d1.rsc_at it).flags.pe_rsc_unique = true then d1
              else known_on_loop node fuel (d1.rsc_at it).parent d1) ∧
        ((d1.rsc_at it).known_on.lookup (d.details node).id).isSome = true ∧
        (∀ q, (d1.rsc_at q).flags = (d.rsc_at q).flags ∧
          (d1.rsc_at q).parent = (d.rsc_at q).parent) ∧
        d1.details node = d.details node ∧
        (∀ q k v, (d.rsc_at q).known_on.lookup k = some v →
          (d1.rsc_at q).known_on.lookup k = some v) := by
      by_cases hk : ((d.rsc_at it).known_on.lookup (d.details node).id).isNone = true
      · refine ⟨d.upd_rsc it (fun r =>
            { r with known_on :=
                g_hash_table_insert r.known_on (d.details node).id (node_copy d node) }),
          ?_, ?_, ?_, rfl, ?_⟩
        · rw [known_on_loop]
          simp only [hk, if_true]
        · simp [g_hash_table_insert]
        · intro q
          simp only [upd_rsc_rsc_at]
          split_ifs <;> exact ⟨rfl, rfl⟩
        · intro q k v hkv
          simp only [upd_rsc_rsc_at]
          by_cases hq : q = it
          · subst hq
            simp only [if_true]
            have hnone : (d.rsc_at q).known_on.lookup (d.details node).id = none := by
              simpa using hk
            unfold g_hash_table_insert
            rw [filter_of_lookup_none _ _ hnone]
            exact lookup_append_of_fresh [((d.details node).id, node_copy d node)] _
              (by
                intro e he
                rw [List.mem_singleton] at he
                subst he
                exact hnone) k v hkv
          · simp only [hq, if_false]
            exact hkv
      · refine ⟨d, ?_, ?_, fun _ => ⟨rfl, rfl⟩, rfl, fun _ _ _ h => h⟩
        · rw [known_on_loop]
          simp only [hk, if_false]
          rfl
        · cases hl : (d.rsc_at it).known_on.lookup (d.details node).id with
          | none => simp [hl] at hk
          | some v => rfl
    rw [hd1]
    have hu : (d1.rsc_at it).flags.pe_rsc_unique = (d0.rsc_at it).flags.pe_rsc_unique := by
      rw [(hframe it).1, (hsame it).1]
    have hp : (d1.rsc_at it).parent = (d0.rsc_at it).parent := by
      rw [(hframe it).2, (hsame it).2]
    have hsame1 : ∀ q, (d1.rsc_at q).flags = (d0.rsc_at q).flags ∧
        (d1.rsc_at q).parent = (d0.rsc_at q).parent :=
      fun q => ⟨(hframe q).1.trans (hsame q).1, (hframe q).2.trans (hsame q).2⟩
    unfold known_on_chain at ha
    rw [List.mem_cons] at ha
    by_cases hun : (d0.rsc_at it).flags.pe_rsc_unique = true
    · rw [hu, if_pos hun]
      rw [if_pos hun] at ha
      rcases ha with ha | ha
      · subst ha
        exact hit
      · cases ha
    · rw [hu, if_neg hun]
      rw [if_neg hun] at ha
      rcases ha with ha | ha
      · subst ha
        obtain ⟨added, hadd, hfresh⟩ := known_on_loop_grows node fuel (d1.rsc_at a).parent d1 a
        rw [hadd]
        cases hl : (d1.rsc_at a).known_on.lookup (d.details node).id with
        | none => rw [hl] at hit; cases hit
        | some v =>
          rw [lookup_append_of_fresh added _ hfresh _ v hl]
          rfl
      · rw [hp]
        cases hpar : (d0.rsc_at it).parent with
        | none =>
          rw [hpar] at ha
          cases ha
        | some p =>
          rw [hpar] at ha
          have := ih p d1 d0 hsame1 a ha
          rw [hdet] at this
          exact this

/-- Claim C26: `process_rsc_state` never removes or replaces an entry of a known-on
table: for every resource the table on return is the table on entry with
entries added in front, each for a key that had no entry, so every key keeps
the value it had.  When the role of the resource is not unknown, the node has
an entry on return in the known-on table of the resource and of each ancestor
up to and including the first one that carries the unique flag. -/
theorem process_rsc_state_known_on (x : unpack_env) (rsc : rsc_ptr) (node : node_ptr)
    (on_fail : action_fail_response) (migrate_op : Option xmlNode) (d : pe_working_set_t) :
    (∀ q, ∃ added : List (String × node_ref),
      ((process_rsc_state x rsc node on_fail migrate_op d).rsc_at q).known_on
        = added ++ (d.rsc_at q).known_on ∧
      ∀ e ∈ added, (d.rsc_at q).known_on.lookup e.1 = none) ∧
    (∀ q k v, (d.rsc_at q).known_on.lookup k = some v →
      ((process_rsc_state x rsc node on_fail migrate_op d).rsc_at q).known_on.lookup k
        = some v) ∧
    ((d.rsc_at rsc).role ≠ rsc_role_e.RSC_ROLE_UNKNOWN →
      ∀ a ∈ known_on_chain d d.loop_fuel rsc,
        (((process_rsc_state x rsc node on_fail migrate_op d).rsc_at a).known_on.lookup
          (d.details node).id).isSome = true) := by
  have hrest : keeps_known_on
      (if ((d.rsc_at rsc).role != rsc_role_e.RSC_ROLE_UNKNOWN) = true
        then known_on_loop node d.loop_fuel (some rsc) d else d)
      (process_rsc_state x rsc node on_fail migrate_op d) := by
    unfold process_rsc_state
    simp only []
    generalize (if ((d.rsc_at rsc).role != rsc_role_e.RSC_ROLE_UNKNOWN) = true
      then known_on_loop node d.loop_fuel (some rsc) d else d) = d1
    repeat' (first
      | exact keeps_known_on_refl d1
      | with_reducible apply keeps_known_on_ite
      | with_reducible apply keeps_known_on_running
      | with_reducible apply keeps_known_on_remote_failed
      | with_reducible apply keeps_known_on_on_fail
      | with_reducible apply keeps_known_on_node_down
      | with_reducible apply keeps_known_on_upd
      | exact fun _ => rfl
      | with_reducible apply keeps_known_on_actions)
  have hgrow : ∀ q, ∃ added : List (String × node_ref),
      ((process_rsc_state x rsc node on_fail migrate_op d).rsc_at q).known_on
        = added ++ (d.rsc_at q).known_on ∧
      ∀ e ∈ added, (d.rsc_at q).known_on.lookup e.1 = none := by
    intro q
    rw [hrest q]
    split_ifs
    · exact known_on_loop_grows node d.loop_fuel (some rsc) d q
    · exact ⟨[], rfl, by simp⟩
  refine ⟨hgrow, ?_, ?_⟩
  · intro q k v hkv
    obtain ⟨added, hadd, hfresh⟩ := hgrow q
    rw [hadd]
    exact lookup_append_of_fresh added _ hfresh k v hkv
  · intro hrole a ha
    rw [hrest a]
    have hc : ((d.rsc_at rsc).role != rsc_role_e.RSC_ROLE_UNKNOWN) = true := by
      simpa using hrole
    rw [if_pos hc]
    exact known_on_loop_records node d.loop_fuel rsc d d (fun _ => ⟨rfl, rfl⟩) a ha

/-- Witness of C26: a started resource on node 0, which ends up recorded in the
known-on table of the resource. -/
theorem process_rsc_state_known_on_witness :
    (((process_rsc_state ex_env_migrate 0 0 action_fail_response.action_fail_ignore none
      ex_two_nodes).rsc_at 0).known_on.lookup "n0").isSome = true :=
  (process_rsc_state_known_on ex_env_migrate 0 0 action_fail_response.action_fail_ignore none
    ex_two_nodes).2.2 (by decide) 0 (by decide)

/-! ## Failed operations are recorded once -/

/-- Looking a key up in a list that is followed by one more pair. -/
theorem lookup_append_single (l : List (String × String)) (k k' v : String) :
    (l ++ [(k', v)]).lookup k
      = match l.lookup k with
        | some w => some w
        | none => if k == k' then some v else none := by
  induction l with
  | nil =>
    simp only [List.nil_append, List.lookup_cons, List.lookup_nil]
    cases k == k' <;> rfl
  | cons b l ih =>
    obtain ⟨bk, bv⟩ := b
    simp only [List.cons_append, List.lookup_cons]
    cases k == bk
    · exact ih
    · rfl

/-- Looking a key up after the pairs of another key have been removed. -/
theorem lookup_filter_ne (l : List (String × String)) (k name : String) (h : k ≠ name) :
    (l.filter (fun e => e.1 != name)).lookup k = l.lookup k := by
  induction l with
  | nil => rfl
  | cons b l ih =>
    obtain ⟨bk, bv⟩ := b
    simp only [List.filter_cons]
    by_cases hb : bk = name
    · subst hb
      have hkb : (k == bk) = false := by simpa using h
      simp only [bne_self_eq_false, Bool.false_eq_true, if_false, List.lookup_cons, hkb]
      exact ih
    · have : ((bk, bv).1 != name) = true := by simpa using hb
      simp only [this, if_true, List.lookup_cons]
      cases k == bk
      · exact ih
      · rfl

/-- Setting an attribute does not change the value of another attribute. -/
theorem crm_xml_add_other (data : xmlNode) (name value k : String) (h : k ≠ name) :
    crm_element_value (crm_xml_add data name value) k = crm_element_value data k := by
  obtain ⟨tag, attrs, children⟩ := data
  show ((attrs.filter (fun e => e.1 != name)) ++ [(name, value)]).lookup k = attrs.lookup k
  rw [lookup_append_single, lookup_filter_ne _ _ _ h]
  have hk : (k == name) = false := by simpa using h
  rw [hk]
  cases List.lookup k attrs <;> rfl

/-- Setting an attribute gives it the value set. -/
theorem crm_xml_add_same (data : xmlNode) (name value : String) :
    crm_element_value (crm_xml_add data name value) name = some value := by
  obtain ⟨tag, attrs, children⟩ := data
  show ((attrs.filter (fun e => e.1 != name)) ++ [(name, value)]).lookup name = some value
  rw [lookup_append_single]
  have hnone : (attrs.filter (fun e => e.1 != name)).lookup name = none := by
    generalize attrs = l
    induction l with
    | nil => rfl
    | cons b l ih =>
      obtain ⟨bk, bv⟩ := b
      simp only [List.filter_cons]
      by_cases hb : bk = name
      · subst hb
        simp only [bne_self_eq_false, Bool.false_eq_true, if_false]
        exact ih
      · have h1 : ((bk, bv).1 != name) = true := by simpa using hb
        have h2 : (name == bk) = false := by simpa using Ne.symm hb
        simp only [h1, if_true, List.lookup_cons, h2]
        exact ih
  rw [hnone]
  simp

/-- A value is the same as itself for `safe_str_eq`. -/
theorem safe_str_eq_refl (a : Option String) : safe_str_eq a a = true := by
  cases a with
  | none => rfl
  | some x => simp [safe_str_eq, strcasecmp_eq]

/-- The record that `record_failed_op` adds has the task key of the operation and
the name of the node. -/
theorem recorded_op_pair (op : xmlNode) (uname id : String) :
    crm_element_value (crm_xml_add (crm_xml_add op XML_ATTR_UNAME uname) XML_LRM_ATTR_RSCID id)
        XML_LRM_ATTR_TASK_KEY = crm_element_value op XML_LRM_ATTR_TASK_KEY ∧
    crm_element_value (crm_xml_add (crm_xml_add op XML_ATTR_UNAME uname) XML_LRM_ATTR_RSCID id)
        XML_ATTR_UNAME = some uname := by
  constructor
  · rw [crm_xml_add_other _ _ _ _ (by decide), crm_xml_add_other _ _ _ _ (by decide)]
  · rw [crm_xml_add_other _ _ _ _ (by decide), crm_xml_add_same]

/-- What `record_failed_op` does to the list of failed operations: nothing, or it
appends one record that is for the same failure as none of those present. -/
theorem record_failed_op_failed (op : xmlNode) (node : node_ptr) (rsc : rsc_ptr)
    (d : pe_working_set_t) :
    (record_failed_op op node rsc d).failed = d.failed ∨
    ((record_failed_op op node rsc d).failed
        = d.failed ++ [crm_xml_add (crm_xml_add op XML_ATTR_UNAME (d.details node).uname)
            XML_LRM_ATTR_RSCID (d.rsc_at rsc).id] ∧
      (d.details node).online = true ∧
      ∀ e ∈ d.failed, same_failed_op e
        (crm_xml_add (crm_xml_add op XML_ATTR_UNAME (d.details node).uname)
          XML_LRM_ATTR_RSCID (d.rsc_at rsc).id) = false) := by
  unfold record_failed_op
  simp only []
  split_ifs with h1 h2
  · exact Or.inl rfl
  · exact Or.inl rfl
  · refine Or.inr ⟨rfl, by simpa using h1, ?_⟩
    intro e he
    have hnot : (safe_str_eq (crm_element_value op XML_LRM_ATTR_TASK_KEY)
          (crm_element_value e XML_LRM_ATTR_TASK_KEY)
        && safe_str_eq (crm_element_value e XML_ATTR_UNAME)
            (some (d.details node).uname)) = false := by
      cases hc : (safe_str_eq (crm_element_value op XML_LRM_ATTR_TASK_KEY)
          (crm_element_value e XML_LRM_ATTR_TASK_KEY)
        && safe_str_eq (crm_element_value e XML_ATTR_UNAME)
            (some (d.details node).uname)) with
      | false => rfl
      | true =>
        exfalso
        apply h2
        exact List.any_eq_true.2 ⟨e, he, hc⟩
    unfold same_failed_op
    rw [(recorded_op_pair op _ _).1, (recorded_op_pair op _ _).2]
    exact hnot

/-- `record_failed_op` changes neither nodes nor resources. -/
theorem record_failed_op_frame (op : xmlNode) (node : node_ptr) (rsc : rsc_ptr)
    (d : pe_working_set_t) :
    (record_failed_op op node rsc d).node_at = d.node_at ∧
      (record_failed_op op node rsc d).rsc_at = d.rsc_at := by
  unfold record_failed_op
  simp only []
  split_ifs <;> exact ⟨rfl, rfl⟩

/-- No two records of the list are for the same failure, after any sequence of
calls of `record_failed_op` on a list of which this holds. -/
theorem record_failed_ops_pairwise (calls : List record_failed_op_call) :
    ∀ d : pe_working_set_t,
      d.failed.Pairwise (fun earlier later => same_failed_op earlier later = false) →
      (record_failed_ops calls d).failed.Pairwise
        (fun earlier later => same_failed_op earlier later = false) := by
  induction calls with
  | nil => intro d h; exact h
  | cons c calls ih =>
    intro d h
    unfold record_failed_ops
    simp only [List.foldl_cons]
    apply ih
    rcases record_failed_op_failed c.op c.node c.rsc d with h1 | ⟨h1, -, h2⟩
    · rw [h1]
      exact h
    · rw [h1]
      rw [List.pairwise_append]
      refine ⟨h, List.pairwise_singleton _ _, ?_⟩
      intro a ha b hb
      rw [List.mem_singleton] at hb
      subst hb
      exact h2 a ha

/-- Claim C27: the failed-operations list never holds two records with the same
task key and node name: starting from an empty list, after any sequence of
`record_failed_op` calls no record is for the same failure as an earlier one
(task key and node name compared as `record_failed_op` compares them), so the
pairs of task key and node name of the records are distinct; and calling
`record_failed_op` a second time for an operation with the same task key and
the same node, whatever the resource, leaves the working set unchanged. -/
theorem record_failed_op_no_duplicates :
    (∀ (calls : List record_failed_op_call) (d : pe_working_set_t), d.failed = [] →
      (record_failed_ops calls d).failed.Pairwise
          (fun earlier later => same_failed_op earlier later = false) ∧
        ((record_failed_ops calls d).failed.map failed_op_pair).Nodup) ∧
    (∀ (op op' : xmlNode) (node : node_ptr) (rsc rsc' : rsc_ptr) (d : pe_working_set_t),
      crm_element_value op' XML_LRM_ATTR_TASK_KEY = crm_element_value op XML_LRM_ATTR_TASK_KEY →
      record_failed_op op' node rsc' (record_failed_op op node rsc d)
        = record_failed_op op node rsc d) := by
  constructor
  · intro calls d hd
    have hp := record_failed_ops_pairwise calls d (by rw [hd]; exact List.Pairwise.nil)
    refine ⟨hp, ?_⟩
    rw [List.Nodup, List.pairwise_map]
    refine hp.imp ?_
    intro a b hab heq
    unfold same_failed_op at hab
    unfold failed_op_pair at heq
    have h1 : crm_element_value a XML_LRM_ATTR_TASK_KEY
        = crm_element_value b XML_LRM_ATTR_TASK_KEY := congrArg Prod.fst heq
    have h2 : crm_element_value a XML_ATTR_UNAME = crm_element_value b XML_ATTR_UNAME :=
      congrArg Prod.snd heq
    rw [h1, h2, safe_str_eq_refl, safe_str_eq_refl] at hab
    cases hab
  · intro op op' node rsc rsc' d hkey
    obtain ⟨hn, hr⟩ := record_failed_op_frame op node rsc d
    have hdet : (record_failed_op op node rsc d).details node = d.details node := by
      simp only [pe_working_set_t.details, hn]
    by_cases hon : (d.details node).online = true
    · -- after the first call a record for this failure is in the list
      have hpresent : (record_failed_op op node rsc d).failed.any (fun xIter =>
          safe_str_eq (crm_element_value op XML_LRM_ATTR_TASK_KEY)
              (crm_element_value xIter XML_LRM_ATTR_TASK_KEY)
            && safe_str_eq (crm_element_value xIter XML_ATTR_UNAME)
                (some (d.details node).uname)) = true := by
        unfold record_failed_op
        simp only []
        have hoff : ((d.details node).online == false) = false := by simp [hon]
        simp only [hoff, Bool.false_eq_true, if_false]
        split_ifs with h2
        · exact h2
        · simp only [List.any_append, List.any_cons, List.any_nil, Bool.or_false]
          rw [(recorded_op_pair op _ _).1, (recorded_op_pair op _ _).2, safe_str_eq_refl,
            safe_str_eq_refl]
          simp
      generalize record_failed_op op node rsc d = d1 at hdet hpresent
      unfold record_failed_op
      simp only [hkey, hdet, hpresent, if_true]
      split_ifs <;> rfl
    · have hoff : (d.details node).online = false := by simpa using hon
      have h1 : record_failed_op op node rsc d = d := by
        unfold record_failed_op
        simp [hoff]
      rw [h1]
      unfold record_failed_op
      simp [hoff]

/-- Witness of C27: the same failed monitor recorded twice on node 0 leaves one
record. -/
theorem record_failed_op_no_duplicates_witness :
    ((record_failed_ops
        [{ op := ex_op_failed_monitor, node := 0, rsc := 0 },
         { op := ex_op_failed_monitor, node := 0, rsc := 0 }] ex_two_nodes).failed.map
      failed_op_pair).Nodup ∧
    (record_failed_ops
        [{ op := ex_op_failed_monitor, node := 0, rsc := 0 },
         { op := ex_op_failed_monitor, node := 0, rsc := 0 }] ex_two_nodes).failed.length
      = 1 :=
  ⟨(record_failed_op_no_duplicates.1 _ ex_two_nodes rfl).2, by decide⟩

/-! ## Expiry of failures and clearing of failure markers -/

/-- Counterexample to C28: with fencing disabled, a recurring monitor of a remote
connection with a reconnect interval, whose remote node has not been fenced, is
reported as expired once the failure timeout has passed. -/
theorem check_operation_expiry_without_fencing :
    crm_element_value_ms ex_env_clock ex_op_remote_monitor XML_LRM_ATTR_INTERVAL_MS = 30000 ∧
    (ex_remote_reconnect.rsc_at 0).remote_reconnect_ms = 30000 ∧
    pe_find_node ex_remote_reconnect ex_remote_reconnect.nodes
      (some (ex_remote_reconnect.rsc_at 0).id) = some 0 ∧
    (ex_remote_reconnect.details 0).remote_was_fenced = 0 ∧
    ex_remote_reconnect.flags.pe_flag_stonith_enabled = false ∧
    (check_operation_expiry ex_env_clock 0 0 1 ex_op_remote_monitor ex_remote_reconnect).1
      = true := by
  decide

/-- Claim C28 as amended: with fencing enabled, `check_operation_expiry` never
reports as expired a recurring monitor (a history entry with an id whose
interval, as the code reads it into an unsigned 32-bit number, is not 0) of a
resource that has a non-zero reconnect interval while the remote node named like
the resource has not been fenced (`remote_was_fenced = 0`), however long ago the
failure happened and whatever failure timeout is configured; the failure timeout
it works with is 0.  The code searches the id of the entry with `strstr`. -/
theorem check_operation_expiry_remote_monitor (x : unpack_env) (rsc : rsc_ptr)
    (node : node_ptr) (rc : Int) (xml_op : xmlNode) (d : pe_working_set_t)
    (remote_node : node_ptr)
    (_ : (crm_element_value xml_op XML_ATTR_ID).isSome = true)
    (hfence : d.flags.pe_flag_stonith_enabled = true)
    (hint : crm_element_value_ms x xml_op XML_LRM_ATTR_INTERVAL_MS ≠ 0)
    (htask : safe_str_eq (crm_element_value xml_op XML_LRM_ATTR_TASK) (some "monitor") = true)
    (hrec : (d.rsc_at rsc).remote_reconnect_ms ≠ 0)
    (hnode : pe_find_node d d.nodes (some (d.rsc_at rsc).id) = some remote_node)
    (hnot : (d.details remote_node).remote_was_fenced = 0) :
    (check_operation_expiry x rsc node rc xml_op d).1 = false ∧
    effective_failure_timeout x rsc xml_op d = 0 := by
  have ht : effective_failure_timeout x rsc xml_op d = 0 := by
    unfold effective_failure_timeout
    simp [hfence, hint, htask, hrec, hnode, hnot]
  refine ⟨?_, ht⟩
  unfold check_operation_expiry
  simp only [ht]
  simp only [gt_iff_lt, lt_self_iff_false, if_false, Bool.false_eq_true, Bool.false_and]
  split_ifs <;> rfl

/-- Witness of C28 as amended: the recurring monitor of `remote1` with fencing
enabled. -/
theorem check_operation_expiry_remote_monitor_witness :
    (check_operation_expiry ex_env_clock 0 0 1 ex_op_remote_monitor
      ex_remote_reconnect_fencing).1 = false ∧
    effective_failure_timeout ex_env_clock 0 ex_op_remote_monitor ex_remote_reconnect_fencing
      = 0 :=
  check_operation_expiry_remote_monitor ex_env_clock 0 0 1 ex_op_remote_monitor
    ex_remote_reconnect_fencing 0 (by decide) (by decide) (by decide) (by decide) (by decide)
    (by decide) (by decide)

/-- Counterexample to C29: a completed start with return code OK on a resource
whose accumulated on-fail response is fence makes the role started but leaves
the response fence and the next role as it was. -/
theorem update_resource_state_keeps_fence :
    ((update_resource_state ex_env_migrate 0 0 ex_op_start (some CRMD_ACTION_START) 0 none
      action_fail_response.action_fail_fence ex_next_stopped).2.rsc_at 0).role
      = rsc_role_e.RSC_ROLE_STARTED ∧
    (update_resource_state ex_env_migrate 0 0 ex_op_start (some CRMD_ACTION_START) 0 none
      action_fail_response.action_fail_fence ex_next_stopped).1
      = action_fail_response.action_fail_fence ∧
    ((update_resource_state ex_env_migrate 0 0 ex_op_start (some CRMD_ACTION_START) 0 none
      action_fail_response.action_fail_fence ex_next_stopped).2.rsc_at 0).next_role
      = rsc_role_e.RSC_ROLE_STOPPED := by
  decide

/-- A start or a stop is not a monitor. -/
theorem start_stop_not_status (task : Option String)
    (h : safe_str_eq task (some CRMD_ACTION_START) = true
      ∨ safe_str_eq task (some CRMD_ACTION_STOP) = true) :
    safe_str_eq task (some CRMD_ACTION_STATUS) = false := by
  rcases h with h | h
  · exact safe_str_eq_disjoint _ CRMD_ACTION_START CRMD_ACTION_STATUS (by decide) h
  · exact safe_str_eq_disjoint _ CRMD_ACTION_STOP CRMD_ACTION_STATUS (by decide) h

/-- Claim C29 as amended: in `update_resource_state`, for every completed start
(respectively stop) with return code OK, the role of the resource becomes
started (respectively stopped).  The failure markers are cleared, that is the
accumulated on-fail response is ignore and the next role unknown afterwards,
when the accumulated response was ignore, recover, block or restart-container,
or was reset-remote on a resource without reconnect interval; when it was
migrate, stop, standby or fence, or reset-remote on a resource with a reconnect
interval, the response and the next role are left as they were. -/
theorem update_resource_state_start_stop (x : unpack_env) (rsc : rsc_ptr) (node : node_ptr)
    (xml_op : xmlNode) (task : Option String) (last_failure : Option xmlNode)
    (on_fail : action_fail_response) (d : pe_working_set_t)
    (htask : safe_str_eq task (some CRMD_ACTION_START) = true
      ∨ safe_str_eq task (some CRMD_ACTION_STOP) = true) :
    ((update_resource_state x rsc node xml_op task PCMK_OCF_OK last_failure on_fail d).2.rsc_at
        rsc).role
      = (if safe_str_eq task (some CRMD_ACTION_START) = true then rsc_role_e.RSC_ROLE_STARTED
         else rsc_role_e.RSC_ROLE_STOPPED) ∧
    ((on_fail = action_fail_response.action_fail_ignore
        ∨ on_fail = action_fail_response.action_fail_recover
        ∨ on_fail = action_fail_response.action_fail_block
        ∨ on_fail = action_fail_response.action_fail_restart_container
        ∨ (on_fail = action_fail_response.action_fail_reset_remote
          ∧ (d.rsc_at rsc).remote_reconnect_ms = 0)) →
      (update_resource_state x rsc node xml_op task PCMK_OCF_OK last_failure on_fail d).1
        = action_fail_response.action_fail_ignore ∧
      ((update_resource_state x rsc node xml_op task PCMK_OCF_OK last_failure on_fail
        d).2.rsc_at rsc).next_role = rsc_role_e.RSC_ROLE_UNKNOWN) ∧
    ((on_fail = action_fail_response.action_fail_migrate
        ∨ on_fail = action_fail_response.action_fail_stop
        ∨ on_fail = action_fail_response.action_fail_standby
        ∨ on_fail = action_fail_response.action_fail_fence
        ∨ (on_fail = action_fail_response.action_fail_reset_remote
          ∧ (d.rsc_at rsc).remote_reconnect_ms ≠ 0)) →
      (update_resource_state x rsc node xml_op task PCMK_OCF_OK last_failure on_fail d).1
        = on_fail ∧
      ((update_resource_state x rsc node xml_op task PCMK_OCF_OK last_failure on_fail
        d).2.rsc_at rsc).next_role = (d.rsc_at rsc).next_role) := by
  have hmon := start_stop_not_status task htask
  have h7 : (PCMK_OCF_OK == PCMK_OCF_NOT_RUNNING) = false := by decide
  have h5 : (PCMK_OCF_OK == PCMK_OCF_NOT_INSTALLED) = false := by decide
  -- the state after the chain of tests on the task
  obtain ⟨role, hrole, hr⟩ : ∃ role : rsc_role_e,
      role = (if safe_str_eq task (some CRMD_ACTION_START) = true
        then rsc_role_e.RSC_ROLE_STARTED else rsc_role_e.RSC_ROLE_STOPPED) ∧
      update_resource_state x rsc node xml_op task PCMK_OCF_OK last_failure on_fail d
        = (match on_fail with
          | action_fail_response.action_fail_stop =>
            (on_fail, d.upd_rsc rsc (fun r => { r with role := role }))
          | action_fail_response.action_fail_fence =>
            (on_fail, d.upd_rsc rsc (fun r => { r with role := role }))
          | action_fail_response.action_fail_migrate =>
            (on_fail, d.upd_rsc rsc (fun r => { r with role := role }))
          | action_fail_response.action_fail_standby =>
            (on_fail, d.upd_rsc rsc (fun r => { r with role := role }))
          | action_fail_response.action_fail_reset_remote =>
            if (d.rsc_at rsc).remote_reconnect_ms == 0 then
              (action_fail_response.action_fail_ignore,
                (d.upd_rsc rsc (fun r => { r with role := role })).upd_rsc rsc
                  (fun r => { r with next_role := rsc_role_e.RSC_ROLE_UNKNOWN }))
            else (on_fail, d.upd_rsc rsc (fun r => { r with role := role }))
          | _ =>
            (action_fail_response.action_fail_ignore,
              (d.upd_rsc rsc (fun r => { r with role := role })).upd_rsc rsc
                (fun r => { r with next_role := rsc_role_e.RSC_ROLE_UNKNOWN }))) := by
    refine ⟨_, rfl, ?_⟩
    unfold update_resource_state
    simp only [h7, h5, hmon, Bool.false_eq_true, if_false]
    by_cases hs : safe_str_eq task (some CRMD_ACTION_START) = true
    · simp only [hs, if_true]
      cases on_fail <;> simp
    · have hstop : safe_str_eq task (some CRMD_ACTION_STOP) = true := by
        rcases htask with h | h
        · exact absurd h hs
        · exact h
      simp only [hs, hstop, if_true, Bool.false_eq_true, if_false]
      cases on_fail <;> simp
  rw [hr, ← hrole]
  refine ⟨?_, ?_, ?_⟩
  · cases on_fail
    all_goals simp
    all_goals try (split_ifs <;> simp)
  · rintro (h | h | h | h | ⟨h, h0⟩) <;> subst h <;> simp [*]
  · rintro (h | h | h | h | ⟨h, h0⟩) <;> subst h <;> simp [*]

/-- Witness of C29 as amended: a completed start clears an accumulated recover and
keeps an accumulated fence. -/
theorem update_resource_state_start_stop_witness :
    ((update_resource_state ex_env_migrate 0 0 ex_op_start (some CRMD_ACTION_START) PCMK_OCF_OK
        none action_fail_response.action_fail_recover ex_next_stopped).1
        = action_fail_response.action_fail_ignore ∧
      ((update_resource_state ex_env_migrate 0 0 ex_op_start (some CRMD_ACTION_START)
        PCMK_OCF_OK none action_fail_response.action_fail_recover ex_next_stopped).2.rsc_at
        0).next_role = rsc_role_e.RSC_ROLE_UNKNOWN) ∧
    ((update_resource_state ex_env_migrate 0 0 ex_op_start (some CRMD_ACTION_START) PCMK_OCF_OK
        none action_fail_response.action_fail_fence ex_next_stopped).1
        = action_fail_response.action_fail_fence ∧
      ((update_resource_state ex_env_migrate 0 0 ex_op_start (some CRMD_ACTION_START)
        PCMK_OCF_OK none action_fail_response.action_fail_fence ex_next_stopped).2.rsc_at
        0).next_role = (ex_next_stopped.rsc_at 0).next_role) :=
  ⟨(update_resource_state_start_stop ex_env_migrate 0 0 ex_op_start (some CRMD_ACTION_START)
      none action_fail_response.action_fail_recover ex_next_stopped
      (Or.inl (by decide))).2.1 (Or.inr (Or.inl rfl)),
   (update_resource_state_start_stop ex_env_migrate 0 0 ex_op_start (some CRMD_ACTION_START)
      none action_fail_response.action_fail_fence ex_next_stopped
      (Or.inl (by decide))).2.2 (Or.inr (Or.inr (Or.inr (Or.inl rfl))))⟩

/-! ## The passes over the node states terminate -/

/-- A node found by `pe_find_node_any` is a node of the list searched. -/
theorem pe_find_node_any_mem (d : pe_working_set_t) (nodes : List node_ptr)
    (id uname : Option String) (n : node_ptr)
    (h : pe_find_node_any d nodes id uname = some n) : n ∈ nodes := by
  unfold pe_find_node_any at h
  split at h
  · rename_i m hm
    cases h
    exact List.mem_of_find?_eq_some hm
  · exact List.mem_of_find?_eq_some h

/-- Filtering by a stronger test leaves no more elements. -/
theorem filter_length_le (l : List node_ptr) (p p' : node_ptr → Bool)
    (himp : ∀ m, p' m = true → p m = true) :
    (l.filter p').length ≤ (l.filter p).length := by
  induction l with
  | nil => exact Nat.le_refl _
  | cons b l ih =>
    cases hb : p b <;> cases hb' : p' b
    · simp only [List.filter_cons, hb, hb', Bool.false_eq_true, if_false]
      exact ih
    · have := himp b hb'
      rw [hb] at this
      cases this
    · simp only [List.filter_cons, hb, hb', Bool.false_eq_true, if_false, if_true,
        List.length_cons]
      omega
    · simp only [List.filter_cons, hb, hb', if_true, List.length_cons]
      omega

/-- Filtering by a stronger test that fails at an element where the weaker one
holds leaves fewer elements. -/
theorem filter_length_lt (l : List node_ptr) (p p' : node_ptr → Bool)
    (himp : ∀ m, p' m = true → p m = true)
    (hex : ∃ n ∈ l, p n = true ∧ p' n = false) :
    (l.filter p').length < (l.filter p).length := by
  induction l with
  | nil =>
    obtain ⟨n, hn, -⟩ := hex
    cases hn
  | cons a l ih =>
    have hle := filter_length_le l p p' himp
    obtain ⟨n, hn, hpn, hp'n⟩ := hex
    cases ha : p a <;> cases ha' : p' a
    · simp only [List.filter_cons, ha, ha', Bool.false_eq_true, if_false]
      have hnl : n ∈ l := by
        rcases List.mem_cons.1 hn with h | h
        · rw [h, ha] at hpn
          cases hpn
        · exact h
      exact ih ⟨n, hnl, hpn, hp'n⟩
    · have := himp a ha'
      rw [ha] at this
      cases this
    · simp only [List.filter_cons, ha, ha', Bool.false_eq_true, if_false, if_true,
        List.length_cons]
      omega
    · simp only [List.filter_cons, ha, ha', if_true, List.length_cons]
      have hnl : n ∈ l := by
        rcases List.mem_cons.1 hn with h | h
        · rw [h, ha'] at hp'n
          cases hp'n
        · exact h
      have := ih ⟨n, hnl, hpn, hp'n⟩
      omega

/-- Nothing is processed between a working set and itself. -/
theorem processed_between_refl (d : pe_working_set_t) : processed_between d d [] := by
  refine ⟨List.Sublist.refl _, by simp, List.nodup_nil, by simp, ?_⟩
  intro m hm
  simp [hm]

/-- What was processed between a first and a second working set, followed by what
was processed between the second and a third. -/
theorem processed_between_trans (d d1 d2 : pe_working_set_t) (new1 new2 : List node_ptr)
    (h1 : processed_between d d1 new1) (h2 : processed_between d1 d2 new2) :
    processed_between d d2 (new1 ++ new2) := by
  obtain ⟨a1, a2, a3, a4, a5⟩ := h1
  obtain ⟨b1, b2, b3, b4, b5⟩ := h2
  have hmark1 : ∀ n ∈ new1, n ∈ d1.nodes ∧ (d1.details n).unpacked = true := by
    intro n hn
    refine ⟨(a4 n hn).1, ?_⟩
    rw [a5 n (a4 n hn).1]
    simp [hn]
  have hkeep : ∀ n, n ∈ d.nodes → (d.details n).unpacked = true →
      n ∈ d1.nodes ∧ (d1.details n).unpacked = true := by
    intro n hn hu
    refine ⟨a1.subset hn, ?_⟩
    rw [a5 n (a1.subset hn)]
    simp [hn, hu]
  refine ⟨a1.trans b1, by rw [b2, a2, List.append_assoc], ?_, ?_, ?_⟩
  · rw [List.nodup_append]
    refine ⟨a3, b3, ?_⟩
    intro n hn1 hn2
    exact (b4 n hn2).2 (hmark1 n hn1)
  · intro n hn
    rcases List.mem_append.1 hn with hn | hn
    · exact ⟨b1.subset (a4 n hn).1, (a4 n hn).2⟩
    · exact ⟨(b4 n hn).1, fun h => (b4 n hn).2 (hkeep n h.1 h.2)⟩
  · intro m hm
    rw [b5 m hm]
    by_cases hm1 : m ∈ d1.nodes
    · rw [a5 m hm1]
      by_cases hn1 : m ∈ new1 <;> by_cases hn2 : m ∈ new2 <;> simp [hm1, hn1, hn2]
    · have hd : m ∉ d.nodes := fun h => hm1 (a1.subset h)
      have hn1 : m ∉ new1 := fun h => hm1 (a4 m h).1
      simp [hm1, hd, hn1]

/-- No fewer nodes have their history processed afterwards, and more when the
history of at least one has been processed. -/
theorem processed_between_measure (d d' : pe_working_set_t) (new : List node_ptr)
    (h : processed_between d d' new) :
    processed_nodes d ≤ processed_nodes d' ∧
      (new ≠ [] → processed_nodes d < processed_nodes d') := by
  obtain ⟨a1, -, -, a4, a5⟩ := h
  unfold processed_nodes
  have e0 : d.nodes.filter (fun n => (d.details n).unpacked)
      = d.nodes.filter (fun n => decide (n ∈ d.nodes) && (d.details n).unpacked) := by
    apply List.filter_congr
    intro m hm
    simp [hm]
  have e1 : (d.nodes.filter (fun n => decide (n ∈ d.nodes) && (d.details n).unpacked)).length
      ≤ (d'.nodes.filter (fun n => decide (n ∈ d.nodes) && (d.details n).unpacked)).length :=
    (a1.filter _).length_le
  have e2 : d'.nodes.filter (fun n => (d'.details n).unpacked)
      = d'.nodes.filter (fun n =>
          decide (n ∈ new) || (decide (n ∈ d.nodes) && (d.details n).unpacked)) := by
    apply List.filter_congr
    intro m hm
    rw [a5 m hm]
  rw [e0, e2]
  have himp : ∀ m, (decide (m ∈ d.nodes) && (d.details m).unpacked) = true →
      (decide (m ∈ new) || (decide (m ∈ d.nodes) && (d.details m).unpacked)) = true := by
    intro m hm
    rw [hm]
    simp
  constructor
  · exact Nat.le_trans e1 (filter_length_le _ _ _ himp)
  · intro hnew
    refine Nat.lt_of_le_of_lt e1 (filter_length_lt _ _ _ himp ?_)
    obtain ⟨n, hn⟩ := List.exists_mem_of_ne_nil new hnew
    refine ⟨n, (a4 n hn).1, by simp [hn], ?_⟩
    have := (a4 n hn).2
    cases hu : (d.details n).unpacked
    · simp
    · by_cases hm : n ∈ d.nodes
      · exact absurd ⟨hm, hu⟩ this
      · simp [hm]

/-- A node marked as processed stays a marked node of the cluster. -/
theorem processed_between_marked (d d' : pe_working_set_t) (new : List node_ptr)
    (h : processed_between d d' new) (n : node_ptr) (hn : n ∈ d.nodes)
    (hu : (d.details n).unpacked = true) :
    n ∈ d'.nodes ∧ (d'.details n).unpacked = true := by
  obtain ⟨a1, -, -, -, a5⟩ := h
  refine ⟨a1.subset hn, ?_⟩
  rw [a5 n (a1.subset hn)]
  simp [hn, hu]

/-- A function that keeps the marks processes no history. -/
theorem processed_between_of_keeps (f : pe_working_set_t → pe_working_set_t)
    (hf : keeps_marks f) (d : pe_working_set_t) : processed_between d (f d) [] := by
  obtain ⟨k1, k2, k3, k4⟩ := hf d
  refine ⟨k1, by rw [k2]; simp, List.nodup_nil, by simp, ?_⟩
  intro m hm
  by_cases hd : m ∈ d.nodes
  · rw [k3 m hd]
    simp [hd]
  · rw [k4 m hm hd]
    simp [hd]

/-- The decision of `unpack_node_loop` on a node processes no history. -/
theorem unpack_node_loop_process_keeps (c : node_loop_callees) (hc : callees_keep_marks c)
    (fence : Bool) (d : pe_working_set_t) (n : node_ptr) (state : xmlNode) :
    processed_between d (unpack_node_loop_process c fence d n state).2 [] := by
  obtain ⟨h1, h2, -⟩ := hc
  have hcall : processed_between d (c.unpack_handle_remote_attrs n state
      (c.determine_remote_online_status d n)) [] :=
    processed_between_trans d _ _ [] []
      (processed_between_of_keeps (fun d => c.determine_remote_online_status d n) (h1 n) d)
      (processed_between_of_keeps _ (h2 n state) _)
  unfold unpack_node_loop_process
  split_ifs
  all_goals first
    | exact processed_between_refl d
    | exact hcall

/-- Marking a node of the cluster that was not marked, and handing on its history,
processes the history of this node. -/
theorem processed_between_mark (d : pe_working_set_t) (n : node_ptr) (hn : n ∈ d.nodes)
    (hu : (d.details n).unpacked = false) :
    processed_between d
      { d.upd_details n (fun x => { x with unpacked := true }) with
        lrm_unpacked := (d.upd_details n (fun x => { x with unpacked := true })).lrm_unpacked
          ++ [n] } [n] := by
  refine ⟨List.Sublist.refl _, rfl, List.nodup_singleton _, ?_, ?_⟩
  · intro m hm
    rw [List.mem_singleton] at hm
    subst hm
    exact ⟨hn, fun h => by rw [hu] at h; exact absurd h.2 (by decide)⟩
  · intro m hm
    have hm' : m ∈ d.nodes := hm
    show (((d.upd_details n (fun x => { x with unpacked := true })).details m).unpacked) = _
    rw [upd_details_details]
    by_cases h : m = n
    · simp [h]
    · simp [h, hm']

/-- One iteration of the loop of `unpack_node_loop` processes the history of no
node or of one. -/
theorem unpack_node_loop_step_processed (c : node_loop_callees) (hc : callees_keep_marks c)
    (fence : Bool) (b : Bool) (d : pe_working_set_t) (state : xmlNode) :
    (processed_between d (unpack_node_loop_step c fence (b, d) state).2 [] ∧
      (unpack_node_loop_step c fence (b, d) state).1 = b) ∨
    (∃ n, processed_between d (unpack_node_loop_step c fence (b, d) state).2 [n] ∧
      (unpack_node_loop_step c fence (b, d) state).1 = true) := by
  unfold unpack_node_loop_step
  simp only []
  split_ifs with hname
  · exact Or.inl ⟨processed_between_refl d, rfl⟩
  · split
    · exact Or.inl ⟨processed_between_refl d, rfl⟩
    · rename_i this_node hfind
      have hmem := pe_find_node_any_mem d d.nodes _ _ this_node hfind
      have hp := unpack_node_loop_process_keeps c hc fence d this_node state
      split_ifs with hun hproc
      · exact Or.inl ⟨processed_between_refl d, rfl⟩
      · right
        refine ⟨this_node, ?_, rfl⟩
        have hun0 : (d.details this_node).unpacked = false := by simpa using hun
        have hmem1 : this_node ∈ (unpack_node_loop_process c fence d this_node state).2.nodes :=
          hp.1.subset hmem
        have hun1 : ((unpack_node_loop_process c fence d this_node state).2.details
            this_node).unpacked = false := by
          rw [hp.2.2.2.2 this_node hmem1]
          simp [hmem, hun0]
        have hm := processed_between_mark _ this_node hmem1 hun1
        have hl := processed_between_of_keeps _
          (hc.2.2 this_node
            (find_xml_node (find_xml_node (some state) XML_CIB_TAG_LRM) XML_LRM_TAG_RESOURCES))
          { (unpack_node_loop_process c fence d this_node state).2.upd_details this_node
              (fun n => { n with unpacked := true }) with
            lrm_unpacked :=
              ((unpack_node_loop_process c fence d this_node state).2.upd_details this_node
                (fun n => { n with unpacked := true })).lrm_unpacked ++ [this_node] }
        have h12 := processed_between_trans _ _ _ _ _ hp hm
        have h13 := processed_between_trans _ _ _ _ _ h12 hl
        simpa using h13
      · exact Or.inl ⟨hp, rfl⟩

/-- The iterations of `unpack_node_loop` on a list of entries: the histories
processed, and `changed` is set exactly when there is one, unless it was set
before. -/
theorem unpack_node_loop_fold (c : node_loop_callees) (hc : callees_keep_marks c)
    (fence : Bool) (d : pe_working_set_t) :
    ∀ (l : List xmlNode) (b : Bool) (d0 : pe_working_set_t) (new0 : List node_ptr),
      processed_between d d0 new0 → (b = true ↔ new0 ≠ []) →
      ∃ new, processed_between d (l.foldl (unpack_node_loop_step c fence) (b, d0)).2 new ∧
        ((l.foldl (unpack_node_loop_step c fence) (b, d0)).1 = true ↔ new ≠ []) := by
  intro l
  induction l with
  | nil =>
    intro b d0 new0 h hb
    exact ⟨new0, h, hb⟩
  | cons e l ih =>
    intro b d0 new0 h hb
    simp only [List.foldl_cons]
    rcases unpack_node_loop_step_processed c hc fence b d0 e with ⟨h1, hb1⟩ | ⟨n, h1, hb1⟩
    · have := processed_between_trans d d0 _ new0 [] h h1
      rw [List.append_nil] at this
      have hs : unpack_node_loop_step c fence (b, d0) e
          = ((unpack_node_loop_step c fence (b, d0) e).1,
             (unpack_node_loop_step c fence (b, d0) e).2) := rfl
      rw [hs]
      exact ih _ _ new0 this (by rw [hb1]; exact hb)
    · have := processed_between_trans d d0 _ new0 [n] h h1
      have hs : unpack_node_loop_step c fence (b, d0) e
          = ((unpack_node_loop_step c fence (b, d0) e).1,
             (unpack_node_loop_step c fence (b, d0) e).2) := rfl
      rw [hs]
      exact ih _ _ (new0 ++ [n]) this (by rw [hb1]; simp)

/-- The histories processed by the iterations of `unpack_node_loop` on a list of
entries. -/
theorem unpack_node_loop_fold_between (c : node_loop_callees) (hc : callees_keep_marks c)
    (fence : Bool) :
    ∀ (l : List xmlNode) (b : Bool) (d : pe_working_set_t),
      ∃ new, processed_between d (l.foldl (unpack_node_loop_step c fence) (b, d)).2 new := by
  intro l
  induction l with
  | nil => intro b d; exact ⟨[], processed_between_refl d⟩
  | cons e l ih =>
    intro b d
    have hs : unpack_node_loop_step c fence (b, d) e
        = ((unpack_node_loop_step c fence (b, d) e).1,
           (unpack_node_loop_step c fence (b, d) e).2) := rfl
    simp only [List.foldl_cons]
    rw [hs]
    obtain ⟨new, hnew⟩ := ih (unpack_node_loop_step c fence (b, d) e).1
      (unpack_node_loop_step c fence (b, d) e).2
    rcases unpack_node_loop_step_processed c hc fence b d e with ⟨h1, -⟩ | ⟨n, h1, -⟩
    · exact ⟨[] ++ new, processed_between_trans _ _ _ _ _ h1 hnew⟩
    · exact ⟨[n] ++ new, processed_between_trans _ _ _ _ _ h1 hnew⟩

/-- A pass of `unpack_node_loop`: the histories processed, and a change is
reported exactly when there is one. -/
theorem unpack_node_loop_pass (c : node_loop_callees) (hc : callees_keep_marks c)
    (status : xmlNode) (fence : Bool) (d : pe_working_set_t) :
    ∃ new, processed_between d (unpack_node_loop c status fence d).2 new ∧
      ((unpack_node_loop c status fence d).1 = true ↔ new ≠ []) :=
  unpack_node_loop_fold c hc fence d status.children false d [] (processed_between_refl d)
    (by simp)

/-- No more nodes have their history processed than the cluster has. -/
theorem processed_nodes_le (d : pe_working_set_t) : processed_nodes d ≤ d.nodes.length :=
  List.length_filter_le _ _

/-- The loop of `unpack_status` over the passes ends when the list of nodes stays
bounded: with more calls allowed than nodes may still be processed it returns,
having made no more calls than that. -/
theorem unpack_status_while_ends (c : node_loop_callees) (hc : callees_keep_marks c)
    (status : xmlNode) (N : Nat) :
    ∀ (fuel : Nat) (d : pe_working_set_t),
      (∀ k, (unpack_status_reached c status k d).nodes.length ≤ N) →
      N < fuel + processed_nodes d →
      ∃ (k : Nat) (d' : pe_working_set_t) (new : List node_ptr),
        unpack_status_while c status fuel d = some (k, d') ∧
        k + processed_nodes d ≤ N + 1 ∧ processed_between d d' new := by
  intro fuel
  induction fuel with
  | zero =>
    intro d hcap h
    have h0 := hcap 0
    have := processed_nodes_le d
    simp only [unpack_status_reached] at h0
    omega
  | succ fuel ih =>
    intro d hcap hlt
    obtain ⟨new, hp, hb⟩ := unpack_node_loop_pass c hc status false d
    obtain ⟨hle, hinc⟩ := processed_between_measure d _ new hp
    unfold unpack_status_while
    simp only []
    by_cases hch : (unpack_node_loop c status false d).1 = true
    · simp only [hch, if_true]
      have hlt' := hinc (hb.1 hch)
      have hcap' : ∀ k, (unpack_status_reached c status k
          (unpack_node_loop c status false d).2).nodes.length ≤ N := by
        intro k
        have := hcap (k + 1)
        simp only [unpack_status_reached, hch, if_true] at this
        exact this
      obtain ⟨k, d', new', hk, hkle, hp'⟩ :=
        ih (unpack_node_loop c status false d).2 hcap' (by omega)
      refine ⟨k + 1, d', new ++ new', ?_, by omega, processed_between_trans d _ d' new new' hp hp'⟩
      rw [hk]
      rfl
    · simp only [hch, if_false]
      have h0 := hcap 0
      have := processed_nodes_le d
      simp only [unpack_status_reached] at h0
      exact ⟨1, _, new, rfl, by omega, hp⟩

/-- When `unpack_node_loop` decides not to process a node it has called nothing:
the working set is the one it was given. -/
theorem unpack_node_loop_process_unchanged (c : node_loop_callees) (fence : Bool)
    (d : pe_working_set_t) (n : node_ptr) (state : xmlNode)
    (h : (unpack_node_loop_process c fence d n state).1 = false) :
    (unpack_node_loop_process c fence d n state).2 = d := by
  unfold unpack_node_loop_process at h ⊢
  split_ifs at h ⊢
  all_goals rfl

/-- An iteration of the loop of `unpack_node_loop` after which `changed` is not set
found it not set and changed nothing. -/
theorem unpack_node_loop_step_unchanged (c : node_loop_callees) (fence : Bool) (b : Bool)
    (d : pe_working_set_t) (state : xmlNode)
    (h : (unpack_node_loop_step c fence (b, d) state).1 = false) :
    b = false ∧ (unpack_node_loop_step c fence (b, d) state).2 = d := by
  unfold unpack_node_loop_step at h ⊢
  simp only [] at h ⊢
  split_ifs at h ⊢ with hname
  · exact ⟨h, rfl⟩
  · cases hfind : pe_find_node_any d d.nodes (crm_element_value state XML_ATTR_ID)
        (crm_element_value state XML_ATTR_UNAME) with
    | none =>
      rw [hfind] at h
      exact ⟨h, rfl⟩
    | some this_node =>
      rw [hfind] at h
      dsimp only at h ⊢
      split_ifs at h ⊢ with hun hproc
      · exact ⟨h, rfl⟩
      · exact ⟨h, unpack_node_loop_process_unchanged c fence d this_node state
          (by simpa using hproc)⟩

/-- A pass of `unpack_node_loop` that reports no change leaves the working set as it
was. -/
theorem unpack_node_loop_fold_unchanged (c : node_loop_callees) (fence : Bool) :
    ∀ (l : List xmlNode) (b : Bool) (d : pe_working_set_t),
      (l.foldl (unpack_node_loop_step c fence) (b, d)).1 = false →
      b = false ∧ (l.foldl (unpack_node_loop_step c fence) (b, d)).2 = d := by
  intro l
  induction l with
  | nil => intro b d h; exact ⟨h, rfl⟩
  | cons e l ih =>
    intro b d h
    have hs : unpack_node_loop_step c fence (b, d) e
        = ((unpack_node_loop_step c fence (b, d) e).1,
           (unpack_node_loop_step c fence (b, d) e).2) := rfl
    simp only [List.foldl_cons] at h ⊢
    rw [hs] at h ⊢
    obtain ⟨i1, i2⟩ := ih _ _ h
    obtain ⟨s1, s2⟩ := unpack_node_loop_step_unchanged c fence b d e i1
    exact ⟨s1, i2.trans s2⟩

/-- The loop of `unpack_status` that has ended stays where it ended. -/
theorem unpack_status_reached_ended (c : node_loop_callees) (status : xmlNode)
    (d : pe_working_set_t) (h : (unpack_node_loop c status false d).1 = false) :
    ∀ k, unpack_status_reached c status k d = d := by
  have hfix : (unpack_node_loop c status false d).2 = d :=
    (unpack_node_loop_fold_unchanged c false status.children false d h).2
  intro k
  cases k with
  | zero => rfl
  | succ k =>
    simp only [unpack_status_reached, h, Bool.false_eq_true, if_false]
    exact hfix

/-- The functions of `ex_callees_orphan` at most add the unmarked node 1. -/
theorem ex_callees_orphan_keep_marks : callees_keep_marks ex_callees_orphan := by
  refine ⟨fun _ _ => ⟨List.Sublist.refl _, rfl, fun _ _ => rfl, fun _ h1 h2 => absurd h1 h2⟩,
    fun _ _ _ => ⟨List.Sublist.refl _, rfl, fun _ _ => rfl, fun _ h1 h2 => absurd h1 h2⟩, ?_⟩
  intro n lrm d
  by_cases h : 1 ∈ d.nodes
  · have e : ex_callees_orphan.unpack_lrm_resources n lrm d = d := by
      simp only [ex_callees_orphan, h, if_true]
    rw [e]
    exact ⟨List.Sublist.refl _, rfl, fun _ _ => rfl, fun _ h1 h2 => absurd h1 h2⟩
  · have e : ex_callees_orphan.unpack_lrm_resources n lrm d
        = { d with
            nodes := d.nodes ++ [1]
            node_at := fun n =>
              if n = 1 then
                { details := { id := "r1", uname := "r1", type := node_type.node_remote,
                               shutdown := true } }
              else d.node_at n } := by
      simp only [ex_callees_orphan, h, if_false]
    rw [e]
    refine ⟨List.sublist_append_left _ _, rfl, ?_, ?_⟩
    · intro m hm
      have hne : m ≠ 1 := fun e => h (e ▸ hm)
      simp [pe_working_set_t.details, hne]
    · intro m hm hnot
      have hm1 : m = 1 := by
        rcases List.mem_append.1 hm with hm | hm
        · exact absurd hm hnot
        · simpa using hm
      simp [pe_working_set_t.details, hm1]

/-- With the functions of `ex_callees_orphan` the cluster of one online node never
has more than two nodes during the loop. -/
theorem ex_callees_orphan_bounded (d : pe_working_set_t)
    (hd : d = ex_one_online ∨ d = ex_one_online_fencing) :
    ∀ k, (unpack_status_reached ex_callees_orphan ex_status_two k d).nodes.length ≤ 2 := by
  intro k
  rcases hd with hd | hd <;> subst hd
  · match k with
    | 0 => decide
    | 1 => decide
    | k + 2 =>
      have h1 : unpack_status_reached ex_callees_orphan ex_status_two (k + 2) ex_one_online
          = unpack_status_reached ex_callees_orphan ex_status_two (k + 1)
              (unpack_node_loop ex_callees_orphan ex_status_two false ex_one_online).2 := by
        have : (unpack_node_loop ex_callees_orphan ex_status_two false ex_one_online).1 = true :=
          by decide
        simp only [unpack_status_reached, this, if_true]
      rw [h1, unpack_status_reached_ended _ _ _ (by decide)]
      decide
  · match k with
    | 0 => decide
    | 1 => decide
    | k + 2 =>
      have h1 : unpack_status_reached ex_callees_orphan ex_status_two (k + 2)
            ex_one_online_fencing
          = unpack_status_reached ex_callees_orphan ex_status_two (k + 1)
              (unpack_node_loop ex_callees_orphan ex_status_two false
                ex_one_online_fencing).2 := by
        have : (unpack_node_loop ex_callees_orphan ex_status_two false
            ex_one_online_fencing).1 = true := by decide
        simp only [unpack_status_reached, this, if_true]
      rw [h1, unpack_status_reached_ended _ _ _ (by decide)]
      decide

/-- Counterexample to C30: with one node, which is online, `unpack_status` calls
`unpack_node_loop` three times: one pass that processes the node, one that
reports no change, and the final pass; that is more than the number of nodes
plus the final pass. -/
theorem unpack_status_three_passes :
    (unpack_status_passes ex_loop_callees ex_status_one 2 ex_one_online).map Prod.fst = some 3 ∧
    ex_one_online.nodes.length + 1 = 2 := by
  decide

/-- Claim C30 as amended: the node-processing loop of `unpack_status` terminates
when the list of nodes stays bounded.  Provided the functions called on a
processed node at most add unmarked nodes to the list of nodes (as
`create_fake_resource` does for an orphaned remote connection) and change no
processed mark of a node of the list, every pass of `unpack_node_loop` processes
the history of nodes that were not marked as processed, each once, marks them
and un-marks none; it reports a change exactly when it processed one, and then
more nodes are marked than before.  So when the list of nodes never holds more
than `N` nodes while the loop runs, at most `N` passes report a change; they are
followed by one pass that reports none and by the final pass: with more than `N`
calls allowed the passes return, after at most `N + 2` calls of
`unpack_node_loop`, and over all passes no history is processed twice. -/
theorem unpack_status_passes_terminate (c : node_loop_callees) (status : xmlNode)
    (hc : callees_keep_marks c) :
    (∀ (fence : Bool) (d : pe_working_set_t),
      ∃ new, processed_between d (unpack_node_loop c status fence d).2 new ∧
        ((unpack_node_loop c status fence d).1 = true ↔ new ≠ []) ∧
        ((unpack_node_loop c status fence d).1 = true →
          processed_nodes d < processed_nodes (unpack_node_loop c status fence d).2)) ∧
    (∀ (N fuel : Nat) (d : pe_working_set_t),
      (∀ k, (unpack_status_reached c status k d).nodes.length ≤ N) → N < fuel →
      ∃ (k : Nat) (d' : pe_working_set_t) (new : List node_ptr),
        unpack_status_passes c status fuel d = some (k, d') ∧
        k + processed_nodes d ≤ N + 2 ∧ k ≤ N + 2 ∧
        processed_between d d' new) := by
  constructor
  · intro fence d
    obtain ⟨new, hp, hb⟩ := unpack_node_loop_pass c hc status fence d
    exact ⟨new, hp, hb, fun h => (processed_between_measure d _ new hp).2 (hb.1 h)⟩
  · intro N fuel d hcap hlt
    obtain ⟨k, d1, new1, hk, hkle, hp1⟩ :=
      unpack_status_while_ends c hc status N fuel d hcap (by omega)
    obtain ⟨new2, hp2, -⟩ :=
      unpack_node_loop_pass c hc status d1.flags.pe_flag_stonith_enabled d1
    refine ⟨k + 1, _, new1 ++ new2, ?_, by omega, by omega,
      processed_between_trans d d1 _ new1 new2 hp1 hp2⟩
    unfold unpack_status_passes
    rw [hk]
    rfl

/-- Witness of C30 as amended: the cluster of one online node `n0`; processing its
history adds the remote node `r1`, which the loop cannot process.  The list of
nodes never holds more than two nodes, and `unpack_node_loop` is called three
times. -/
theorem unpack_status_passes_terminate_witness :
    (∃ (k : Nat) (d' : pe_working_set_t) (new : List node_ptr),
      unpack_status_passes ex_callees_orphan ex_status_two 3 ex_one_online = some (k, d') ∧
      k + processed_nodes ex_one_online ≤ 2 + 2 ∧ k ≤ 2 + 2 ∧
      processed_between ex_one_online d' new) ∧
    (unpack_status_passes ex_callees_orphan ex_status_two 3 ex_one_online).map
      (fun p => (p.1, p.2.nodes, p.2.lrm_unpacked)) = some (3, [0, 1], [0]) :=
  ⟨(unpack_status_passes_terminate ex_callees_orphan ex_status_two ex_callees_orphan_keep_marks).2 2 3 ex_one_online
      (ex_callees_orphan_bounded ex_one_online (Or.inl rfl)) (by decide),
    by decide⟩


/-! ## What the final pass over the node states resolves -/

/-- The decision of `unpack_node_loop` on a node leaves the fencing option as it
is. -/
theorem unpack_node_loop_process_fencing (c : node_loop_callees) (hf : callees_keep_fencing c)
    (fence : Bool) (d : pe_working_set_t) (n : node_ptr) (state : xmlNode) :
    (unpack_node_loop_process c fence d n state).2.flags.pe_flag_stonith_enabled
      = d.flags.pe_flag_stonith_enabled := by
  have hcall : (c.unpack_handle_remote_attrs n state
      (c.determine_remote_online_status d n)).flags.pe_flag_stonith_enabled
        = d.flags.pe_flag_stonith_enabled :=
    (hf.2.1 n state _).trans (hf.1 n d)
  unfold unpack_node_loop_process
  split_ifs
  all_goals first
    | rfl
    | exact hcall

/-- One iteration of the loop of `unpack_node_loop` leaves the fencing option as it
is. -/
theorem unpack_node_loop_step_fencing (c : node_loop_callees) (hf : callees_keep_fencing c)
    (fence : Bool) (b : Bool) (d : pe_working_set_t) (state : xmlNode) :
    (unpack_node_loop_step c fence (b, d) state).2.flags.pe_flag_stonith_enabled
      = d.flags.pe_flag_stonith_enabled := by
  unfold unpack_node_loop_step
  simp only []
  split_ifs with hname
  · rfl
  · split
    · rfl
    · rename_i this_node hfind
      have hp := unpack_node_loop_process_fencing c hf fence d this_node state
      split_ifs with hun hproc
      · rfl
      · exact (hf.2.2 this_node _ _).trans hp
      · exact hp

/-- The iterations of `unpack_node_loop` on a list of entries leave the fencing
option as it is. -/
theorem unpack_node_loop_fold_fencing (c : node_loop_callees) (hf : callees_keep_fencing c)
    (fence : Bool) :
    ∀ (l : List xmlNode) (b : Bool) (d : pe_working_set_t),
      (l.foldl (unpack_node_loop_step c fence) (b, d)).2.flags.pe_flag_stonith_enabled
        = d.flags.pe_flag_stonith_enabled := by
  intro l
  induction l with
  | nil => intro b d; rfl
  | cons e l ih =>
    intro b d
    have hs : unpack_node_loop_step c fence (b, d) e
        = ((unpack_node_loop_step c fence (b, d) e).1,
           (unpack_node_loop_step c fence (b, d) e).2) := rfl
    simp only [List.foldl_cons]
    rw [hs]
    exact (ih _ _).trans (unpack_node_loop_step_fencing c hf fence b d e)

/-- The loop of `unpack_status` over the passes leaves the fencing option as it
is. -/
theorem unpack_status_while_fencing (c : node_loop_callees) (hf : callees_keep_fencing c)
    (status : xmlNode) :
    ∀ (fuel : Nat) (d : pe_working_set_t) (k : Nat) (d' : pe_working_set_t),
      unpack_status_while c status fuel d = some (k, d') →
      d'.flags.pe_flag_stonith_enabled = d.flags.pe_flag_stonith_enabled := by
  intro fuel
  induction fuel with
  | zero =>
    intro d k d' h
    simp [unpack_status_while] at h
  | succ fuel ih =>
    intro d k d' h
    have hpass : (unpack_node_loop c status false d).2.flags.pe_flag_stonith_enabled
        = d.flags.pe_flag_stonith_enabled :=
      unpack_node_loop_fold_fencing c hf false status.children false d
    unfold unpack_status_while at h
    simp only [] at h
    by_cases hch : (unpack_node_loop c status false d).1 = true
    · simp only [hch, if_true, Option.map_eq_some'] at h
      obtain ⟨⟨k1, d1⟩, h1, h2⟩ := h
      simp only [Prod.mk.injEq] at h2
      rw [← h2.2]
      exact (ih _ k1 d1 h1).trans hpass
    · simp only [hch, if_false, Option.some.injEq, Prod.mk.injEq, Bool.false_eq_true] at h
      rw [← h.2]
      exact hpass

/-- With `fence` set in a cluster with fencing, `unpack_node_loop` decides to
process every node. -/
theorem unpack_node_loop_process_forced (c : node_loop_callees) (d : pe_working_set_t)
    (n : node_ptr) (state : xmlNode) (hst : d.flags.pe_flag_stonith_enabled = true) :
    (unpack_node_loop_process c true d n state).1 = true := by
  unfold unpack_node_loop_process unpack_node_loop_check
  simp only [hst, Bool.and_true, if_true]
  split_ifs <;> rfl

/-- With `fence` set in a cluster with fencing, the node that the list of nodes
yields for a node-state entry is a marked node of the cluster after the
iteration of the loop of `unpack_node_loop` on the entry. -/
theorem unpack_node_loop_step_forced (c : node_loop_callees) (hc : callees_keep_marks c)
    (b : Bool) (d : pe_working_set_t) (state : xmlNode)
    (hst : d.flags.pe_flag_stonith_enabled = true) (hname : state.name = XML_CIB_TAG_STATE)
    (n : node_ptr)
    (hn : pe_find_node_any d d.nodes (crm_element_value state XML_ATTR_ID)
      (crm_element_value state XML_ATTR_UNAME) = some n) :
    n ∈ (unpack_node_loop_step c true (b, d) state).2.nodes ∧
    ((unpack_node_loop_step c true (b, d) state).2.details n).unpacked = true := by
  have hmem := pe_find_node_any_mem d d.nodes _ _ n hn
  have hforce := unpack_node_loop_process_forced c d n state hst
  have hp := unpack_node_loop_process_keeps c hc true d n state
  unfold unpack_node_loop_step
  simp only []
  split_ifs with hname0
  · rw [hname] at hname0
    simp at hname0
  · split
    · rename_i hfind
      rw [hn] at hfind
      cases hfind
    · rename_i this_node hfind
      rw [hn] at hfind
      cases hfind
      split_ifs with hun
      · exact ⟨hmem, hun⟩
      · have hun0 : (d.details n).unpacked = false := by simpa using hun
        have hmem1 : n ∈ (unpack_node_loop_process c true d n state).2.nodes :=
          hp.1.subset hmem
        have hun1 : ((unpack_node_loop_process c true d n state).2.details n).unpacked
            = false := by
          rw [hp.2.2.2.2 n hmem1]
          simp [hmem, hun0]
        obtain ⟨-, -, -, m4, m5⟩ := processed_between_mark _ n hmem1 hun1
        have hl := processed_between_of_keeps _
          (hc.2.2 n
            (find_xml_node (find_xml_node (some state) XML_CIB_TAG_LRM) XML_LRM_TAG_RESOURCES))
          { (unpack_node_loop_process c true d n state).2.upd_details n
              (fun n => { n with unpacked := true }) with
            lrm_unpacked :=
              ((unpack_node_loop_process c true d n state).2.upd_details n
                (fun n => { n with unpacked := true })).lrm_unpacked ++ [n] }
        have hin := (m4 n (List.mem_singleton_self n)).1
        refine processed_between_marked _ _ [] hl n hin ?_
        rw [m5 n hin]
        simp

/-- On the working set that the loop of `unpack_status` leaves, one more pass
without forcing reports no change and changes nothing. -/
theorem unpack_status_while_fixed (c : node_loop_callees) (status : xmlNode) :
    ∀ (fuel : Nat) (d : pe_working_set_t) (k : Nat) (d' : pe_working_set_t),
      unpack_status_while c status fuel d = some (k, d') →
      (unpack_node_loop c status false d').2 = d' := by
  intro fuel
  induction fuel with
  | zero =>
    intro d k d' h
    simp [unpack_status_while] at h
  | succ fuel ih =>
    intro d k d' h
    unfold unpack_status_while at h
    simp only [] at h
    by_cases hch : (unpack_node_loop c status false d).1 = true
    · simp only [hch, if_true, Option.map_eq_some'] at h
      obtain ⟨⟨k1, d1⟩, h1, h2⟩ := h
      simp only [Prod.mk.injEq] at h2
      rw [← h2.2]
      exact ih _ k1 d1 h1
    · simp only [hch, if_false, Option.some.injEq, Prod.mk.injEq, Bool.false_eq_true] at h
      have hfix := (unpack_node_loop_fold_unchanged c false status.children false d
        (by simpa [unpack_node_loop] using hch)).2
      have hd : d' = d := h.2.symm.trans hfix
      rw [hd]
      exact hfix

/-- The functions of `ex_callees_orphan` leave the fencing option as it is. -/
theorem ex_callees_orphan_keep_fencing : callees_keep_fencing ex_callees_orphan := by
  refine ⟨fun _ _ => rfl, fun _ _ _ => rfl, ?_⟩
  intro n lrm d
  show (ex_callees_orphan.unpack_lrm_resources n lrm d).flags.pe_flag_stonith_enabled = _
  simp only [ex_callees_orphan]
  split_ifs <;> rfl

/-- Counterexample to C31: in a cluster without fencing whose one node is an offline
cluster member with a node-state entry, the passes of `unpack_status` return
after two calls of `unpack_node_loop` and the node, which the registry knows
under the id of the entry, is not marked as processed. -/
theorem unpack_status_offline_unprocessed :
    (unpack_status_passes ex_loop_callees ex_status_one 2 ex_one_offline).map
      (fun p => (p.1, (p.2.details 0).unpacked)) = some (2, false) ∧
    ex_status_one.children.map (fun state =>
      (state.name, pe_find_node_any ex_one_offline ex_one_offline.nodes
        (crm_element_value state XML_ATTR_ID) (crm_element_value state XML_ATTR_UNAME)))
      = [(XML_CIB_TAG_STATE, some 0)] ∧
    ex_one_offline.flags.pe_flag_stonith_enabled = false := by
  decide

/-- A node added during the final pass after its node-state entry was visited stays
unprocessed, also with fencing: the status section has the entries of `r1` and
of `r0`, the cluster the remote node `r0` only; the final pass finds no node for
the first entry and, forced to process `r0`, adds the remote node `r1`. -/
theorem unpack_status_late_node_unprocessed :
    (unpack_status_passes ex_callees_orphan ex_status_late 3 ex_one_remote_fencing).map
      (fun p => (p.1, p.2.nodes, p.2.nodes.map (fun n => (p.2.details n).unpacked)))
      = some (2, [0, 1], [true, false]) ∧
    ((unpack_status_passes ex_callees_orphan ex_status_late 3 ex_one_remote_fencing).map
      (fun p => ex_status_late.children.map (fun state =>
        pe_find_node_any p.2 p.2.nodes (crm_element_value state XML_ATTR_ID)
          (crm_element_value state XML_ATTR_UNAME))))
      = some [some 1, some 0] := by
  decide

/-- Claim C31 as amended: provided the functions called on a processed node at most
add unmarked nodes to the list of nodes, change no processed mark of a node of
the list and leave the fencing option as it is, and the list of nodes never
holds more than `N` nodes while the loop runs, the passes of `unpack_status`
return.  In a cluster with fencing enabled every node that the registry yields
for a node-state entry of the status section when the final pass reaches this
entry is a node of the cluster marked as processed on return.  In a cluster
without fencing the final pass forces nothing: the working set on return is the
one that the loop before the final pass left. -/
theorem unpack_status_passes_resolve (c : node_loop_callees) (status : xmlNode)
    (hc : callees_keep_marks c) (hf : callees_keep_fencing c) (N fuel : Nat)
    (d : pe_working_set_t)
    (hcap : ∀ k, (unpack_status_reached c status k d).nodes.length ≤ N) (hfuel : N < fuel) :
    ∃ (k : Nat) (d1 d' : pe_working_set_t),
      unpack_status_while c status fuel d = some (k, d1) ∧
      unpack_status_passes c status fuel d = some (k + 1, d') ∧
      (d.flags.pe_flag_stonith_enabled = true →
        ∀ (pre post : List xmlNode) (state : xmlNode),
          status.children = pre ++ state :: post → state.name = XML_CIB_TAG_STATE →
          ∀ n, pe_find_node_any (pre.foldl (unpack_node_loop_step c true) (false, d1)).2
              (pre.foldl (unpack_node_loop_step c true) (false, d1)).2.nodes
              (crm_element_value state XML_ATTR_ID)
              (crm_element_value state XML_ATTR_UNAME) = some n →
            n ∈ d'.nodes ∧ (d'.details n).unpacked = true) ∧
      (d.flags.pe_flag_stonith_enabled = false → d' = d1) := by
  obtain ⟨k, d1, new1, hk, -, -⟩ :=
    unpack_status_while_ends c hc status N fuel d hcap (by omega)
  have hflag := unpack_status_while_fencing c hf status fuel d k d1 hk
  refine ⟨k, d1, (unpack_node_loop c status d1.flags.pe_flag_stonith_enabled d1).2, hk, ?_, ?_, ?_⟩
  · unfold unpack_status_passes
    rw [hk]
    rfl
  · intro hst pre post state hsplit hname n hn
    have hst1 : d1.flags.pe_flag_stonith_enabled = true := hflag.trans hst
    rw [hst1]
    unfold unpack_node_loop
    rw [hsplit, List.foldl_append, List.foldl_cons]
    have hv : (pre.foldl (unpack_node_loop_step c true) (false, d1))
        = ((pre.foldl (unpack_node_loop_step c true) (false, d1)).1,
           (pre.foldl (unpack_node_loop_step c true) (false, d1)).2) := rfl
    rw [hv]
    have hstv : (pre.foldl (unpack_node_loop_step c true)
        (false, d1)).2.flags.pe_flag_stonith_enabled = true :=
      (unpack_node_loop_fold_fencing c hf true pre false d1).trans hst1
    obtain ⟨m1, m2⟩ := unpack_node_loop_step_forced c hc
      (pre.foldl (unpack_node_loop_step c true) (false, d1)).1
      (pre.foldl (unpack_node_loop_step c true) (false, d1)).2 state hstv hname n hn
    have hs : unpack_node_loop_step c true
          ((pre.foldl (unpack_node_loop_step c true) (false, d1)).1,
           (pre.foldl (unpack_node_loop_step c true) (false, d1)).2) state
        = ((unpack_node_loop_step c true
            ((pre.foldl (unpack_node_loop_step c true) (false, d1)).1,
             (pre.foldl (unpack_node_loop_step c true) (false, d1)).2) state).1,
           (unpack_node_loop_step c true
            ((pre.foldl (unpack_node_loop_step c true) (false, d1)).1,
             (pre.foldl (unpack_node_loop_step c true) (false, d1)).2) state).2) := rfl
    rw [hs]
    obtain ⟨new, hp⟩ := unpack_node_loop_fold_between c hc true post
      (unpack_node_loop_step c true
        ((pre.foldl (unpack_node_loop_step c true) (false, d1)).1,
         (pre.foldl (unpack_node_loop_step c true) (false, d1)).2) state).1
      (unpack_node_loop_step c true
        ((pre.foldl (unpack_node_loop_step c true) (false, d1)).1,
         (pre.foldl (unpack_node_loop_step c true) (false, d1)).2) state).2
    exact processed_between_marked _ _ new hp n m1 m2
  · intro hst
    have hst1 : d1.flags.pe_flag_stonith_enabled = false := hflag.trans hst
    rw [hst1]
    exact unpack_status_while_fixed c status fuel d k d1 hk


/-- Witness of C31 as amended: the cluster of one online node `n0`; processing its
history adds the remote node `r1`, which no pass of the loop can process.  With
fencing the final pass processes it; without fencing it stays unprocessed. -/
theorem unpack_status_passes_resolve_witness :
    (∃ (k : Nat) (d1 d' : pe_working_set_t),
      unpack_status_while ex_callees_orphan ex_status_two 3 ex_one_online_fencing
        = some (k, d1) ∧
      unpack_status_passes ex_callees_orphan ex_status_two 3 ex_one_online_fencing
        = some (k + 1, d') ∧
      (ex_one_online_fencing.flags.pe_flag_stonith_enabled = true →
        ∀ (pre post : List xmlNode) (state : xmlNode),
          ex_status_two.children = pre ++ state :: post → state.name = XML_CIB_TAG_STATE →
          ∀ n, pe_find_node_any
              (pre.foldl (unpack_node_loop_step ex_callees_orphan true) (false, d1)).2
              (pre.foldl (unpack_node_loop_step ex_callees_orphan true) (false, d1)).2.nodes
              (crm_element_value state XML_ATTR_ID)
              (crm_element_value state XML_ATTR_UNAME) = some n →
            n ∈ d'.nodes ∧ (d'.details n).unpacked = true) ∧
      (ex_one_online_fencing.flags.pe_flag_stonith_enabled = false → d' = d1)) ∧
    (unpack_status_passes ex_callees_orphan ex_status_two 3 ex_one_online_fencing).map
      (fun p => (p.1, p.2.nodes, p.2.nodes.map (fun n => (p.2.details n).unpacked)))
      = some (3, [0, 1], [true, true]) ∧
    (unpack_status_passes ex_callees_orphan ex_status_two 3 ex_one_online).map
      (fun p => (p.1, p.2.nodes, p.2.nodes.map (fun n => (p.2.details n).unpacked)))
      = some (3, [0, 1], [true, false]) :=
  ⟨unpack_status_passes_resolve ex_callees_orphan ex_status_two ex_callees_orphan_keep_marks
      ex_callees_orphan_keep_fencing 2 3 ex_one_online_fencing
      (ex_callees_orphan_bounded ex_one_online_fencing (Or.inr rfl)) (by decide),
    by decide, by decide⟩

/-! ## The replay does not depend on the order of the entries in the document -/

/-- The operation entries collected from a history entry are its children tagged
`lrm_rsc_op`, last child first. -/
theorem rsc_op_list_eq (rsc_entry : xmlNode) :
    rsc_op_list rsc_entry
      = (rsc_entry.children.filter (fun c => c.name == XML_LRM_TAG_RSC_OP)).reverse := by
  have h : ∀ (l acc : List xmlNode),
      l.foldl (fun op_list rsc_op =>
        if rsc_op.name == XML_LRM_TAG_RSC_OP then rsc_op :: op_list else op_list) acc
        = (l.filter (fun c => c.name == XML_LRM_TAG_RSC_OP)).reverse ++ acc := by
    intro l
    induction l with
    | nil => intro acc; rfl
    | cons a l ih =>
      intro acc
      simp only [List.foldl_cons, List.filter_cons]
      rw [ih]
      by_cases ha : (a.name == XML_LRM_TAG_RSC_OP) = true
      · simp [ha]
      · simp [ha]
  unfold rsc_op_list
  rw [h]
  simp

/-- The comparison `sort_op_by_callid` puts an entry before or with another exactly
when its call-id is not the larger one. -/
theorem sort_op_by_callid_le (a b : xmlNode) :
    sort_op_by_callid a b ≤ 0 ↔ op_call_id a ≤ op_call_id b := by
  unfold sort_op_by_callid
  split_ifs with h1 h2
  · constructor
    · intro _; exact le_of_lt h1
    · intro _; decide
  · constructor
    · intro h; exact absurd h (by decide)
    · intro h; exact absurd h (not_le.mpr h2)
  · constructor
    · intro _; exact not_lt.mp h2
    · intro _; decide

/-- The list that `g_list_sort` returns for `sort_op_by_callid` is a rearrangement of
the list given, in which no entry is followed by one with a smaller call-id. -/
theorem g_list_sort_sorted (l : List xmlNode) :
    (g_list_sort l sort_op_by_callid).Perm l ∧
    (g_list_sort l sort_op_by_callid).Pairwise (fun a b => op_call_id a ≤ op_call_id b) := by
  haveI : IsTotal xmlNode (fun a b => sort_op_by_callid a b ≤ 0) :=
    ⟨fun a b => by
      rw [sort_op_by_callid_le, sort_op_by_callid_le]
      exact le_total _ _⟩
  haveI : IsTrans xmlNode (fun a b => sort_op_by_callid a b ≤ 0) :=
    ⟨fun a b c => by
      rw [sort_op_by_callid_le, sort_op_by_callid_le, sort_op_by_callid_le]
      exact le_trans⟩
  refine ⟨List.perm_insertionSort _ l, ?_⟩
  have h := List.sorted_insertionSort (fun a b => sort_op_by_callid a b ≤ 0) l
  exact List.Pairwise.imp (fun {a b} hab => (sort_op_by_callid_le a b).mp hab) h

/-- A list in which no entry is followed by one with a smaller call-id is left as
it is by `g_list_sort`. -/
theorem g_list_sort_of_sorted (l : List xmlNode)
    (h : l.Pairwise (fun a b => op_call_id a ≤ op_call_id b)) :
    g_list_sort l sort_op_by_callid = l := by
  unfold g_list_sort
  apply List.Sorted.insertionSort_eq
  exact List.Pairwise.imp (fun {a b} hab => (sort_op_by_callid_le a b).mpr hab) h

/-- Two rearrangements of the same entries, with pairwise distinct call-ids, are
sorted into the same list, and in it the call-ids increase. -/
theorem g_list_sort_perm (l1 l2 : List xmlNode) (hperm : l1.Perm l2)
    (hdistinct : (l1.map op_call_id).Nodup) :
    g_list_sort l1 sort_op_by_callid = g_list_sort l2 sort_op_by_callid ∧
    ((g_list_sort l1 sort_op_by_callid).map op_call_id).Pairwise (fun a b => a < b) := by
  obtain ⟨p1, s1⟩ := g_list_sort_sorted l1
  obtain ⟨p2, s2⟩ := g_list_sort_sorted l2
  have strict : ∀ l : List xmlNode, l.Perm l1 →
      l.Pairwise (fun a b => op_call_id a ≤ op_call_id b) →
      l.Pairwise (fun a b => op_call_id a < op_call_id b) := by
    intro l hp hs
    have hnd : (l.map op_call_id).Nodup := (hp.map op_call_id).nodup_iff.mpr hdistinct
    have hne : l.Pairwise (fun a b => op_call_id a ≠ op_call_id b) := by
      rw [List.Nodup, List.pairwise_map] at hnd
      exact hnd
    exact (hs.and hne).imp (fun {a b} hab => lt_of_le_of_ne hab.1 hab.2)
  have t1 := strict _ p1 s1
  have t2 := strict _ (p2.trans hperm.symm) s2
  haveI : IsAntisymm xmlNode (fun a b => op_call_id a < op_call_id b) :=
    ⟨fun a b hab hba => absurd hab (not_lt_of_gt hba)⟩
  refine ⟨List.eq_of_perm_of_sorted (p1.trans (hperm.trans p2.symm)) t1 t2, ?_⟩
  rw [List.pairwise_map]
  exact t1

/-- The replay of a history looks at the list of operations only after sorting
it. -/
theorem unpack_lrm_rsc_history_congr (c : lrm_callees) (node : node_ptr) (rsc : rsc_ptr)
    (l1 l2 : List xmlNode) (d : pe_working_set_t)
    (h : g_list_sort l1 sort_op_by_callid = g_list_sort l2 sort_op_by_callid) :
    unpack_lrm_rsc_history c node rsc l1 d = unpack_lrm_rsc_history c node rsc l2 d := by
  unfold unpack_lrm_rsc_history
  rw [h]

/-- Claim C33: the replay of `unpack_lrm_rsc_state` does not depend on the order of
the operation entries in the status document.  Take two history entries of a
resource with the same tag and attributes, whose children are the same entries
in a different order, the operation entries among them having pairwise distinct
call-ids, and for which the lookup of the resource gives the same.  Then both
are replayed in the same order, that of increasing call-id, and
`unpack_lrm_rsc_state` returns the same resource and leaves the same working
set, hence the same role.  And for every list of operations, sorting a sorted
list changes nothing, and replaying the sorted list gives what replaying the
list gives. -/
theorem unpack_lrm_rsc_state_any_order (c : lrm_callees) (node : node_ptr) (tag : String)
    (attrs : List (String × String)) (ch1 ch2 : List xmlNode) (d : pe_working_set_t)
    (hperm : ch1.Perm ch2)
    (hdistinct : ((rsc_op_list (xmlNode.mk tag attrs ch1)).map op_call_id).Nodup)
    (hfind : lrm_find_resource c node (xmlNode.mk tag attrs ch1) d
      = lrm_find_resource c node (xmlNode.mk tag attrs ch2) d) :
    g_list_sort (rsc_op_list (xmlNode.mk tag attrs ch1)) sort_op_by_callid
      = g_list_sort (rsc_op_list (xmlNode.mk tag attrs ch2)) sort_op_by_callid ∧
    ((g_list_sort (rsc_op_list (xmlNode.mk tag attrs ch1)) sort_op_by_callid).map
      op_call_id).Pairwise (fun a b => a < b) ∧
    unpack_lrm_rsc_state c node (xmlNode.mk tag attrs ch1) d
      = unpack_lrm_rsc_state c node (xmlNode.mk tag attrs ch2) d ∧
    (∀ (rsc : rsc_ptr) (op_list : List xmlNode) (d0 : pe_working_set_t),
      g_list_sort (g_list_sort op_list sort_op_by_callid) sort_op_by_callid
        = g_list_sort op_list sort_op_by_callid ∧
      unpack_lrm_rsc_history c node rsc (g_list_sort op_list sort_op_by_callid) d0
        = unpack_lrm_rsc_history c node rsc op_list d0) := by
  have hp : (rsc_op_list (xmlNode.mk tag attrs ch1)).Perm
      (rsc_op_list (xmlNode.mk tag attrs ch2)) := by
    rw [rsc_op_list_eq, rsc_op_list_eq]
    exact (List.reverse_perm _).trans (((hperm.filter _)).trans (List.reverse_perm _).symm)
  obtain ⟨hs, hasc⟩ := g_list_sort_perm _ _ hp hdistinct
  have hidem : ∀ op_list : List xmlNode,
      g_list_sort (g_list_sort op_list sort_op_by_callid) sort_op_by_callid
        = g_list_sort op_list sort_op_by_callid :=
    fun op_list => g_list_sort_of_sorted _ (g_list_sort_sorted op_list).2
  refine ⟨hs, hasc, ?_, fun rsc op_list d0 =>
    ⟨hidem op_list, unpack_lrm_rsc_history_congr c node rsc _ _ d0 (hidem op_list)⟩⟩
  have hempty : (rsc_op_list (xmlNode.mk tag attrs ch1)).isEmpty
      = (rsc_op_list (xmlNode.mk tag attrs ch2)).isEmpty := by
    have hl := hp.length_eq
    cases h1 : rsc_op_list (xmlNode.mk tag attrs ch1) <;>
      cases h2 : rsc_op_list (xmlNode.mk tag attrs ch2) <;>
      simp [h1, h2] at hl ⊢
  unfold unpack_lrm_rsc_state
  simp only []
  rw [hempty, hfind, unpack_lrm_rsc_history_congr c node _ _ _ _ hs]

/-- Witness of C33: a history holding a stop with call-id 3 before a start with
call-id 1 is replayed as the history holding the start before the stop, and
leaves the resource stopped. -/
theorem unpack_lrm_rsc_state_any_order_witness :
    unpack_lrm_rsc_state ex_callees_by_task 0
        (xmlNode.mk "lrm_resource" [("id", "rsc1")] [ex_op_stop, ex_op_start]) ex_master
      = unpack_lrm_rsc_state ex_callees_by_task 0
        (xmlNode.mk "lrm_resource" [("id", "rsc1")] [ex_op_start, ex_op_stop]) ex_master ∧
    ((unpack_lrm_rsc_history ex_callees_by_task 0 0 [ex_op_stop, ex_op_start]
      ex_master).rsc_at 0).role = rsc_role_e.RSC_ROLE_STOPPED :=
  ⟨(unpack_lrm_rsc_state_any_order ex_callees_by_task 0 "lrm_resource" [("id", "rsc1")]
      [ex_op_stop, ex_op_start] [ex_op_start, ex_op_stop] ex_master
      (List.Perm.swap _ _ _) (by decide) rfl).2.2.1,
    by decide⟩

/-! ## Names of clone instances and their base name -/

/-- The loop of `pe_base_name_end` on a name followed by a colon and digits, from a
position in the digits or from the colon: it returns the position of the last
character of the name. -/
theorem pe_base_name_end_loop_suffix (base ds : List Char) (hb : base ≠ []) (hd : ds ≠ [])
    (hdig : ∀ c ∈ ds, c.isDigit = true) :
    ∀ k, k ≤ ds.length →
      pe_base_name_end_loop (base ++ ':' :: ds) (base.length + ds.length) (base.length + k)
        = base.length - 1 := by
  have hbl : 0 < base.length := List.length_pos.mpr hb
  have hdl : 0 < ds.length := List.length_pos.mpr hd
  intro k
  induction k with
  | zero =>
    intro _
    obtain ⟨s, hs⟩ : ∃ s, base.length = s + 1 := ⟨base.length - 1, by omega⟩
    have hget : (base ++ ':' :: ds)[s + 1]? = some ':' := by
      rw [← hs, List.getElem?_append_right (le_refl _)]
      simp
    rw [Nat.add_zero, hs]
    unfold pe_base_name_end_loop
    rw [hget]
    have hne : (s + 1 == s + 1 + ds.length) = false := by
      simp only [beq_eq_false_iff_ne, ne_eq]
      omega
    simp only [hne]
    simp
  | succ k ih =>
    intro hk
    have hlt : k < ds.length := by omega
    have hget : (base ++ ':' :: ds)[base.length + k + 1]? = some (ds.get ⟨k, hlt⟩) := by
      rw [List.getElem?_append_right (by omega)]
      have : base.length + k + 1 - base.length = k + 1 := by omega
      rw [this, List.getElem?_cons_succ, List.getElem?_eq_getElem hlt]
      rfl
    have hc : (ds.get ⟨k, hlt⟩).isDigit = true := hdig _ (List.get_mem _ _ _)
    show pe_base_name_end_loop (base ++ ':' :: ds) (base.length + ds.length)
      (base.length + k + 1) = base.length - 1
    unfold pe_base_name_end_loop
    rw [hget]
    simp only [hc, if_true]
    exact ih (by omega)

/-- The loop of `pe_base_name_end` on an id that does not end in a colon followed
by digits, from a position after which there are only digits: it returns the
position of the last character of the id. -/
theorem pe_base_name_end_loop_whole (id : List Char) (last : Nat) (hlast : last + 1 = id.length)
    (hno : ¬ ∃ (pre ds : List Char), ds ≠ [] ∧ (∀ c ∈ ds, c.isDigit = true)
      ∧ id = pre ++ ':' :: ds) :
    ∀ s, s ≤ last → (∀ c ∈ id.drop (s + 1), c.isDigit = true) →
      pe_base_name_end_loop id last s = last := by
  intro s
  induction s with
  | zero => intro _ _; rfl
  | succ s ih =>
    intro hs hdig
    have hlt : s + 1 < id.length := by omega
    have hdrop : id.drop (s + 1) = id.get ⟨s + 1, hlt⟩ :: id.drop (s + 2) := by
      rw [List.drop_eq_getElem_cons hlt]
      rfl
    unfold pe_base_name_end_loop
    rw [List.getElem?_eq_getElem hlt]
    simp only []
    by_cases hc : (id.get ⟨s + 1, hlt⟩).isDigit = true
    · have hc2 : id[s + 1].isDigit = true := hc
      simp only [hc2, if_true]
      apply ih (by omega)
      intro c hmem
      rw [hdrop] at hmem
      rcases List.mem_cons.mp hmem with h | h
      · rw [h]; exact hc
      · exact hdig c h
    · have hc2 : ¬ id[s + 1].isDigit = true := hc
      simp only [hc2, if_false]
      by_cases hcolon : (id[s + 1] == ':') = true
      · simp only [hcolon, if_true]
        by_cases hend : (s + 1 == last) = true
        · simp only [hend, if_true]
          exact beq_iff_eq.mp hend
        · exfalso
          apply hno
          have hne : s + 1 ≠ last := fun h => hend (beq_iff_eq.mpr h)
          refine ⟨id.take (s + 1), id.drop (s + 2), ?_, hdig, ?_⟩
          · intro h
            have := congrArg List.length h
            simp only [List.length_drop, List.length_nil] at this
            omega
          · have hcol : id.get ⟨s + 1, hlt⟩ = ':' := beq_iff_eq.mp hcolon
            rw [← hcol, ← hdrop, List.take_append_drop]
      · simp only [hcolon, Bool.false_eq_true, if_false]

/-- On a non-empty id `pe_base_name_end` returns a position. -/
theorem pe_base_name_end_some (v : String) (hv : v.data ≠ []) :
    pe_base_name_end (some v)
      = some (pe_base_name_end_loop v.data (v.data.length - 1) (v.data.length - 1)) := by
  unfold pe_base_name_end crm_strlen_zero
  have : v.data.isEmpty = false := by
    cases h : v.data with
    | nil => exact absurd h hv
    | cons _ _ => rfl
  simp [this]

/-- The base name of a name followed by a colon and digits is the name. -/
theorem clone_strip_suffix (base ds : List Char) (hb : base ≠ []) (hd : ds ≠ [])
    (hdig : ∀ c ∈ ds, c.isDigit = true) :
    clone_strip (some (String.mk (base ++ ':' :: ds))) = some (String.mk base) ∧
    clone_zero (some (String.mk (base ++ ':' :: ds))) = some (String.mk (base ++ [':', '0'])) := by
  have hbl : 0 < base.length := List.length_pos.mpr hb
  have hend : pe_base_name_end (some (String.mk (base ++ ':' :: ds)))
      = some (base.length - 1) := by
    rw [pe_base_name_end_some _ (by simp)]
    have hlen : (String.mk (base ++ ':' :: ds)).data.length - 1 = base.length + ds.length := by
      simp only [List.length_append, List.length_cons]
      omega
    rw [hlen]
    show some (pe_base_name_end_loop (base ++ ':' :: ds) (base.length + ds.length)
      (base.length + ds.length)) = _
    rw [pe_base_name_end_loop_suffix base ds hb hd hdig ds.length (le_refl _)]
  have htake : (base ++ ':' :: ds).take (base.length - 1 + 1) = base := by
    have : base.length - 1 + 1 = base.length := by omega
    rw [this, List.take_left']
    rfl
  unfold clone_strip clone_zero
  rw [hend]
  simp only [htake]
  exact ⟨trivial, trivial⟩

/-- Claim C34: `clone_strip` returns the resource name without its clone suffix: for
every non-empty base name and every non-empty string `d` of decimal digits the
base name of `base:d` is `base`; and the base name of a non-empty id that does
not end in a colon followed by one or more digits is the id itself. -/
theorem clone_strip_base_name (base d id : String) :
    (base ≠ "" → d ≠ "" → (∀ c ∈ d.data, c.isDigit = true) →
      clone_strip (some (base ++ ":" ++ d)) = some base) ∧
    (id ≠ "" → ¬ ends_in_clone_suffix id → clone_strip (some id) = some id) := by
  constructor
  · intro hb hd hdig
    have hb2 : base.data ≠ [] := fun h => hb (String.ext h)
    have hd2 : d.data ≠ [] := fun h => hd (String.ext h)
    have := (clone_strip_suffix base.data d.data hb2 hd2 hdig).1
    have he : base ++ ":" ++ d = String.mk (base.data ++ ':' :: d.data) := by
      apply String.ext
      simp [String.data_append]
    rw [he, this]
  · intro hid hno
    have hid2 : id.data ≠ [] := fun h => hid (String.ext h)
    have hl : 0 < id.data.length := List.length_pos.mpr hid2
    have hlast : id.data.length - 1 + 1 = id.data.length := by omega
    have hwhole := pe_base_name_end_loop_whole id.data (id.data.length - 1) hlast hno
      (id.data.length - 1) (le_refl _) (by
        rw [hlast, List.drop_length]
        intro c hc
        exact absurd hc (List.not_mem_nil c))
    unfold clone_strip
    rw [pe_base_name_end_some id hid2, hwhole]
    simp only [hlast, List.take_length]

/-- Witness of C34: the base name of `rsc:12` is `rsc`, and that of `rsc1`, which has
no colon, is `rsc1`. -/
theorem clone_strip_base_name_witness :
    clone_strip (some ("rsc" ++ ":" ++ "12")) = some "rsc" ∧
    clone_strip (some "rsc1") = some "rsc1" :=
  ⟨(clone_strip_base_name "rsc" "12" "rsc1").1 (by decide) (by decide) (by decide),
    (clone_strip_base_name "rsc" "12" "rsc1").2 (by decide) (by
      rintro ⟨pre, ds, -, -, h⟩
      have hm : ':' ∈ "rsc1".data := by
        rw [h]
        simp
      exact absurd hm (by decide))⟩

/-- The name of the first instance is the base name followed by `:0`, and the base
name is not empty. -/
theorem clone_zero_of_strip (v : String) (hv : v.data ≠ []) :
    ∃ b : List Char, b ≠ [] ∧ clone_strip (some v) = some (String.mk b) ∧
      clone_zero (some v) = some (String.mk (b ++ [':', '0'])) := by
  refine ⟨v.data.take
    (pe_base_name_end_loop v.data (v.data.length - 1) (v.data.length - 1) + 1), ?_, ?_, ?_⟩
  · cases h : v.data with
    | nil => exact absurd h hv
    | cons c cs => simp
  · unfold clone_strip
    rw [pe_base_name_end_some v hv]
  · unfold clone_zero
    rw [pe_base_name_end_some v hv]

/-- Claim C35: for every non-empty id, `clone_zero` gives the base name that
`clone_strip` gives, followed by `:0`; so the base name of the result is the
base name of the id, and applying `clone_zero` to the result gives the result
again. -/
theorem clone_zero_base_name (id : String) (hid : id ≠ "") :
    clone_zero (some id) = (clone_strip (some id)).map (fun b => b ++ ":0") ∧
    (clone_strip (some id)).isSome = true ∧
    clone_strip (clone_zero (some id)) = clone_strip (some id) ∧
    clone_zero (clone_zero (some id)) = clone_zero (some id) := by
  have hid2 : id.data ≠ [] := fun h => hid (String.ext h)
  obtain ⟨b, hb, hs, hz⟩ := clone_zero_of_strip id hid2
  have h0 := clone_strip_suffix b ['0'] hb (by simp) (by decide)
  rw [hs, hz]
  refine ⟨?_, rfl, h0.1, h0.2⟩
  simp only [Option.map_some']
  congr 1

/-- Witness of C35: the first instance of `rsc:12` is `rsc:0`, whose base name is
`rsc`. -/
theorem clone_zero_base_name_witness :
    clone_zero (some "rsc:12") = (clone_strip (some "rsc:12")).map (fun b => b ++ ":0") ∧
    (clone_strip (some "rsc:12")).isSome = true ∧
    clone_strip (clone_zero (some "rsc:12")) = clone_strip (some "rsc:12") ∧
    clone_zero (clone_zero (some "rsc:12")) = clone_zero (some "rsc:12") :=
  clone_zero_base_name "rsc:12" (by decide)

/-! ## Return codes that can mean success -/

/-- Claim C37: `determine_op_status` returns done only for the return codes OK (0),
not running (7) and running master (8); for every other return code, whatever
the expected return code is and so also when it equals the return code, the
status returned is error, hard error, fatal error or not supported. -/
theorem determine_op_status_done_codes (x : unpack_env) (rsc : rsc_ptr) (rc target_rc : Int)
    (node : node_ptr) (xml_op : xmlNode) (on_fail : action_fail_response)
    (d : pe_working_set_t) :
    ((determine_op_status x rsc rc target_rc node xml_op on_fail d).1 = PCMK_LRM_OP_DONE →
      rc = PCMK_OCF_OK ∨ rc = PCMK_OCF_NOT_RUNNING ∨ rc = PCMK_OCF_RUNNING_MASTER) ∧
    (rc ≠ PCMK_OCF_OK → rc ≠ PCMK_OCF_NOT_RUNNING → rc ≠ PCMK_OCF_RUNNING_MASTER →
      (determine_op_status x rsc rc target_rc node xml_op on_fail d).1 = PCMK_LRM_OP_ERROR ∨
      (determine_op_status x rsc rc target_rc node xml_op on_fail d).1
        = PCMK_LRM_OP_ERROR_HARD ∨
      (determine_op_status x rsc rc target_rc node xml_op on_fail d).1
        = PCMK_LRM_OP_ERROR_FATAL ∨
      (determine_op_status x rsc rc target_rc node xml_op on_fail d).1
        = PCMK_LRM_OP_NOTSUPPORTED) := by
  have key : rc ≠ PCMK_OCF_OK → rc ≠ PCMK_OCF_NOT_RUNNING → rc ≠ PCMK_OCF_RUNNING_MASTER →
      (determine_op_status x rsc rc target_rc node xml_op on_fail d).1 = PCMK_LRM_OP_ERROR ∨
      (determine_op_status x rsc rc target_rc node xml_op on_fail d).1
        = PCMK_LRM_OP_ERROR_HARD ∨
      (determine_op_status x rsc rc target_rc node xml_op on_fail d).1
        = PCMK_LRM_OP_ERROR_FATAL ∨
      (determine_op_status x rsc rc target_rc node xml_op on_fail d).1
        = PCMK_LRM_OP_NOTSUPPORTED := by
    intro h0 h7 h8
    have e0 : (rc == PCMK_OCF_OK) = false := by simpa using h0
    have e7 : (rc == PCMK_OCF_NOT_RUNNING) = false := by simpa using h7
    have e8 : (rc == PCMK_OCF_RUNNING_MASTER) = false := by simpa using h8
    unfold determine_op_status
    simp only [e0, e7, e8, Bool.false_eq_true, if_false]
    split_ifs <;> simp_all [PCMK_LRM_OP_ERROR, PCMK_LRM_OP_ERROR_HARD, PCMK_LRM_OP_ERROR_FATAL,
      PCMK_LRM_OP_NOTSUPPORTED, PCMK_LRM_OP_DONE]
  refine ⟨?_, key⟩
  intro hdone
  by_contra hne
  push_neg at hne
  rcases key hne.1 hne.2.1 hne.2.2 with h | h | h | h <;> rw [h] at hdone <;>
    exact absurd hdone (by decide)

/-- Witness of C37: a recurring monitor that returned 1 while 1 was expected has
status error. -/
theorem determine_op_status_done_codes_witness :
    (determine_op_status ex_env_migrate 0 1 1 0 ex_op_failed_monitor
        action_fail_response.action_fail_ignore ex_two_nodes).1 = PCMK_LRM_OP_ERROR ∨
      (determine_op_status ex_env_migrate 0 1 1 0 ex_op_failed_monitor
        action_fail_response.action_fail_ignore ex_two_nodes).1 = PCMK_LRM_OP_ERROR_HARD ∨
      (determine_op_status ex_env_migrate 0 1 1 0 ex_op_failed_monitor
        action_fail_response.action_fail_ignore ex_two_nodes).1 = PCMK_LRM_OP_ERROR_FATAL ∨
      (determine_op_status ex_env_migrate 0 1 1 0 ex_op_failed_monitor
        action_fail_response.action_fail_ignore ex_two_nodes).1 = PCMK_LRM_OP_NOTSUPPORTED :=
  (determine_op_status_done_codes ex_env_migrate 0 1 1 0 ex_op_failed_monitor
    action_fail_response.action_fail_ignore ex_two_nodes).2 (by decide) (by decide) (by decide)

/-! ## Fence and ignore in the accumulated on-fail response -/

/-- Claim C39: in the on-fail combination of `unpack_rsc_op_failure` fence is
absorbing and ignore is neutral.  When the accumulated response is fence it is
fence afterwards, whatever response is configured for the failed operation; and
a failed operation whose configured response is ignore leaves the accumulated
response as it was. -/
theorem unpack_rsc_op_failure_fence_absorbs (x : unpack_env) (rsc : rsc_ptr) (node : node_ptr)
    (rc : Int) (xml_op : xmlNode) (d : pe_working_set_t) (acc a : action_fail_response) :
    on_fail_combine action_fail_response.action_fail_fence a
      = action_fail_response.action_fail_fence ∧
    on_fail_combine acc action_fail_response.action_fail_ignore = acc ∧
    (unpack_rsc_op_failure x rsc node rc xml_op action_fail_response.action_fail_fence d).2.1
      = action_fail_response.action_fail_fence ∧
    ((failed_op_action x rsc node rc xml_op d).on_fail = action_fail_response.action_fail_ignore →
      (unpack_rsc_op_failure x rsc node rc xml_op acc d).2.1 = acc) := by
  have h1 : ∀ b, on_fail_combine action_fail_response.action_fail_fence b
      = action_fail_response.action_fail_fence := by
    intro b; cases b <;> decide
  have h2 : ∀ b, on_fail_combine b action_fail_response.action_fail_ignore = b := by
    intro b; cases b <;> decide
  refine ⟨h1 a, h2 acc, ?_, ?_⟩
  · rw [unpack_rsc_op_failure_on_fail]
    exact h1 _
  · intro h
    rw [unpack_rsc_op_failure_on_fail, h]
    exact h2 _

/-- Witness of C39: a failed monitor whose configured response is ignore leaves
the accumulated response stop as it is. -/
theorem unpack_rsc_op_failure_fence_absorbs_witness :
    (failed_op_action ex_env_ignore 0 0 1 ex_op_failed_monitor ex_two_nodes).on_fail
      = action_fail_response.action_fail_ignore ∧
    (unpack_rsc_op_failure ex_env_ignore 0 0 1 ex_op_failed_monitor
      action_fail_response.action_fail_stop ex_two_nodes).2.1
        = action_fail_response.action_fail_stop :=
  ⟨by decide,
    (unpack_rsc_op_failure_fence_absorbs ex_env_ignore 0 0 1 ex_op_failed_monitor ex_two_nodes
      action_fail_response.action_fail_stop action_fail_response.action_fail_ignore).2.2.2
      (by decide)⟩

/-! ## The name of a guest node is never rejected -/

/-- Claim C40: `remote_id_conflict` returns false for every name and every working
set, also when a resource with that id exists (as `c1` does in `ex_unlinked`); so
`expand_remote_rsc_meta` returns the guest-node name that the resource
configures whenever it configures one, and asks for the connection to be
created under that name. -/
theorem remote_id_conflict_never (remote_name : Option String) (data : pe_working_set_t)
    (xml_obj : xmlNode) :
    remote_id_conflict remote_name data = false ∧
    (pe_find_resource ex_unlinked ex_unlinked.resources (some "c1") = some 1 ∧
      remote_id_conflict (some "c1") ex_unlinked = false ∧
      (expand_remote_rsc_meta ex_guest_definition ex_unlinked).1 = some "c1") ∧
    (expand_remote_rsc_meta xml_obj data).1
      = (xml_obj.children.foldl expand_remote_rsc_meta_set {}).remote_name ∧
    ((expand_remote_rsc_meta xml_obj data).2).map (fun call => call.uname)
      = (xml_obj.children.foldl expand_remote_rsc_meta_set {}).remote_name.map some := by
  refine ⟨rfl, ⟨by decide, rfl, by decide⟩, ?_, ?_⟩
  · unfold expand_remote_rsc_meta
    simp only [remote_id_conflict]
    cases h : (xml_obj.children.foldl expand_remote_rsc_meta_set {}).remote_name <;> simp
  · unfold expand_remote_rsc_meta
    simp only [remote_id_conflict]
    cases h : (xml_obj.children.foldl expand_remote_rsc_meta_set {}).remote_name <;> simp

/-! ## Nodes at start-up -/

/-- Claim C32: `handle_startup_fencing` leaves a remote node without a connection
resource as it is, the working set being unchanged; on every other node it sets
unclean to the value of the start-up fencing option, true when it is enabled and
false otherwise, and sets unseen to true. -/
theorem handle_startup_fencing_marks (d : pe_working_set_t) (n : node_ptr) :
    ((d.details n).type = node_type.node_remote → (d.details n).remote_rsc = none →
      handle_startup_fencing d n = d) ∧
    (¬ ((d.details n).type = node_type.node_remote ∧ (d.details n).remote_rsc = none) →
      ((handle_startup_fencing d n).details n).unclean = d.flags.pe_flag_startup_fencing ∧
      ((handle_startup_fencing d n).details n).unseen = true) := by
  constructor
  · intro h1 h2
    unfold handle_startup_fencing
    simp [h1, h2]
  · intro h
    have hc : ((d.details n).type == node_type.node_remote
        && (d.details n).remote_rsc == none) = false := by
      cases hb : ((d.details n).type == node_type.node_remote
        && (d.details n).remote_rsc == none)
      · rfl
      · exfalso
        apply h
        simp only [Bool.and_eq_true, beq_iff_eq] at hb
        exact hb
    unfold handle_startup_fencing
    simp only [hc, Bool.false_eq_true, if_false]
    cases hf : d.flags.pe_flag_startup_fencing <;> simp [upd_details_details]

/-- Witness of C32: with fencing at start-up a cluster member becomes unclean and
unseen, and a remote node without a connection resource is left alone. -/
theorem handle_startup_fencing_marks_witness :
    handle_startup_fencing ex_remote_unconnected 0 = ex_remote_unconnected ∧
    ((handle_startup_fencing ex_member_startup 0).details 0).unclean = true ∧
    ((handle_startup_fencing ex_member_startup 0).details 0).unseen = true :=
  ⟨(handle_startup_fencing_marks ex_remote_unconnected 0).1 (by decide) (by decide),
    (handle_startup_fencing_marks ex_member_startup 0).2 (by decide)⟩

/-! ## The request to terminate a node -/

/-- Counterexample to C36: the value `5x`, which is neither a true boolean nor a
number, is read as a pending request, and the value `05`, the number five, is
not. -/
theorem do_terminate_of_first_character :
    do_terminate_of (some "5x") = true ∧ spec_terminate_pending (some "5x") = false ∧
    do_terminate_of (some "05") = false ∧ spec_terminate_pending (some "05") = true := by
  decide

/-- A run of decimal digits read by `parse_digits` gives a number that is not
below the number read so far. -/
theorem parse_digits_of_digits (l : List Char) (hl : ∀ c ∈ l, c.isDigit = true) :
    ∀ acc, ∃ v, parse_digits l acc = some v ∧ acc ≤ v := by
  induction l with
  | nil => intro acc; exact ⟨acc, rfl, le_refl _⟩
  | cons c cs ih =>
    intro acc
    have hc := hl c (List.mem_cons_self _ _)
    obtain ⟨v, hv, hle⟩ := ih (fun x hx => hl x (List.mem_cons_of_mem _ hx))
      (acc * 10 + (c.toNat - 48))
    refine ⟨v, ?_, by omega⟩
    simp only [parse_digits, hc, if_true]
    exact hv

/-- A decimal digit other than `0` has a value of at least one. -/
theorem digit_value_pos (c : Char) (hd : c.isDigit = true) (h0 : c ≠ '0') :
    1 ≤ c.toNat - 48 := by
  have h1 : 48 ≤ c.toNat := by
    simp only [Char.isDigit, Bool.and_eq_true, decide_eq_true_eq] at hd
    exact hd.1
  have h2 : c.toNat ≠ 48 := by
    intro h
    apply h0
    apply Char.ext
    apply UInt32.ext
    exact h
  omega

/-- Claim C36 as amended: in `determine_online_status_fencing` a termination request
is pending exactly when the `terminate` attribute of the node is a true boolean
or begins with a decimal digit other than `0`; what follows the first character
is not looked at.  So the request is not pending for an absent or empty value,
for `false` and for `0`, and it is pending, as the specification reads it, for
every value written in decimal digits that does not begin with `0`. -/
theorem do_terminate_of_pending (terminate : Option String) :
    (do_terminate_of terminate = true ↔
      (crm_is_true terminate = true ∨
        ∃ c rest, terminate = some (String.mk (c :: rest)) ∧ c.isDigit = true ∧ c ≠ '0')) ∧
    do_terminate_of none = false ∧ do_terminate_of (some "") = false ∧
    do_terminate_of (some "false") = false ∧ do_terminate_of (some "0") = false ∧
    (∀ c rest, c.isDigit = true → c ≠ '0' → (∀ x ∈ rest, x.isDigit = true) →
      do_terminate_of (some (String.mk (c :: rest))) = true ∧
      spec_terminate_pending (some (String.mk (c :: rest))) = true) := by
  have hfirst : ∀ c rest, c.isDigit = true → c ≠ '0' →
      do_terminate_of (some (String.mk (c :: rest))) = true := by
    intro c rest hd h0
    unfold do_terminate_of
    split_ifs
    · rfl
    · simp [hd, h0]
  refine ⟨?_, by decide, by decide, by decide, by decide, ?_⟩
  · constructor
    · intro h
      by_cases ht : crm_is_true terminate = true
      · exact Or.inl ht
      · right
        unfold do_terminate_of at h
        rw [if_neg ht] at h
        cases terminate with
        | none => simp at h
        | some t =>
          obtain ⟨data⟩ := t
          cases data with
          | nil => simp at h
          | cons c rest =>
            simp only [bne_iff_ne, ne_eq, Bool.and_eq_true, decide_eq_true_eq] at h
            exact ⟨c, rest, rfl, h.2, h.1⟩
    · rintro (h | ⟨c, rest, rfl, hd, h0⟩)
      · unfold do_terminate_of
        rw [if_pos h]
      · exact hfirst c rest hd h0
  · intro c rest hd h0 hrest
    refine ⟨hfirst c rest hd h0, ?_⟩
    obtain ⟨v, hv, hle⟩ := parse_digits_of_digits rest hrest (0 * 10 + (c.toNat - 48))
    have hpos := digit_value_pos c hd h0
    have hp : parse_digits (c :: rest) 0 = some v := by
      simp only [parse_digits, hd, if_true]
      exact hv
    unfold spec_terminate_pending
    simp only [hp]
    have : v ≠ 0 := by omega
    simp [this]

/-- Witness of C36 as amended: the value `1540000000`, a time, is a pending
request for the code and for the specification. -/
theorem do_terminate_of_pending_witness :
    do_terminate_of (some "1540000000") = true ∧
    spec_terminate_pending (some "1540000000") = true :=
  (do_terminate_of_pending none).2.2.2.2.2 '1' "540000000".data (by decide) (by decide)
    (by decide)

/-! ## The role left by a failed operation -/

/-- The role that `set_active` leaves is started or slave. -/
theorem set_active_role (rsc : rsc_ptr) (d : pe_working_set_t) :
    rsc_role_e.RSC_ROLE_STARTED ≤ ((set_active rsc d).rsc_at rsc).role := by
  unfold set_active
  simp only []
  split_ifs <;> simp only [upd_rsc_rsc_at, if_true] <;> decide

/-- The statements of `unpack_rsc_op_failure` that follow the choice of the role
(lines 2582-2607) change the role of no resource. -/
theorem unpack_rsc_op_failure_tail_role (rsc : rsc_ptr) (fail_role : rsc_role_e)
    (d3 : pe_working_set_t) (q : rsc_ptr) :
    ((if fail_role == rsc_role_e.RSC_ROLE_STOPPED then
        (if fail_role != rsc_role_e.RSC_ROLE_STARTED
              && decide ((d3.rsc_at rsc).next_role < fail_role) then
            d3.upd_rsc rsc (fun r => { r with next_role := fail_role })
          else d3).upd_rsc
          (fail_rsc_of (if fail_role != rsc_role_e.RSC_ROLE_STARTED
              && decide ((d3.rsc_at rsc).next_role < fail_role) then
            d3.upd_rsc rsc (fun r => { r with next_role := fail_role })
          else d3) rsc) (fun r =>
          { r with
            allowed_nodes := (node_hash_from_list (if fail_role != rsc_role_e.RSC_ROLE_STARTED
              && decide ((d3.rsc_at rsc).next_role < fail_role) then
            d3.upd_rsc rsc (fun r => { r with next_role := fail_role })
          else d3) (if fail_role != rsc_role_e.RSC_ROLE_STARTED
              && decide ((d3.rsc_at rsc).next_role < fail_role) then
            d3.upd_rsc rsc (fun r => { r with next_role := fail_role })
          else d3).nodes).map (set_node_score (-INFINITY)) })
      else
        (if fail_role != rsc_role_e.RSC_ROLE_STARTED
              && decide ((d3.rsc_at rsc).next_role < fail_role) then
            d3.upd_rsc rsc (fun r => { r with next_role := fail_role })
          else d3)).rsc_at q).role = (d3.rsc_at q).role := by
  split_ifs <;> simp only [upd_rsc_rsc_at] <;> (repeat' split) <;> rfl

/-- The role chosen by lines 2572-2580 of `unpack_rsc_op_failure`: stopped for a
probe that returned not installed, otherwise at least started. -/
theorem unpack_rsc_op_failure_role_block (rsc : rsc_ptr) (probe_not_installed : Bool)
    (d2 : pe_working_set_t) :
    (probe_not_installed = true →
      ((if probe_not_installed then
          d2.upd_rsc rsc (fun r => { r with role := rsc_role_e.RSC_ROLE_STOPPED })
        else if (d2.rsc_at rsc).role < rsc_role_e.RSC_ROLE_STARTED then
          set_active rsc d2
        else
          d2).rsc_at rsc).role = rsc_role_e.RSC_ROLE_STOPPED) ∧
    (probe_not_installed = false →
      rsc_role_e.RSC_ROLE_STARTED
        ≤ ((if probe_not_installed then
          d2.upd_rsc rsc (fun r => { r with role := rsc_role_e.RSC_ROLE_STOPPED })
        else if (d2.rsc_at rsc).role < rsc_role_e.RSC_ROLE_STARTED then
          set_active rsc d2
        else
          d2).rsc_at rsc).role) := by
  constructor
  · intro h
    rw [if_pos h]
    simp only [upd_rsc_rsc_at, if_true]
  · intro h
    rw [h]
    simp only [Bool.false_eq_true, if_false]
    split_ifs with hlt
    · exact set_active_role rsc d2
    · exact not_lt.mp hlt

/-- Claim C38: after `unpack_rsc_op_failure` on a history entry that has a task key
or an id (the code copies the key with `strdup`), for every task, return code
and prior role, the role of the resource is stopped when the failed operation is
a probe that returned not installed, and is at least started (started, slave or
master) in every other case.  A probe is a monitor whose interval, as the code
reads it into an unsigned 32-bit number, is 0. -/
theorem unpack_rsc_op_failure_still_running (x : unpack_env) (rsc : rsc_ptr) (node : node_ptr)
    (rc : Int) (xml_op : xmlNode) (on_fail : action_fail_response) (d : pe_working_set_t)
    (_ : (get_op_key xml_op).isSome = true) :
    (op_is_probe x xml_op = true → rc = PCMK_OCF_NOT_INSTALLED →
      ((unpack_rsc_op_failure x rsc node rc xml_op on_fail d).2.2.rsc_at rsc).role
        = rsc_role_e.RSC_ROLE_STOPPED) ∧
    (¬ (op_is_probe x xml_op = true ∧ rc = PCMK_OCF_NOT_INSTALLED) →
      rsc_role_e.RSC_ROLE_STARTED
        ≤ ((unpack_rsc_op_failure x rsc node rc xml_op on_fail d).2.2.rsc_at rsc).role) := by
  unfold unpack_rsc_op_failure
  simp only []
  rw [unpack_rsc_op_failure_tail_role]
  constructor
  · intro hp hrc
    refine (unpack_rsc_op_failure_role_block rsc _ _).1 ?_
    simp only [op_is_probe] at hp
    simp [hp, hrc]
  · intro hn
    refine (unpack_rsc_op_failure_role_block rsc _ _).2 ?_
    simp only [op_is_probe] at hn
    cases hb : (crm_element_value_ms x xml_op XML_LRM_ATTR_INTERVAL_MS == 0
        && safe_str_eq (crm_element_value xml_op XML_LRM_ATTR_TASK) (some CRMD_ACTION_STATUS)
        && rc == PCMK_OCF_NOT_INSTALLED)
    · rfl
    · exfalso
      apply hn
      simp only [Bool.and_eq_true, beq_iff_eq] at hb
      simp only [Bool.and_eq_true, beq_iff_eq]
      exact hb

/-- Witness of C38: a failed recurring monitor on a stopped resource leaves the
resource started, a probe that returned not installed leaves it stopped, and so
does a monitor that returned not installed and whose interval 4294967296 is
read as 0. -/
theorem unpack_rsc_op_failure_still_running_witness :
    (get_op_key ex_op_failed_monitor).isSome = true ∧
    (get_op_key ex_op_probe_not_installed).isSome = true ∧
    (get_op_key ex_op_wide_interval).isSome = true ∧
    rsc_role_e.RSC_ROLE_STARTED
      ≤ ((unpack_rsc_op_failure ex_env_migrate 0 0 1 ex_op_failed_monitor
          action_fail_response.action_fail_ignore ex_next_stopped).2.2.rsc_at 0).role ∧
    ((unpack_rsc_op_failure ex_env_migrate 0 0 5 ex_op_probe_not_installed
        action_fail_response.action_fail_ignore ex_two_nodes).2.2.rsc_at 0).role
      = rsc_role_e.RSC_ROLE_STOPPED ∧
    ((unpack_rsc_op_failure ex_env_migrate 0 0 5 ex_op_wide_interval
        action_fail_response.action_fail_ignore ex_two_nodes).2.2.rsc_at 0).role
      = rsc_role_e.RSC_ROLE_STOPPED :=
  ⟨by decide, by decide, by decide,
    (unpack_rsc_op_failure_still_running ex_env_migrate 0 0 1 ex_op_failed_monitor
      action_fail_response.action_fail_ignore ex_next_stopped (by decide)).2 (by decide),
    (unpack_rsc_op_failure_still_running ex_env_migrate 0 0 5 ex_op_probe_not_installed
      action_fail_response.action_fail_ignore ex_two_nodes (by decide)).1 (by decide)
        (by decide),
    (unpack_rsc_op_failure_still_running ex_env_migrate 0 0 5 ex_op_wide_interval
      action_fail_response.action_fail_ignore ex_two_nodes (by decide)).1 (by decide)
        (by decide)⟩

end Pacemaker
